import Mathlib

/-!
Verification development for the SwissFamilyPlan projection engine
(`src/services/financeEngine.ts`).

The engine is a deterministic year-by-year simulator.  We embed it shallowly:
JavaScript numbers are modelled as exact rationals (ℚ), ages and counts as
naturals, child relative ages as integers (they can be negative), fallible
lookups as `Option`.  Every definition below is translated from the source
file; `startYear` stands for the impure `new Date().getFullYear()` call, which
only feeds the cosmetic `year` field of each snapshot.
-/

inductive ScenarioType
  | pessimistic
  | neutral
  | optimistic

inductive CareerStage
  | junior
  | mid
  | senior
  | executive

inductive LuxuryLevel
  | humble
  | comfortable
  | luxury

inductive HousingStatus
  | rentHome
  | ownHome

/-- The household profile record (`FinancialData` in `src/types.ts`).
`firstChildBirthYearOffset` and `childSpacingYears` are optional in the
TypeScript interface, hence `Option`; `expectedSalaryIncrease` is declared
required but the engine still defends it with `?? 1.5`, so we keep the
`Option` to mirror that read. -/
structure FinancialData where
  currentAge : ℕ
  retirementAge : ℕ
  currentChildren : ℕ
  futureChildren : ℕ
  firstChildBirthYearOffset : Option ℤ
  childSpacingYears : Option ℤ
  annualGrossSalary1 : ℚ
  annualGrossSalary2 : ℚ
  careerStage1 : CareerStage
  careerStage2 : CareerStage
  annualBonus : ℚ
  expectedSalaryIncrease : Option ℚ
  currentSavings : ℚ
  monthlyContribution : ℚ
  investmentReturn : ℚ
  pillar2Balance1 : ℚ
  pillar2Balance2 : ℚ
  pillar3Balance1 : ℚ
  pillar3Balance2 : ℚ
  pillar3AnnualContribution1 : ℚ
  pillar3AnnualContribution2 : ℚ
  housingStatus : HousingStatus
  currentHousingCost : ℚ
  currentRooms : ℚ
  housingCostIncrease : ℚ
  monthlyLivingCost : ℚ
  monthlyDaycareCost : ℚ
  monthlySchoolActivityCost : ℚ
  yearlyTravelBudget : ℚ
  universitySupport : ℚ
  canton : String
  luxuryLevel : LuxuryLevel

/-- One yearly snapshot (`ProjectionPoint` in `src/types.ts`). -/
structure ProjectionPoint where
  age : ℕ
  year : ℕ
  totalGrossIncome : ℚ
  totalIncome : ℚ
  salary1 : ℚ
  salary2 : ℚ
  bonus : ℚ
  pensionAHV : ℚ
  pensionLPP : ℚ
  pension3a : ℚ
  pension : ℚ
  activeChildren : ℕ
  housingExpenses : ℚ
  livingExpenses : ℚ
  childrenExpenses : ℚ
  travelExpenses : ℚ
  totalExpenses : ℚ
  yearlyContribution : ℚ
  yearlySavings : ℚ
  cashSavings : ℚ
  investedAssets : ℚ
  pillar2Wealth : ℚ
  pillar3Wealth : ℚ
  pensionWealth : ℚ
  investmentGrowth : ℚ
  totalWealth : ℚ
  isDeficit : Bool
  notes : Option (List String)

/-- Per-scenario output (`ScenarioResult` in `src/types.ts`); the TypeScript
`label` string just stores the scenario tag, so we keep the tag. -/
structure ScenarioResult where
  type : ScenarioType
  label : ScenarioType
  data : List ProjectionPoint
  finalWealth : ℚ
  maxWealth : ℚ
  isViable : Bool
  savingsDepletedAge : Option ℕ

/-- Scenario modifier tuple (`ScenarioModifiers` in `financeEngine.ts`). -/
structure ScenarioModifiers where
  salaryGrowthModPct : ℚ
  returnModPct : ℚ
  inflationModPct : ℚ
  expenseMultiplier : Option ℚ

/-- The scenario dispatch at the top of `calculateProjections` (lines 62-67). -/
def scenarioModifiers : ScenarioType → ScenarioModifiers
  | ScenarioType.pessimistic => ⟨-(1/2), -2, 1, some (21/20)⟩
  | ScenarioType.neutral => ⟨0, 0, 0, some 1⟩
  | ScenarioType.optimistic => ⟨1/2, 3/2, -(1/2), some (19/20)⟩

def DEFAULT_MAX_AGE : ℕ := 90

def RETIREMENT_SAFETY_BUFFER : ℚ := 100000

def AHV_COUPLE_MAX_ANNUAL_2025 : ℚ := 44100

def LPP_CONVERSION_RATE : ℚ := 29/500

def LPP_INTEREST_RATE : ℚ := 1/50

/-- `new Date().getFullYear()` fixed at embedding time; it only affects the
`year` label of snapshots. -/
def startYear : ℕ := 2026

def taxFactorDefault : ℚ := 3/4

/-- The canton table of `financeEngine.ts` (line 19); `none` models a missing
key. -/
def taxFactorByCanton (c : String) : Option ℚ :=
  if c = "Zürich" ∨ c = "Zurich" then some (39/50)
  else if c = "Zug" then some (41/50)
  else if c = "Geneva" then some (7/10)
  else if c = "Vaud" then some (73/100)
  else none

/-- `getTaxFactor` (lines 23-26): an empty canton string is falsy in JS. -/
def getTaxFactor (canton : String) : ℚ :=
  if canton = "" then taxFactorDefault
  else (taxFactorByCanton canton).getD taxFactorDefault

/-- `computeChildrenSchedule` (lines 28-40): existing children start at ages
2, 4, 6, …; future children start at negative offsets. -/
def computeChildrenSchedule (data : FinancialData) : List ℤ :=
  ((List.range data.currentChildren).map fun i => 2 + 2 * (i : ℤ)) ++
    ((List.range data.futureChildren).map fun j =>
      -(data.firstChildBirthYearOffset.getD 1 + (j : ℤ) * data.childSpacingYears.getD 2))

/-- The `careerBoost` variable computed inside `getSalaryGrowthRate`
(lines 42-58). -/
def careerBoost (age : ℕ) (stage : CareerStage) : ℚ :=
  if age < 35 then
    match stage with
    | CareerStage.junior => 7/200
    | CareerStage.mid => 1/40
    | CareerStage.senior => 3/200
    | CareerStage.executive => 3/200
  else if age < 45 then
    match stage with
    | CareerStage.junior => 1/40
    | CareerStage.mid => 1/50
    | CareerStage.senior => 3/200
    | CareerStage.executive => 1/50
  else if age < 55 then 1/100
  else 0

/-- `getSalaryGrowthRate` (lines 42-59). -/
def getSalaryGrowthRate (age : ℕ) (stage : CareerStage) (baseInflation : ℚ) : ℚ :=
  baseInflation + careerBoost age stage

/-- Cost contribution of one non-negative child age, the band cascade of
lines 112-114. -/
def childCost (data : FinancialData) (childAge : ℤ) : ℚ :=
  if childAge < 5 then data.monthlyDaycareCost * 12
  else if 5 ≤ childAge ∧ childAge < 19 then data.monthlySchoolActivityCost * 12
  else if 19 ≤ childAge ∧ childAge < 25 then data.universitySupport
  else 0

/-- The children loop of lines 106-116: returns the aged vector, the raw
yearly children expense (before the scenario expense multiplier) and the
active-children count.  The source accumulates left to right; the recursion
accumulates right to left, which yields the same sums. -/
def childrenPass (data : FinancialData) : List ℤ → List ℤ × ℚ × ℕ
  | [] => ([], 0, 0)
  | c :: rest =>
    let r := childrenPass data rest
    if c < 0 then ((c + 1) :: r.1, r.2.1, r.2.2)
    else
      ((c + 1) :: r.1, r.2.1 + childCost data c,
        r.2.2 + (if 0 ≤ c ∧ c < 25 then 1 else 0))

/-- The deficit cascade of lines 155-161 / 185-191: drain the cash buffer
first, then the invested bucket, each floored at zero. -/
def drainBuckets (cashBuffer investedWealth deficit : ℚ) : ℚ × ℚ :=
  if deficit ≤ cashBuffer then (cashBuffer - deficit, investedWealth)
  else (0, max 0 (investedWealth - (deficit - cashBuffer)))

/-- Mutable loop state of `calculateProjections`; the profile record is part
of the state so that the engine's freedom from input mutation is a theorem
about the embedding rather than an artefact of it. -/
structure SimState where
  data : FinancialData
  grossSalary1 : ℚ
  grossSalary2 : ℚ
  grossBonus : ℚ
  pillar2Wealth : ℚ
  pillar3Wealth : ℚ
  cashBuffer : ℚ
  investedWealth : ℚ
  ahvAnnualPensionSnapshot : ℚ
  lppAnnualPensionSnapshot : ℚ
  pillar3AnnualDrawdownSnapshot : ℚ
  retirementSnapshotTaken : Bool
  childrenAges : List ℤ
  maxWealth : ℚ
  savingsDepletedAge : Option ℕ
  currentRent : ℚ
  hasMovedHouse : Bool

/-- The quantities produced by one working-phase or retirement-phase branch
of the year loop. -/
structure PhaseOut where
  grossSalary1 : ℚ
  grossSalary2 : ℚ
  grossBonus : ℚ
  pillar2Wealth : ℚ
  pillar3Wealth : ℚ
  cashBuffer : ℚ
  investedWealth : ℚ
  ahvSnap : ℚ
  lppSnap : ℚ
  drawSnap : ℚ
  snapTaken : Bool
  pensionAHV : ℚ
  pensionLPP : ℚ
  pension3a : ℚ
  totalGrossIncome : ℚ
  totalIncomeNet : ℚ
  annualSavingsCapacity : ℚ

/-- Line 74: `(data.expectedSalaryIncrease ?? 1.5) + modifiers.inflationModPct`. -/
def baseInflationPct (data : FinancialData) (mods : ScenarioModifiers) : ℚ :=
  data.expectedSalaryIncrease.getD (3/2) + mods.inflationModPct

/-- Line 75: `Math.max(0, data.investmentReturn + modifiers.returnModPct)`. -/
def effectiveInvestmentReturnPct (data : FinancialData) (mods : ScenarioModifiers) : ℚ :=
  max 0 (data.investmentReturn + mods.returnModPct)

/-- Line 103: the cumulative inflation factor for a simulated age. -/
def inflationFactorAt (data : FinancialData) (mods : ScenarioModifiers) (age : ℕ) : ℚ :=
  (1 + baseInflationPct data mods / 100) ^ (age - data.currentAge)

/-- Line 104: yearly market rent increase. -/
def inflatedRent (mods : ScenarioModifiers) (s : SimState) : ℚ :=
  s.currentRent * (1 + (s.data.housingCostIncrease + mods.inflationModPct) / 100)

/-- The relocation trigger of line 119:
`!hasMovedHouse && (2 + activeChildrenCount) > (currentRooms + 0.5)`. -/
def relocationFires (s : SimState) : Prop :=
  s.hasMovedHouse = false ∧
    s.data.currentRooms + 1/2 < 2 + ((childrenPass s.data s.childrenAges).2.2 : ℚ)

instance (s : SimState) : Decidable (relocationFires s) := by
  unfold relocationFires; infer_instance

/-- Rent after the (possible) one-time relocation shock of line 121. -/
def rentAfterEvents (mods : ScenarioModifiers) (s : SimState) : ℚ :=
  if relocationFires s then inflatedRent mods s * (13/10) else inflatedRent mods s

def moveNote : String := "Mudança: Pis més gran"

def depletedNote : String := "⚠️ Fons Esgotats"

/-- Line 117: children expenses after the scenario expense multiplier. -/
def childrenExpensesOf (mods : ScenarioModifiers) (s : SimState) : ℚ :=
  (childrenPass s.data s.childrenAges).2.1 * mods.expenseMultiplier.getD 1

/-- Line 125. -/
def livingAnnualOf (mods : ScenarioModifiers) (s : SimState) (age : ℕ) : ℚ :=
  s.data.monthlyLivingCost * 12 * inflationFactorAt s.data mods age *
    mods.expenseMultiplier.getD 1

/-- Line 126. -/
def travelAnnualOf (mods : ScenarioModifiers) (s : SimState) (age : ℕ) : ℚ :=
  s.data.yearlyTravelBudget * inflationFactorAt s.data mods age *
    mods.expenseMultiplier.getD 1

/-- Line 127. -/
def housingAnnualOf (mods : ScenarioModifiers) (s : SimState) : ℚ :=
  rentAfterEvents mods s * 12

/-- Line 128. -/
def totalExpensesOf (mods : ScenarioModifiers) (s : SimState) (age : ℕ) : ℚ :=
  housingAnnualOf mods s + livingAnnualOf mods s age + childrenExpensesOf mods s +
    travelAnnualOf mods s age

/-- Working-phase branch (lines 137-166).  Note that the source reassigns the
salary variables before the snapshot is pushed, so the salary figures carried
into the snapshot are the incremented ones. -/
def workingUpdate (mods : ScenarioModifiers) (age : ℕ)
    (basePct effRet taxFactor totalExpenses : ℚ) (s : SimState) : PhaseOut :=
  let growthRate1 := getSalaryGrowthRate age s.data.careerStage1 (basePct / 100)
  let growthRate2 := getSalaryGrowthRate age s.data.careerStage2 (basePct / 100)
  let salaryNet1 := s.grossSalary1 * taxFactor
  let salaryNet2 := s.grossSalary2 * taxFactor
  let bonusNet := s.grossBonus * (13/20)
  let totalGrossIncome := s.grossSalary1 + s.grossSalary2 + s.grossBonus
  let totalIncomeNet := salaryNet1 + salaryNet2 + bonusNet
  let plannedP3 := s.data.pillar3AnnualContribution1 + s.data.pillar3AnnualContribution2
  let actualP3 := if plannedP3 ≤ totalIncomeNet then plannedP3 else max 0 totalIncomeNet
  let annualSavingsCapacity := totalIncomeNet - actualP3 - totalExpenses
  let lppContribution := (s.grossSalary1 + s.grossSalary2) * (3/25)
  let pillar2Wealth := s.pillar2Wealth * (1 + LPP_INTEREST_RATE) + lppContribution
  let pillar3Wealth := s.pillar3Wealth * (1 + effRet / 100) + actualP3
  let ci :=
    if 0 < annualSavingsCapacity then
      (s.cashBuffer + annualSavingsCapacity * (3/10),
        s.investedWealth + annualSavingsCapacity * (7/10))
    else drainBuckets s.cashBuffer s.investedWealth (-annualSavingsCapacity)
  { grossSalary1 := s.grossSalary1 * (1 + growthRate1 + mods.salaryGrowthModPct / 100)
    grossSalary2 := s.grossSalary2 * (1 + growthRate2 + mods.salaryGrowthModPct / 100)
    grossBonus := s.grossBonus * (1 + basePct / 100)
    pillar2Wealth := pillar2Wealth
    pillar3Wealth := pillar3Wealth
    cashBuffer := ci.1
    investedWealth := ci.2 * (1 + effRet / 100)
    ahvSnap := s.ahvAnnualPensionSnapshot
    lppSnap := s.lppAnnualPensionSnapshot
    drawSnap := s.pillar3AnnualDrawdownSnapshot
    snapTaken := s.retirementSnapshotTaken
    pensionAHV := 0
    pensionLPP := 0
    pension3a := 0
    totalGrossIncome := totalGrossIncome
    totalIncomeNet := totalIncomeNet
    annualSavingsCapacity := annualSavingsCapacity }

/-- Retirement-phase branch (lines 167-194), including the one-shot snapshot
of lines 168-173. -/
def retiredUpdate (inflFactor effRet totalExpenses : ℚ) (s : SimState) : PhaseOut :=
  let snap :=
    if s.retirementSnapshotTaken then
      (s.ahvAnnualPensionSnapshot, s.lppAnnualPensionSnapshot,
        s.pillar3AnnualDrawdownSnapshot)
    else
      (AHV_COUPLE_MAX_ANNUAL_2025 * inflFactor, s.pillar2Wealth * LPP_CONVERSION_RATE,
        s.pillar3Wealth / max 1 ((DEFAULT_MAX_AGE : ℚ) - (s.data.retirementAge : ℚ)))
  let pensionAHV := AHV_COUPLE_MAX_ANNUAL_2025 * inflFactor
  let pensionLPP := snap.2.1
  let pension3a := min s.pillar3Wealth snap.2.2
  let totalGrossIncome := pensionAHV + pensionLPP + pension3a
  let totalIncomeNet := totalGrossIncome * (17/20)
  let annualSavingsCapacity := totalIncomeNet - totalExpenses
  let ci :=
    if 0 ≤ annualSavingsCapacity then
      (s.cashBuffer + annualSavingsCapacity, s.investedWealth)
    else drainBuckets s.cashBuffer s.investedWealth (-annualSavingsCapacity)
  { grossSalary1 := s.grossSalary1
    grossSalary2 := s.grossSalary2
    grossBonus := s.grossBonus
    pillar2Wealth := 0
    pillar3Wealth := max 0 (s.pillar3Wealth - pension3a) * (1 + effRet / 100 * (3/10))
    cashBuffer := ci.1
    investedWealth := ci.2 * (1 + effRet / 100)
    ahvSnap := snap.1
    lppSnap := snap.2.1
    drawSnap := snap.2.2
    snapTaken := true
    pensionAHV := pensionAHV
    pensionLPP := pensionLPP
    pension3a := pension3a
    totalGrossIncome := totalGrossIncome
    totalIncomeNet := totalIncomeNet
    annualSavingsCapacity := annualSavingsCapacity }

/-- The `isRetired` branch dispatch of line 137. -/
def phaseOut (mods : ScenarioModifiers) (age : ℕ) (s : SimState) : PhaseOut :=
  if s.data.retirementAge ≤ age then
    retiredUpdate (inflationFactorAt s.data mods age)
      (effectiveInvestmentReturnPct s.data mods) (totalExpensesOf mods s age) s
  else
    workingUpdate mods age (baseInflationPct s.data mods)
      (effectiveInvestmentReturnPct s.data mods) (getTaxFactor s.data.canton)
      (totalExpensesOf mods s age) s

/-- One iteration of the `for` loop of lines 98-215: returns the updated
state and the snapshot pushed for this simulated age. -/
def yearStep (mods : ScenarioModifiers) (age : ℕ) (s : SimState) :
    SimState × ProjectionPoint :=
  let u := phaseOut mods age s
  let isRetired := s.data.retirementAge ≤ age
  let taxFactor := getTaxFactor s.data.canton
  let totalWealth := u.cashBuffer + u.investedWealth + u.pillar2Wealth + u.pillar3Wealth
  let notes : List String :=
    (if relocationFires s then [moveNote] else []) ++
      (if totalWealth < 0 ∧ s.savingsDepletedAge = none then [depletedNote] else [])
  let point : ProjectionPoint :=
    { age := age
      year := startYear + (age - s.data.currentAge)
      totalGrossIncome := u.totalGrossIncome
      totalIncome := u.totalIncomeNet
      salary1 := if isRetired then 0 else u.grossSalary1 * taxFactor
      salary2 := if isRetired then 0 else u.grossSalary2 * taxFactor
      bonus := if isRetired then 0 else u.grossBonus * (13/20)
      pensionAHV := u.pensionAHV
      pensionLPP := u.pensionLPP
      pension3a := u.pension3a
      pension := u.pensionAHV + u.pensionLPP + u.pension3a
      activeChildren := (childrenPass s.data s.childrenAges).2.2
      housingExpenses := housingAnnualOf mods s
      livingExpenses := livingAnnualOf mods s age
      childrenExpenses := childrenExpensesOf mods s
      travelExpenses := travelAnnualOf mods s age
      totalExpenses := totalExpensesOf mods s age
      yearlyContribution := 0
      yearlySavings := u.annualSavingsCapacity
      cashSavings := u.cashBuffer
      investedAssets := u.investedWealth
      pillar2Wealth := u.pillar2Wealth
      pillar3Wealth := u.pillar3Wealth
      pensionWealth := u.pillar2Wealth + u.pillar3Wealth
      investmentGrowth := 0
      totalWealth := totalWealth
      isDeficit := decide (u.annualSavingsCapacity < 0)
      notes := if notes = [] then none else some notes }
  ({ data := s.data
     grossSalary1 := u.grossSalary1
     grossSalary2 := u.grossSalary2
     grossBonus := u.grossBonus
     pillar2Wealth := u.pillar2Wealth
     pillar3Wealth := u.pillar3Wealth
     cashBuffer := u.cashBuffer
     investedWealth := u.investedWealth
     ahvAnnualPensionSnapshot := u.ahvSnap
     lppAnnualPensionSnapshot := u.lppSnap
     pillar3AnnualDrawdownSnapshot := u.drawSnap
     retirementSnapshotTaken := u.snapTaken
     childrenAges := (childrenPass s.data s.childrenAges).1
     maxWealth := if s.maxWealth < totalWealth then totalWealth else s.maxWealth
     savingsDepletedAge :=
       if totalWealth < 0 ∧ s.savingsDepletedAge = none then some age
       else s.savingsDepletedAge
     currentRent := rentAfterEvents mods s
     hasMovedHouse := s.hasMovedHouse || decide (relocationFires s) }, point)

/-- Iterating the year loop over a list of simulated ages. -/
def runYears (mods : ScenarioModifiers) : List ℕ → SimState → SimState × List ProjectionPoint
  | [], s => (s, [])
  | a :: rest, s =>
    let sp := yearStep mods a s
    let r := runYears mods rest sp.1
    (r.1, sp.2 :: r.2)

/-- Initial loop state (lines 69-96). -/
def initState (data : FinancialData) : SimState :=
  { data := data
    grossSalary1 := data.annualGrossSalary1
    grossSalary2 := data.annualGrossSalary2
    grossBonus := data.annualBonus
    pillar2Wealth := data.pillar2Balance1 + data.pillar2Balance2
    pillar3Wealth := data.pillar3Balance1 + data.pillar3Balance2
    cashBuffer := data.currentSavings * (3/10)
    investedWealth := data.currentSavings * (7/10)
    ahvAnnualPensionSnapshot := 0
    lppAnnualPensionSnapshot := 0
    pillar3AnnualDrawdownSnapshot := 0
    retirementSnapshotTaken := false
    childrenAges := computeChildrenSchedule data
    maxWealth := 0
    savingsDepletedAge := none
    currentRent := data.currentHousingCost
    hasMovedHouse := false }

/-- The simulated ages `currentAge, …, 90` (empty when `currentAge > 90`). -/
def simAges (data : FinancialData) : List ℕ :=
  List.range' data.currentAge (DEFAULT_MAX_AGE + 1 - data.currentAge)

/-- `calculateProjections` (lines 61-222), additionally returning the profile
record as the run leaves it, to make the no-mutation guarantee provable. -/
def calculateProjectionsFull (data : FinancialData) (sc : ScenarioType) :
    ScenarioResult × FinancialData :=
  let mods := scenarioModifiers sc
  let r := runYears mods (simAges data) (initState data)
  let lastTW := ((r.2.getLast?).map ProjectionPoint.totalWealth).getD 0
  ({ type := sc
     label := sc
     data := r.2
     finalWealth := lastTW
     maxWealth := r.1.maxWealth
     isViable := decide (0 ≤ lastTW)
     savingsDepletedAge := r.1.savingsDepletedAge }, r.1.data)

def calculateProjections (data : FinancialData) (sc : ScenarioType) : ScenarioResult :=
  (calculateProjectionsFull data sc).1

/-- The `JSON.parse(JSON.stringify(d))` deep copy of line 225, written as the
field-by-field reconstruction it performs on this flat record. -/
def cloneData (d : FinancialData) : FinancialData :=
  { currentAge := d.currentAge
    retirementAge := d.retirementAge
    currentChildren := d.currentChildren
    futureChildren := d.futureChildren
    firstChildBirthYearOffset := d.firstChildBirthYearOffset
    childSpacingYears := d.childSpacingYears
    annualGrossSalary1 := d.annualGrossSalary1
    annualGrossSalary2 := d.annualGrossSalary2
    careerStage1 := d.careerStage1
    careerStage2 := d.careerStage2
    annualBonus := d.annualBonus
    expectedSalaryIncrease := d.expectedSalaryIncrease
    currentSavings := d.currentSavings
    monthlyContribution := d.monthlyContribution
    investmentReturn := d.investmentReturn
    pillar2Balance1 := d.pillar2Balance1
    pillar2Balance2 := d.pillar2Balance2
    pillar3Balance1 := d.pillar3Balance1
    pillar3Balance2 := d.pillar3Balance2
    pillar3AnnualContribution1 := d.pillar3AnnualContribution1
    pillar3AnnualContribution2 := d.pillar3AnnualContribution2
    housingStatus := d.housingStatus
    currentHousingCost := d.currentHousingCost
    currentRooms := d.currentRooms
    housingCostIncrease := d.housingCostIncrease
    monthlyLivingCost := d.monthlyLivingCost
    monthlyDaycareCost := d.monthlyDaycareCost
    monthlySchoolActivityCost := d.monthlySchoolActivityCost
    yearlyTravelBudget := d.yearlyTravelBudget
    universitySupport := d.universitySupport
    canton := d.canton
    luxuryLevel := d.luxuryLevel }

/-- `runAllScenarios` (lines 224-231). -/
def runAllScenarios (data : FinancialData) : List ScenarioResult :=
  [calculateProjections (cloneData data) ScenarioType.pessimistic,
    calculateProjections (cloneData data) ScenarioType.neutral,
    calculateProjections (cloneData data) ScenarioType.optimistic]

/-- The per-candidate viability test of line 240:
`result.finalWealth > RETIREMENT_SAFETY_BUFFER` on the neutral run with the
retirement age overridden on a fresh copy. -/
def viableAt (data : FinancialData) (testAge : ℕ) : Prop :=
  RETIREMENT_SAFETY_BUFFER <
    (calculateProjections { data with retirementAge := testAge }
      ScenarioType.neutral).finalWealth

instance (data : FinancialData) (testAge : ℕ) : Decidable (viableAt data testAge) := by
  unfold viableAt; infer_instance

/-- The scanning loop of `calculateViableEarlyRetirement` (lines 233-245). -/
def earlyRetirementScan (data : FinancialData) : List ℕ → Option ℕ
  | [] => none
  | a :: rest =>
    if viableAt data a then some a else earlyRetirementScan data rest

/-- `calculateViableEarlyRetirement` (lines 233-245): scan ages 45..65. -/
def calculateViableEarlyRetirement (data : FinancialData) : Option ℕ :=
  earlyRetirementScan data (List.range' 45 21)

/-- A minimal already-retired household: age 88, retirement age 88, no
income, expenses, children or savings; only the public pension flows. -/
def profileA : FinancialData :=
  { currentAge := 88, retirementAge := 88, currentChildren := 0, futureChildren := 0
    firstChildBirthYearOffset := none, childSpacingYears := none
    annualGrossSalary1 := 0, annualGrossSalary2 := 0
    careerStage1 := CareerStage.mid, careerStage2 := CareerStage.mid
    annualBonus := 0, expectedSalaryIncrease := some (3/2)
    currentSavings := 0, monthlyContribution := 0, investmentReturn := 0
    pillar2Balance1 := 0, pillar2Balance2 := 0
    pillar3Balance1 := 0, pillar3Balance2 := 0
    pillar3AnnualContribution1 := 0, pillar3AnnualContribution2 := 0
    housingStatus := HousingStatus.rentHome
    currentHousingCost := 0, currentRooms := 5, housingCostIncrease := 0
    monthlyLivingCost := 0, monthlyDaycareCost := 0, monthlySchoolActivityCost := 0
    yearlyTravelBudget := 0, universitySupport := 0
    canton := "", luxuryLevel := LuxuryLevel.comfortable }

/-- The spec's example household: age 30, retirement 65, no children,
salaries 110,000 / 90,000, savings 150,000, investment return 4.5 %; the
remaining costs are filled with modest values. -/
def exampleData : FinancialData :=
  { currentAge := 30, retirementAge := 65, currentChildren := 0, futureChildren := 0
    firstChildBirthYearOffset := none, childSpacingYears := none
    annualGrossSalary1 := 110000, annualGrossSalary2 := 90000
    careerStage1 := CareerStage.mid, careerStage2 := CareerStage.mid
    annualBonus := 0, expectedSalaryIncrease := some (3/2)
    currentSavings := 150000, monthlyContribution := 0, investmentReturn := 9/2
    pillar2Balance1 := 0, pillar2Balance2 := 0
    pillar3Balance1 := 0, pillar3Balance2 := 0
    pillar3AnnualContribution1 := 0, pillar3AnnualContribution2 := 0
    housingStatus := HousingStatus.rentHome
    currentHousingCost := 2500, currentRooms := 3, housingCostIncrease := 1
    monthlyLivingCost := 3000, monthlyDaycareCost := 0, monthlySchoolActivityCost := 0
    yearlyTravelBudget := 5000, universitySupport := 0
    canton := "Zürich", luxuryLevel := LuxuryLevel.comfortable }

/-- One future child that starts at relative age -1 and reaches age 0 in
simulation year 1; daycare costs 2,500 per month; everything else is zero. -/
def profileB : FinancialData :=
  { profileA with currentAge := 88, retirementAge := 90, futureChildren := 1
                  firstChildBirthYearOffset := some 1, monthlyDaycareCost := 2500 }

/-- A one-room household with one existing child (placeholder age 2), so the
relocation trigger `2 + 1 > 1 + 0.5` fires in the very first simulated year. -/
def profileC : FinancialData :=
  { profileA with currentAge := 30, retirementAge := 65, currentChildren := 1
                  currentHousingCost := 1000, currentRooms := 1 }

/-- All monetary fields are non-negative, but the salary-increase rate is the
absurd -1000 % a year, which flips the salary's sign each year and drives the
pillar-2 bucket negative through negative contributions. -/
def profileNeg : FinancialData :=
  { profileA with currentAge := 88, retirementAge := 90, annualGrossSalary1 := 100000
                  expectedSalaryIncrease := some (-1000) }

/-- Non-negativity of every monetary field of a profile, the household-profile
invariant of the data model. -/
def NonnegMoney (d : FinancialData) : Prop :=
  0 ≤ d.annualGrossSalary1 ∧ 0 ≤ d.annualGrossSalary2 ∧ 0 ≤ d.annualBonus ∧
    0 ≤ d.currentSavings ∧ 0 ≤ d.monthlyContribution ∧
    0 ≤ d.pillar2Balance1 ∧ 0 ≤ d.pillar2Balance2 ∧
    0 ≤ d.pillar3Balance1 ∧ 0 ≤ d.pillar3Balance2 ∧
    0 ≤ d.pillar3AnnualContribution1 ∧ 0 ≤ d.pillar3AnnualContribution2 ∧
    0 ≤ d.currentHousingCost ∧ 0 ≤ d.monthlyLivingCost ∧
    0 ≤ d.monthlyDaycareCost ∧ 0 ≤ d.monthlySchoolActivityCost ∧
    0 ≤ d.yearlyTravelBudget ∧ 0 ≤ d.universitySupport

/-- The total wealth recorded by the year step: sum of the four buckets
after this year's mutations (line 196). -/
def totalWealthOf (mods : ScenarioModifiers) (a : ℕ) (s : SimState) : ℚ :=
  (phaseOut mods a s).cashBuffer + (phaseOut mods a s).investedWealth +
    (phaseOut mods a s).pillar2Wealth + (phaseOut mods a s).pillar3Wealth

/-- The notes list a year step attaches: the relocation note (line 122)
followed by the depletion note (line 200). -/
def notesOf (s : SimState) (totalWealth : ℚ) : List String :=
  (if relocationFires s then [moveNote] else []) ++
    (if totalWealth < 0 ∧ s.savingsDepletedAge = none then [depletedNote] else [])

/-- All wealth-carrying components of the loop state are non-negative. -/
def StateNonneg (s : SimState) : Prop :=
  0 ≤ s.grossSalary1 ∧ 0 ≤ s.grossSalary2 ∧ 0 ≤ s.grossBonus ∧
    0 ≤ s.pillar2Wealth ∧ 0 ≤ s.pillar3Wealth ∧
    0 ≤ s.cashBuffer ∧ 0 ≤ s.investedWealth

/-- All wealth-carrying components of a phase output are non-negative. -/
def PhaseNonneg (u : PhaseOut) : Prop :=
  0 ≤ u.grossSalary1 ∧ 0 ≤ u.grossSalary2 ∧ 0 ≤ u.grossBonus ∧
    0 ≤ u.pillar2Wealth ∧ 0 ≤ u.pillar3Wealth ∧
    0 ≤ u.cashBuffer ∧ 0 ≤ u.investedWealth

/-! ### Explicit year-by-year states of the example-profile runs, used to
evaluate the two 61-year scenario runs of the example profile. -/

def exP1 : SimState :=
  { data := exampleData
    grossSalary1 := 114950
    grossSalary2 := 94050
    grossBonus := 0
    pillar2Wealth := 24000
    pillar3Wealth := 0
    cashBuffer := 69705
    investedWealth := 1333689/8
    ahvAnnualPensionSnapshot := 0
    lppAnnualPensionSnapshot := 0
    pillar3AnnualDrawdownSnapshot := 0
    retirementSnapshotTaken := false
    childrenAges := []
    maxWealth := 2083329/8
    savingsDepletedAge := none
    currentRent := 2550
    hasMovedHouse := false }

def exP2 : SimState :=
  { data := exampleData
    grossSalary1 := 480491/4
    grossSalary2 := 393129/4
    grossBonus := 0
    pillar2Wealth := 49560
    pillar3Wealth := 0
    cashBuffer := 3840381/40
    investedWealth := 187032447/800
    ahvAnnualPensionSnapshot := 0
    lppAnnualPensionSnapshot := 0
    pillar3AnnualDrawdownSnapshot := 0
    retirementSnapshotTaken := false
    childrenAges := []
    maxWealth := 303488067/800
    savingsDepletedAge := none
    currentRent := 2601
    hasMovedHouse := false }

def exP3 : SimState :=
  { data := exampleData
    grossSalary1 := 100422619/800
    grossSalary2 := 82163961/800
    grossBonus := 0
    pillar2Wealth := 383799/5
    pillar3Wealth := 0
    cashBuffer := 991972809/8000
    investedWealth := 98102745531/320000
    ahvAnnualPensionSnapshot := 0
    lppAnnualPensionSnapshot := 0
    pillar3AnnualDrawdownSnapshot := 0
    retirementSnapshotTaken := false
    childrenAges := []
    maxWealth := 162344793891/320000
    savingsDepletedAge := none
    currentRent := 132651/50
    hasMovedHouse := false }

def exP4 : SimState :=
  { data := exampleData
    grossSalary1 := 20988327371/160000
    grossSalary2 := 17172267849/160000
    grossBonus := 0
    pillar2Wealth := 105682983/1000
    pillar3Wealth := 0
    cashBuffer := 246005190261/1600000
    investedWealth := 1541613309789/4000000
    ahvAnnualPensionSnapshot := 0
    lppAnnualPensionSnapshot := 0
    pillar3AnnualDrawdownSnapshot := 0
    retirementSnapshotTaken := false
    childrenAges := []
    maxWealth := 5158716434883/8000000
    savingsDepletedAge := none
    currentRent := 6765201/2500
    hasMovedHouse := false }

def exP5 : SimState :=
  { data := exampleData
    grossSalary1 := 4386560420539/32000000
    grossSalary2 := 3589003980441/32000000
    grossBonus := 0
    pillar2Wealth := 5456683563/40000
    pillar3Wealth := 0
    cashBuffer := 59318605987569/320000000
    investedWealth := 6024405655258221/12800000000
    ahvAnnualPensionSnapshot := 0
    lppAnnualPensionSnapshot := 0
    pillar3AnnualDrawdownSnapshot := 0
    retirementSnapshotTaken := false
    childrenAges := []
    maxWealth := 10143288634920981/12800000000
    savingsDepletedAge := none
    currentRent := 345025251/125000
    hasMovedHouse := false }

def exP6 : SimState :=
  { data := exampleData
    grossSalary1 := 57025285467007/400000000
    grossSalary2 := 46657051745733/400000000
    grossBonus := 0
    pillar2Wealth := 6762151894407/40000000
    pillar3Wealth := 0
    cashBuffer := 14012439011229501/64000000000
    investedWealth := 720281915086702017/1280000000000
    ahvAnnualPensionSnapshot := 0
    lppAnnualPensionSnapshot := 0
    pillar3AnnualDrawdownSnapshot := 0
    retirementSnapshotTaken := false
    childrenAges := []
    maxWealth := 1216919555932316037/1280000000000
    savingsDepletedAge := none
    currentRent := 17596287801/6250000
    hasMovedHouse := false }

def exP7 : SimState :=
  { data := exampleData
    grossSalary1 := 741328711071091/5000000000
    grossSalary2 := 606541672694529/5000000000
    grossBonus := 0
    pillar2Wealth := 407079148942401/2000000000
    pillar3Wealth := 0
    cashBuffer := 3254821316030090889/12800000000000
    investedWealth := 338588824670902069551/512000000000000
    ahvAnnualPensionSnapshot := 0
    lppAnnualPensionSnapshot := 0
    pillar3AnnualDrawdownSnapshot := 0
    retirementSnapshotTaken := false
    childrenAges := []
    maxWealth := 572993939441360361111/512000000000000
    savingsDepletedAge := none
    currentRent := 897410677851/312500000
    hasMovedHouse := false }

def exP8 : SimState :=
  { data := exampleData
    grossSalary1 := 9637273243924183/62500000000
    grossSalary2 := 7885041745028877/62500000000
    grossBonus := 0
    pillar2Wealth := 23995925517099939/100000000000
    pillar3Wealth := 0
    cashBuffer := 746154082143837457461/2560000000000000
    investedWealth := 19629300433979908836381/25600000000000000
    ahvAnnualPensionSnapshot := 0
    lppAnnualPensionSnapshot := 0
    pillar3AnnualDrawdownSnapshot := 0
    retirementSnapshotTaken := false
    childrenAges := []
    maxWealth := 33233798187795867794991/25600000000000000
    savingsDepletedAge := none
    currentRent := 45767944570401/15625000000
    hasMovedHouse := false }

def exP9 : SimState :=
  { data := exampleData
    grossSalary1 := 125284552171014379/781250000000
    grossSalary2 := 102505542685375401/781250000000
    grossBonus := 0
    pillar2Wealth := 278401285053209253/1000000000000
    pillar3Wealth := 0
    cashBuffer := 169256181307973310225009/512000000000000000
    investedWealth := 18011786262640881904604481/20480000000000000000
    ahvAnnualPensionSnapshot := 0
    lppAnnualPensionSnapshot := 0
    pillar3AnnualDrawdownSnapshot := 0
    retirementSnapshotTaken := false
    childrenAges := []
    maxWealth := 30483691832849539815044841/20480000000000000000
    savingsDepletedAge := none
    currentRent := 2334165173090451/781250000000
    hasMovedHouse := false }

def exP10 : SimState :=
  { data := exampleData
    grossSalary1 := 1628699178223186927/9765625000000
    grossSalary2 := 1332572054909880213/9765625000000
    grossBonus := 0
    pillar2Wealth := 79739467331053727067/250000000000000
    pillar3Wealth := 0
    cashBuffer := 38062710097069497928109181/102400000000000000000
    investedWealth := 2047656923717570044963929027/2048000000000000000000
    ahvAnnualPensionSnapshot := 0
    lppAnnualPensionSnapshot := 0
    pillar3AnnualDrawdownSnapshot := 0
    retirementSnapshotTaken := false
    childrenAges := []
    maxWealth := 3462136842034952135658976647/2048000000000000000000
    savingsDepletedAge := none
    currentRent := 119042423827613001/39062500000000
    hasMovedHouse := false }

def exP11 : SimState :=
  { data := exampleData
    grossSalary1 := 21173089316901430051/122070312500000
    grossSalary2 := 17323436713828442769/122070312500000
    grossBonus := 0
    pillar2Wealth := 4521564095292979193121/12500000000000000
    pillar3Wealth := 0
    cashBuffer := 8497977127069445848143478809/20480000000000000000000
    investedWealth := 924245964023250977549781377331/819200000000000000000000
    ahvAnnualPensionSnapshot := 0
    lppAnnualPensionSnapshot := 0
    pillar3AnnualDrawdownSnapshot := 0
    retirementSnapshotTaken := false
    childrenAges := []
    maxWealth := 1560490273655149495875898385691/819200000000000000000000
    savingsDepletedAge := none
    currentRent := 6071163615208263051/1953125000000000
    hasMovedHouse := false }

def exP12 : SimState :=
  { data := exampleData
    grossSalary1 := 275250161119718590663/1525878906250000
    grossSalary2 := 225204677279769755997/1525878906250000
    grossBonus := 0
    pillar2Wealth := 254252034453222372709779/625000000000000000
    pillar3Wealth := 0
    cashBuffer := 1885698386829952905321750516741/4096000000000000000000000
    investedWealth := 25909284075029568472375927571943/20480000000000000000000000
    ahvAnnualPensionSnapshot := 0
    lppAnnualPensionSnapshot := 0
    pillar3AnnualDrawdownSnapshot := 0
    retirementSnapshotTaken := false
    childrenAges := []
    maxWealth := 85291223972934616617067809429/40000000000000000000000
    savingsDepletedAge := none
    currentRent := 309629344375621415601/97656250000000000
    hasMovedHouse := false }

def exP13 : SimState :=
  { data := exampleData
    grossSalary1 := 3578252094556341678619/19073486328125000
    grossSalary2 := 2927660804637006827961/19073486328125000
    grossBonus := 0
    pillar2Wealth := 2839354313592984713790069/6250000000000000000
    pillar3Wealth := 0
    cashBuffer := 416244330725382318062431153276929/819200000000000000000000000
    investedWealth := 46232237721096968467512941661168261/32768000000000000000000000000
    ahvAnnualPensionSnapshot := 0
    lppAnnualPensionSnapshot := 0
    pillar3AnnualDrawdownSnapshot := 0
    retirementSnapshotTaken := false
    childrenAges := []
    maxWealth := 77768404893762648886245864750965421/32768000000000000000000000000
    savingsDepletedAge := none
    currentRent := 15791096563156692195651/4882812500000000000
    hasMovedHouse := false }

def exP14 : SimState :=
  { data := exampleData
    grossSalary1 := 46517277229232441822047/238418579101562500
    grossSalary2 := 38059590460281088763493/238418579101562500
    grossBonus := 0
    pillar2Wealth := 787991076130441395175551627/1562500000000000000000
    pillar3Wealth := 0
    cashBuffer := 91463470697862234288059394030381261/163840000000000000000000000000
    investedWealth := 5131736284187358631901659501707029637/3276800000000000000000000000000
    ahvAnnualPensionSnapshot := 0
    lppAnnualPensionSnapshot := 0
    pillar3AnnualDrawdownSnapshot := 0
    retirementSnapshotTaken := false
    childrenAges := []
    maxWealth := 8613542759433710750438045827980958857/3276800000000000000000000000000
    savingsDepletedAge := none
    currentRent := 805345924720991301978201/244140625000000000000
    hasMovedHouse := false }

def exP15 : SimState :=
  { data := exampleData
    grossSalary1 := 604724603980021743686611/2980232238769531250
    grossSalary2 := 494774675983654153925409/2980232238769531250
    grossBonus := 0
    pillar2Wealth := 43513242643192486398225502641/78125000000000000000000
    pillar3Wealth := 0
    cashBuffer := 20017865250616646442030198390031756329/32768000000000000000000000000000
    investedWealth := 2269053246140045465989032969231625379511/1310720000000000000000000000000000
    ahvAnnualPensionSnapshot := 0
    lppAnnualPensionSnapshot := 0
    pillar3AnnualDrawdownSnapshot := 0
    retirementSnapshotTaken := false
    childrenAges := []
    maxWealth := 3799798926849962597550332179349523088671/1310720000000000000000000000000000
    savingsDepletedAge := none
    currentRent := 41072642160770556400888251/12207031250000000000000
    hasMovedHouse := false }

def exP16 : SimState :=
  { data := exampleData
    grossSalary1 := 62286634209942239599720933/298023223876953125000
    grossSalary2 := 50961791626316377854317127/298023223876953125000
    grossBonus := 0
    pillar2Wealth := 2392111658350895519011663857219/3906250000000000000000000
    pillar3Wealth := 0
    cashBuffer := 4365790198251379007209340911995018206421/6553600000000000000000000000000000
    investedWealth := 124952005657406519239983560852683085029791/65536000000000000000000000000000000
    ahvAnnualPensionSnapshot := 0
    lppAnnualPensionSnapshot := 0
    pillar3AnnualDrawdownSnapshot := 0
    retirementSnapshotTaken := false
    childrenAges := []
    maxWealth := 208742881628191487227967761024589589398001/65536000000000000000000000000000000
    savingsDepletedAge := none
    currentRent := 2094704750199298376445300801/610351562500000000000000
    hasMovedHouse := false }

def exP17 : SimState :=
  { data := exampleData
    grossSalary1 := 6415523323624050678771256099/29802322387695312500000
    grossSalary2 := 5249064537510586918994664081/29802322387695312500000
    grossBonus := 0
    pillar2Wealth := 130903913178621725173756262678361/195312500000000000000000000
    pillar3Wealth := 0
    cashBuffer := 948059296141845986095486938069802585347729/1310720000000000000000000000000000000
    investedWealth := 109626198176766893441982714191706562039839561/52428800000000000000000000000000000000
    ahvAnnualPensionSnapshot := 0
    lppAnnualPensionSnapshot := 0
    pillar3AnnualDrawdownSnapshot := 0
    retirementSnapshotTaken := false
    childrenAges := []
    maxWealth := 182687821648728465134326133319420281821364721/52428800000000000000000000000000000000
    savingsDepletedAge := none
    currentRent := 106829942260164217198710340851/30517578125000000000000000
    hasMovedHouse := false }

def exP18 : SimState :=
  { data := exampleData
    grossSalary1 := 660798902333277219913439378197/2980232238769531250000000
    grossSalary2 := 540653647363590452656450400343/2980232238769531250000000
    grossBonus := 0
    pillar2Wealth := 7134769830150099749625881803546299/9765625000000000000000000000
    pillar3Wealth := 0
    cashBuffer := 205099683540565859613623123470971360980357661/262144000000000000000000000000000000000
    investedWealth := 11977519576052013595674709236476941309484055687/5242880000000000000000000000000000000000
    ahvAnnualPensionSnapshot := 0
    lppAnnualPensionSnapshot := 0
    pillar3AnnualDrawdownSnapshot := 0
    retirementSnapshotTaken := false
    childrenAges := []
    maxWealth := 19909963632486099937419790528570474907445896907/5242880000000000000000000000000000000000
    savingsDepletedAge := none
    currentRent := 5448327055268375077134227383401/1525878906250000000000000000
    hasMovedHouse := false }

def exP19 : SimState :=
  { data := exampleData
    grossSalary1 := 68062286940327553651084255954291/298023223876953125000000000
    grossSalary2 := 55687325678449816623614391235329/298023223876953125000000000
    grossBonus := 0
    pillar2Wealth := 387494779626735263167782060938780481/488281250000000000000000000000
    pillar3Wealth := 0
    cashBuffer := 44222319402947197918850557110529281727450136889/52428800000000000000000000000000000000000
    investedWealth := 5217144303987114061189344988118261848723682680251/2097152000000000000000000000000000000000000
    ahvAnnualPensionSnapshot := 0
    lppAnnualPensionSnapshot := 0
    pillar3AnnualDrawdownSnapshot := 0
    retirementSnapshotTaken := false
    childrenAges := []
    maxWealth := 8650314485972557020498944585126974341839837531811/2097152000000000000000000000000000000000000
    savingsDepletedAge := none
    currentRent := 277864679818687128933845596553451/76293945312500000000000000000
    hasMovedHouse := false }

def exP20 : SimState :=
  { data := exampleData
    grossSalary1 := 7010415554853738026061678363291973/29802322387695312500000000000
    grossSalary2 := 5735794544880331112232282297238887/29802322387695312500000000000
    grossBonus := 0
    pillar2Wealth := 20978741952851127482305282689210644979/24414062500000000000000000000000
    pillar3Wealth := 0
    cashBuffer := 9506585608150841371836275526318581311267951950501/10485760000000000000000000000000000000000000
    investedWealth := 17700899389386445108366855550009286990329839587081/6553600000000000000000000000000000000000000
    ahvAnnualPensionSnapshot := 0
    lppAnnualPensionSnapshot := 0
    pillar3AnnualDrawdownSnapshot := 0
    retirementSnapshotTaken := false
    childrenAges := []
    maxWealth := 234191628455205150972730225950764528598914279841153/52428800000000000000000000000000000000000000
    savingsDepletedAge := none
    currentRent := 14171098670753043575626125424226001/3814697265625000000000000000000
    hasMovedHouse := false }

def exP21 : SimState :=
  { data := exampleData
    grossSalary1 := 722072802149935016684352871419073219/2980232238769531250000000000000
    grossSalary2 := 590786838122674104559925076615605361/2980232238769531250000000000000
    grossBonus := 0
    pillar2Wealth := 1132566011477620398226111892588384177001/1220703125000000000000000000000000
    pillar3Wealth := 0
    cashBuffer := 2038211155635554651388212878246801983972119112316449/2097152000000000000000000000000000000000000000
    investedWealth := 245331995908598789890111438431503712690866743141190541/83886080000000000000000000000000000000000000000
    ahvAnnualPensionSnapshot := 0
    lppAnnualPensionSnapshot := 0
    pillar3AnnualDrawdownSnapshot := 0
    retirementSnapshotTaken := false
    childrenAges := []
    maxWealth := 404689785811741619886178305431836189325002233382584501/83886080000000000000000000000000000000000000000
    savingsDepletedAge := none
    currentRent := 722726032208405222356932396635526051/190734863281250000000000000000000
    hasMovedHouse := false }

def exP22 : SimState :=
  { data := exampleData
    grossSalary1 := 74373498621443306718488345756164541557/298023223876953125000000000000000
    grossSalary2 := 60851044326635432769672282891407352183/298023223876953125000000000000000
    grossBonus := 0
    pillar2Wealth := 60987350437292604485901644007097619105259/61035156250000000000000000000000000
    pillar3Wealth := 0
    cashBuffer := 435943998085226930351423250451575828627897093154936941/419430400000000000000000000000000000000000000000
    investedWealth := 26500297433461257967265598050601768706848312620055818697/8388608000000000000000000000000000000000000000000
    ahvAnnualPensionSnapshot := 0
    lppAnnualPensionSnapshot := 0
    pillar3AnnualDrawdownSnapshot := 0
    retirementSnapshotTaken := false
    childrenAges := []
    maxWealth := 43601215014297413695881597590293082589375924454663805517/8388608000000000000000000000000000000000000000000
    savingsDepletedAge := none
    currentRent := 36859027642628666340203552228411828601/9536743164062500000000000000000000
    hasMovedHouse := false }

def exP23 : SimState :=
  { data := exampleData
    grossSalary1 := 7660470358008660592004299612884947780371/29802322387695312500000000000000000
    grossSalary2 := 6267657565643449575276245137814957274849/29802322387695312500000000000000000
    grossBonus := 0
    pillar2Wealth := 3276518790676521983864035624844114917395921/3051757812500000000000000000000000000
    pillar3Wealth := 0
    cashBuffer := 93039733566294915511166493287272395585403247941512302409/83886080000000000000000000000000000000000000000000
    investedWealth := 11424861295530654083089924866588966826397621178263102458431/3355443200000000000000000000000000000000000000000000
    ahvAnnualPensionSnapshot := 0
    lppAnnualPensionSnapshot := 0
    pillar3AnnualDrawdownSnapshot := 0
    retirementSnapshotTaken := false
    childrenAges := []
    maxWealth := 18749021147157844402281179214216668708893743973696296250791/3355443200000000000000000000000000000000000000000000
    savingsDepletedAge := none
    currentRent := 1879810409774061983350381163649003258651/476837158203125000000000000000000000
    hasMovedHouse := false }

def exP24 : SimState :=
  { data := exampleData
    grossSalary1 := 789028446874892040976442860127149621378213/2980232238769531250000000000000000000
    grossSalary2 := 645568729261275306253453249194940599309447/2980232238769531250000000000000000000
    grossBonus := 0
    pillar2Wealth := 175659900120794477663842983561879882453119139/152587890625000000000000000000000000000
    pillar3Wealth := 0
    cashBuffer := 19817485276003610322199196966196111973646382944691768900981/16777216000000000000000000000000000000000000000000000
    investedWealth := 614452272021588356102543050630088602339075208159628294020001/167772160000000000000000000000000000000000000000000000
    ahvAnnualPensionSnapshot := 0
    lppAnnualPensionSnapshot := 0
    pillar3AnnualDrawdownSnapshot := 0
    retirementSnapshotTaken := false
    childrenAges := []
    maxWealth := 1005767227498408774487058692887848682054155602136895587893811/167772160000000000000000000000000000000000000000000000
    savingsDepletedAge := none
    currentRent := 95870330898477161150869439346099166191201/23841857910156250000000000000000000000
    hasMovedHouse := false }

def exP25 : SimState :=
  { data := exampleData
    grossSalary1 := 81269930028113880220573614593096411001955939/298023223876953125000000000000000000000
    grossSalary2 := 66493579113911356544105684667078881728873041/298023223876953125000000000000000000000
    grossBonus := 0
    pillar2Wealth := 9399363158669548969925016246439620120904325241/7629394531250000000000000000000000000000
    pillar3Wealth := 0
    cashBuffer := 4213530082773795321344743964869242572180598695769545211950769/3355443200000000000000000000000000000000000000000000000
    investedWealth := 527770689362193126914654505535944584227551485577745848067587921/134217728000000000000000000000000000000000000000000000000
    ahvAnnualPensionSnapshot := 0
    lppAnnualPensionSnapshot := 0
    pillar3AnnualDrawdownSnapshot := 0
    retirementSnapshotTaken := false
    childrenAges := []
    maxWealth := 861667238059489271838940243039291443652928978542780992449874681/134217728000000000000000000000000000000000000000000000000
    savingsDepletedAge := none
    currentRent := 4889386875822335218694341406651057475751251/1192092895507812500000000000000000000000
    hasMovedHouse := false }

def exP26 : SimState :=
  { data := exampleData
    grossSalary1 := 4144766431433807891249254344247916961099752889/14901161193847656250000000000000000000000
    grossSalary2 := 3391172534809479183749389918021022968172525091/14901161193847656250000000000000000000000
    grossBonus := 0
    pillar2Wealth := 502063996096362073833230568934783551129575918619/381469726562500000000000000000000000000000
    pillar3Wealth := 0
    cashBuffer := 894390291650801741306326249744349081474008071285493397196786621/671088640000000000000000000000000000000000000000000000000
    investedWealth := 56568726818385503560373308499623263673303019158679734398511698507/13421772800000000000000000000000000000000000000000000000000
    ahvAnnualPensionSnapshot := 0
    lppAnnualPensionSnapshot := 0
    pillar3AnnualDrawdownSnapshot := 0
    retirementSnapshotTaken := false
    childrenAges := []
    maxWealth := 92121339102461838340171719536436851404821892321264712613210438927/13421772800000000000000000000000000000000000000000000000000
    savingsDepletedAge := none
    currentRent := 249358730666939096153411411739203931263313801/59604644775390625000000000000000000000000
    hasMovedHouse := false }

def exP27 : SimState :=
  { data := exampleData
    grossSalary1 := 211383088003124202453711971556643765016087397339/745058059692382812500000000000000000000000
    grossSalary2 := 172949799275283438371218885819072171376798779641/745058059692382812500000000000000000000000
    grossBonus := 0
    pillar2Wealth := 26762784026129434660214550774358470280744593747297/19073486328125000000000000000000000000000000
    pillar3Wealth := 0
    cashBuffer := 189405582112716531051968210799304880353436548052042462313318622809/134217728000000000000000000000000000000000000000000000000000
    investedWealth := 24200311104069264613396973072870492567663646521441646331665427288131/5368709120000000000000000000000000000000000000000000000000000
    ahvAnnualPensionSnapshot := 0
    lppAnnualPensionSnapshot := 0
    pillar3AnnualDrawdownSnapshot := 0
    retirementSnapshotTaken := false
    childrenAges := []
    maxWealth := 39309588399045024894226199856795451414572899286506347978149269032491/5368709120000000000000000000000000000000000000000000000000000
    savingsDepletedAge := none
    currentRent := 12717295264013893903823981998699400494429003851/2980232238769531250000000000000000000000000
    hasMovedHouse := false }

def exP28 : SimState :=
  { data := exampleData
    grossSalary1 := 10780537488159334325139310549388832015820457264289/37252902984619140625000000000000000000000000
    grossSalary2 := 8820439763039455356932163176772680740216737761691/37252902984619140625000000000000000000000000
    grossBonus := 0
    pillar2Wealth := 56957420672742583252066058767407678085916863915851/38146972656250000000000000000000000000000000
    pillar3Wealth := 0
    cashBuffer := 40025437265092280218088027905546583557144507482797641940100511118661/26843545600000000000000000000000000000000000000000000000000000
    investedWealth := 645775475450589719893642797867796761571931600002595766416608146834153/134217728000000000000000000000000000000000000000000000000000000
    ahvAnnualPensionSnapshot := 0
    lppAnnualPensionSnapshot := 0
    pillar3AnnualDrawdownSnapshot := 0
    retirementSnapshotTaken := false
    childrenAges := []
    maxWealth := 523151884996520905621178025482458107371702356749134244855799152813729/67108864000000000000000000000000000000000000000000000000000000
    savingsDepletedAge := none
    currentRent := 648582058464708589095023081933669425215879196401/149011611938476562500000000000000000000000000
    hasMovedHouse := false }

def exP29 : SimState :=
  { data := exampleData
    grossSalary1 := 549807411896126050582104838018830432806843320478739/1862645149230957031250000000000000000000000000
    grossSalary2 := 449842427915012223203540322015406717751053625846241/1862645149230957031250000000000000000000000000
    grossBonus := 0
    pillar2Wealth := 75631421463530927741550403292783197918871314648700553/47683715820312500000000000000000000000000000000
    pillar3Wealth := 0
    cashBuffer := 8441853633034486848457411528329535794457782495062141524502686417659969/5368709120000000000000000000000000000000000000000000000000000000
    investedWealth := 1100855744293834087621915624120587647921064106194340380313404582027100821/214748364800000000000000000000000000000000000000000000000000000000
    ahvAnnualPensionSnapshot := 0
    lppAnnualPensionSnapshot := 0
    pillar3AnnualDrawdownSnapshot := 0
    retirementSnapshotTaken := false
    childrenAges := []
    maxWealth := 1779143531135872380966574788529380519857034438605863634411090729817787581/214748364800000000000000000000000000000000000000000000000000000000
    savingsDepletedAge := none
    currentRent := 33077684981700138043846177178617140686009839016451/7450580596923828125000000000000000000000000000
    hasMovedHouse := false }

def exP30 : SimState :=
  { data := exampleData
    grossSalary1 := 28040178006702428579687346738960352073149009344415689/93132257461547851562500000000000000000000000000
    grossSalary2 := 22941963823665623383380556422785742605303734918158291/93132257461547851562500000000000000000000000000
    grossBonus := 0
    pillar2Wealth := 4010748710035068153672545664513201920188130018039245131/2384185791015625000000000000000000000000000000000
    pillar3Wealth := 0
    cashBuffer := 1777332596598055875869183726194404658766728812376682846575507805040524301/1073741824000000000000000000000000000000000000000000000000000000000
    investedWealth := 117093056571361742526746402754306697655938146540843397892243392936602543117/21474836480000000000000000000000000000000000000000000000000000000000
    ahvAnnualPensionSnapshot := 0
    lppAnnualPensionSnapshot := 0
    pillar3AnnualDrawdownSnapshot := 0
    retirementSnapshotTaken := false
    childrenAges := []
    maxWealth := 188765321295304120939874893169205164396981581543759192948746817639522981137/21474836480000000000000000000000000000000000000000000000000000000000
    savingsDepletedAge := none
    currentRent := 1686961934066707040236155036109474174986501789839001/372529029846191406250000000000000000000000000000
    hasMovedHouse := false }

def exP31 : SimState :=
  { data := exampleData
    grossSalary1 := 1430049078341823857564054683686977955730599476565200139/4656612873077392578125000000000000000000000000000
    grossSalary2 := 1170040155006946792552408377562072872870490480826072841/4656612873077392578125000000000000000000000000000
    grossBonus := 0
    pillar2Wealth := 212379041196933008618827058815817498072204972438732865009/119209289550781250000000000000000000000000000000000
    pillar3Wealth := 0
    cashBuffer := 373586362497724595942115941522286847150023435283937395492462833315034535529/214748364800000000000000000000000000000000000000000000000000000000000
    investedWealth := 49741618191631165022798068240378245278550137447101938840120686154703314951111/8589934592000000000000000000000000000000000000000000000000000000000000
    ahvAnnualPensionSnapshot := 0
    lppAnnualPensionSnapshot := 0
    pillar3AnnualDrawdownSnapshot := 0
    retirementSnapshotTaken := false
    childrenAges := []
    maxWealth := 79988595424273120322995285408816338300568365301793550894632551858462687796271/8589934592000000000000000000000000000000000000000000000000000000000000
    savingsDepletedAge := none
    currentRent := 86035058637402059052043906841583182924311591281789051/18626451492309570312500000000000000000000000000000
    hasMovedHouse := false }

def exP32 : SimState :=
  { data := exampleData
    grossSalary1 := 72932502995433016735766788868035875742260573304825207089/232830643653869628906250000000000000000000000000000
    grossSalary2 := 59672047905354286420172827255665716516395014522129714891/232830643653869628906250000000000000000000000000000
    grossBonus := 0
    pillar2Wealth := 11230704807285954611418068725814546608955581011830675645187/5960464477539062500000000000000000000000000000000000
    pillar3Wealth := 0
    cashBuffer := 78407902956363059554297906177868623382466149090612092072186059827054398763541/42949672960000000000000000000000000000000000000000000000000000000000000
    investedWealth := 2637525510746664397835571333125137560888731177806279692510354543602014066725411/429496729600000000000000000000000000000000000000000000000000000000000000
    ahvAnnualPensionSnapshot := 0
    lppAnnualPensionSnapshot := 0
    pillar3AnnualDrawdownSnapshot := 0
    retirementSnapshotTaken := false
    childrenAges := []
    maxWealth := 4230862108073512005836175375613435093431886360950488939078317150657969298392821/429496729600000000000000000000000000000000000000000000000000000000000000
    savingsDepletedAge := none
    currentRent := 4387787990507505011654239248920742329139891155371241601/931322574615478515625000000000000000000000000000000
    hasMovedHouse := false }

def exP33 : SimState :=
  { data := exampleData
    grossSalary1 := 3719557652767083853524106232269829662855289238546085561539/11641532182693481445312500000000000000000000000000000
    grossSalary2 := 3043274443173068607428814190038951542336145740628615459441/11641532182693481445312500000000000000000000000000000
    grossBonus := 0
    pillar2Wealth := 118626800837988922989414766010628488325532825978716946784133/59604644775390625000000000000000000000000000000000000
    pillar3Wealth := 0
    cashBuffer := 16433276606402528063972904857226892161160907513100998569940602261630504818465489/8589934592000000000000000000000000000000000000000000000000000000000000000
    investedWealth := 2234683170926360118206343119634099155961967398620766849401648397425328999338951001/343597383680000000000000000000000000000000000000000000000000000000000000000
    ahvAnnualPensionSnapshot := 0
    lppAnnualPensionSnapshot := 0
    pillar3AnnualDrawdownSnapshot := 0
    retirementSnapshotTaken := false
    childrenAges := []
    maxWealth := 3575851183726616064712179773655200379952489845787574358752118493950229371236610561/343597383680000000000000000000000000000000000000000000000000000000000000000
    savingsDepletedAge := none
    currentRent := 223777187515882755594366201694957858786134448923933321651/46566128730773925781250000000000000000000000000000000
    hasMovedHouse := false }

def exP34 : SimState :=
  { data := exampleData
    grossSalary1 := 189697440291121276529729417845761312805619751165850363638489/582076609134674072265625000000000000000000000000000000
    grossSalary2 := 155206996601826498978869523691986528659143432772059388431491/582076609134674072265625000000000000000000000000000000
    grossBonus := 0
    pillar2Wealth := 31288605223623582780303133909576893316128275037374055506776443/14901161193847656250000000000000000000000000000000000000
    pillar3Wealth := 0
    cashBuffer := 3439756825764506689317049631235465293169323337611893683029145199359461514461100381/1717986918400000000000000000000000000000000000000000000000000000000000000000
    investedWealth := 236378380317769963609808253989120985000928276132397963582797977802525302110645267727/34359738368000000000000000000000000000000000000000000000000000000000000000000
    ahvAnnualPensionSnapshot := 0
    lppAnnualPensionSnapshot := 0
    pillar3AnnualDrawdownSnapshot := 0
    retirementSnapshotTaken := false
    childrenAges := []
    maxWealth := 377320128455999603100447978004741132908370649807399853283338704630661940285040011347/34359738368000000000000000000000000000000000000000000000000000000000000000000
    savingsDepletedAge := none
    currentRent := 11412636563310020535312676286442850798092856895120599404201/2328306436538696289062500000000000000000000000000000000
    hasMovedHouse := false }

def exP35 : SimState :=
  { data := exampleData
    grossSalary1 := 9674569454847185103016200310133826953086607309458368545562939/29103830456733703613281250000000000000000000000000000000
    grossSalary2 := 7915556826693151447922345708291312961616315071375028810006041/29103830456733703613281250000000000000000000000000000000
    grossBonus := 0
    pillar2Wealth := 1648696187911559500113580626808619627571529651958939768763547521/745058059692382812500000000000000000000000000000000000000
    pillar3Wealth := 0
    cashBuffer := 719133953134124684637900414243703120548353396829977347840456379220632047906363305849/343597383680000000000000000000000000000000000000000000000000000000000000000000
    investedWealth := 99898270180489385254780974153881966440200014984710098877059853030064809471717595404491/13743895347200000000000000000000000000000000000000000000000000000000000000000000
    ahvAnnualPensionSnapshot := 0
    lppAnnualPensionSnapshot := 0
    pillar3AnnualDrawdownSnapshot := 0
    retirementSnapshotTaken := false
    childrenAges := []
    maxWealth := 159076704939559462141629713686405363599649081828199214829620452248923525886390471574451/13743895347200000000000000000000000000000000000000000000000000000000000000000000
    savingsDepletedAge := none
    currentRent := 582044464728811047300946490608585390702735701651150569614251/116415321826934814453125000000000000000000000000000000000
    hasMovedHouse := false }

def exP36 : SimState :=
  { data := exampleData
    grossSalary1 := 9674569454847185103016200310133826953086607309458368545562939/29103830456733703613281250000000000000000000000000000000
    grossSalary2 := 7915556826693151447922345708291312961616315071375028810006041/29103830456733703613281250000000000000000000000000000000
    grossBonus := 0
    pillar2Wealth := 0
    pillar3Wealth := 0
    cashBuffer := 146210643936855003956708076749625430888338971608824156759524121018441420888336333377019/68719476736000000000000000000000000000000000000000000000000000000000000000000000
    investedWealth := 4095829077400064795446019940309160624048200614373114053959453974232657188340421411584131/549755813888000000000000000000000000000000000000000000000000000000000000000000000
    ahvAnnualPensionSnapshot := 123558769519859467739333147250154356957779696565881760929841/1180591620717411303424000000000000000000000000000000000
    lppAnnualPensionSnapshot := 47812189449435225503293838177449969199574359906809253294142878109/372529029846191406250000000000000000000000000000000000000000
    pillar3AnnualDrawdownSnapshot := 0
    retirementSnapshotTaken := true
    childrenAges := []
    maxWealth := 159076704939559462141629713686405363599649081828199214829620452248923525886390471574451/13743895347200000000000000000000000000000000000000000000000000000000000000000000
    savingsDepletedAge := none
    currentRent := 29684267701169363412348271021037854925839520784208679050326801/5820766091346740722656250000000000000000000000000000000000
    hasMovedHouse := false }

def exP37 : SimState :=
  { data := exampleData
    grossSalary1 := 9674569454847185103016200310133826953086607309458368545562939/29103830456733703613281250000000000000000000000000000000
    grossSalary2 := 7915556826693151447922345708291312961616315071375028810006041/29103830456733703613281250000000000000000000000000000000
    grossBonus := 0
    pillar2Wealth := 0
    pillar3Wealth := 0
    cashBuffer := 5939507999740387794952365163641135534700994794253491814259864270674541037986369460195491/2748779069440000000000000000000000000000000000000000000000000000000000000000000000
    investedWealth := 167928992173402656613286817552675585585976225189297676212337612943538944721957277874949371/21990232555520000000000000000000000000000000000000000000000000000000000000000000000
    ahvAnnualPensionSnapshot := 123558769519859467739333147250154356957779696565881760929841/1180591620717411303424000000000000000000000000000000000
    lppAnnualPensionSnapshot := 47812189449435225503293838177449969199574359906809253294142878109/372529029846191406250000000000000000000000000000000000000000
    pillar3AnnualDrawdownSnapshot := 0
    retirementSnapshotTaken := true
    childrenAges := []
    maxWealth := 159076704939559462141629713686405363599649081828199214829620452248923525886390471574451/13743895347200000000000000000000000000000000000000000000000000000000000000000000
    savingsDepletedAge := none
    currentRent := 1513897652759637534029761822072930601217815559994642631566666851/291038304567337036132812500000000000000000000000000000000000
    hasMovedHouse := false }

def exP38 : SimState :=
  { data := exampleData
    grossSalary1 := 9674569454847185103016200310133826953086607309458368545562939/29103830456733703613281250000000000000000000000000000000
    grossSalary2 := 7915556826693151447922345708291312961616315071375028810006041/29103830456733703613281250000000000000000000000000000000
    grossBonus := 0
    pillar2Wealth := 0
    pillar3Wealth := 0
    cashBuffer := 1205245675243417654980868022111420263821423447582930876591028801092356424794651473356964359/549755813888000000000000000000000000000000000000000000000000000000000000000000000000
    investedWealth := 6885088679109508921144759519659699009025025232761204724705842130685096733600248392872924211/879609302220800000000000000000000000000000000000000000000000000000000000000000000000
    ahvAnnualPensionSnapshot := 123558769519859467739333147250154356957779696565881760929841/1180591620717411303424000000000000000000000000000000000
    lppAnnualPensionSnapshot := 47812189449435225503293838177449969199574359906809253294142878109/372529029846191406250000000000000000000000000000000000000000
    pillar3AnnualDrawdownSnapshot := 0
    retirementSnapshotTaken := true
    childrenAges := []
    maxWealth := 159076704939559462141629713686405363599649081828199214829620452248923525886390471574451/13743895347200000000000000000000000000000000000000000000000000000000000000000000
    savingsDepletedAge := none
    currentRent := 77208780290741514235517852925719460662108593559726774209900009401/14551915228366851806640625000000000000000000000000000000000000
    hasMovedHouse := false }

def exP39 : SimState :=
  { data := exampleData
    grossSalary1 := 9674569454847185103016200310133826953086607309458368545562939/29103830456733703613281250000000000000000000000000000000
    grossSalary2 := 7915556826693151447922345708291312961616315071375028810006041/29103830456733703613281250000000000000000000000000000000
    grossBonus := 0
    pillar2Wealth := 0
    pillar3Wealth := 0
    cashBuffer := 244339799931617829933768177536279445941228292764016636384810147794353775039359861175526259611/109951162777600000000000000000000000000000000000000000000000000000000000000000000000000
    investedWealth := 282288635843489865766935140306047659370026034543209393712939527358088966077610184107789892651/35184372088832000000000000000000000000000000000000000000000000000000000000000000000000
    ahvAnnualPensionSnapshot := 123558769519859467739333147250154356957779696565881760929841/1180591620717411303424000000000000000000000000000000000
    lppAnnualPensionSnapshot := 47812189449435225503293838177449969199574359906809253294142878109/372529029846191406250000000000000000000000000000000000000000
    pillar3AnnualDrawdownSnapshot := 0
    retirementSnapshotTaken := true
    childrenAges := []
    maxWealth := 159076704939559462141629713686405363599649081828199214829620452248923525886390471574451/13743895347200000000000000000000000000000000000000000000000000000000000000000000
    savingsDepletedAge := none
    currentRent := 3937647794827817226011410499211692493767538271546065484704900479451/727595761418342590332031250000000000000000000000000000000000000
    hasMovedHouse := false }

def exP40 : SimState :=
  { data := exampleData
    grossSalary1 := 9674569454847185103016200310133826953086607309458368545562939/29103830456733703613281250000000000000000000000000000000
    grossSalary2 := 7915556826693151447922345708291312961616315071375028810006041/29103830456733703613281250000000000000000000000000000000
    grossBonus := 0
    pillar2Wealth := 0
    pillar3Wealth := 0
    cashBuffer := 49489712186335004766641430017468519033583775751097890367105120261695542326229952104067480607519/21990232555520000000000000000000000000000000000000000000000000000000000000000000000000000
    investedWealth := 11573834069583084496444340752547954034171067416271585142230520621681647609182017548419385598691/1407374883553280000000000000000000000000000000000000000000000000000000000000000000000000
    ahvAnnualPensionSnapshot := 123558769519859467739333147250154356957779696565881760929841/1180591620717411303424000000000000000000000000000000000
    lppAnnualPensionSnapshot := 47812189449435225503293838177449969199574359906809253294142878109/372529029846191406250000000000000000000000000000000000000000
    pillar3AnnualDrawdownSnapshot := 0
    retirementSnapshotTaken := true
    childrenAges := []
    maxWealth := 159076704939559462141629713686405363599649081828199214829620452248923525886390471574451/13743895347200000000000000000000000000000000000000000000000000000000000000000000
    savingsDepletedAge := none
    currentRent := 200820037536218678526581935459796317182144451848849339719949924452001/36379788070917129516601562500000000000000000000000000000000000000
    hasMovedHouse := false }

def exP41 : SimState :=
  { data := exampleData
    grossSalary1 := 9674569454847185103016200310133826953086607309458368545562939/29103830456733703613281250000000000000000000000000000000
    grossSalary2 := 7915556826693151447922345708291312961616315071375028810006041/29103830456733703613281250000000000000000000000000000000
    grossBonus := 0
    pillar2Wealth := 0
    pillar3Wealth := 0
    cashBuffer := 10014863380015853698478175423062112442148461914290006143177995838580907407022163239913156543543251/4398046511104000000000000000000000000000000000000000000000000000000000000000000000000000000
    investedWealth := 474527196852906464354217970854466115401013764067134990831451345488947551976462719485194809546331/56294995342131200000000000000000000000000000000000000000000000000000000000000000000000000
    ahvAnnualPensionSnapshot := 123558769519859467739333147250154356957779696565881760929841/1180591620717411303424000000000000000000000000000000000
    lppAnnualPensionSnapshot := 47812189449435225503293838177449969199574359906809253294142878109/372529029846191406250000000000000000000000000000000000000000
    pillar3AnnualDrawdownSnapshot := 0
    retirementSnapshotTaken := true
    childrenAges := []
    maxWealth := 159076704939559462141629713686405363599649081828199214829620452248923525886390471574451/13743895347200000000000000000000000000000000000000000000000000000000000000000000
    savingsDepletedAge := none
    currentRent := 10241821914347152604855678708449612176289367044291316325717446147052051/1818989403545856475830078125000000000000000000000000000000000000000
    hasMovedHouse := false }

def exP42 : SimState :=
  { data := exampleData
    grossSalary1 := 9674569454847185103016200310133826953086607309458368545562939/29103830456733703613281250000000000000000000000000000000
    grossSalary2 := 7915556826693151447922345708291312961616315071375028810006041/29103830456733703613281250000000000000000000000000000000
    grossBonus := 0
    pillar2Wealth := 0
    pillar3Wealth := 0
    cashBuffer := 2024839644252670475836229593302555514458860051685226410275185210538917975683421317653785451302745079/879609302220800000000000000000000000000000000000000000000000000000000000000000000000000000000
    investedWealth := 19455615070969165038522936805033110731441564326752534624089505165046849631034971498892987191399571/2251799813685248000000000000000000000000000000000000000000000000000000000000000000000000000
    ahvAnnualPensionSnapshot := 123558769519859467739333147250154356957779696565881760929841/1180591620717411303424000000000000000000000000000000000
    lppAnnualPensionSnapshot := 47812189449435225503293838177449969199574359906809253294142878109/372529029846191406250000000000000000000000000000000000000000
    pillar3AnnualDrawdownSnapshot := 0
    retirementSnapshotTaken := true
    childrenAges := []
    maxWealth := 159076704939559462141629713686405363599649081828199214829620452248923525886390471574451/13743895347200000000000000000000000000000000000000000000000000000000000000000000
    savingsDepletedAge := none
    currentRent := 522332917631704782847639614130930220990757719258857132611589753499654601/90949470177292823791503906250000000000000000000000000000000000000000
    hasMovedHouse := false }

def exP43 : SimState :=
  { data := exampleData
    grossSalary1 := 9674569454847185103016200310133826953086607309458368545562939/29103830456733703613281250000000000000000000000000000000
    grossSalary2 := 7915556826693151447922345708291312961616315071375028810006041/29103830456733703613281250000000000000000000000000000000
    grossBonus := 0
    pillar2Wealth := 0
    pillar3Wealth := 0
    cashBuffer := 409031480972761932076420157689173876257875542724974825376144900610045456100964023087390022451843980491/175921860444160000000000000000000000000000000000000000000000000000000000000000000000000000000000
    investedWealth := 797680217909735766579440409006357539989104137396853919587669711766920834872433831454612474847382411/90071992547409920000000000000000000000000000000000000000000000000000000000000000000000000000
    ahvAnnualPensionSnapshot := 123558769519859467739333147250154356957779696565881760929841/1180591620717411303424000000000000000000000000000000000
    lppAnnualPensionSnapshot := 47812189449435225503293838177449969199574359906809253294142878109/372529029846191406250000000000000000000000000000000000000000
    pillar3AnnualDrawdownSnapshot := 0
    retirementSnapshotTaken := true
    childrenAges := []
    maxWealth := 159076704939559462141629713686405363599649081828199214829620452248923525886390471574451/13743895347200000000000000000000000000000000000000000000000000000000000000000000
    savingsDepletedAge := none
    currentRent := 26638978799216943925229620320677441270528643682201713763191077428482384651/4547473508864641189575195312500000000000000000000000000000000000000000
    hasMovedHouse := false }

def exP44 : SimState :=
  { data := exampleData
    grossSalary1 := 9674569454847185103016200310133826953086607309458368545562939/29103830456733703613281250000000000000000000000000000000
    grossSalary2 := 7915556826693151447922345708291312961616315071375028810006041/29103830456733703613281250000000000000000000000000000000
    grossBonus := 0
    pillar2Wealth := 0
    pillar3Wealth := 0
    cashBuffer := 82555731587137386071704525047286329380557247923507540378945351356266285473686508301668944857323388817039/35184372088832000000000000000000000000000000000000000000000000000000000000000000000000000000000000
    investedWealth := 32704888934299166429757056769260659139553269633271010703094458182443754229769787089639111468742678851/3602879701896396800000000000000000000000000000000000000000000000000000000000000000000000000000
    ahvAnnualPensionSnapshot := 123558769519859467739333147250154356957779696565881760929841/1180591620717411303424000000000000000000000000000000000
    lppAnnualPensionSnapshot := 47812189449435225503293838177449969199574359906809253294142878109/372529029846191406250000000000000000000000000000000000000000
    pillar3AnnualDrawdownSnapshot := 0
    retirementSnapshotTaken := true
    childrenAges := []
    maxWealth := 159076704939559462141629713686405363599649081828199214829620452248923525886390471574451/13743895347200000000000000000000000000000000000000000000000000000000000000000000
    savingsDepletedAge := none
    currentRent := 1358587918760064140186710636354549504796960827792287401922744948852601617201/227373675443232059478759765625000000000000000000000000000000000000000000
    hasMovedHouse := false }

def exP45 : SimState :=
  { data := exampleData
    grossSalary1 := 9674569454847185103016200310133826953086607309458368545562939/29103830456733703613281250000000000000000000000000000000
    grossSalary2 := 7915556826693151447922345708291312961616315071375028810006041/29103830456733703613281250000000000000000000000000000000
    grossBonus := 0
    pillar2Wealth := 0
    pillar3Wealth := 0
    cashBuffer := 16648111480600752599468798598674242926851812174490727709630484547035645180860164560744641826109150762035331/7036874417766400000000000000000000000000000000000000000000000000000000000000000000000000000000000000
    investedWealth := 1340900446306265823620039327539687024721684054964111438826872785480193923420561270675203570218449832891/144115188075855872000000000000000000000000000000000000000000000000000000000000000000000000000000
    ahvAnnualPensionSnapshot := 123558769519859467739333147250154356957779696565881760929841/1180591620717411303424000000000000000000000000000000000
    lppAnnualPensionSnapshot := 47812189449435225503293838177449969199574359906809253294142878109/372529029846191406250000000000000000000000000000000000000000
    pillar3AnnualDrawdownSnapshot := 0
    retirementSnapshotTaken := true
    childrenAges := []
    maxWealth := 656974128683191108147328251109584187446722331366281852468791058204485912783038062843458529225455172069329523/56294995342131200000000000000000000000000000000000000000000000000000000000000000000000000000000000000
    savingsDepletedAge := none
    currentRent := 69287983856763271149522242454082024744645002217406657498059992391482682477251/11368683772161602973937988281250000000000000000000000000000000000000000000
    hasMovedHouse := false }

def exP46 : SimState :=
  { data := exampleData
    grossSalary1 := 9674569454847185103016200310133826953086607309458368545562939/29103830456733703613281250000000000000000000000000000000
    grossSalary2 := 7915556826693151447922345708291312961616315071375028810006041/29103830456733703613281250000000000000000000000000000000
    grossBonus := 0
    pillar2Wealth := 0
    pillar3Wealth := 0
    cashBuffer := 3354376427211631199818278843165321924280561127000698440227846519892647232109200677991131550385378541343879399/1407374883553280000000000000000000000000000000000000000000000000000000000000000000000000000000000000000
    investedWealth := 54976918298556898768421612429127168013589046253528568991901784204687950860243012097683346378956443148531/5764607523034234880000000000000000000000000000000000000000000000000000000000000000000000000000000
    ahvAnnualPensionSnapshot := 123558769519859467739333147250154356957779696565881760929841/1180591620717411303424000000000000000000000000000000000
    lppAnnualPensionSnapshot := 47812189449435225503293838177449969199574359906809253294142878109/372529029846191406250000000000000000000000000000000000000000
    pillar3AnnualDrawdownSnapshot := 0
    retirementSnapshotTaken := true
    childrenAges := []
    maxWealth := 134211804969561992505619692520961575420785594979928573834130944433922331880785738427216838299482331355225644567/11258999068426240000000000000000000000000000000000000000000000000000000000000000000000000000000000000000
    savingsDepletedAge := none
    currentRent := 3533687176694926828625634365158183261976895113087739532401059611965616806339801/568434188608080148696899414062500000000000000000000000000000000000000000000
    hasMovedHouse := false }

def exP47 : SimState :=
  { data := exampleData
    grossSalary1 := 9674569454847185103016200310133826953086607309458368545562939/29103830456733703613281250000000000000000000000000000000
    grossSalary2 := 7915556826693151447922345708291312961616315071375028810006041/29103830456733703613281250000000000000000000000000000000
    grossBonus := 0
    pillar2Wealth := 0
    pillar3Wealth := 0
    cashBuffer := 675287195429138608054478717016272743974706219302730251816142912995318385277288330861911445179735138541329131771/281474976710656000000000000000000000000000000000000000000000000000000000000000000000000000000000000000000
    investedWealth := 2254053650240832849505286109594213888557150896394671328667973152392205985269963496005017201537214169089771/230584300921369395200000000000000000000000000000000000000000000000000000000000000000000000000000000
    ahvAnnualPensionSnapshot := 123558769519859467739333147250154356957779696565881760929841/1180591620717411303424000000000000000000000000000000000
    lppAnnualPensionSnapshot := 47812189449435225503293838177449969199574359906809253294142878109/372529029846191406250000000000000000000000000000000000000000
    pillar3AnnualDrawdownSnapshot := 0
    retirementSnapshotTaken := true
    childrenAges := []
    maxWealth := 27414540241566242160385889400136176957238576477026054208552318620292683657120293912569287670199738228347927976043/2251799813685248000000000000000000000000000000000000000000000000000000000000000000000000000000000000000000
    savingsDepletedAge := none
    currentRent := 180218046011441268259907352623067346360821650767474716152454040210246457123329851/28421709430404007434844970703125000000000000000000000000000000000000000000000
    hasMovedHouse := false }

def exP48 : SimState :=
  { data := exampleData
    grossSalary1 := 9674569454847185103016200310133826953086607309458368545562939/29103830456733703613281250000000000000000000000000000000
    grossSalary2 := 7915556826693151447922345708291312961616315071375028810006041/29103830456733703613281250000000000000000000000000000000
    grossBonus := 0
    pillar2Wealth := 0
    pillar3Wealth := 0
    cashBuffer := 135829763207048887447147566910364121394478616530503147428895212644712275389004563173589751839795141064402578428159/56294995342131200000000000000000000000000000000000000000000000000000000000000000000000000000000000000000000
    investedWealth := 92416199659874146829716730493362769430843186752181524475386899248080445396068503336205705263025780932680611/9223372036854775808000000000000000000000000000000000000000000000000000000000000000000000000000000000
    ahvAnnualPensionSnapshot := 123558769519859467739333147250154356957779696565881760929841/1180591620717411303424000000000000000000000000000000000
    lppAnnualPensionSnapshot := 47812189449435225503293838177449969199574359906809253294142878109/372529029846191406250000000000000000000000000000000000000000
    pillar3AnnualDrawdownSnapshot := 0
    retirementSnapshotTaken := true
    childrenAges := []
    maxWealth := 5599147854673683425246942766404141947271218910377888679205912641005376200966943894851887217014541838118766086409647/450359962737049600000000000000000000000000000000000000000000000000000000000000000000000000000000000000000000
    savingsDepletedAge := none
    currentRent := 9191120346583504681255274983776434664401904189141210523775156050722569313289822401/1421085471520200371742248535156250000000000000000000000000000000000000000000000
    hasMovedHouse := false }

def exP49 : SimState :=
  { data := exampleData
    grossSalary1 := 9674569454847185103016200310133826953086607309458368545562939/29103830456733703613281250000000000000000000000000000000
    grossSalary2 := 7915556826693151447922345708291312961616315071375028810006041/29103830456733703613281250000000000000000000000000000000
    grossBonus := 0
    pillar2Wealth := 0
    pillar3Wealth := 0
    cashBuffer := 27297941271112866947208018967142815644418295596612008546847544422187877032438938203460726254819689201542270286453811/11258999068426240000000000000000000000000000000000000000000000000000000000000000000000000000000000000000000000
    investedWealth := 3789064186054840020018385950227873546664570656839442503490862869171298261238808636784433915784057018239905051/368934881474191032320000000000000000000000000000000000000000000000000000000000000000000000000000000000
    ahvAnnualPensionSnapshot := 123558769519859467739333147250154356957779696565881760929841/1180591620717411303424000000000000000000000000000000000
    lppAnnualPensionSnapshot := 47812189449435225503293838177449969199574359906809253294142878109/372529029846191406250000000000000000000000000000000000000000
    pillar3AnnualDrawdownSnapshot := 0
    retirementSnapshotTaken := true
    childrenAges := []
    maxWealth := 1143448028717447862339965409116994465259001310290338085828604298046277005819767520467635496509274559081064981383427363/90071992547409920000000000000000000000000000000000000000000000000000000000000000000000000000000000000000000000
    savingsDepletedAge := none
    currentRent := 468747137675758738744019024172598167884497113646201736712532958586851034977780942451/71054273576010018587112426757812500000000000000000000000000000000000000000000000
    hasMovedHouse := false }

def exP50 : SimState :=
  { data := exampleData
    grossSalary1 := 9674569454847185103016200310133826953086607309458368545562939/29103830456733703613281250000000000000000000000000000000
    grossSalary2 := 7915556826693151447922345708291312961616315071375028810006041/29103830456733703613281250000000000000000000000000000000
    grossBonus := 0
    pillar2Wealth := 0
    pillar3Wealth := 0
    cashBuffer := 5481395836976092995262906413064457221400015799785002693679595396997380335456246509952691684249020084117472717293999319/2251799813685248000000000000000000000000000000000000000000000000000000000000000000000000000000000000000000000000
    investedWealth := 155351631628248440820753823959342815413247396930417142643125377636023228710791154108161790547146337747836107091/14757395258967641292800000000000000000000000000000000000000000000000000000000000000000000000000000000000
    ahvAnnualPensionSnapshot := 123558769519859467739333147250154356957779696565881760929841/1180591620717411303424000000000000000000000000000000000
    lppAnnualPensionSnapshot := 47812189449435225503293838177449969199574359906809253294142878109/372529029846191406250000000000000000000000000000000000000000
    pillar3AnnualDrawdownSnapshot := 0
    retirementSnapshotTaken := true
    childrenAges := []
    maxWealth := 233489388898260453948375009067385305492449390229355635127470671423077710543502455121811219200489154994028779652170353927/18014398509481984000000000000000000000000000000000000000000000000000000000000000000000000000000000000000000000000
    savingsDepletedAge := none
    currentRent := 23906104021463695675944970232802506562109352795956288572339180887929402783866828065001/3552713678800500929355621337890625000000000000000000000000000000000000000000000000
    hasMovedHouse := false }

def exP51 : SimState :=
  { data := exampleData
    grossSalary1 := 9674569454847185103016200310133826953086607309458368545562939/29103830456733703613281250000000000000000000000000000000
    grossSalary2 := 7915556826693151447922345708291312961616315071375028810006041/29103830456733703613281250000000000000000000000000000000
    grossBonus := 0
    pillar2Wealth := 0
    pillar3Wealth := 0
    cashBuffer := 1099703269838109951281585969358263079239094576817229018508709255207203083262474279080328378478089811995548597993747345451/450359962737049600000000000000000000000000000000000000000000000000000000000000000000000000000000000000000000000000
    investedWealth := 6369416896758186073650906782333055431943143274147102848368140483076952377142437318434633412432999847661280390731/590295810358705651712000000000000000000000000000000000000000000000000000000000000000000000000000000000000
    ahvAnnualPensionSnapshot := 123558769519859467739333147250154356957779696565881760929841/1180591620717411303424000000000000000000000000000000000
    lppAnnualPensionSnapshot := 47812189449435225503293838177449969199574359906809253294142878109/372529029846191406250000000000000000000000000000000000000000
    pillar3AnnualDrawdownSnapshot := 0
    retirementSnapshotTaken := true
    childrenAges := []
    maxWealth := 47673461710207480157438398096254382416768855699908332931566625232312851577369553256291512601756602331787633356282742435483/3602879701896396800000000000000000000000000000000000000000000000000000000000000000000000000000000000000000000000000
    savingsDepletedAge := none
    currentRent := 1219211305094648479473193481872927834667576992593770717189298225284399541977208231315051/177635683940025046467781066894531250000000000000000000000000000000000000000000000000
    hasMovedHouse := false }

def exP52 : SimState :=
  { data := exampleData
    grossSalary1 := 9674569454847185103016200310133826953086607309458368545562939/29103830456733703613281250000000000000000000000000000000
    grossSalary2 := 7915556826693151447922345708291312961616315071375028810006041/29103830456733703613281250000000000000000000000000000000
    grossBonus := 0
    pillar2Wealth := 0
    pillar3Wealth := 0
    cashBuffer := 220434031874189370317011038973720121602264370030375388669735123260807993410282427302723638482244713188386667542207612768879/90071992547409920000000000000000000000000000000000000000000000000000000000000000000000000000000000000000000000000000
    investedWealth := 261146092767085629019687178075655272709668874240031216783093759806155047462839930055819969909752993754112496019971/23611832414348226068480000000000000000000000000000000000000000000000000000000000000000000000000000000000000
    ahvAnnualPensionSnapshot := 123558769519859467739333147250154356957779696565881760929841/1180591620717411303424000000000000000000000000000000000
    lppAnnualPensionSnapshot := 47812189449435225503293838177449969199574359906809253294142878109/372529029846191406250000000000000000000000000000000000000000
    pillar3AnnualDrawdownSnapshot := 0
    retirementSnapshotTaken := true
    childrenAges := []
    maxWealth := 9733018543051548074709158931774357918303615272743955769974755980170785464092560018269810650513993891850858477665877454885407/720575940379279360000000000000000000000000000000000000000000000000000000000000000000000000000000000000000000000000000
    savingsDepletedAge := none
    currentRent := 62179776559827072453132867575519319568046426622282306576654209489504376640837619797067601/8881784197001252323389053344726562500000000000000000000000000000000000000000000000000
    hasMovedHouse := false }

def exP53 : SimState :=
  { data := exampleData
    grossSalary1 := 9674569454847185103016200310133826953086607309458368545562939/29103830456733703613281250000000000000000000000000000000
    grossSalary2 := 7915556826693151447922345708291312961616315071375028810006041/29103830456733703613281250000000000000000000000000000000
    grossBonus := 0
    pillar2Wealth := 0
    pillar3Wealth := 0
    cashBuffer := 44146384598097617540904575197074912001074082221362944942712169491455325814354474810574792455412371756396304656664399635710691/18014398509481984000000000000000000000000000000000000000000000000000000000000000000000000000000000000000000000000000000
    investedWealth := 10706989803450510789807174301101866181096423843841279888106844152052356945976437132288618766299872743918612336818811/944473296573929042739200000000000000000000000000000000000000000000000000000000000000000000000000000000000000
    ahvAnnualPensionSnapshot := 123558769519859467739333147250154356957779696565881760929841/1180591620717411303424000000000000000000000000000000000
    lppAnnualPensionSnapshot := 47812189449435225503293838177449969199574359906809253294142878109/372529029846191406250000000000000000000000000000000000000000
    pillar3AnnualDrawdownSnapshot := 0
    retirementSnapshotTaken := true
    childrenAges := []
    maxWealth := 1986928065836677728322716078673441669833120221833598854968156729718928517460947421453442755887786392251642290405599590396232403/144115188075855872000000000000000000000000000000000000000000000000000000000000000000000000000000000000000000000000000000
    savingsDepletedAge := none
    currentRent := 3171168604551180695109776246351485297970367757736397635409364683964723208682718609650447651/444089209850062616169452667236328125000000000000000000000000000000000000000000000000000
    hasMovedHouse := false }

def exP54 : SimState :=
  { data := exampleData
    grossSalary1 := 9674569454847185103016200310133826953086607309458368545562939/29103830456733703613281250000000000000000000000000000000
    grossSalary2 := 7915556826693151447922345708291312961616315071375028810006041/29103830456733703613281250000000000000000000000000000000
    grossBonus := 0
    pillar2Wealth := 0
    pillar3Wealth := 0
    cashBuffer := 8833207873607191032920278855855196291146425752076015829756695824118578634898796597481614477787386142827758167960617085011152839/3602879701896396800000000000000000000000000000000000000000000000000000000000000000000000000000000000000000000000000000000
    investedWealth := 438986581941470942382094146345176513424953377597492475412380610234146634785033922423833369418294782500663105809571251/37778931862957161709568000000000000000000000000000000000000000000000000000000000000000000000000000000000000000
    ahvAnnualPensionSnapshot := 123558769519859467739333147250154356957779696565881760929841/1180591620717411303424000000000000000000000000000000000
    lppAnnualPensionSnapshot := 47812189449435225503293838177449969199574359906809253294142878109/372529029846191406250000000000000000000000000000000000000000
    pillar3AnnualDrawdownSnapshot := 0
    retirementSnapshotTaken := true
    childrenAges := []
    maxWealth := 405585845744496369802435523651694256963199556649460662200477738219342240823143255488466021152419009873718795239903237308751332087/28823037615171174400000000000000000000000000000000000000000000000000000000000000000000000000000000000000000000000000000000
    savingsDepletedAge := none
    currentRent := 161729598832110215450598588563925750196488755644556279405877598882200883642818649092172830201/22204460492503130808472633361816406250000000000000000000000000000000000000000000000000000
    hasMovedHouse := false }

def exP55 : SimState :=
  { data := exampleData
    grossSalary1 := 9674569454847185103016200310133826953086607309458368545562939/29103830456733703613281250000000000000000000000000000000
    grossSalary2 := 7915556826693151447922345708291312961616315071375028810006041/29103830456733703613281250000000000000000000000000000000
    grossBonus := 0
    pillar2Wealth := 0
    pillar3Wealth := 0
    cashBuffer := 1765797078551087807289128997540677800858423242127803016575573201461969622552209219898306986705055545564059629954187195004140413531/720575940379279360000000000000000000000000000000000000000000000000000000000000000000000000000000000000000000000000000000000
    investedWealth := 17998449859600308637665860000152237050423088481497191491907605019600012026186390819377168146150086082527187338192421291/1511157274518286468382720000000000000000000000000000000000000000000000000000000000000000000000000000000000000000
    ahvAnnualPensionSnapshot := 123558769519859467739333147250154356957779696565881760929841/1180591620717411303424000000000000000000000000000000000
    lppAnnualPensionSnapshot := 47812189449435225503293838177449969199574359906809253294142878109/372529029846191406250000000000000000000000000000000000000000
    pillar3AnnualDrawdownSnapshot := 0
    retirementSnapshotTaken := true
    childrenAges := []
    maxWealth := 82785014093314664973823057005320223166843156816757193922901540795106447387928014714452142486315028114387306668358249188908855730123/5764607523034234880000000000000000000000000000000000000000000000000000000000000000000000000000000000000000000000000000000000
    savingsDepletedAge := none
    currentRent := 8248209540437620987980528016760213260020926537872370249699757542992245065783751103700814340251/1110223024625156540423631668090820312500000000000000000000000000000000000000000000000000000
    hasMovedHouse := false }

def exP56 : SimState :=
  { data := exampleData
    grossSalary1 := 9674569454847185103016200310133826953086607309458368545562939/29103830456733703613281250000000000000000000000000000000
    grossSalary2 := 7915556826693151447922345708291312961616315071375028810006041/29103830456733703613281250000000000000000000000000000000
    grossBonus := 0
    pillar2Wealth := 0
    pillar3Wealth := 0
    cashBuffer := 352657485269863203324765040332001735996579989160542007568477780770146065236515016084095157417395229642643542067149556261527017407199/144115188075855872000000000000000000000000000000000000000000000000000000000000000000000000000000000000000000000000000000000000
    investedWealth := 737936444243612654144300260006241719067346627741384851168211805803600493073642023594463893992153529383614680865889272931/60446290980731458735308800000000000000000000000000000000000000000000000000000000000000000000000000000000000000000
    ahvAnnualPensionSnapshot := 123558769519859467739333147250154356957779696565881760929841/1180591620717411303424000000000000000000000000000000000
    lppAnnualPensionSnapshot := 47812189449435225503293838177449969199574359906809253294142878109/372529029846191406250000000000000000000000000000000000000000
    pillar3AnnualDrawdownSnapshot := 0
    retirementSnapshotTaken := true
    childrenAges := []
    maxWealth := 16896280562464627942277675452779948043767672943629963867558698058760360055431740024502227010837451505865488410425770534011741285741967/1152921504606846976000000000000000000000000000000000000000000000000000000000000000000000000000000000000000000000000000000000000
    savingsDepletedAge := none
    currentRent := 420658686562318670387006928854770876261067253431490882734687634692604498354971306288741531352801/55511151231257827021181583404541015625000000000000000000000000000000000000000000000000000000
    hasMovedHouse := false }

def exP57 : SimState :=
  { data := exampleData
    grossSalary1 := 9674569454847185103016200310133826953086607309458368545562939/29103830456733703613281250000000000000000000000000000000
    grossSalary2 := 7915556826693151447922345708291312961616315071375028810006041/29103830456733703613281250000000000000000000000000000000
    grossBonus := 0
    pillar2Wealth := 0
    pillar3Wealth := 0
    cashBuffer := 70363096531528404099677892445026080620615189692668345269741983843380642858856677618932628695133226008352234980780060015891398025677971/28823037615171174400000000000000000000000000000000000000000000000000000000000000000000000000000000000000000000000000000000000000
    investedWealth := 30255394213988118819916310660255910481761211737396778897896684037947620216019322967373019653678294704728201915501460190171/2417851639229258349412352000000000000000000000000000000000000000000000000000000000000000000000000000000000000000000
    ahvAnnualPensionSnapshot := 123558769519859467739333147250154356957779696565881760929841/1180591620717411303424000000000000000000000000000000000
    lppAnnualPensionSnapshot := 47812189449435225503293838177449969199574359906809253294142878109/372529029846191406250000000000000000000000000000000000000000
    pillar3AnnualDrawdownSnapshot := 0
    retirementSnapshotTaken := true
    childrenAges := []
    maxWealth := 3448284011714900307511731941235615146902903288762200462595165412329879407246475499596501508618215190155307594993398167330633839234720643/230584300921369395200000000000000000000000000000000000000000000000000000000000000000000000000000000000000000000000000000000000000
    savingsDepletedAge := none
    currentRent := 21453593014678252189737353371593314689314429925006035019469069369322829416103536620725818098992851/2775557561562891351059079170227050781250000000000000000000000000000000000000000000000000000000
    hasMovedHouse := false }

def exP58 : SimState :=
  { data := exampleData
    grossSalary1 := 9674569454847185103016200310133826953086607309458368545562939/29103830456733703613281250000000000000000000000000000000
    grossSalary2 := 7915556826693151447922345708291312961616315071375028810006041/29103830456733703613281250000000000000000000000000000000
    grossBonus := 0
    pillar2Wealth := 0
    pillar3Wealth := 0
    cashBuffer := 14025048663204935764389236590297607892770794759040458758201013288073785273018328666085799958639780933760711177890850103642521924533227959/5764607523034234880000000000000000000000000000000000000000000000000000000000000000000000000000000000000000000000000000000000000000
    investedWealth := 1240471162773512871616568737070492329752209681233267934813764045555852428856792241662293805800810082893856278535559867797011/96714065569170333976494080000000000000000000000000000000000000000000000000000000000000000000000000000000000000000000
    ahvAnnualPensionSnapshot := 123558769519859467739333147250154356957779696565881760929841/1180591620717411303424000000000000000000000000000000000
    lppAnnualPensionSnapshot := 47812189449435225503293838177449969199574359906809253294142878109/372529029846191406250000000000000000000000000000000000000000
    pillar3AnnualDrawdownSnapshot := 0
    retirementSnapshotTaken := true
    childrenAges := []
    maxWealth := 703703133395487466431547197065839196039452621172598678655240162329071306381149155450919697875833870798226081028294126705858219677271683047/46116860184273879040000000000000000000000000000000000000000000000000000000000000000000000000000000000000000000000000000000000000000
    savingsDepletedAge := none
    currentRent := 1094133243748590861676605021951259049155035926175307785992922537835464300221280367657016723048635401/138777878078144567552953958511352539062500000000000000000000000000000000000000000000000000000000
    hasMovedHouse := false }

def exP59 : SimState :=
  { data := exampleData
    grossSalary1 := 9674569454847185103016200310133826953086607309458368545562939/29103830456733703613281250000000000000000000000000000000
    grossSalary2 := 7915556826693151447922345708291312961616315071375028810006041/29103830456733703613281250000000000000000000000000000000
    grossBonus := 0
    pillar2Wealth := 0
    pillar3Wealth := 0
    cashBuffer := 2792658737374066086824514705111691694719061387601690899582716033926225137391695338769619073446542890238840404861135582525213201700237488011/1152921504606846976000000000000000000000000000000000000000000000000000000000000000000000000000000000000000000000000000000000000000000
    investedWealth := 50859317673714027736279318219890185519840596930563985327364325867789949583128481908154046037833213398648107419957954579677451/3868562622766813359059763200000000000000000000000000000000000000000000000000000000000000000000000000000000000000000000
    ahvAnnualPensionSnapshot := 123558769519859467739333147250154356957779696565881760929841/1180591620717411303424000000000000000000000000000000000
    lppAnnualPensionSnapshot := 47812189449435225503293838177449969199574359906809253294142878109/372529029846191406250000000000000000000000000000000000000000
    pillar3AnnualDrawdownSnapshot := 0
    retirementSnapshotTaken := true
    childrenAges := []
    maxWealth := 143599332437411364659464945031302491801696175036369903957536299756428411059519080565214778719949045904179503517948386464928904691208101075963/9223372036854775808000000000000000000000000000000000000000000000000000000000000000000000000000000000000000000000000000000000000000000
    savingsDepletedAge := none
    currentRent := 55800795431178133945506856119514211506906832234940697085639049429608679311285298750507852875480405451/6938893903907228377647697925567626953125000000000000000000000000000000000000000000000000000000000
    hasMovedHouse := false }

def exP60 : SimState :=
  { data := exampleData
    grossSalary1 := 9674569454847185103016200310133826953086607309458368545562939/29103830456733703613281250000000000000000000000000000000
    grossSalary2 := 7915556826693151447922345708291312961616315071375028810006041/29103830456733703613281250000000000000000000000000000000
    grossBonus := 0
    pillar2Wealth := 0
    pillar3Wealth := 0
    cashBuffer := 555482172287648797273101098198170103583748603489314087349397720024726127431930737983613243505627603457812784128809101918481932611417539351119/230584300921369395200000000000000000000000000000000000000000000000000000000000000000000000000000000000000000000000000000000000000000000
    investedWealth := 2085232024622275137187452047015497606313464474153123398421937360579387932908267758234315887551161749344572404218276137766775491/154742504910672534362390528000000000000000000000000000000000000000000000000000000000000000000000000000000000000000000000
    ahvAnnualPensionSnapshot := 123558769519859467739333147250154356957779696565881760929841/1180591620717411303424000000000000000000000000000000000
    lppAnnualPensionSnapshot := 47812189449435225503293838177449969199574359906809253294142878109/372529029846191406250000000000000000000000000000000000000000
    pillar3AnnualDrawdownSnapshot := 0
    retirementSnapshotTaken := true
    childrenAges := []
    maxWealth := 29301760198677051750982918400619197268678444034703569934774468914626624061334477064155760305182244898027602230237629685316931271800611555043327/1844674407370955161600000000000000000000000000000000000000000000000000000000000000000000000000000000000000000000000000000000000000000000
    savingsDepletedAge := none
    currentRent := 2845840566990084831220849662095224786852248443981975551367591520910042644875550236275900496649500678001/346944695195361418882384896278381347656250000000000000000000000000000000000000000000000000000000000
    hasMovedHouse := false }

def exO1 : SimState :=
  { data := exampleData
    grossSalary1 := 114400
    grossSalary2 := 93600
    grossBonus := 0
    pillar2Wealth := 24000
    pillar3Wealth := 0
    cashBuffer := 71070
    investedWealth := 878899/5
    ahvAnnualPensionSnapshot := 0
    lppAnnualPensionSnapshot := 0
    pillar3AnnualDrawdownSnapshot := 0
    retirementSnapshotTaken := false
    childrenAges := []
    maxWealth := 1354249/5
    savingsDepletedAge := none
    currentRent := 5025/2
    hasMovedHouse := false }

def exO2 : SimState :=
  { data := exampleData
    grossSalary1 := 118976
    grossSalary2 := 97344
    grossBonus := 0
    pillar2Wealth := 49440
    pillar3Wealth := 0
    cashBuffer := 3953997/40
    investedWealth := 102014241/400
    ahvAnnualPensionSnapshot := 0
    lppAnnualPensionSnapshot := 0
    pillar3AnnualDrawdownSnapshot := 0
    retirementSnapshotTaken := false
    childrenAges := []
    maxWealth := 161330211/400
    savingsDepletedAge := none
    currentRent := 40401/16
    hasMovedHouse := false }

def exO3 : SimState :=
  { data := exampleData
    grossSalary1 := 3093376/25
    grossSalary2 := 2530944/25
    grossBonus := 0
    pillar2Wealth := 381936/5
    pillar3Wealth := 0
    cashBuffer := 1027306083/8000
    investedWealth := 137383088591/400000
    ahvAnnualPensionSnapshot := 0
    lppAnnualPensionSnapshot := 0
    pillar3AnnualDrawdownSnapshot := 0
    retirementSnapshotTaken := false
    childrenAges := []
    maxWealth := 219303272741/400000
    savingsDepletedAge := none
    currentRent := 8120601/3200
    hasMovedHouse := false }

def exO4 : SimState :=
  { data := exampleData
    grossSalary1 := 80427776/625
    grossSalary2 := 65804544/625
    grossBonus := 0
    pillar2Wealth := 2622792/25
    pillar3Wealth := 0
    cashBuffer := 51147671643/320000
    investedWealth := 35342821294347/80000000
    ahvAnnualPensionSnapshot := 0
    lppAnnualPensionSnapshot := 0
    pillar3AnnualDrawdownSnapshot := 0
    retirementSnapshotTaken := false
    childrenAges := []
    maxWealth := 56522673605097/80000000
    savingsDepletedAge := none
    currentRent := 1632240801/640000
    hasMovedHouse := false }

def exO5 : SimState :=
  { data := exampleData
    grossSalary1 := 2091122176/15625
    grossSalary2 := 1710918144/15625
    grossBonus := 0
    pillar2Wealth := 422145372/3125
    pillar3Wealth := 0
    cashBuffer := 61823723314359/320000000
    investedWealth := 8812949837759627/16000000000
    ahvAnnualPensionSnapshot := 0
    lppAnnualPensionSnapshot := 0
    pillar3AnnualDrawdownSnapshot := 0
    retirementSnapshotTaken := false
    childrenAges := []
    maxWealth := 14065520308117577/16000000000
    savingsDepletedAge := none
    currentRent := 328080401001/128000000
    hasMovedHouse := false }

def exO6 : SimState :=
  { data := exampleData
    grossSalary1 := 54107786304/390625
    grossSalary2 := 44270006976/390625
    grossBonus := 0
    pillar2Wealth := 13045931178/78125
    pillar3Wealth := 0
    cashBuffer := 14629378634862687/64000000000
    investedWealth := 2148405100141247283/3200000000000
    ahvAnnualPensionSnapshot := 0
    lppAnnualPensionSnapshot := 0
    pillar3AnnualDrawdownSnapshot := 0
    retirementSnapshotTaken := false
    childrenAges := []
    maxWealth := 3414235372935261633/3200000000000
    savingsDepletedAge := none
    currentRent := 65944160601201/25600000000
    hasMovedHouse := false }

def exO7 : SimState :=
  { data := exampleData
    grossSalary1 := 1400038970616/9765625
    grossSalary2 := 1145486430504/9765625
    grossBonus := 0
    pillar2Wealth := 391697921007/1953125
    pillar3Wealth := 0
    cashBuffer := 3402145880626449783/12800000000000
    investedWealth := 514360623565144922027/640000000000000
    ahvAnnualPensionSnapshot := 0
    lppAnnualPensionSnapshot := 0
    pillar3AnnualDrawdownSnapshot := 0
    retirementSnapshotTaken := false
    childrenAges := []
    maxWealth := 812819492352041171177/640000000000000
    savingsDepletedAge := none
    currentRent := 13254776280841401/5120000000000
    hasMovedHouse := false }

def exO8 : SimState :=
  { data := exampleData
    grossSalary1 := 36226008364689/244140625
    grossSalary2 := 29639461389291/244140625
    grossBonus := 0
    pillar2Wealth := 23031224452701/97656250
    pillar3Wealth := 0
    cashBuffer := 6244213624641925659/20480000000000
    investedWealth := 121423179695906299648899/128000000000000000
    ahvAnnualPensionSnapshot := 0
    lppAnnualPensionSnapshot := 0
    pillar3AnnualDrawdownSnapshot := 0
    retirementSnapshotTaken := false
    childrenAges := []
    maxWealth := 190637001364562589737649/128000000000000000
    savingsDepletedAge := none
    currentRent := 2664210032449121601/1024000000000000
    hasMovedHouse := false }

def exO9 : SimState :=
  { data := exampleData
    grossSalary1 := 7498783731490623/48828125000
    grossSalary2 := 6135368507583237/48828125000
    grossBonus := 0
    pillar2Wealth := 1332669574497303/4882812500
    pillar3Wealth := 0
    cashBuffer := 177129753177819140723559/512000000000000000
    investedWealth := 28341733115671149099305051/25600000000000000000
    ahvAnnualPensionSnapshot := 0
    lppAnnualPensionSnapshot := 0
    pillar3AnnualDrawdownSnapshot := 0
    retirementSnapshotTaken := false
    childrenAges := []
    maxWealth := 44185247433302526088123001/25600000000000000000
    savingsDepletedAge := none
    currentRent := 535506216522273441801/204800000000000000
    hasMovedHouse := false }

def exO10 : SimState :=
  { data := exampleData
    grossSalary1 := 1552248232418558961/9765625000000
    grossSalary2 := 1270021281069730059/9765625000000
    grossBonus := 0
    pillar2Wealth := 76146639642806769/244140625000
    pillar3Wealth := 0
    cashBuffer := 39839313513892103891900127/102400000000000000000
    investedWealth := 6554233296475547043121627251/5120000000000000000000
    ahvAnnualPensionSnapshot := 0
    lppAnnualPensionSnapshot := 0
    pillar3AnnualDrawdownSnapshot := 0
    retirementSnapshotTaken := false
    childrenAges := []
    maxWealth := 10143109748372067249935513601/5120000000000000000000
    savingsDepletedAge := none
    currentRent := 107636749520976961802001/40960000000000000000
    hasMovedHouse := false }

def exO11 : SimState :=
  { data := exampleData
    grossSalary1 := 321315384110641704927/1953125000000000
    grossSalary2 := 262894405181434122213/1953125000000000
    grossBonus := 0
    pillar2Wealth := 1076704762201597143/3051757812500
    pillar3Wealth := 0
    cashBuffer := 8893784415821100793634947863/20480000000000000000000
    investedWealth := 1504003110699094068361643721803/1024000000000000000000000
    ahvAnnualPensionSnapshot := 0
    lppAnnualPensionSnapshot := 0
    pillar3AnnualDrawdownSnapshot := 0
    retirementSnapshotTaken := false
    childrenAges := []
    maxWealth := 2309974498763845724305268874953/1024000000000000000000000
    savingsDepletedAge := none
    currentRent := 21634986653716369322202201/8192000000000000000000
    hasMovedHouse := false }

def exO12 : SimState :=
  { data := exampleData
    grossSalary1 := 66512284510902832919889/390625000000000000
    grossSalary2 := 54419141872556863298091/390625000000000000
    grossBonus := 0
    pillar2Wealth := 966222554350314642759/2441406250000000
    pillar3Wealth := 0
    cashBuffer := 394582539203956726023476569347/819200000000000000000000
    investedWealth := 342859261658012625121280437256931/204800000000000000000000000
    ahvAnnualPensionSnapshot := 0
    lppAnnualPensionSnapshot := 0
    pillar3AnnualDrawdownSnapshot := 0
    retirementSnapshotTaken := false
    childrenAges := []
    maxWealth := 522557518951036648774802474313681/204800000000000000000000000
    savingsDepletedAge := none
    currentRent := 4348632317396990233762642401/1638400000000000000000000
    hasMovedHouse := false }

def exO13 : SimState :=
  { data := exampleData
    grossSalary1 := 13768042893756886414417023/78125000000000000000
    grossSalary2 := 11264762367619270702704837/78125000000000000000
    grossBonus := 0
    pillar2Wealth := 215249115044983141555533/488281250000000000
    pillar3Wealth := 0
    cashBuffer := 435274607863436262980334691681479/819200000000000000000000000
    investedWealth := 3108736638495505837175049619753331/1638400000000000000000000000
    ahvAnnualPensionSnapshot := 0
    lppAnnualPensionSnapshot := 0
    pillar3AnnualDrawdownSnapshot := 0
    retirementSnapshotTaken := false
    childrenAges := []
    maxWealth := 4701542033606084739582869630341889/1638400000000000000000000000
    savingsDepletedAge := none
    currentRent := 874075095796795036986291122601/327680000000000000000000000
    hasMovedHouse := false }

def exO14 : SimState :=
  { data := exampleData
    grossSalary1 := 2849984879007675487784323761/15625000000000000000000
    grossSalary2 := 2331805810097189035459901259/15625000000000000000000
    grossBonus := 0
    pillar2Wealth := 47665740258382984444897011/97656250000000000000
    pillar3Wealth := 0
    cashBuffer := 95579311669526712781231382823727167/163840000000000000000000000000
    investedWealth := 17530487092668660846593099286305000019/8192000000000000000000000000000
    ahvAnnualPensionSnapshot := 0
    lppAnnualPensionSnapshot := 0
    pillar3AnnualDrawdownSnapshot := 0
    retirementSnapshotTaken := false
    childrenAges := []
    maxWealth := 26307944776718932189438054683998238369/8192000000000000000000000000000
    savingsDepletedAge := none
    currentRent := 175689094255155802434244515642801/65536000000000000000000000000
    hasMovedHouse := false }

def exO15 : SimState :=
  { data := exampleData
    grossSalary1 := 589946869954588825971355018527/3125000000000000000000000
    grossSalary2 := 482683802690118130340199560613/3125000000000000000000000
    grossBonus := 0
    pillar2Wealth := 10501079616075858505245623997/19531250000000000000000
    pillar3Wealth := 0
    cashBuffer := 20900792524530031386732471573090337143/32768000000000000000000000000000
    investedWealth := 3937199630553009284847863164728646433579/1638400000000000000000000000000000
    ahvAnnualPensionSnapshot := 0
    lppAnnualPensionSnapshot := 0
    pillar3AnnualDrawdownSnapshot := 0
    retirementSnapshotTaken := false
    childrenAges := []
    maxWealth := 5863133661540019606824201577645425050729/1638400000000000000000000000000000
    savingsDepletedAge := none
    currentRent := 35313507945286316289283147644203001/13107200000000000000000000000000
    hasMovedHouse := false }

def exO16 : SimState :=
  { data := exampleData
    grossSalary1 := 24187821668138141864825555759607/125000000000000000000000000
    grossSalary2 := 19790035910294843343948181985133/125000000000000000000000000
    grossBonus := 0
    pillar2Wealth := 2303114842576181178516840482259/3906250000000000000000000
    pillar3Wealth := 0
    cashBuffer := 910749323630233808483910108405966633699/1310720000000000000000000000000000
    investedWealth := 880886718348556430335114944379061407085763/327680000000000000000000000000000000
    ahvAnnualPensionSnapshot := 0
    lppAnnualPensionSnapshot := 0
    pillar3AnnualDrawdownSnapshot := 0
    retirementSnapshotTaken := false
    childrenAges := []
    maxWealth := 1301773325189647822891650433522570120230513/327680000000000000000000000000000000
    savingsDepletedAge := none
    currentRent := 7098015097002549574145912676484803201/2621440000000000000000000000000000
    hasMovedHouse := false }

def exO17 : SimState :=
  { data := exampleData
    grossSalary1 := 991700688393663816457847786143887/5000000000000000000000000000
    grossSalary2 := 811391472322088577101875461390453/5000000000000000000000000000
    grossBonus := 0
    pillar2Wealth := 502818821069365699324015761689391/781250000000000000000000000
    pillar3Wealth := 0
    cashBuffer := 987857132273029241097790347451976008101159/1310720000000000000000000000000000000
    investedWealth := 196283649958719665064294224437050844269915419/65536000000000000000000000000000000000
    ahvAnnualPensionSnapshot := 0
    lppAnnualPensionSnapshot := 0
    pillar3AnnualDrawdownSnapshot := 0
    retirementSnapshotTaken := false
    childrenAges := []
    maxWealth := 287856006422101623721934073915986833252253369/65536000000000000000000000000000000000
    savingsDepletedAge := none
    currentRent := 1426701034497512464403328447973445443401/524288000000000000000000000000000000
    hasMovedHouse := false }

def exO18 : SimState :=
  { data := exampleData
    grossSalary1 := 40659728224140216474771759231899367/200000000000000000000000000000
    grossSalary2 := 33267050365205631661176893917008573/200000000000000000000000000000
    grossBonus := 0
    pillar2Wealth := 109336635100834674137948177562889539/156250000000000000000000000000
    pillar3Wealth := 0
    cashBuffer := 213483765274197907099947399152143444259943327/262144000000000000000000000000000000000
    investedWealth := 43579959691938120275171856015490978324999727667/13107200000000000000000000000000000000000
    ahvAnnualPensionSnapshot := 0
    lppAnnualPensionSnapshot := 0
    pillar3AnnualDrawdownSnapshot := 0
    retirementSnapshotTaken := false
    childrenAges := []
    maxWealth := 63425969674647441171679077831992907437714014017/13107200000000000000000000000000000000000
    savingsDepletedAge := none
    currentRent := 286766907934000005345069018042662534123601/104857600000000000000000000000000000000
    hasMovedHouse := false }

def exO19 : SimState :=
  { data := exampleData
    grossSalary1 := 1667048857189748875465642128507874047/8000000000000000000000000000000
    grossSalary2 := 1363949064973430898108252650597351493/8000000000000000000000000000000
    grossBonus := 0
    pillar2Wealth := 23690800659120508176690465469371489831/31250000000000000000000000000000
    pillar3Wealth := 0
    cashBuffer := 45979989237278148609318437784040848368321890263/52428800000000000000000000000000000000000
    investedWealth := 1928995665850490194816689588442824893017296881359/524288000000000000000000000000000000000000
    ahvAnnualPensionSnapshot := 0
    lppAnnualPensionSnapshot := 0
    pillar3AnnualDrawdownSnapshot := 0
    retirementSnapshotTaken := false
    childrenAges := []
    maxWealth := 2786261238094278816619976070603420245837006279989/524288000000000000000000000000000000000000
    savingsDepletedAge := none
    currentRent := 57640148494734001074358872626575169358843801/20971520000000000000000000000000000000000
    hasMovedHouse := false }

def exO20 : SimState :=
  { data := exampleData
    grossSalary1 := 68349003144779703894091327268822835927/320000000000000000000000000000000
    grossSalary2 := 55921911663910666822438358674491411213/320000000000000000000000000000000
    grossBonus := 0
    pillar2Wealth := 5117079389663381771817407591292898819899/6250000000000000000000000000000000
    pillar3Wealth := 0
    cashBuffer := 1974666939916026757136691776030134866650063557827/2097152000000000000000000000000000000000000
    investedWealth := 425699879302849988479613870147216825900092514998407/104857600000000000000000000000000000000000000
    ahvAnnualPensionSnapshot := 0
    lppAnnualPensionSnapshot := 0
    pillar3AnnualDrawdownSnapshot := 0
    retirementSnapshotTaken := false
    childrenAges := []
    maxWealth := 610283572508182049612691818667884252000186314073757/104857600000000000000000000000000000000000000
    savingsDepletedAge := none
    currentRent := 11585669847441534215946133397941609041127604001/4194304000000000000000000000000000000000000
    hasMovedHouse := false }

def exO21 : SimState :=
  { data := exampleData
    grossSalary1 := 2802309128935967859657744418021736273007/12800000000000000000000000000000000
    grossSalary2 := 2292798378220337339719972705654147859733/12800000000000000000000000000000000
    grossBonus := 0
    pillar2Wealth := 1102136186807903492724124438909679912606271/1250000000000000000000000000000000000
    pillar3Wealth := 0
    cashBuffer := 2114382153370573033377187878852040180824085270643079/2097152000000000000000000000000000000000000000
    investedWealth := 468519986791566543950132053738358792640285417716566523/104857600000000000000000000000000000000000000000
    ahvAnnualPensionSnapshot := 0
    lppAnnualPensionSnapshot := 0
    pillar3AnnualDrawdownSnapshot := 0
    retirementSnapshotTaken := false
    childrenAges := []
    maxWealth := 666692978797557932641926768293293323604772338856400473/104857600000000000000000000000000000000000000000
    savingsDepletedAge := none
    currentRent := 2328719639335748377405172812986263417266648404201/838860800000000000000000000000000000000000000
    hasMovedHouse := false }

def exO22 : SimState :=
  { data := exampleData
    grossSalary1 := 114894674286374682245967521138891187193287/512000000000000000000000000000000000
    grossSalary2 := 94004733507033830928518880931820062249053/512000000000000000000000000000000000
    grossBonus := 0
    pillar2Wealth := 236777440328709902826762910046190055607788659/250000000000000000000000000000000000000
    pillar3Wealth := 0
    cashBuffer := 451691586419524719927310985058508055182264646161101567/419430400000000000000000000000000000000000000000
    investedWealth := 20577942292065564931248601401565419944979638820785901879/4194304000000000000000000000000000000000000000000
    ahvAnnualPensionSnapshot := 0
    lppAnnualPensionSnapshot := 0
    pillar3AnnualDrawdownSnapshot := 0
    retirementSnapshotTaken := false
    childrenAges := []
    maxWealth := 29067324416582689171585323174784001036786166896790261549/4194304000000000000000000000000000000000000000000
    savingsDepletedAge := none
    currentRent := 468072647506485423858439735410238946870596329244401/167772160000000000000000000000000000000000000000
    hasMovedHouse := false }

def exO23 : SimState :=
  { data := exampleData
    grossSalary1 := 4710681645741361972084668366694538674924767/20480000000000000000000000000000000000
    grossSalary2 := 3854194073788387068069274118204622552211173/20480000000000000000000000000000000000
    grossBonus := 0
    pillar2Wealth := 50750637762135826190423146173688918798391308311/50000000000000000000000000000000000000000
    pillar3Wealth := 0
    cashBuffer := 96280394849227082692914144387881952211124838462385637943/83886080000000000000000000000000000000000000000000
    investedWealth := 22547455755167669980611741644513647333612843258163501126891/4194304000000000000000000000000000000000000000000000
    ahvAnnualPensionSnapshot := 0
    lppAnnualPensionSnapshot := 0
    pillar3AnnualDrawdownSnapshot := 0
    retirementSnapshotTaken := false
    childrenAges := []
    maxWealth := 31618747556994571001933380137685507481604442341563993904041/4194304000000000000000000000000000000000000000000000
    savingsDepletedAge := none
    currentRent := 94082602148803570195546386817458028320989862178124601/33554432000000000000000000000000000000000000000000
    hasMovedHouse := false }

def exO24 : SimState :=
  { data := exampleData
    grossSalary1 := 193137947475395840855471403034476085671915447/819200000000000000000000000000000000000
    grossSalary2 := 158021957025323869790840238846389524640658093/819200000000000000000000000000000000000
    grossBonus := 0
    pillar2Wealth := 10854978290166904775667841886907099663024323379819/10000000000000000000000000000000000000000000
    pillar3Wealth := 0
    cashBuffer := 4096250417779756793856086935446218548840368524324265253539/3355443200000000000000000000000000000000000000000000
    investedWealth := 4931573695818479141485959812527524752737062970301494808882307/838860800000000000000000000000000000000000000000000000
    ahvAnnualPensionSnapshot := 0
    lppAnnualPensionSnapshot := 0
    pillar3AnnualDrawdownSnapshot := 0
    retirementSnapshotTaken := false
    childrenAges := []
    maxWealth := 6866217877510622527314036184341519304847586534367928141787057/838860800000000000000000000000000000000000000000000000
    savingsDepletedAge := none
    currentRent := 18910603031909517609304823750309063692518962297803044801/6710886400000000000000000000000000000000000000000000
    hasMovedHouse := false }

def exO25 : SimState :=
  { data := exampleData
    grossSalary1 := 7918655846491229475074327524413519512548533327/32768000000000000000000000000000000000000
    grossSalary2 := 6478900238038278661424449792701970510266981813/32768000000000000000000000000000000000000
    grossBonus := 0
    pillar2Wealth := 2317294449465743801964651358761333178028223748779951/2000000000000000000000000000000000000000000000
    pillar3Wealth := 0
    cashBuffer := 4348831058280810217345900315388129029212773303629769614119399/3355443200000000000000000000000000000000000000000000000
    investedWealth := 1076729429388814518033263734908651510319644740744697605408158427/167772160000000000000000000000000000000000000000000000000
    ahvAnnualPensionSnapshot := 0
    lppAnnualPensionSnapshot := 0
    pillar3AnnualDrawdownSnapshot := 0
    retirementSnapshotTaken := false
    childrenAges := []
    maxWealth := 1488559729874294370731669651731219857659013225574240958096208377/167772160000000000000000000000000000000000000000000000000
    savingsDepletedAge := none
    currentRent := 3801031209413813039470269573812121802196311421858412005001/1342177280000000000000000000000000000000000000000000000
    hasMovedHouse := false }

def exO26 : SimState :=
  { data := exampleData
    grossSalary1 := 1607487136837719583440088487455944461047352265381/6553600000000000000000000000000000000000000
    grossSalary2 := 1315216748321770568269163307918500013584197308039/6553600000000000000000000000000000000000000
    grossBonus := 0
    pillar2Wealth := 493818237736709257285113258022930361905866309506969379/400000000000000000000000000000000000000000000000
    pillar3Wealth := 0
    cashBuffer := 921831432698381692781712317576627137902968084404790209369165407/671088640000000000000000000000000000000000000000000000000
    investedWealth := 234705371365983174454701733940343951585902478432825313115963239923/33554432000000000000000000000000000000000000000000000000000
    ahvAnnualPensionSnapshot := 0
    lppAnnualPensionSnapshot := 0
    pillar3AnnualDrawdownSnapshot := 0
    retirementSnapshotTaken := false
    childrenAges := []
    maxWealth := 322221419197142870787146943390747486654315336361671217468765830273/33554432000000000000000000000000000000000000000000000000000
    savingsDepletedAge := none
    currentRent := 764007273092176420933524184336236482241458595793540813005201/268435456000000000000000000000000000000000000000000000000
    hasMovedHouse := false }

def exO27 : SimState :=
  { data := exampleData
    grossSalary1 := 326319888778057075438337962953556725592612509872343/1310720000000000000000000000000000000000000000
    grossSalary2 := 266988999909319425358640151507455502757592053531917/1310720000000000000000000000000000000000000000
    grossBonus := 0
    pillar2Wealth := 105020225017565285388080953946308327727182786084861206441/80000000000000000000000000000000000000000000000000
    pillar3Wealth := 0
    cashBuffer := 194959334951637549757695086462295081690283440840960838423297820823/134217728000000000000000000000000000000000000000000000000000
    investedWealth := 51067545716534302769630708633128164961109633657479312220534679638987/6710886400000000000000000000000000000000000000000000000000000
    ahvAnnualPensionSnapshot := 0
    lppAnnualPensionSnapshot := 0
    pillar3AnnualDrawdownSnapshot := 0
    retirementSnapshotTaken := false
    childrenAges := []
    maxWealth := 69625247461557663192802852905459255130012479067664908094105811960137/6710886400000000000000000000000000000000000000000000000000000
    savingsDepletedAge := none
    currentRent := 153565461891527460607638361051583532930533177754501703414045401/53687091200000000000000000000000000000000000000000000000000
    hasMovedHouse := false }

def exO28 : SimState :=
  { data := exampleData
    grossSalary1 := 66242937421945586313982606479572015295300339504085629/262144000000000000000000000000000000000000000000
    grossSalary2 := 54198766981591843347803950756013467059791186866979151/262144000000000000000000000000000000000000000000
    grossBonus := 0
    pillar2Wealth := 22293230720996467390257838014901897237717658327235895098339/16000000000000000000000000000000000000000000000000000
    pillar3Wealth := 0
    cashBuffer := 8229410278196725177840311030912071915551014734872843047476433587331/5368709120000000000000000000000000000000000000000000000000000
    investedWealth := 11092844162786411858119310745836370419064609342982224071440047416609379/1342177280000000000000000000000000000000000000000000000000000000
    ahvAnnualPensionSnapshot := 0
    lppAnnualPensionSnapshot := 0
    pillar3AnnualDrawdownSnapshot := 0
    retirementSnapshotTaken := false
    childrenAges := []
    maxWealth := 15020288468055560495795948723909490141787325530551611308400029034562129/1342177280000000000000000000000000000000000000000000000000000000
    savingsDepletedAge := none
    currentRent := 30866657840197019582135310571368290119037168728654842386223125601/10737418240000000000000000000000000000000000000000000000000000
    hasMovedHouse := false }

def exO29 : SimState :=
  { data := exampleData
    grossSalary1 := 13447316296654954021738469115353119104945968919329382687/52428800000000000000000000000000000000000000000000
    grossSalary2 := 11002349697263144199604202003470733813137610933996767653/52428800000000000000000000000000000000000000000000
    grossBonus := 0
    pillar2Wealth := 4724247345018148629343731607240551707912993401838737023889281/3200000000000000000000000000000000000000000000000000000
    pillar3Wealth := 0
    cashBuffer := 8667878653103256658576682271009179362703327193971448049991075557416519/5368709120000000000000000000000000000000000000000000000000000000
    investedWealth := 2405906884874160373705691788142652816472866488154092321789600775955097531/268435456000000000000000000000000000000000000000000000000000000000
    ahvAnnualPensionSnapshot := 0
    lppAnnualPensionSnapshot := 0
    pillar3AnnualDrawdownSnapshot := 0
    retirementSnapshotTaken := false
    childrenAges := []
    maxWealth := 3235599408253303224007544518796621284422158845398781165374092690934403481/268435456000000000000000000000000000000000000000000000000000000000
    savingsDepletedAge := none
    currentRent := 6204198225879600936009197424845026313926470914459623319630848245801/2147483648000000000000000000000000000000000000000000000000000000
    hasMovedHouse := false }

def exO30 : SimState :=
  { data := exampleData
    grossSalary1 := 2729805208220955666412909230416683178304031690623864685461/10485760000000000000000000000000000000000000000000000
    grossSalary2 := 2233476988544418272519653006704558964066935019601343833559/10485760000000000000000000000000000000000000000000000
    grossBonus := 0
    pillar2Wealth := 999561398804480784577541176273787176712224647900873080910522699/640000000000000000000000000000000000000000000000000000000
    pillar3Wealth := 0
    cashBuffer := 1822779375324650767727424300432246423121057845994096538282539067074790847/1073741824000000000000000000000000000000000000000000000000000000000
    investedWealth := 521083776988383262812434856070069835180689556512377029017223427010627908051/53687091200000000000000000000000000000000000000000000000000000000000
    ahvAnnualPensionSnapshot := 0
    lppAnnualPensionSnapshot := 0
    pillar3AnnualDrawdownSnapshot := 0
    retirementSnapshotTaken := false
    childrenAges := []
    maxWealth := 696072033219640380652340456407879169345398262603866327266456960334497370401/53687091200000000000000000000000000000000000000000000000000000000000
    savingsDepletedAge := none
    currentRent := 1247043843401799788137848682393850289099220653806384287245800497406001/429496729600000000000000000000000000000000000000000000000000000000
    hasMovedHouse := false }

def exO31 : SimState :=
  { data := exampleData
    grossSalary1 := 554150457268854000281820573774586685195718433196644531148583/2097152000000000000000000000000000000000000000000000000
    grossSalary2 := 453395828674516909321489560361025469705587808979072798212477/2097152000000000000000000000000000000000000000000000000
    grossBonus := 0
    pillar2Wealth := 211180958261532108284676645424385653593782548938709566297279833721/128000000000000000000000000000000000000000000000000000000000
    pillar3Wealth := 0
    cashBuffer := 382703405313064629398487950572789922420869118740467256605323853448915206903/214748364800000000000000000000000000000000000000000000000000000000000
    investedWealth := 112714005295556548563390905010332263932492836273941059838321616810452470144683/10737418240000000000000000000000000000000000000000000000000000000000000
    ahvAnnualPensionSnapshot := 0
    lppAnnualPensionSnapshot := 0
    pillar3AnnualDrawdownSnapshot := 0
    retirementSnapshotTaken := false
    childrenAges := []
    maxWealth := 149564318320413323391452350391173408941756622613840928443766729396804734169833/10737418240000000000000000000000000000000000000000000000000000000000000
    savingsDepletedAge := none
    currentRent := 250655812523761757415707585161163908108943351415083241736405899978606201/85899345920000000000000000000000000000000000000000000000000000000000
    hasMovedHouse := false }

def exO32 : SimState :=
  { data := exampleData
    grossSalary1 := 112492542825577362057209576476241097094730841938918839823162349/419430400000000000000000000000000000000000000000000000000
    grossSalary2 := 92039353220926932592262380753288170350234325222751778037132831/419430400000000000000000000000000000000000000000000000000
    grossBonus := 0
    pillar2Wealth := 44556813365152409820938259495874886450662850299183837456326326313459/25600000000000000000000000000000000000000000000000000000000000
    pillar3Wealth := 0
    cashBuffer := 16046504742317201298931196211545088933083071295370763845838221671228434082403/8589934592000000000000000000000000000000000000000000000000000000000000
    investedWealth := 24351926996914325931488726208828815862768684170865536850362473188555669294224451/2147483648000000000000000000000000000000000000000000000000000000000000000
    ahvAnnualPensionSnapshot := 0
    lppAnnualPensionSnapshot := 0
    pillar3AnnualDrawdownSnapshot := 0
    retirementSnapshotTaken := false
    childrenAges := []
    maxWealth := 32101249592987870518653537772846808490830671907933587135390415321599704565545201/2147483648000000000000000000000000000000000000000000000000000000000000000
    savingsDepletedAge := none
    currentRent := 50381818317276113240557224617393945529897613634431731589017585895699846401/17179869184000000000000000000000000000000000000000000000000000000000000
    hasMovedHouse := false }

def exO33 : SimState :=
  { data := exampleData
    grossSalary1 := 22835986193592204497613544024676942710230360913600524484101956847/83886080000000000000000000000000000000000000000000000000000
    grossSalary2 := 18683988703848167316229263292917498581097568020218610941537964693/83886080000000000000000000000000000000000000000000000000000
    grossBonus := 0
    pillar2Wealth := 9389197196090463128836842374506420098794057155117981285221862335523761/5120000000000000000000000000000000000000000000000000000000000000
    pillar3Wealth := 0
    cashBuffer := 16797538877991671203449466332308493212045806613033571582535886633165239445366439/8589934592000000000000000000000000000000000000000000000000000000000000000
    investedWealth := 1051097282291515975133540538907889991747737195701558873809691109919997364052412447/85899345920000000000000000000000000000000000000000000000000000000000000000
    ahvAnnualPensionSnapshot := 0
    lppAnnualPensionSnapshot := 0
    pillar3AnnualDrawdownSnapshot := 0
    retirementSnapshotTaken := false
    childrenAges := []
    maxWealth := 1376597260496836742620566735506022027252404498239654467141174768576996369935452837/85899345920000000000000000000000000000000000000000000000000000000000000000
    savingsDepletedAge := none
    currentRent := 10126745481772498761352002148096183051509420340520778049392534765035669126601/3435973836800000000000000000000000000000000000000000000000000000000000000
    hasMovedHouse := false }

def exO34 : SimState :=
  { data := exampleData
    grossSalary1 := 4635705197299217513015549437009419370176763265460906470272697239941/16777216000000000000000000000000000000000000000000000000000000
    grossSalary2 := 3792849706881177965194540448462252211962806308104378021132206832679/16777216000000000000000000000000000000000000000000000000000000
    grossBonus := 0
    pillar2Wealth := 1976216503731126897931899644180942182514331305543217306343912145265206619/1024000000000000000000000000000000000000000000000000000000000000000
    pillar3Wealth := 0
    cashBuffer := 3512287994009974697352770556325309390106059297027558383657934431554185493414041887/1717986918400000000000000000000000000000000000000000000000000000000000000000
    investedWealth := 1133056939572579803448862129422163253717784476947030122542582871823777889632363782579/85899345920000000000000000000000000000000000000000000000000000000000000000000
    ahvAnnualPensionSnapshot := 0
    lppAnnualPensionSnapshot := 0
    pillar3AnnualDrawdownSnapshot := 0
    retirementSnapshotTaken := false
    childrenAges := []
    maxWealth := 1474448395002388147766567825342162773620859238841710812142829515132175907961029396929/85899345920000000000000000000000000000000000000000000000000000000000000000000
    savingsDepletedAge := none
    currentRent := 2035475841836272251031752431767332793353393488444676387927899487772169494446801/687194767360000000000000000000000000000000000000000000000000000000000000000
    hasMovedHouse := false }

def exO35 : SimState :=
  { data := exampleData
    grossSalary1 := 941048155051741155142156535712912132145882942888564013465357539708023/3355443200000000000000000000000000000000000000000000000000000000
    grossSalary2 := 769948490496879126934491711037837199028449680545188738289837987033837/3355443200000000000000000000000000000000000000000000000000000000
    grossBonus := 0
    pillar2Wealth := 415494682734070388366891838768583599152073346448343602698364480084229103401/204800000000000000000000000000000000000000000000000000000000000000000
    pillar3Wealth := 0
    cashBuffer := 733536499209823339609365524751761409244014687440306300502614175309091417085090724183/343597383680000000000000000000000000000000000000000000000000000000000000000000
    investedWealth := 244051495206488363814991782905353785149390258846406654452044610232758363311143372125579/17179869184000000000000000000000000000000000000000000000000000000000000000000000
    ahvAnnualPensionSnapshot := 0
    lppAnnualPensionSnapshot := 0
    pillar3AnnualDrawdownSnapshot := 0
    retirementSnapshotTaken := false
    childrenAges := []
    maxWealth := 315582540362384378119636217281230360896749750124455436800618537643716983471622466414729/17179869184000000000000000000000000000000000000000000000000000000000000000000000
    savingsDepletedAge := none
    currentRent := 409130644209090722457382238785233891464032091177379953973507797042206068383807001/137438953472000000000000000000000000000000000000000000000000000000000000000000
    hasMovedHouse := false }

def exO36 : SimState :=
  { data := exampleData
    grossSalary1 := 941048155051741155142156535712912132145882942888564013465357539708023/3355443200000000000000000000000000000000000000000000000000000000
    grossSalary2 := 769948490496879126934491711037837199028449680545188738289837987033837/3355443200000000000000000000000000000000000000000000000000000000
    grossBonus := 0
    pillar2Wealth := 0
    pillar3Wealth := 0
    cashBuffer := 75485439583358312007476751057842769612391374028485011563614330313755634230803119474061/34359738368000000000000000000000000000000000000000000000000000000000000000000000
    investedWealth := 12934729245943883282194564493983750612917683718859552685958364342336193255490598722655687/858993459200000000000000000000000000000000000000000000000000000000000000000000000
    ahvAnnualPensionSnapshot := 6247218154097891112662041568860787492625852317112343694779499084970493941/100000000000000000000000000000000000000000000000000000000000000000000
    lppAnnualPensionSnapshot := 12049345799288041262639863324288924375410127047001964478252569922442643998629/102400000000000000000000000000000000000000000000000000000000000000000000
    pillar3AnnualDrawdownSnapshot := 0
    retirementSnapshotTaken := true
    childrenAges := []
    maxWealth := 315582540362384378119636217281230360896749750124455436800618537643716983471622466414729/17179869184000000000000000000000000000000000000000000000000000000000000000000000
    savingsDepletedAge := none
    currentRent := 82235259486027235213933829995832012184270450326653370748675067205483419745145207201/27487790694400000000000000000000000000000000000000000000000000000000000000000000
    hasMovedHouse := false }

def exO37 : SimState :=
  { data := exampleData
    grossSalary1 := 941048155051741155142156535712912132145882942888564013465357539708023/3355443200000000000000000000000000000000000000000000000000000000
    grossSalary2 := 769948490496879126934491711037837199028449680545188738289837987033837/3355443200000000000000000000000000000000000000000000000000000000
    grossBonus := 0
    pillar2Wealth := 0
    pillar3Wealth := 0
    cashBuffer := 15522069705141366539532351794332279904392766423049817379225201568177307188437011095330561/6871947673600000000000000000000000000000000000000000000000000000000000000000000000
    investedWealth := 685540650035025813956311918181138782484637237099556292355793310143818242541001732300751411/42949672960000000000000000000000000000000000000000000000000000000000000000000000000
    ahvAnnualPensionSnapshot := 6247218154097891112662041568860787492625852317112343694779499084970493941/100000000000000000000000000000000000000000000000000000000000000000000
    lppAnnualPensionSnapshot := 12049345799288041262639863324288924375410127047001964478252569922442643998629/102400000000000000000000000000000000000000000000000000000000000000000000
    pillar3AnnualDrawdownSnapshot := 0
    retirementSnapshotTaken := true
    childrenAges := []
    maxWealth := 315582540362384378119636217281230360896749750124455436800618537643716983471622466414729/17179869184000000000000000000000000000000000000000000000000000000000000000000000
    savingsDepletedAge := none
    currentRent := 16529287156691474278000699829162234449038360515657327520483688508302167368774186647401/5497558138880000000000000000000000000000000000000000000000000000000000000000000000
    hasMovedHouse := false }

def exO38 : SimState :=
  { data := exampleData
    grossSalary1 := 941048155051741155142156535712912132145882942888564013465357539708023/3355443200000000000000000000000000000000000000000000000000000000
    grossSalary2 := 769948490496879126934491711037837199028449680545188738289837987033837/3355443200000000000000000000000000000000000000000000000000000000
    grossBonus := 0
    pillar2Wealth := 0
    pillar3Wealth := 0
    cashBuffer := 3189133551161997148725649181405191964093569505350593019240082740515795719633126549799856937/1374389534720000000000000000000000000000000000000000000000000000000000000000000000000
    investedWealth := 36333654451856368139684531663600355471685773566276483494857045437622366854673091811939824783/2147483648000000000000000000000000000000000000000000000000000000000000000000000000000
    ahvAnnualPensionSnapshot := 6247218154097891112662041568860787492625852317112343694779499084970493941/100000000000000000000000000000000000000000000000000000000000000000000
    lppAnnualPensionSnapshot := 12049345799288041262639863324288924375410127047001964478252569922442643998629/102400000000000000000000000000000000000000000000000000000000000000000000
    pillar3AnnualDrawdownSnapshot := 0
    retirementSnapshotTaken := true
    childrenAges := []
    maxWealth := 661066810008751818953093736152735486649311614694188561398714795514852762665597632736033619953/34359738368000000000000000000000000000000000000000000000000000000000000000000000000000
    savingsDepletedAge := none
    currentRent := 3322386718494986329878140665661609124256710463647122831617221390168735641123611516127601/1099511627776000000000000000000000000000000000000000000000000000000000000000000000000
    hasMovedHouse := false }

def exO39 : SimState :=
  { data := exampleData
    grossSalary1 := 941048155051741155142156535712912132145882942888564013465357539708023/3355443200000000000000000000000000000000000000000000000000000000
    grossSalary2 := 769948490496879126934491711037837199028449680545188738289837987033837/3355443200000000000000000000000000000000000000000000000000000000
    grossBonus := 0
    pillar2Wealth := 0
    pillar3Wealth := 0
    cashBuffer := 654714977191287716949859029008453165835321696042205686466042056545163463973350979626794698289/274877906944000000000000000000000000000000000000000000000000000000000000000000000000000
    investedWealth := 1925683685948387511403280178170818839999345999012653625227423408193985443297673866032810713499/107374182400000000000000000000000000000000000000000000000000000000000000000000000000000
    ahvAnnualPensionSnapshot := 6247218154097891112662041568860787492625852317112343694779499084970493941/100000000000000000000000000000000000000000000000000000000000000000000
    lppAnnualPensionSnapshot := 12049345799288041262639863324288924375410127047001964478252569922442643998629/102400000000000000000000000000000000000000000000000000000000000000000000
    pillar3AnnualDrawdownSnapshot := 0
    retirementSnapshotTaken := true
    childrenAges := []
    maxWealth := 139611630330478993653556407128143734905841186337864974176206149538044154970384901916769753121161/6871947673600000000000000000000000000000000000000000000000000000000000000000000000000000
    savingsDepletedAge := none
    currentRent := 667799730417492252305506273797983433975598803193071689155061499423915863865845914741647801/219902325555200000000000000000000000000000000000000000000000000000000000000000000000000
    hasMovedHouse := false }

def exO40 : SimState :=
  { data := exampleData
    grossSalary1 := 941048155051741155142156535712912132145882942888564013465357539708023/3355443200000000000000000000000000000000000000000000000000000000
    grossSalary2 := 769948490496879126934491711037837199028449680545188738289837987033837/3355443200000000000000000000000000000000000000000000000000000000
    grossBonus := 0
    pillar2Wealth := 0
    pillar3Wealth := 0
    cashBuffer := 134309456342128969101973065019656423121990881319955665659337425915073776993881269023951365174393/54975581388800000000000000000000000000000000000000000000000000000000000000000000000000000
    investedWealth := 102061235355264538104373849443053398519965337947670642137053440634281228494776714899738967815447/5368709120000000000000000000000000000000000000000000000000000000000000000000000000000000
    ahvAnnualPensionSnapshot := 6247218154097891112662041568860787492625852317112343694779499084970493941/100000000000000000000000000000000000000000000000000000000000000000000
    lppAnnualPensionSnapshot := 12049345799288041262639863324288924375410127047001964478252569922442643998629/102400000000000000000000000000000000000000000000000000000000000000000000
    pillar3AnnualDrawdownSnapshot := 0
    retirementSnapshotTaken := true
    childrenAges := []
    maxWealth := 29485412659500945982269032082913080599160898547602576028569116450252838919509870739931959890114257/1374389534720000000000000000000000000000000000000000000000000000000000000000000000000000000
    savingsDepletedAge := none
    currentRent := 134227745813915942713406761033394670229095359441807409520167361384207088637035028863071208001/43980465111040000000000000000000000000000000000000000000000000000000000000000000000000000
    hasMovedHouse := false }

def exO41 : SimState :=
  { data := exampleData
    grossSalary1 := 941048155051741155142156535712912132145882942888564013465357539708023/3355443200000000000000000000000000000000000000000000000000000000
    grossSalary2 := 769948490496879126934491711037837199028449680545188738289837987033837/3355443200000000000000000000000000000000000000000000000000000000
    grossBonus := 0
    pillar2Wealth := 0
    pillar3Wealth := 0
    cashBuffer := 27532932583638976415931844405960082326159200909929703293358455839508788075709346123573487457350401/10995116277760000000000000000000000000000000000000000000000000000000000000000000000000000000
    investedWealth := 5409245473829020519531814020481830121558162911226544033263832353616905110223165889686165294218691/268435456000000000000000000000000000000000000000000000000000000000000000000000000000000000
    ahvAnnualPensionSnapshot := 6247218154097891112662041568860787492625852317112343694779499084970493941/100000000000000000000000000000000000000000000000000000000000000000000
    lppAnnualPensionSnapshot := 12049345799288041262639863324288924375410127047001964478252569922442643998629/102400000000000000000000000000000000000000000000000000000000000000000000
    pillar3AnnualDrawdownSnapshot := 0
    retirementSnapshotTaken := true
    childrenAges := []
    maxWealth := 6227390679791891422398873667122396102629538843844223672396125726091430534761255524127970447713699609/274877906944000000000000000000000000000000000000000000000000000000000000000000000000000000000
    savingsDepletedAge := none
    currentRent := 26979776908597104485394758967712328716048167247803289313553639638225624816044040801477312808201/8796093022208000000000000000000000000000000000000000000000000000000000000000000000000000000
    hasMovedHouse := false }

def exO42 : SimState :=
  { data := exampleData
    grossSalary1 := 941048155051741155142156535712912132145882942888564013465357539708023/3355443200000000000000000000000000000000000000000000000000000000
    grossSalary2 := 769948490496879126934491711037837199028449680545188738289837987033837/3355443200000000000000000000000000000000000000000000000000000000
    grossBonus := 0
    pillar2Wealth := 0
    pillar3Wealth := 0
    cashBuffer := 5640342118343276296566625733503190728080793224778450544710591984238719712727174539207848644501507017/2199023255552000000000000000000000000000000000000000000000000000000000000000000000000000000000
    investedWealth := 286690010112938087535186143085536996442582634295006833762983114741695970841827792153366760593590623/13421772800000000000000000000000000000000000000000000000000000000000000000000000000000000000
    ahvAnnualPensionSnapshot := 6247218154097891112662041568860787492625852317112343694779499084970493941/100000000000000000000000000000000000000000000000000000000000000000000
    lppAnnualPensionSnapshot := 12049345799288041262639863324288924375410127047001964478252569922442643998629/102400000000000000000000000000000000000000000000000000000000000000000000
    pillar3AnnualDrawdownSnapshot := 0
    retirementSnapshotTaken := true
    childrenAges := []
    maxWealth := 1315290834381176313958288085415939305630838300691809254710943637587954689386306000140386467503884867233/54975581388800000000000000000000000000000000000000000000000000000000000000000000000000000000000
    savingsDepletedAge := none
    currentRent := 5422935158628018001564346552510178071925681616808461152024281567283350588024852201096939874448401/1759218604441600000000000000000000000000000000000000000000000000000000000000000000000000000000
    hasMovedHouse := false }

def exO43 : SimState :=
  { data := exampleData
    grossSalary1 := 941048155051741155142156535712912132145882942888564013465357539708023/3355443200000000000000000000000000000000000000000000000000000000
    grossSalary2 := 769948490496879126934491711037837199028449680545188738289837987033837/3355443200000000000000000000000000000000000000000000000000000000
    grossBonus := 0
    pillar2Wealth := 0
    pillar3Wealth := 0
    cashBuffer := 1154728511080119678789051533609151287815223113184869565654861013797438359011002955249586651910766346449/439804651110400000000000000000000000000000000000000000000000000000000000000000000000000000000000
    investedWealth := 15194570535985718639364865583533460811456879617635362189438105081309886454616872984128438311460303019/671088640000000000000000000000000000000000000000000000000000000000000000000000000000000000000
    ahvAnnualPensionSnapshot := 6247218154097891112662041568860787492625852317112343694779499084970493941/100000000000000000000000000000000000000000000000000000000000000000000
    lppAnnualPensionSnapshot := 12049345799288041262639863324288924375410127047001964478252569922442643998629/102400000000000000000000000000000000000000000000000000000000000000000000
    pillar3AnnualDrawdownSnapshot := 0
    retirementSnapshotTaken := true
    childrenAges := []
    maxWealth := 277816056438593006157080246060841004130290093484959513253125438997117138647717920853199999592734763324521/10995116277760000000000000000000000000000000000000000000000000000000000000000000000000000000000000
    savingsDepletedAge := none
    currentRent := 1090009966884231618314433657054545792457062004978500691556880595023953468192995292420484914764128601/351843720888320000000000000000000000000000000000000000000000000000000000000000000000000000000000
    hasMovedHouse := false }

def exO44 : SimState :=
  { data := exampleData
    grossSalary1 := 941048155051741155142156535712912132145882942888564013465357539708023/3355443200000000000000000000000000000000000000000000000000000000
    grossSalary2 := 769948490496879126934491711037837199028449680545188738289837987033837/3355443200000000000000000000000000000000000000000000000000000000
    grossBonus := 0
    pillar2Wealth := 0
    pillar3Wealth := 0
    cashBuffer := 236259412394194578866759960890879388160641914821510907460440422157475067729171431775199843303988649714713/87960930222080000000000000000000000000000000000000000000000000000000000000000000000000000000000000
    investedWealth := 805312238407243087886337875927273423007214619734674196040219569309423982094694268158807230507396060007/33554432000000000000000000000000000000000000000000000000000000000000000000000000000000000000000
    ahvAnnualPensionSnapshot := 6247218154097891112662041568860787492625852317112343694779499084970493941/100000000000000000000000000000000000000000000000000000000000000000000
    lppAnnualPensionSnapshot := 12049345799288041262639863324288924375410127047001964478252569922442643998629/102400000000000000000000000000000000000000000000000000000000000000000000
    pillar3AnnualDrawdownSnapshot := 0
    retirementSnapshotTaken := true
    childrenAges := []
    maxWealth := 58683428166111947479388038059041775754216865189469380798202840248199286783787169352435586741132424431486577/2199023255552000000000000000000000000000000000000000000000000000000000000000000000000000000000000000
    savingsDepletedAge := none
    currentRent := 219092003343730555281201165067963704283869463000678639002932999599814647106792053776517467867589848801/70368744177664000000000000000000000000000000000000000000000000000000000000000000000000000000000000
    hasMovedHouse := false }

def exO45 : SimState :=
  { data := exampleData
    grossSalary1 := 941048155051741155142156535712912132145882942888564013465357539708023/3355443200000000000000000000000000000000000000000000000000000000
    grossSalary2 := 769948490496879126934491711037837199028449680545188738289837987033837/3355443200000000000000000000000000000000000000000000000000000000
    grossBonus := 0
    pillar2Wealth := 0
    pillar3Wealth := 0
    cashBuffer := 48310942789189855019804681839534553005707176761957277838849880257927217642569638106249041473026490636507041/17592186044416000000000000000000000000000000000000000000000000000000000000000000000000000000000000000
    investedWealth := 42681548635583883657975907424145491419382374845937732390131637173399471051018796212416783216891991180371/1677721600000000000000000000000000000000000000000000000000000000000000000000000000000000000000000
    ahvAnnualPensionSnapshot := 6247218154097891112662041568860787492625852317112343694779499084970493941/100000000000000000000000000000000000000000000000000000000000000000000
    lppAnnualPensionSnapshot := 12049345799288041262639863324288924375410127047001964478252569922442643998629/102400000000000000000000000000000000000000000000000000000000000000000000
    pillar3AnnualDrawdownSnapshot := 0
    retirementSnapshotTaken := true
    childrenAges := []
    maxWealth := 12396485455256247973131553321783559527785252690662432865649914901631811380262512266964011256434596401899851449/439804651110400000000000000000000000000000000000000000000000000000000000000000000000000000000000000000
    savingsDepletedAge := none
    currentRent := 44037492672089841611521434178660704561057762063136406439589532919562744068465202809080011041385559609001/14073748835532800000000000000000000000000000000000000000000000000000000000000000000000000000000000000
    hasMovedHouse := false }

def exO46 : SimState :=
  { data := exampleData
    grossSalary1 := 941048155051741155142156535712912132145882942888564013465357539708023/3355443200000000000000000000000000000000000000000000000000000000
    grossSalary2 := 769948490496879126934491711037837199028449680545188738289837987033837/3355443200000000000000000000000000000000000000000000000000000000
    grossBonus := 0
    pillar2Wealth := 0
    pillar3Wealth := 0
    cashBuffer := 9873260197781004755391680801360989244632744112835454738437286954127492777171623661815248690841128570795560297/3518437208883200000000000000000000000000000000000000000000000000000000000000000000000000000000000000000
    investedWealth := 2262122077685945833872723093479711045227265866834699816676976770190171965703996199258089510495275532559663/83886080000000000000000000000000000000000000000000000000000000000000000000000000000000000000000000
    ahvAnnualPensionSnapshot := 6247218154097891112662041568860787492625852317112343694779499084970493941/100000000000000000000000000000000000000000000000000000000000000000000
    lppAnnualPensionSnapshot := 12049345799288041262639863324288924375410127047001964478252569922442643998629/102400000000000000000000000000000000000000000000000000000000000000000000
    pillar3AnnualDrawdownSnapshot := 0
    retirementSnapshotTaken := true
    childrenAges := []
    maxWealth := 2618838424676143457583716510502606220076044136402948563432809767632117078539324110178631683828122251099170197313/87960930222080000000000000000000000000000000000000000000000000000000000000000000000000000000000000000000
    savingsDepletedAge := none
    currentRent := 8851536027090058163915808269910801616772610174690417694357496116832111557761505764625082219318497481409201/2814749767106560000000000000000000000000000000000000000000000000000000000000000000000000000000000000000
    hasMovedHouse := false }

def exO47 : SimState :=
  { data := exampleData
    grossSalary1 := 941048155051741155142156535712912132145882942888564013465357539708023/3355443200000000000000000000000000000000000000000000000000000000
    grossSalary2 := 769948490496879126934491711037837199028449680545188738289837987033837/3355443200000000000000000000000000000000000000000000000000000000
    grossBonus := 0
    pillar2Wealth := 0
    pillar3Wealth := 0
    cashBuffer := 2016717462837512654944430933023359658428040090706743668932636416102535101327771356899552372041153241207151921009/703687441776640000000000000000000000000000000000000000000000000000000000000000000000000000000000000000000
    investedWealth := 119892470117355129195254323954424685397045090942239090283879768820079114182311798560678744056249603225662139/4194304000000000000000000000000000000000000000000000000000000000000000000000000000000000000000000000
    ahvAnnualPensionSnapshot := 6247218154097891112662041568860787492625852317112343694779499084970493941/100000000000000000000000000000000000000000000000000000000000000000000
    lppAnnualPensionSnapshot := 12049345799288041262639863324288924375410127047001964478252569922442643998629/102400000000000000000000000000000000000000000000000000000000000000000000
    pillar3AnnualDrawdownSnapshot := 0
    retirementSnapshotTaken := true
    childrenAges := []
    maxWealth := 553283403554040904177782765304923267120268815387065777057353960283696486464521389872737908211132766837986410281481/17592186044416000000000000000000000000000000000000000000000000000000000000000000000000000000000000000000000
    savingsDepletedAge := none
    currentRent := 1779158741445101690947077462252071124971294645112773956565856719483254423110062658689641526083017993763249401/562949953421312000000000000000000000000000000000000000000000000000000000000000000000000000000000000000000
    hasMovedHouse := false }

def exO48 : SimState :=
  { data := exampleData
    grossSalary1 := 941048155051741155142156535712912132145882942888564013465357539708023/3355443200000000000000000000000000000000000000000000000000000000
    grossSalary2 := 769948490496879126934491711037837199028449680545188738289837987033837/3355443200000000000000000000000000000000000000000000000000000000
    grossBonus := 0
    pillar2Wealth := 0
    pillar3Wealth := 0
    cashBuffer := 411726631245931678736126668876218250570182885600704181588395306281618674550622260827327210593453253975040884987833/140737488355328000000000000000000000000000000000000000000000000000000000000000000000000000000000000000000000
    investedWealth := 6354300916219821847348479169584508326043389819938671785045627747464193051662525323715973434981228970960093367/209715200000000000000000000000000000000000000000000000000000000000000000000000000000000000000000000000
    ahvAnnualPensionSnapshot := 6247218154097891112662041568860787492625852317112343694779499084970493941/100000000000000000000000000000000000000000000000000000000000000000000
    lppAnnualPensionSnapshot := 12049345799288041262639863324288924375410127047001964478252569922442643998629/102400000000000000000000000000000000000000000000000000000000000000000000
    pillar3AnnualDrawdownSnapshot := 0
    retirementSnapshotTaken := true
    childrenAges := []
    maxWealth := 116900644781566146582887629021525382704082948521329807830525949231840685957206902982135989233778365740631235923022097/3518437208883200000000000000000000000000000000000000000000000000000000000000000000000000000000000000000000000
    savingsDepletedAge := none
    currentRent := 357610907030465439880362569912666296119230223667667565269737200616134139045122594396617946742686616746413129601/112589990684262400000000000000000000000000000000000000000000000000000000000000000000000000000000000000000000
    hasMovedHouse := false }

def exO49 : SimState :=
  { data := exampleData
    grossSalary1 := 941048155051741155142156535712912132145882942888564013465357539708023/3355443200000000000000000000000000000000000000000000000000000000
    grossSalary2 := 769948490496879126934491711037837199028449680545188738289837987033837/3355443200000000000000000000000000000000000000000000000000000000
    grossBonus := 0
    pillar2Wealth := 0
    pillar3Wealth := 0
    cashBuffer := 84015931584730981981951143035420266982842301175379433087334122393549135727442886942992144001306757452448694353289281/28147497671065600000000000000000000000000000000000000000000000000000000000000000000000000000000000000000000000
    investedWealth := 336777948559650557909469395987978941280299660456749604607418270615602231738113842156946592054005135460884948451/10485760000000000000000000000000000000000000000000000000000000000000000000000000000000000000000000000000
    ahvAnnualPensionSnapshot := 6247218154097891112662041568860787492625852317112343694779499084970493941/100000000000000000000000000000000000000000000000000000000000000000000
    lppAnnualPensionSnapshot := 12049345799288041262639863324288924375410127047001964478252569922442643998629/102400000000000000000000000000000000000000000000000000000000000000000000
    pillar3AnnualDrawdownSnapshot := 0
    retirementSnapshotTaken := true
    childrenAges := []
    maxWealth := 24701183837706859727819484583404931079814673322222672924836359173696374840995637623402799101448380227257322684077401689/703687441776640000000000000000000000000000000000000000000000000000000000000000000000000000000000000000000000000
    savingsDepletedAge := none
    currentRent := 71879792313123553415952876552445925519965274957201180619217177323842961948069641473720207295280009966029039049801/22517998136852480000000000000000000000000000000000000000000000000000000000000000000000000000000000000000000000
    hasMovedHouse := false }

def exO50 : SimState :=
  { data := exampleData
    grossSalary1 := 941048155051741155142156535712912132145882942888564013465357539708023/3355443200000000000000000000000000000000000000000000000000000000
    grossSalary2 := 769948490496879126934491711037837199028449680545188738289837987033837/3355443200000000000000000000000000000000000000000000000000000000
    grossBonus := 0
    pillar2Wealth := 0
    pillar3Wealth := 0
    cashBuffer := 17136096223390212070743086651343130784885978448377197442686169970263536682945927072327442764459234235442213812099584777/5629499534213120000000000000000000000000000000000000000000000000000000000000000000000000000000000000000000000000
    investedWealth := 17849231273661479569201877987362883887855882004207729044193168342626918282120033634318169378862272179426902267903/524288000000000000000000000000000000000000000000000000000000000000000000000000000000000000000000000000000
    ahvAnnualPensionSnapshot := 6247218154097891112662041568860787492625852317112343694779499084970493941/100000000000000000000000000000000000000000000000000000000000000000000
    lppAnnualPensionSnapshot := 12049345799288041262639863324288924375410127047001964478252569922442643998629/102400000000000000000000000000000000000000000000000000000000000000000000
    pillar3AnnualDrawdownSnapshot := 0
    retirementSnapshotTaken := true
    childrenAges := []
    maxWealth := 5219768941779535359561966839877696243533796009291125600769591545394409464009276052171721115411611649566629674254465588193/140737488355328000000000000000000000000000000000000000000000000000000000000000000000000000000000000000000000000000
    savingsDepletedAge := none
    currentRent := 14447838254937834236606528187041631029513020266397437304462652642092435351561997936217761666351282003171836849010001/4503599627370496000000000000000000000000000000000000000000000000000000000000000000000000000000000000000000000000
    hasMovedHouse := false }

def exO51 : SimState :=
  { data := exampleData
    grossSalary1 := 941048155051741155142156535712912132145882942888564013465357539708023/3355443200000000000000000000000000000000000000000000000000000000
    grossSalary2 := 769948490496879126934491711037837199028449680545188738289837987033837/3355443200000000000000000000000000000000000000000000000000000000
    grossBonus := 0
    pillar2Wealth := 0
    pillar3Wealth := 0
    cashBuffer := 3493557649709417704208844809242788232269969559070051488799055699971052235271804443357095516244814430798890278143881277969/1125899906842624000000000000000000000000000000000000000000000000000000000000000000000000000000000000000000000000000
    investedWealth := 946009257504058417167699533330232846056361746223009639342237922159226668952361782618862977079700425509625820198859/26214400000000000000000000000000000000000000000000000000000000000000000000000000000000000000000000000000000
    ahvAnnualPensionSnapshot := 6247218154097891112662041568860787492625852317112343694779499084970493941/100000000000000000000000000000000000000000000000000000000000000000000
    lppAnnualPensionSnapshot := 12049345799288041262639863324288924375410127047001964478252569922442643998629/102400000000000000000000000000000000000000000000000000000000000000000000
    pillar3AnnualDrawdownSnapshot := 0
    retirementSnapshotTaken := true
    childrenAges := []
    maxWealth := 1103108646916028814857419731033022716276018307170070768136893099280494367832148220660996817721748089030254014691415937328041/28147497671065600000000000000000000000000000000000000000000000000000000000000000000000000000000000000000000000000000
    savingsDepletedAge := none
    currentRent := 2904015489242504681557912165595367836932117073545884898196993181060579505663961585179770094936607682637539206651010201/900719925474099200000000000000000000000000000000000000000000000000000000000000000000000000000000000000000000000000
    hasMovedHouse := false }

def exO52 : SimState :=
  { data := exampleData
    grossSalary1 := 941048155051741155142156535712912132145882942888564013465357539708023/3355443200000000000000000000000000000000000000000000000000000000
    grossSalary2 := 769948490496879126934491711037837199028449680545188738289837987033837/3355443200000000000000000000000000000000000000000000000000000000
    grossBonus := 0
    pillar2Wealth := 0
    pillar3Wealth := 0
    cashBuffer := 711930225261731998269638492506026879858126714188575360487761474854404862398027084493161981629686387184528016893116813905753/225179981368524800000000000000000000000000000000000000000000000000000000000000000000000000000000000000000000000000000
    investedWealth := 50138490647715096109888075266502340840987172549819510885138609874439013454475174478799737785224122552010168470539527/1310720000000000000000000000000000000000000000000000000000000000000000000000000000000000000000000000000000000
    ahvAnnualPensionSnapshot := 6247218154097891112662041568860787492625852317112343694779499084970493941/100000000000000000000000000000000000000000000000000000000000000000000
    lppAnnualPensionSnapshot := 12049345799288041262639863324288924375410127047001964478252569922442643998629/102400000000000000000000000000000000000000000000000000000000000000000000
    pillar3AnnualDrawdownSnapshot := 0
    retirementSnapshotTaken := true
    childrenAges := []
    maxWealth := 233141433234281494874207067802664710215938210311698113966580378708978350693425536342667768661655238070792933062745528287952817/5629499534213120000000000000000000000000000000000000000000000000000000000000000000000000000000000000000000000000000000
    savingsDepletedAge := none
    currentRent := 583707113337743440993140345284668935223355531782722864537595629393176480638456278621133789082258144210145380536853050401/180143985094819840000000000000000000000000000000000000000000000000000000000000000000000000000000000000000000000000000
    hasMovedHouse := false }

def exO53 : SimState :=
  { data := exampleData
    grossSalary1 := 941048155051741155142156535712912132145882942888564013465357539708023/3355443200000000000000000000000000000000000000000000000000000000
    grossSalary2 := 769948490496879126934491711037837199028449680545188738289837987033837/3355443200000000000000000000000000000000000000000000000000000000
    grossBonus := 0
    pillar2Wealth := 0
    pillar3Wealth := 0
    cashBuffer := 145019932567890256459068283043634343888776219050504005691884205620475709449674003811175889812079658516068247734728208355921121/45035996273704960000000000000000000000000000000000000000000000000000000000000000000000000000000000000000000000000000000
    investedWealth := 2657340004328900093824067989124624064572320145140434076912346323345267713087184247376386102616878495256538928938594931/65536000000000000000000000000000000000000000000000000000000000000000000000000000000000000000000000000000000000
    ahvAnnualPensionSnapshot := 6247218154097891112662041568860787492625852317112343694779499084970493941/100000000000000000000000000000000000000000000000000000000000000000000
    lppAnnualPensionSnapshot := 12049345799288041262639863324288924375410127047001964478252569922442643998629/102400000000000000000000000000000000000000000000000000000000000000000000
    pillar3AnnualDrawdownSnapshot := 0
    retirementSnapshotTaken := true
    childrenAges := []
    maxWealth := 49278251965977753733979521439973834699750234477143150892627009610086957312538520252111205698935564081831809513136738092243534329/1125899906842624000000000000000000000000000000000000000000000000000000000000000000000000000000000000000000000000000000000
    savingsDepletedAge := none
    currentRent := 117325129780886431639621209402218455979894461888327295772056721508028472608329712002847891605533886986239221487907463130601/36028797018963968000000000000000000000000000000000000000000000000000000000000000000000000000000000000000000000000000000
    hasMovedHouse := false }

def exO54 : SimState :=
  { data := exampleData
    grossSalary1 := 941048155051741155142156535712912132145882942888564013465357539708023/3355443200000000000000000000000000000000000000000000000000000000
    grossSalary2 := 769948490496879126934491711037837199028449680545188738289837987033837/3355443200000000000000000000000000000000000000000000000000000000
    grossBonus := 0
    pillar2Wealth := 0
    pillar3Wealth := 0
    cashBuffer := 29528782759511504113545857453326736120956959182042500649932043740814812669665467966723429374270775689509297295201139089234828457/9007199254740992000000000000000000000000000000000000000000000000000000000000000000000000000000000000000000000000000000000
    investedWealth := 140839020229431704972675603423605075422332967692443006076354355137299188793620765110948463438694560248596563233745531343/3276800000000000000000000000000000000000000000000000000000000000000000000000000000000000000000000000000000000000
    ahvAnnualPensionSnapshot := 6247218154097891112662041568860787492625852317112343694779499084970493941/100000000000000000000000000000000000000000000000000000000000000000000
    lppAnnualPensionSnapshot := 12049345799288041262639863324288924375410127047001964478252569922442643998629/102400000000000000000000000000000000000000000000000000000000000000000000
    pillar3AnnualDrawdownSnapshot := 0
    retirementSnapshotTaken := true
    childrenAges := []
    maxWealth := 10416603343165253035209243081476359336760459727737739275318240841070284006916530772416429126527086787450914336170957448500118047873/225179981368524800000000000000000000000000000000000000000000000000000000000000000000000000000000000000000000000000000000000
    savingsDepletedAge := none
    currentRent := 23582351085958172759563863089845909651958786839553786450183401023113722994274272112572426212712311284234083519069400089250801/7205759403792793600000000000000000000000000000000000000000000000000000000000000000000000000000000000000000000000000000000
    hasMovedHouse := false }

def exO55 : SimState :=
  { data := exampleData
    grossSalary1 := 941048155051741155142156535712912132145882942888564013465357539708023/3355443200000000000000000000000000000000000000000000000000000000
    grossSalary2 := 769948490496879126934491711037837199028449680545188738289837987033837/3355443200000000000000000000000000000000000000000000000000000000
    grossBonus := 0
    pillar2Wealth := 0
    pillar3Wealth := 0
    cashBuffer := 6010317347016523755414311208998504625582425715349318741330027590691465434221140023227885848298024307802843815440624337294526513329/1801439850948198400000000000000000000000000000000000000000000000000000000000000000000000000000000000000000000000000000000000
    investedWealth := 7464468072159880363551806981451068997383647287699479322046780822276857006061900550880268562250811693175617851388513161179/163840000000000000000000000000000000000000000000000000000000000000000000000000000000000000000000000000000000000000
    ahvAnnualPensionSnapshot := 6247218154097891112662041568860787492625852317112343694779499084970493941/100000000000000000000000000000000000000000000000000000000000000000000
    lppAnnualPensionSnapshot := 12049345799288041262639863324288924375410127047001964478252569922442643998629/102400000000000000000000000000000000000000000000000000000000000000000000
    pillar3AnnualDrawdownSnapshot := 0
    retirementSnapshotTaken := true
    childrenAges := []
    maxWealth := 2202075293801035765547924268995319093591706221499308441456077916247868338172606044109345945347557895480265658989692550341443598160201/45035996273704960000000000000000000000000000000000000000000000000000000000000000000000000000000000000000000000000000000000000
    savingsDepletedAge := none
    currentRent := 4740052568277592724672336481059027840043716154750311076486863605645858321849128694627057668755174568131050787332949417939411001/1441151880758558720000000000000000000000000000000000000000000000000000000000000000000000000000000000000000000000000000000000
    hasMovedHouse := false }

def exO56 : SimState :=
  { data := exampleData
    grossSalary1 := 941048155051741155142156535712912132145882942888564013465357539708023/3355443200000000000000000000000000000000000000000000000000000000
    grossSalary2 := 769948490496879126934491711037837199028449680545188738289837987033837/3355443200000000000000000000000000000000000000000000000000000000
    grossBonus := 0
    pillar2Wealth := 0
    pillar3Wealth := 0
    cashBuffer := 1222895494438777165404938887905741907498976240759430763066106859870291899964748628511379890531497761499089568842814958628581679860473/360287970189639680000000000000000000000000000000000000000000000000000000000000000000000000000000000000000000000000000000000000
    investedWealth := 395616807824473659268245770016906656861333306248072404068479383580673421321280729196654233799293019738307746123591197542487/8192000000000000000000000000000000000000000000000000000000000000000000000000000000000000000000000000000000000000000
    ahvAnnualPensionSnapshot := 6247218154097891112662041568860787492625852317112343694779499084970493941/100000000000000000000000000000000000000000000000000000000000000000000
    lppAnnualPensionSnapshot := 12049345799288041262639863324288924375410127047001964478252569922442643998629/102400000000000000000000000000000000000000000000000000000000000000000000
    pillar3AnnualDrawdownSnapshot := 0
    retirementSnapshotTaken := true
    childrenAges := []
    maxWealth := 465557667707601435527587567816959121013329268685487769336292043510640618390339154940858042680990189047938486705049885650439594285830737/9007199254740992000000000000000000000000000000000000000000000000000000000000000000000000000000000000000000000000000000000000000
    savingsDepletedAge := none
    currentRent := 952750566223796137659139632692864595848786947104812526373859584734817522691674867620038591419790088194341208253922833005821611201/288230376151711744000000000000000000000000000000000000000000000000000000000000000000000000000000000000000000000000000000000000
    hasMovedHouse := false }

def exO57 : SimState :=
  { data := exampleData
    grossSalary1 := 941048155051741155142156535712912132145882942888564013465357539708023/3355443200000000000000000000000000000000000000000000000000000000
    grossSalary2 := 769948490496879126934491711037837199028449680545188738289837987033837/3355443200000000000000000000000000000000000000000000000000000000
    grossBonus := 0
    pillar2Wealth := 0
    pillar3Wealth := 0
    cashBuffer := 248729387930189261321065814780164513286776501369625341919246057415124470383636768465977812375533214938722031649134198984486051489586561/72057594037927936000000000000000000000000000000000000000000000000000000000000000000000000000000000000000000000000000000000000000
    investedWealth := 20967690814697103941217025810896052813650665231147837415629407329775691330027878647422674391362530046130310544550333469751811/409600000000000000000000000000000000000000000000000000000000000000000000000000000000000000000000000000000000000000000
    ahvAnnualPensionSnapshot := 6247218154097891112662041568860787492625852317112343694779499084970493941/100000000000000000000000000000000000000000000000000000000000000000000
    lppAnnualPensionSnapshot := 12049345799288041262639863324288924375410127047001964478252569922442643998629/102400000000000000000000000000000000000000000000000000000000000000000000
    pillar3AnnualDrawdownSnapshot := 0
    retirementSnapshotTaken := true
    childrenAges := []
    maxWealth := 98435114131740716888229033640799014377250643419539057603024698302321375788529652328001036937941312315685835257832011451773862372575273369/1801439850948198400000000000000000000000000000000000000000000000000000000000000000000000000000000000000000000000000000000000000000
    savingsDepletedAge := none
    currentRent := 191502863810983023669487066171265783765606176368067317801145776531698322061026648391627756875377807727062582859038489434170143851401/57646075230342348800000000000000000000000000000000000000000000000000000000000000000000000000000000000000000000000000000000000000
    hasMovedHouse := false }

def exO58 : SimState :=
  { data := exampleData
    grossSalary1 := 941048155051741155142156535712912132145882942888564013465357539708023/3355443200000000000000000000000000000000000000000000000000000000
    grossSalary2 := 769948490496879126934491711037837199028449680545188738289837987033837/3355443200000000000000000000000000000000000000000000000000000000
    grossBonus := 0
    pillar2Wealth := 0
    pillar3Wealth := 0
    cashBuffer := 50572694260921659035054702294447822340438061452601921659134936432254481385977352055148284228692973507918944080445109240510205384608459337/14411518807585587200000000000000000000000000000000000000000000000000000000000000000000000000000000000000000000000000000000000000000
    investedWealth := 1111287613178946508884502367977490799123485257250835383028358588478111640491477568313401742742214092444906458861167673896845983/20480000000000000000000000000000000000000000000000000000000000000000000000000000000000000000000000000000000000000000000
    ahvAnnualPensionSnapshot := 6247218154097891112662041568860787492625852317112343694779499084970493941/100000000000000000000000000000000000000000000000000000000000000000000
    lppAnnualPensionSnapshot := 12049345799288041262639863324288924375410127047001964478252569922442643998629/102400000000000000000000000000000000000000000000000000000000000000000000
    pillar3AnnualDrawdownSnapshot := 0
    retirementSnapshotTaken := true
    childrenAges := []
    maxWealth := 20814295796422070371179273870875714686068172483998313941147605346598334008784445222045244530970556509448143908931102904171037884706360664353/360287970189639680000000000000000000000000000000000000000000000000000000000000000000000000000000000000000000000000000000000000000000
    savingsDepletedAge := none
    currentRent := 38492075626007587757566900300424422536886841449981530878030301082871362734266356326717179131950939353139579154666736376268198914131601/11529215046068469760000000000000000000000000000000000000000000000000000000000000000000000000000000000000000000000000000000000000000
    hasMovedHouse := false }

def exO59 : SimState :=
  { data := exampleData
    grossSalary1 := 941048155051741155142156535712912132145882942888564013465357539708023/3355443200000000000000000000000000000000000000000000000000000000
    grossSalary2 := 769948490496879126934491711037837199028449680545188738289837987033837/3355443200000000000000000000000000000000000000000000000000000000
    grossBonus := 0
    pillar2Wealth := 0
    pillar3Wealth := 0
    cashBuffer := 10279250350716252632735441612398103025479596138444461621538218441408768299205044140280822760619612730749342535401232276757510107417015563089/2882303761517117440000000000000000000000000000000000000000000000000000000000000000000000000000000000000000000000000000000000000000000
    investedWealth := 58898243498484164970878625502807012353544718634294275300503005189339916946048311120610292365337346899580042319641886716532837099/1024000000000000000000000000000000000000000000000000000000000000000000000000000000000000000000000000000000000000000000000
    ahvAnnualPensionSnapshot := 6247218154097891112662041568860787492625852317112343694779499084970493941/100000000000000000000000000000000000000000000000000000000000000000000
    lppAnnualPensionSnapshot := 12049345799288041262639863324288924375410127047001964478252569922442643998629/102400000000000000000000000000000000000000000000000000000000000000000000
    pillar3AnnualDrawdownSnapshot := 0
    retirementSnapshotTaken := true
    childrenAges := []
    maxWealth := 4401576688026500441622602178775030630679120744369963911268332631423117265996748524688326503169175538679769668452065543628493695704749015433961/72057594037927936000000000000000000000000000000000000000000000000000000000000000000000000000000000000000000000000000000000000000000000
    savingsDepletedAge := none
    currentRent := 7736907200827525139270946960385308929914255131446287706484090517657143909587537621670153005522138809981055410088014011629907981740451801/2305843009213693952000000000000000000000000000000000000000000000000000000000000000000000000000000000000000000000000000000000000000000
    hasMovedHouse := false }

def exO60 : SimState :=
  { data := exampleData
    grossSalary1 := 941048155051741155142156535712912132145882942888564013465357539708023/3355443200000000000000000000000000000000000000000000000000000000
    grossSalary2 := 769948490496879126934491711037837199028449680545188738289837987033837/3355443200000000000000000000000000000000000000000000000000000000
    grossBonus := 0
    pillar2Wealth := 0
    pillar3Wealth := 0
    cashBuffer := 2088661276268911295060155960421594856337291236238448272172978495080459128465598547387588191818891020123460074212464282150081214263184605923993/576460752303423488000000000000000000000000000000000000000000000000000000000000000000000000000000000000000000000000000000000000000000000
    investedWealth := 3121606905419660743456567151648771654737870087617596590926659275035015598140560489392345495362879385677742242941019995976240366247/51200000000000000000000000000000000000000000000000000000000000000000000000000000000000000000000000000000000000000000000000
    ahvAnnualPensionSnapshot := 6247218154097891112662041568860787492625852317112343694779499084970493941/100000000000000000000000000000000000000000000000000000000000000000000
    lppAnnualPensionSnapshot := 12049345799288041262639863324288924375410127047001964478252569922442643998629/102400000000000000000000000000000000000000000000000000000000000000000000
    pillar3AnnualDrawdownSnapshot := 0
    retirementSnapshotTaken := true
    childrenAges := []
    maxWealth := 930870762909544737046997720365136419077364019178637909399058422499245866617163916975126562836053542230226156129522971236177890276676223935727857/14411518807585587200000000000000000000000000000000000000000000000000000000000000000000000000000000000000000000000000000000000000000000000
    savingsDepletedAge := none
    currentRent := 1555118347366332552993460339037447094912765281420703829003302194049085925827095061955700754109949900806192137427690816337611504329830812001/461168601842738790400000000000000000000000000000000000000000000000000000000000000000000000000000000000000000000000000000000000000000000
    hasMovedHouse := false }

/-- Coupling between the loop states of two neutral runs that differ only in
the baseline investment return (`r1 ≤ r2`): deterministic components agree,
wealth components of the higher-return run dominate, and after the
retirement snapshot the pillar-3 balances stay proportional to their frozen
drawdowns (`p3₁·draw₂ ≤ p3₂·draw₁`). -/
structure ReturnRel (d : FinancialData) (r1 r2 : ℚ) (s1 s2 : SimState) : Prop where
  data1 : s1.data = { d with investmentReturn := r1 }
  data2 : s2.data = { d with investmentReturn := r2 }
  sal1 : s1.grossSalary1 = s2.grossSalary1
  sal2 : s1.grossSalary2 = s2.grossSalary2
  bon : s1.grossBonus = s2.grossBonus
  p2eq : s1.pillar2Wealth = s2.pillar2Wealth
  kids : s1.childrenAges = s2.childrenAges
  rent : s1.currentRent = s2.currentRent
  moved : s1.hasMovedHouse = s2.hasMovedHouse
  takenEq : s1.retirementSnapshotTaken = s2.retirementSnapshotTaken
  cash0 : 0 ≤ s1.cashBuffer
  cashLe : s1.cashBuffer ≤ s2.cashBuffer
  inv0 : 0 ≤ s1.investedWealth
  invLe : s1.investedWealth ≤ s2.investedWealth
  p30a : 0 ≤ s1.pillar3Wealth
  p30b : 0 ≤ s2.pillar3Wealth
  p3Le : s1.retirementSnapshotTaken = false → s1.pillar3Wealth ≤ s2.pillar3Wealth
  snapRel : s1.retirementSnapshotTaken = true →
    s1.ahvAnnualPensionSnapshot = s2.ahvAnnualPensionSnapshot ∧
      s1.lppAnnualPensionSnapshot = s2.lppAnnualPensionSnapshot ∧
      0 ≤ s1.pillar3AnnualDrawdownSnapshot ∧
      s1.pillar3AnnualDrawdownSnapshot ≤ s2.pillar3AnnualDrawdownSnapshot ∧
      s1.pillar3Wealth * s2.pillar3AnnualDrawdownSnapshot ≤
        s2.pillar3Wealth * s1.pillar3AnnualDrawdownSnapshot ∧
      (s1.pillar3AnnualDrawdownSnapshot = 0 → s1.pillar3Wealth = 0)

/-- Net working income: the sum of lines 140-144. -/
def workingNet (tf : ℚ) (s : SimState) : ℚ :=
  s.grossSalary1 * tf + s.grossSalary2 * tf + s.grossBonus * (13/20)

/-- The `actualP3` of line 146. -/
def workingActualP3 (tf : ℚ) (s : SimState) : ℚ :=
  if s.data.pillar3AnnualContribution1 + s.data.pillar3AnnualContribution2 ≤
      workingNet tf s then
    s.data.pillar3AnnualContribution1 + s.data.pillar3AnnualContribution2
  else max 0 (workingNet tf s)

/-- The working-phase `annualSavingsCapacity` of line 147. -/
def workingCap (tf t : ℚ) (s : SimState) : ℚ :=
  workingNet tf s - workingActualP3 tf s - t

/-- The snapshot triple used by the retirement branch (lines 168-176). -/
def retiredSnap (f : ℚ) (s : SimState) : ℚ × ℚ × ℚ :=
  if s.retirementSnapshotTaken then
    (s.ahvAnnualPensionSnapshot, s.lppAnnualPensionSnapshot,
      s.pillar3AnnualDrawdownSnapshot)
  else
    (AHV_COUPLE_MAX_ANNUAL_2025 * f, s.pillar2Wealth * LPP_CONVERSION_RATE,
      s.pillar3Wealth / max 1 ((DEFAULT_MAX_AGE : ℚ) - (s.data.retirementAge : ℚ)))

/-- The capped pillar-3 drawdown of line 176. -/
def retiredPension3a (f : ℚ) (s : SimState) : ℚ :=
  min s.pillar3Wealth (retiredSnap f s).2.2

/-- The retirement-phase `annualSavingsCapacity` of line 179. -/
def retiredCap (f t : ℚ) (s : SimState) : ℚ :=
  (AHV_COUPLE_MAX_ANNUAL_2025 * f + (retiredSnap f s).2.1 + retiredPension3a f s) *
    (17/20) - t

/-- A household profile with negative starting savings (debt): the engine
multiplies the negative invested balance by the growth factor, so a higher
return produces a lower final wealth. -/
def profileC2Neg : FinancialData :=
  { profileA with currentAge := 90, retirementAge := 91
                  annualGrossSalary1 := 100000, currentSavings := -1000000 }

/-! ## Generic lemmas about the year loop -/

theorem runYears_nil (mods : ScenarioModifiers) (s : SimState) :
    runYears mods [] s = (s, []) := rfl

theorem runYears_cons (mods : ScenarioModifiers) (a : ℕ) (l : List ℕ) (s : SimState) :
    runYears mods (a :: l) s =
      ((runYears mods l (yearStep mods a s).1).1,
        (yearStep mods a s).2 :: (runYears mods l (yearStep mods a s).1).2) := rfl

theorem runYears_fst_cons (mods : ScenarioModifiers) (a : ℕ) (l : List ℕ) (s : SimState) :
    (runYears mods (a :: l) s).1 = (runYears mods l (yearStep mods a s).1).1 := rfl

theorem runYears_length (mods : ScenarioModifiers) (l : List ℕ) (s : SimState) :
    ((runYears mods l s).2).length = l.length := by
  induction l generalizing s with
  | nil => rfl
  | cons a rest ih => simp [runYears_cons, ih]

theorem runYears_snoc (mods : ScenarioModifiers) (l : List ℕ) (a : ℕ) (s : SimState) :
    runYears mods (l ++ [a]) s =
      ((yearStep mods a (runYears mods l s).1).1,
        (runYears mods l s).2 ++ [(yearStep mods a (runYears mods l s).1).2]) := by
  induction l generalizing s with
  | nil => simp [runYears_cons, runYears_nil]
  | cons b rest ih => simp [List.cons_append, runYears_cons, ih]

theorem yearStep_fst_data (mods : ScenarioModifiers) (a : ℕ) (s : SimState) :
    (yearStep mods a s).1.data = s.data := rfl

theorem runYears_fst_data (mods : ScenarioModifiers) (l : List ℕ) (s : SimState) :
    (runYears mods l s).1.data = s.data := by
  induction l generalizing s with
  | nil => rfl
  | cons a rest ih => rw [runYears_fst_cons, ih, yearStep_fst_data]

theorem yearStep_snd_age (mods : ScenarioModifiers) (a : ℕ) (s : SimState) :
    (yearStep mods a s).2.age = a := rfl

theorem phaseOut_retired (mods : ScenarioModifiers) (a : ℕ) (s : SimState)
    (h : s.data.retirementAge ≤ a) :
    phaseOut mods a s =
      retiredUpdate (inflationFactorAt s.data mods a)
        (effectiveInvestmentReturnPct s.data mods) (totalExpensesOf mods s a) s := by
  simp [phaseOut, h]

theorem phaseOut_working (mods : ScenarioModifiers) (a : ℕ) (s : SimState)
    (h : ¬ s.data.retirementAge ≤ a) :
    phaseOut mods a s =
      workingUpdate mods a (baseInflationPct s.data mods)
        (effectiveInvestmentReturnPct s.data mods) (getTaxFactor s.data.canton)
        (totalExpensesOf mods s a) s := by
  simp [phaseOut, h]

theorem yearStep_snd_pillar2 (mods : ScenarioModifiers) (a : ℕ) (s : SimState) :
    (yearStep mods a s).2.pillar2Wealth = (phaseOut mods a s).pillar2Wealth := rfl

theorem retiredUpdate_pillar2 (inflFactor effRet totalExpenses : ℚ) (s : SimState) :
    (retiredUpdate inflFactor effRet totalExpenses s).pillar2Wealth = 0 := rfl

theorem runYears_get?_age (mods : ScenarioModifiers) :
    ∀ (n a k : ℕ) (s : SimState), k < n →
      (((runYears mods (List.range' a n) s).2).get? k).map ProjectionPoint.age =
        some (a + k) := by
  intro n
  induction n with
  | zero => intro a k s h; omega
  | succ m ih =>
    intro a k s h
    rw [List.range'_succ a m 1, runYears_cons]
    match k with
    | 0 => simp [yearStep_snd_age]
    | k + 1 =>
      simp only [List.get?_cons_succ]
      rw [ih (a + 1) k _ (by omega)]
      congr 1
      omega

theorem calculateProjections_data (data : FinancialData) (sc : ScenarioType) :
    (calculateProjections data sc).data =
      (runYears (scenarioModifiers sc) (simAges data) (initState data)).2 := rfl

theorem calculateProjections_savingsDepletedAge (data : FinancialData) (sc : ScenarioType) :
    (calculateProjections data sc).savingsDepletedAge =
      (runYears (scenarioModifiers sc) (simAges data) (initState data)).1.savingsDepletedAge := rfl

theorem calculateProjections_finalWealth (data : FinancialData) (sc : ScenarioType) :
    (calculateProjections data sc).finalWealth =
      (((runYears (scenarioModifiers sc) (simAges data) (initState data)).2.getLast?).map
        ProjectionPoint.totalWealth).getD 0 := rfl

theorem runYears_pillar2_zero (mods : ScenarioModifiers) :
    ∀ (l : List ℕ) (s : SimState), ∀ p ∈ (runYears mods l s).2,
      s.data.retirementAge ≤ p.age → p.pillar2Wealth = 0 := by
  intro l
  induction l with
  | nil => intro s p hp; simp [runYears_nil] at hp
  | cons a rest ih =>
    intro s p hp hage
    rw [runYears_cons] at hp
    rcases List.mem_cons.mp hp with h | h
    · subst h
      rw [yearStep_snd_age] at hage
      rw [yearStep_snd_pillar2, phaseOut_retired mods a s hage, retiredUpdate_pillar2]
    · exact ih (yearStep mods a s).1 p (by simpa [yearStep_fst_data] using h)
        (by rwa [yearStep_fst_data])

/-- C4: in every yearly snapshot produced at an age at or past the
retirement age, the occupational-pension (pillar-2) wealth bucket is exactly
0: the retirement branch of `calculateProjections` (line 180) zeroes the
bucket before the snapshot is pushed. -/
theorem c4_pillar2_zero_after_retirement (data : FinancialData) (sc : ScenarioType) :
    ∀ p ∈ (calculateProjections data sc).data,
      data.retirementAge ≤ p.age → p.pillar2Wealth = 0 := by
  intro p hp hage
  rw [calculateProjections_data] at hp
  exact runYears_pillar2_zero (scenarioModifiers sc) (simAges data) (initState data) p hp hage


theorem simAges_profileA : simAges profileA = List.range' 88 3 := rfl

/-- Witness for C4: the snapshot of `profileA`'s first simulated year (age 88,
already retired) carries a zero pillar-2 bucket. -/
theorem c4_witness :
    ((calculateProjections profileA ScenarioType.neutral).data.get? 0).map
      ProjectionPoint.pillar2Wealth = some 0 := by
  have hlen : (calculateProjections profileA ScenarioType.neutral).data.length = 3 := by
    rw [calculateProjections_data, runYears_length]; rfl
  have hage :
      ((calculateProjections profileA ScenarioType.neutral).data.get? 0).map
        ProjectionPoint.age = some 88 := by
    rw [calculateProjections_data, simAges_profileA]
    exact runYears_get?_age (scenarioModifiers ScenarioType.neutral) 3 88 0
      (initState profileA) (by omega)
  cases h : (calculateProjections profileA ScenarioType.neutral).data.get? 0 with
  | none =>
    rw [List.get?_eq_none] at h
    omega
  | some p =>
    rw [h] at hage
    simp only [Option.map_some'] at hage ⊢
    have hmem : p ∈ (calculateProjections profileA ScenarioType.neutral).data :=
      List.get?_mem h
    have := c4_pillar2_zero_after_retirement profileA ScenarioType.neutral p hmem
      (by simp [Option.some.injEq] at hage; rw [hage]; exact le_refl _)
    rw [this]

theorem calculateProjectionsFull_snd (data : FinancialData) (sc : ScenarioType) :
    (calculateProjectionsFull data sc).2 =
      (runYears (scenarioModifiers sc) (simAges data) (initState data)).1.data := rfl

theorem cloneData_eq (d : FinancialData) : cloneData d = d := rfl

/-- C10: `calculateProjections` never mutates its input profile.  The profile
record is threaded through the loop state; the run returns it untouched, so a
later run on the profile a previous run leaves behind equals a fresh run, and
`runAllScenarios`' defensive deep copies are identities. -/
theorem c10_no_profile_mutation (data : FinancialData) (s1 s2 : ScenarioType) :
    (calculateProjectionsFull data s1).2 = data ∧
      (calculateProjectionsFull ((calculateProjectionsFull data s1).2) s2).1 =
        calculateProjections data s2 ∧
      runAllScenarios data =
        [calculateProjections data ScenarioType.pessimistic,
          calculateProjections data ScenarioType.neutral,
          calculateProjections data ScenarioType.optimistic] := by
  have hthread : ∀ (d : FinancialData) (sc : ScenarioType),
      (calculateProjectionsFull d sc).2 = d := by
    intro d sc
    rw [calculateProjectionsFull_snd, runYears_fst_data]
    rfl
  refine ⟨hthread data s1, ?_, ?_⟩
  · rw [hthread data s1]; rfl
  · rw [runAllScenarios, cloneData_eq]

theorem yearStep_snd_childrenExpenses (mods : ScenarioModifiers) (a : ℕ) (s : SimState) :
    (yearStep mods a s).2.childrenExpenses = childrenExpensesOf mods s := rfl

theorem yearStep_fst_childrenAges (mods : ScenarioModifiers) (a : ℕ) (s : SimState) :
    (yearStep mods a s).1.childrenAges = (childrenPass s.data s.childrenAges).1 := rfl

/-- C9: with a 2,500/month daycare cost and exactly one child starting at
relative age -1, the neutral run reports a children-expense contribution of 0
in simulation year 0 and exactly 30,000 = 12 × 2,500 in simulation year 1;
in general a child slot with negative age contributes neither cost nor an
active-child count in that year. -/
theorem c9_child_cost_timing :
    (((calculateProjections profileB ScenarioType.neutral).data.get? 0).map
        ProjectionPoint.childrenExpenses) = some 0 ∧
      (((calculateProjections profileB ScenarioType.neutral).data.get? 1).map
        ProjectionPoint.childrenExpenses) = some 30000 ∧
      ∀ (d : FinancialData) (c : ℤ) (rest : List ℤ), c < 0 →
        childrenPass d (c :: rest) =
          ((c + 1) :: (childrenPass d rest).1, (childrenPass d rest).2.1,
            (childrenPass d rest).2.2) := by
  refine ⟨?_, ?_, ?_⟩
  · rw [calculateProjections_data]
    rw [show simAges profileB = [88, 89, 90] from rfl]
    rw [runYears_cons]
    simp only [List.get?_cons_zero, Option.map_some']
    rw [yearStep_snd_childrenExpenses]
    norm_num [childrenExpensesOf, childrenPass, initState, profileB, profileA,
      computeChildrenSchedule, childCost, scenarioModifiers]
  · rw [calculateProjections_data]
    rw [show simAges profileB = [88, 89, 90] from rfl]
    rw [runYears_cons, runYears_cons]
    simp only [List.get?_cons_succ, List.get?_cons_zero, Option.map_some']
    rw [yearStep_snd_childrenExpenses]
    norm_num [childrenExpensesOf, yearStep_fst_data, yearStep_fst_childrenAges,
      initState, profileB, profileA, computeChildrenSchedule, childrenPass, childCost,
      scenarioModifiers]
  · intro d c rest h
    simp [childrenPass, h]

/-- Witness for C9's negative-age clause at the concrete slot age -1. -/
theorem c9_witness : (-1 : ℤ) < 0 ∧ childrenPass profileA [-1] = ([0], 0, 0) := by
  refine ⟨by norm_num, ?_⟩
  have h := c9_child_cost_timing.2.2 profileA (-1) [] (by norm_num)
  refine h.trans ?_
  norm_num [childrenPass]

theorem moveNote_ne_depletedNote : moveNote ≠ depletedNote := by decide

theorem yearStep_snd_notes (mods : ScenarioModifiers) (a : ℕ) (s : SimState) :
    (yearStep mods a s).2.notes =
      (if notesOf s (totalWealthOf mods a s) = [] then none
        else some (notesOf s (totalWealthOf mods a s))) := rfl

theorem yearStep_fst_hasMovedHouse (mods : ScenarioModifiers) (a : ℕ) (s : SimState) :
    (yearStep mods a s).1.hasMovedHouse =
      (s.hasMovedHouse || decide (relocationFires s)) := rfl

theorem yearStep_fst_currentRent (mods : ScenarioModifiers) (a : ℕ) (s : SimState) :
    (yearStep mods a s).1.currentRent = rentAfterEvents mods s := rfl

theorem yearStep_snd_housingExpenses (mods : ScenarioModifiers) (a : ℕ) (s : SimState) :
    (yearStep mods a s).2.housingExpenses = housingAnnualOf mods s := rfl

theorem mem_notesOf_move (s : SimState) (tw : ℚ) :
    moveNote ∈ notesOf s tw ↔ relocationFires s := by
  by_cases h : relocationFires s <;>
    by_cases h2 : tw < 0 ∧ s.savingsDepletedAge = none <;>
      simp [notesOf, h, h2, moveNote_ne_depletedNote]

theorem yearStep_moveNote_mem (mods : ScenarioModifiers) (a : ℕ) (s : SimState) :
    moveNote ∈ (yearStep mods a s).2.notes.getD [] ↔ relocationFires s := by
  rw [yearStep_snd_notes]
  by_cases h : notesOf s (totalWealthOf mods a s) = []
  · rw [if_pos h]
    simp only [Option.getD_none, List.not_mem_nil, false_iff]
    intro hf
    rw [← mem_notesOf_move s (totalWealthOf mods a s)] at hf
    simp [h] at hf
  · rw [if_neg h]
    simp only [Option.getD_some]
    exact mem_notesOf_move s (totalWealthOf mods a s)

theorem runYears_moveNote_count_zero (mods : ScenarioModifiers) :
    ∀ (l : List ℕ) (s : SimState), s.hasMovedHouse = true →
      ((runYears mods l s).2.countP (fun p => decide (moveNote ∈ p.notes.getD []))) = 0 := by
  intro l
  induction l with
  | nil => intro s _; rfl
  | cons a rest ih =>
    intro s hs
    rw [runYears_cons, List.countP_cons]
    have hnf : ¬ relocationFires s := by
      intro hf
      rw [hf.1] at hs
      exact Bool.false_ne_true hs
    rw [ih (yearStep mods a s).1 (by rw [yearStep_fst_hasMovedHouse, hs]; rfl)]
    simp [yearStep_moveNote_mem, hnf]

theorem runYears_moveNote_count_le_one (mods : ScenarioModifiers) :
    ∀ (l : List ℕ) (s : SimState),
      ((runYears mods l s).2.countP (fun p => decide (moveNote ∈ p.notes.getD []))) ≤ 1 := by
  intro l
  induction l with
  | nil => intro s; simp [runYears_nil]
  | cons a rest ih =>
    intro s
    rw [runYears_cons, List.countP_cons]
    by_cases hf : relocationFires s
    · have h0 := runYears_moveNote_count_zero mods rest (yearStep mods a s).1
        (by rw [yearStep_fst_hasMovedHouse]; simp [hf])
      rw [h0]
      simp [yearStep_moveNote_mem, hf]
    · have h2 : decide (moveNote ∈ (yearStep mods a s).2.notes.getD []) = false := by
        simp [yearStep_moveNote_mem, hf]
      rw [h2]
      simp only [Bool.false_eq_true, if_false, add_zero]
      exact ih (yearStep mods a s).1

/-- C5: the relocation event fires at most once per run (at most one snapshot
carries the relocation note), it fires exactly when
`2 + activeChildren > rooms + 0.5` holds with the latch still clear, and in
the firing year the reported rent is 1.30 times the rent the same year would
otherwise have carried: `rentInflated * 1.3`, where `rentInflated` is the rent
immediately before the shock is applied.  Once the latch is set it stays set
and the event can never fire again. -/
theorem c5_relocation_once (data : FinancialData) (sc : ScenarioType) :
    ((calculateProjections data sc).data.countP
        (fun p => decide (moveNote ∈ p.notes.getD []))) ≤ 1 ∧
      (∀ (s : SimState) (a : ℕ), relocationFires s →
        (yearStep (scenarioModifiers sc) a s).2.housingExpenses =
            inflatedRent (scenarioModifiers sc) s * (13/10) * 12 ∧
          (yearStep (scenarioModifiers sc) a s).1.currentRent =
            inflatedRent (scenarioModifiers sc) s * (13/10) ∧
          (yearStep (scenarioModifiers sc) a s).1.hasMovedHouse = true ∧
          moveNote ∈ (yearStep (scenarioModifiers sc) a s).2.notes.getD []) ∧
      (∀ (s : SimState) (a : ℕ), s.hasMovedHouse = true →
        ¬ relocationFires s ∧
          (yearStep (scenarioModifiers sc) a s).1.hasMovedHouse = true) ∧
      (∀ (s : SimState) (a : ℕ), s.hasMovedHouse = false →
        (moveNote ∈ (yearStep (scenarioModifiers sc) a s).2.notes.getD [] ↔
          s.data.currentRooms + 1/2 <
            2 + (((childrenPass s.data s.childrenAges).2.2 : ℕ) : ℚ))) := by
  refine ⟨?_, ?_, ?_, ?_⟩
  · rw [calculateProjections_data]
    exact runYears_moveNote_count_le_one (scenarioModifiers sc) (simAges data)
      (initState data)
  · intro s a hf
    refine ⟨?_, ?_, ?_, ?_⟩
    · rw [yearStep_snd_housingExpenses, housingAnnualOf, rentAfterEvents, if_pos hf]
    · rw [yearStep_fst_currentRent, rentAfterEvents, if_pos hf]
    · rw [yearStep_fst_hasMovedHouse]; simp [hf]
    · exact (yearStep_moveNote_mem (scenarioModifiers sc) a s).mpr hf
  · intro s a hs
    have hnf : ¬ relocationFires s := by
      intro hf; rw [hf.1] at hs; exact Bool.false_ne_true hs
    exact ⟨hnf, by rw [yearStep_fst_hasMovedHouse, hs]; rfl⟩
  · intro s a hs
    rw [yearStep_moveNote_mem]
    unfold relocationFires
    simp [hs]

/-- Witness for C5: on `profileC` (one room, one child) the trigger holds in
the first simulated year, the reported yearly housing cost is
1000 × 1.3 × 12 = 15,600 and the latch is set. -/
theorem c5_witness :
    (yearStep (scenarioModifiers ScenarioType.neutral) 30
        (initState profileC)).2.housingExpenses = 15600 ∧
      (yearStep (scenarioModifiers ScenarioType.neutral) 30
        (initState profileC)).1.hasMovedHouse = true := by
  have hf : relocationFires (initState profileC) := by
    refine ⟨rfl, ?_⟩
    norm_num [initState, profileC, profileA, childrenPass, computeChildrenSchedule]
  have h := (c5_relocation_once profileC ScenarioType.neutral).2.1 (initState profileC) 30 hf
  refine ⟨?_, h.2.2.1⟩
  rw [h.1]
  norm_num [inflatedRent, initState, profileC, profileA, scenarioModifiers]

theorem yearStep_fst_ahvSnap (mods : ScenarioModifiers) (a : ℕ) (s : SimState) :
    (yearStep mods a s).1.ahvAnnualPensionSnapshot = (phaseOut mods a s).ahvSnap := rfl

theorem yearStep_fst_lppSnap (mods : ScenarioModifiers) (a : ℕ) (s : SimState) :
    (yearStep mods a s).1.lppAnnualPensionSnapshot = (phaseOut mods a s).lppSnap := rfl

theorem yearStep_fst_drawSnap (mods : ScenarioModifiers) (a : ℕ) (s : SimState) :
    (yearStep mods a s).1.pillar3AnnualDrawdownSnapshot = (phaseOut mods a s).drawSnap := rfl

theorem yearStep_fst_snapTaken (mods : ScenarioModifiers) (a : ℕ) (s : SimState) :
    (yearStep mods a s).1.retirementSnapshotTaken = (phaseOut mods a s).snapTaken := rfl

theorem yearStep_snd_pensionLPP (mods : ScenarioModifiers) (a : ℕ) (s : SimState) :
    (yearStep mods a s).2.pensionLPP = (phaseOut mods a s).pensionLPP := rfl

theorem yearStep_snd_pensionAHV (mods : ScenarioModifiers) (a : ℕ) (s : SimState) :
    (yearStep mods a s).2.pensionAHV = (phaseOut mods a s).pensionAHV := rfl

theorem workingUpdate_ahvSnap (mods : ScenarioModifiers) (age : ℕ)
    (b e tf t : ℚ) (s : SimState) :
    (workingUpdate mods age b e tf t s).ahvSnap = s.ahvAnnualPensionSnapshot := rfl

theorem workingUpdate_lppSnap (mods : ScenarioModifiers) (age : ℕ)
    (b e tf t : ℚ) (s : SimState) :
    (workingUpdate mods age b e tf t s).lppSnap = s.lppAnnualPensionSnapshot := rfl

theorem workingUpdate_drawSnap (mods : ScenarioModifiers) (age : ℕ)
    (b e tf t : ℚ) (s : SimState) :
    (workingUpdate mods age b e tf t s).drawSnap = s.pillar3AnnualDrawdownSnapshot := rfl

theorem workingUpdate_snapTaken (mods : ScenarioModifiers) (age : ℕ)
    (b e tf t : ℚ) (s : SimState) :
    (workingUpdate mods age b e tf t s).snapTaken = s.retirementSnapshotTaken := rfl

theorem retiredUpdate_snapTaken (f e t : ℚ) (s : SimState) :
    (retiredUpdate f e t s).snapTaken = true := rfl

theorem retiredUpdate_pensionAHV (f e t : ℚ) (s : SimState) :
    (retiredUpdate f e t s).pensionAHV = AHV_COUPLE_MAX_ANNUAL_2025 * f := rfl

theorem retiredUpdate_snaps_taken (f e t : ℚ) (s : SimState)
    (h : s.retirementSnapshotTaken = true) :
    (retiredUpdate f e t s).ahvSnap = s.ahvAnnualPensionSnapshot ∧
      (retiredUpdate f e t s).lppSnap = s.lppAnnualPensionSnapshot ∧
      (retiredUpdate f e t s).drawSnap = s.pillar3AnnualDrawdownSnapshot := by
  refine ⟨?_, ?_, ?_⟩ <;> simp [retiredUpdate, h]

theorem retiredUpdate_snaps_untaken (f e t : ℚ) (s : SimState)
    (h : s.retirementSnapshotTaken = false) :
    (retiredUpdate f e t s).ahvSnap = AHV_COUPLE_MAX_ANNUAL_2025 * f ∧
      (retiredUpdate f e t s).lppSnap = s.pillar2Wealth * LPP_CONVERSION_RATE ∧
      (retiredUpdate f e t s).drawSnap =
        s.pillar3Wealth / max 1 ((DEFAULT_MAX_AGE : ℚ) - (s.data.retirementAge : ℚ)) := by
  refine ⟨?_, ?_, ?_⟩ <;> simp [retiredUpdate, h]

theorem retiredUpdate_pensionLPP_eq_lppSnap (f e t : ℚ) (s : SimState) :
    (retiredUpdate f e t s).pensionLPP = (retiredUpdate f e t s).lppSnap := rfl

/-- Once the snapshot latch is set, a step preserves the latch and all three
snapshot values, whatever the simulated age is. -/
theorem yearStep_preserves_snaps (mods : ScenarioModifiers) (a : ℕ) (s : SimState)
    (h : s.retirementSnapshotTaken = true) :
    (yearStep mods a s).1.retirementSnapshotTaken = true ∧
      (yearStep mods a s).1.ahvAnnualPensionSnapshot = s.ahvAnnualPensionSnapshot ∧
      (yearStep mods a s).1.lppAnnualPensionSnapshot = s.lppAnnualPensionSnapshot ∧
      (yearStep mods a s).1.pillar3AnnualDrawdownSnapshot =
        s.pillar3AnnualDrawdownSnapshot := by
  rw [yearStep_fst_snapTaken, yearStep_fst_ahvSnap, yearStep_fst_lppSnap,
    yearStep_fst_drawSnap]
  by_cases hr : s.data.retirementAge ≤ a
  · rw [phaseOut_retired mods a s hr]
    obtain ⟨h1, h2, h3⟩ := retiredUpdate_snaps_taken _ _ _ s h
    exact ⟨retiredUpdate_snapTaken _ _ _ s, h1, h2, h3⟩
  · rw [phaseOut_working mods a s hr]
    exact ⟨by rw [workingUpdate_snapTaken, h], workingUpdate_ahvSnap _ _ _ _ _ _ s,
      workingUpdate_lppSnap _ _ _ _ _ _ s, workingUpdate_drawSnap _ _ _ _ _ _ s⟩

/-- Once the latch is set, every later retired snapshot reports the latched
occupational annuity. -/
theorem runYears_lpp_const (mods : ScenarioModifiers) :
    ∀ (l : List ℕ) (s : SimState), s.retirementSnapshotTaken = true →
      ∀ p ∈ (runYears mods l s).2, s.data.retirementAge ≤ p.age →
        p.pensionLPP = s.lppAnnualPensionSnapshot := by
  intro l
  induction l with
  | nil => intro s _ p hp; simp [runYears_nil] at hp
  | cons a rest ih =>
    intro s hs p hp hage
    rw [runYears_cons] at hp
    rcases List.mem_cons.mp hp with h | h
    · subst h
      rw [yearStep_snd_age] at hage
      rw [yearStep_snd_pensionLPP, phaseOut_retired mods a s hage,
        retiredUpdate_pensionLPP_eq_lppSnap]
      exact (retiredUpdate_snaps_taken _ _ _ s hs).2.1
    · obtain ⟨ht, _, hlpp, _⟩ := yearStep_preserves_snaps mods a s hs
      have := ih (yearStep mods a s).1 ht p h
        (by rwa [yearStep_fst_data])
      rw [this, hlpp]

/-- Every run has a single value reported as the occupational annuity in all
retired snapshots. -/
theorem runYears_lpp_exists (mods : ScenarioModifiers) :
    ∀ (l : List ℕ) (s : SimState), s.retirementSnapshotTaken = false →
      ∃ v, ∀ p ∈ (runYears mods l s).2, s.data.retirementAge ≤ p.age →
        p.pensionLPP = v := by
  intro l
  induction l with
  | nil => intro s _; exact ⟨0, by simp [runYears_nil]⟩
  | cons a rest ih =>
    intro s hs
    by_cases hr : s.data.retirementAge ≤ a
    · refine ⟨s.pillar2Wealth * LPP_CONVERSION_RATE, ?_⟩
      intro p hp hage
      rw [runYears_cons] at hp
      rcases List.mem_cons.mp hp with h | h
      · subst h
        rw [yearStep_snd_pensionLPP, phaseOut_retired mods a s hr,
          retiredUpdate_pensionLPP_eq_lppSnap]
        exact (retiredUpdate_snaps_untaken _ _ _ s hs).2.1
      · have ht : (yearStep mods a s).1.retirementSnapshotTaken = true := by
          rw [yearStep_fst_snapTaken, phaseOut_retired mods a s hr]
          exact retiredUpdate_snapTaken _ _ _ s
        have hlpp : (yearStep mods a s).1.lppAnnualPensionSnapshot =
            s.pillar2Wealth * LPP_CONVERSION_RATE := by
          rw [yearStep_fst_lppSnap, phaseOut_retired mods a s hr]
          exact (retiredUpdate_snaps_untaken _ _ _ s hs).2.1
        have := runYears_lpp_const mods rest (yearStep mods a s).1 ht p h
          (by rwa [yearStep_fst_data])
        rw [this, hlpp]
    · have ht : (yearStep mods a s).1.retirementSnapshotTaken = false := by
        rw [yearStep_fst_snapTaken, phaseOut_working mods a s hr,
          workingUpdate_snapTaken, hs]
      obtain ⟨v, hv⟩ := ih (yearStep mods a s).1 ht
      refine ⟨v, ?_⟩
      intro p hp hage
      rw [runYears_cons] at hp
      rcases List.mem_cons.mp hp with h | h
      · subst h
        rw [yearStep_snd_age] at hage
        exact absurd hage hr
      · exact hv p h (by rwa [yearStep_fst_data])

/-- In a run over consecutive ages, the snapshot at index `k`, if retired,
reports the public pension re-inflated by the cumulative inflation factor of
that year. -/
theorem runYears_get?_pensionAHV (mods : ScenarioModifiers) (d : FinancialData) :
    ∀ (n a k : ℕ) (s : SimState), s.data = d → k < n → d.retirementAge ≤ a + k →
      (((runYears mods (List.range' a n) s).2).get? k).map ProjectionPoint.pensionAHV =
        some (AHV_COUPLE_MAX_ANNUAL_2025 *
          (1 + baseInflationPct d mods / 100) ^ (a + k - d.currentAge)) := by
  intro n
  induction n with
  | zero => intro a k s _ h; omega
  | succ m ih =>
    intro a k s hd h hret
    rw [List.range'_succ a m 1, runYears_cons]
    match k with
    | 0 =>
      simp only [List.get?_cons_zero, Option.map_some', Option.some.injEq]
      rw [yearStep_snd_pensionAHV, phaseOut_retired mods a s (by simpa [hd] using hret),
        retiredUpdate_pensionAHV, inflationFactorAt, hd]
      simp
    | k + 1 =>
      simp only [List.get?_cons_succ]
      rw [ih (a + 1) k _ (by rwa [yearStep_fst_data]) (by omega) (by omega)]
      have hx : a + 1 + k - d.currentAge = a + (k + 1) - d.currentAge := by omega
      rw [hx]

/-- C3: each run latches the retirement snapshot exactly once, in the first
simulated year with age ≥ retirement age, computing the occupational annuity
from the pillar-2 capital of that moment; the latch is never recomputed, so
the occupational annuity reported in any two retired snapshots (for example
ages R and R+5) is the same value, while the reported public pension grows
with the cumulative inflation factor and is strictly increasing from year to
year whenever the effective base inflation is positive. -/
theorem c3_retirement_snapshot (data : FinancialData) (sc : ScenarioType) :
    (∃ v, ∀ p ∈ (calculateProjections data sc).data,
        data.retirementAge ≤ p.age → p.pensionLPP = v) ∧
      (0 < baseInflationPct data (scenarioModifiers sc) →
        ∀ k, k + 1 < (calculateProjections data sc).data.length →
          data.retirementAge ≤ data.currentAge + k →
          ((((calculateProjections data sc).data.get? k).map
              ProjectionPoint.pensionAHV).getD 0 <
            (((calculateProjections data sc).data.get? (k + 1)).map
              ProjectionPoint.pensionAHV).getD 0)) ∧
      (∀ (s : SimState) (a : ℕ), s.retirementSnapshotTaken = true →
        (yearStep (scenarioModifiers sc) a s).1.retirementSnapshotTaken = true ∧
          (yearStep (scenarioModifiers sc) a s).1.ahvAnnualPensionSnapshot =
            s.ahvAnnualPensionSnapshot ∧
          (yearStep (scenarioModifiers sc) a s).1.lppAnnualPensionSnapshot =
            s.lppAnnualPensionSnapshot ∧
          (yearStep (scenarioModifiers sc) a s).1.pillar3AnnualDrawdownSnapshot =
            s.pillar3AnnualDrawdownSnapshot) ∧
      (∀ (s : SimState) (a : ℕ), s.retirementSnapshotTaken = false →
        s.data.retirementAge ≤ a →
        (yearStep (scenarioModifiers sc) a s).1.retirementSnapshotTaken = true ∧
          (yearStep (scenarioModifiers sc) a s).1.lppAnnualPensionSnapshot =
            s.pillar2Wealth * LPP_CONVERSION_RATE ∧
          (yearStep (scenarioModifiers sc) a s).1.ahvAnnualPensionSnapshot =
            AHV_COUPLE_MAX_ANNUAL_2025 *
              inflationFactorAt s.data (scenarioModifiers sc) a ∧
          (yearStep (scenarioModifiers sc) a s).1.pillar3AnnualDrawdownSnapshot =
            s.pillar3Wealth /
              max 1 ((DEFAULT_MAX_AGE : ℚ) - (s.data.retirementAge : ℚ))) := by
  refine ⟨?_, ?_, ?_, ?_⟩
  · rw [calculateProjections_data]
    exact runYears_lpp_exists (scenarioModifiers sc) (simAges data) (initState data) rfl
  · intro hb k hlen hret
    have hlen' : (calculateProjections data sc).data.length =
        DEFAULT_MAX_AGE + 1 - data.currentAge := by
      rw [calculateProjections_data, runYears_length]
      simp [simAges]
    rw [hlen'] at hlen
    have h1 := runYears_get?_pensionAHV (scenarioModifiers sc) data
      (DEFAULT_MAX_AGE + 1 - data.currentAge) data.currentAge k (initState data) rfl
      (by omega) hret
    have h2 := runYears_get?_pensionAHV (scenarioModifiers sc) data
      (DEFAULT_MAX_AGE + 1 - data.currentAge) data.currentAge (k + 1) (initState data) rfl
      (by omega) (by omega)
    rw [calculateProjections_data]
    have hsim : simAges data =
        List.range' data.currentAge (DEFAULT_MAX_AGE + 1 - data.currentAge) := rfl
    rw [hsim, h1, h2]
    simp only [Option.getD_some]
    have he1 : data.currentAge + k - data.currentAge = k := by omega
    have he2 : data.currentAge + (k + 1) - data.currentAge = k + 1 := by omega
    rw [he1, he2]
    have hf : 1 < 1 + baseInflationPct data (scenarioModifiers sc) / 100 := by linarith
    have hpow := pow_lt_pow_right₀ hf (Nat.lt_succ_self k)
    have hA : (0 : ℚ) < AHV_COUPLE_MAX_ANNUAL_2025 := by norm_num [AHV_COUPLE_MAX_ANNUAL_2025]
    exact mul_lt_mul_of_pos_left hpow hA
  · intro s a hs
    exact yearStep_preserves_snaps (scenarioModifiers sc) a s hs
  · intro s a hs hr
    have hto := phaseOut_retired (scenarioModifiers sc) a s hr
    obtain ⟨ha, hl, hd⟩ := retiredUpdate_snaps_untaken
      (inflationFactorAt s.data (scenarioModifiers sc) a)
      (effectiveInvestmentReturnPct s.data (scenarioModifiers sc))
      (totalExpensesOf (scenarioModifiers sc) s a) s hs
    refine ⟨?_, ?_, ?_, ?_⟩
    · rw [yearStep_fst_snapTaken, hto, retiredUpdate_snapTaken]
    · rw [yearStep_fst_lppSnap, hto, hl]
    · rw [yearStep_fst_ahvSnap, hto, ha]
    · rw [yearStep_fst_drawSnap, hto, hd]

/-- Witness for C3 on `profileA` (retired from age 88): the occupational
annuity reported at indices 0 and 2 is the same value, and the public pension
strictly increases between indices 0 and 1 (base inflation 1.5 % > 0). -/
theorem c3_witness :
    ((((calculateProjections profileA ScenarioType.neutral).data.get? 0).map
        ProjectionPoint.pensionLPP) =
      (((calculateProjections profileA ScenarioType.neutral).data.get? 2).map
        ProjectionPoint.pensionLPP)) ∧
      ((((calculateProjections profileA ScenarioType.neutral).data.get? 0).map
          ProjectionPoint.pensionAHV).getD 0 <
        (((calculateProjections profileA ScenarioType.neutral).data.get? 1).map
          ProjectionPoint.pensionAHV).getD 0) := by
  have hc := c3_retirement_snapshot profileA ScenarioType.neutral
  have hlen : (calculateProjections profileA ScenarioType.neutral).data.length = 3 := by
    rw [calculateProjections_data, runYears_length]; rfl
  constructor
  · obtain ⟨v, hv⟩ := hc.1
    cases h0 : (calculateProjections profileA ScenarioType.neutral).data.get? 0 with
    | none => rw [List.get?_eq_none] at h0; omega
    | some p0 =>
      cases h2 : (calculateProjections profileA ScenarioType.neutral).data.get? 2 with
      | none => rw [List.get?_eq_none] at h2; omega
      | some p2 =>
        have hm0 := List.get?_mem h0
        have hm2 := List.get?_mem h2
        have ha0 : p0.age = 88 := by
          have hx := runYears_get?_age (scenarioModifiers ScenarioType.neutral) 3 88 0
            (initState profileA) (by omega)
          rw [calculateProjections_data, simAges_profileA] at h0
          rw [h0] at hx
          simpa using hx
        have ha2 : p2.age = 90 := by
          have hx := runYears_get?_age (scenarioModifiers ScenarioType.neutral) 3 88 2
            (initState profileA) (by omega)
          rw [calculateProjections_data, simAges_profileA] at h2
          rw [h2] at hx
          simpa using hx
        rw [Option.map_some', Option.map_some',
          hv p0 hm0 (by rw [ha0]; norm_num [profileA]),
          hv p2 hm2 (by rw [ha2]; norm_num [profileA])]
  · exact hc.2.1 (by norm_num [baseInflationPct, profileA, scenarioModifiers]) 0
      (by rw [hlen]; norm_num) (by norm_num [profileA])

theorem earlyRetirementScan_none_iff (data : FinancialData) :
    ∀ (n st : ℕ), (earlyRetirementScan data (List.range' st n) = none ↔
      ∀ b, st ≤ b → b < st + n → ¬ viableAt data b) := by
  intro n
  induction n with
  | zero =>
    intro st
    constructor
    · intro _ b h1 h2; omega
    · intro _; rfl
  | succ m ih =>
    intro st
    rw [List.range'_succ st m 1]
    by_cases hv : viableAt data st
    · rw [show earlyRetirementScan data (st :: List.range' (st + 1) m) =
          (if viableAt data st then some st
            else earlyRetirementScan data (List.range' (st + 1) m)) from rfl, if_pos hv]
      constructor
      · intro h; exact Option.noConfusion h
      · intro h; exact absurd hv (h st le_rfl (by omega))
    · rw [show earlyRetirementScan data (st :: List.range' (st + 1) m) =
          (if viableAt data st then some st
            else earlyRetirementScan data (List.range' (st + 1) m)) from rfl, if_neg hv]
      rw [ih (st + 1)]
      constructor
      · intro h b h1 h2
        rcases eq_or_lt_of_le h1 with rfl | hlt
        · exact hv
        · exact h b (by omega) (by omega)
      · intro h b h1 h2
        exact h b (by omega) (by omega)

theorem earlyRetirementScan_some (data : FinancialData) :
    ∀ (n st a : ℕ), earlyRetirementScan data (List.range' st n) = some a →
      st ≤ a ∧ a < st + n ∧ viableAt data a ∧
        ∀ b, st ≤ b → b < a → ¬ viableAt data b := by
  intro n
  induction n with
  | zero => intro st a h; exact Option.noConfusion h
  | succ m ih =>
    intro st a h
    rw [List.range'_succ st m 1] at h
    rw [show earlyRetirementScan data (st :: List.range' (st + 1) m) =
        (if viableAt data st then some st
          else earlyRetirementScan data (List.range' (st + 1) m)) from rfl] at h
    by_cases hv : viableAt data st
    · rw [if_pos hv] at h
      obtain rfl : st = a := Option.some.inj h
      exact ⟨le_rfl, by omega, hv, fun b h1 h2 => by omega⟩
    · rw [if_neg hv] at h
      obtain ⟨h1, h2, h3, h4⟩ := ih (st + 1) a h
      refine ⟨by omega, by omega, h3, ?_⟩
      intro b hb1 hb2
      rcases eq_or_lt_of_le hb1 with rfl | hlt
      · exact hv
      · exact h4 b (by omega) hb2

/-- C8: `calculateViableEarlyRetirement` returns `none` exactly when no
candidate age in its scanned range 45..65 satisfies the viability criterion
(neutral final wealth above the safety buffer), and when it returns an age it
is the lowest satisfying candidate — in particular never the maximum age by
default. -/
theorem c8_early_retirement_search (data : FinancialData) :
    (calculateViableEarlyRetirement data = none ↔
        ∀ a, 45 ≤ a → a ≤ 65 → ¬ viableAt data a) ∧
      (∀ a, calculateViableEarlyRetirement data = some a →
        45 ≤ a ∧ a ≤ 65 ∧ viableAt data a ∧
          ∀ b, 45 ≤ b → b < a → ¬ viableAt data b) := by
  constructor
  · rw [calculateViableEarlyRetirement, earlyRetirementScan_none_iff data 21 45]
    constructor
    · intro h a h1 h2; exact h a h1 (by omega)
    · intro h a h1 h2; exact h a h1 (by omega)
  · intro a h
    obtain ⟨h1, h2, h3, h4⟩ := earlyRetirementScan_some data 21 45 a h
    exact ⟨h1, by omega, h3, h4⟩

set_option maxRecDepth 8000 in
/-- Witness for C8: on `profileA` the first scanned age 45 is already viable
(the run is retired throughout and accumulates about 114,000 > 100,000), so
the search returns `some 45`, and the theorem yields its viability. -/
theorem c8_witness :
    calculateViableEarlyRetirement profileA = some 45 ∧ viableAt profileA 45 := by
  have hv : viableAt profileA 45 := by
    rw [viableAt]
    norm_num [calculateProjections, calculateProjectionsFull, runYears, yearStep,
      phaseOut, retiredUpdate, workingUpdate, simAges, initState, profileA,
      scenarioModifiers, baseInflationPct, effectiveInvestmentReturnPct,
      inflationFactorAt, inflatedRent, relocationFires, rentAfterEvents,
      childrenExpensesOf, livingAnnualOf, travelAnnualOf, housingAnnualOf,
      totalExpensesOf, childrenPass, computeChildrenSchedule, getTaxFactor,
      taxFactorDefault, DEFAULT_MAX_AGE, AHV_COUPLE_MAX_ANNUAL_2025,
      LPP_CONVERSION_RATE, LPP_INTEREST_RATE, RETIREMENT_SAFETY_BUFFER, List.range']
  have hscan : calculateViableEarlyRetirement profileA = some 45 := by
    rw [calculateViableEarlyRetirement,
      show (List.range' 45 21) = 45 :: List.range' 46 20 from rfl,
      show earlyRetirementScan profileA (45 :: List.range' 46 20) =
        (if viableAt profileA 45 then some 45
          else earlyRetirementScan profileA (List.range' 46 20)) from rfl,
      if_pos hv]
  exact ⟨hscan, ((c8_early_retirement_search profileA).2 45 hscan).2.2.1⟩

theorem yearStep_fst_grossSalary1 (mods : ScenarioModifiers) (a : ℕ) (s : SimState) :
    (yearStep mods a s).1.grossSalary1 = (phaseOut mods a s).grossSalary1 := rfl

theorem yearStep_fst_grossSalary2 (mods : ScenarioModifiers) (a : ℕ) (s : SimState) :
    (yearStep mods a s).1.grossSalary2 = (phaseOut mods a s).grossSalary2 := rfl

theorem yearStep_fst_grossBonus (mods : ScenarioModifiers) (a : ℕ) (s : SimState) :
    (yearStep mods a s).1.grossBonus = (phaseOut mods a s).grossBonus := rfl

theorem yearStep_fst_pillar2 (mods : ScenarioModifiers) (a : ℕ) (s : SimState) :
    (yearStep mods a s).1.pillar2Wealth = (phaseOut mods a s).pillar2Wealth := rfl

theorem yearStep_fst_pillar3 (mods : ScenarioModifiers) (a : ℕ) (s : SimState) :
    (yearStep mods a s).1.pillar3Wealth = (phaseOut mods a s).pillar3Wealth := rfl

theorem yearStep_fst_cashBuffer (mods : ScenarioModifiers) (a : ℕ) (s : SimState) :
    (yearStep mods a s).1.cashBuffer = (phaseOut mods a s).cashBuffer := rfl

theorem yearStep_fst_investedWealth (mods : ScenarioModifiers) (a : ℕ) (s : SimState) :
    (yearStep mods a s).1.investedWealth = (phaseOut mods a s).investedWealth := rfl

theorem yearStep_snd_cashSavings (mods : ScenarioModifiers) (a : ℕ) (s : SimState) :
    (yearStep mods a s).2.cashSavings = (phaseOut mods a s).cashBuffer := rfl

theorem yearStep_snd_investedAssets (mods : ScenarioModifiers) (a : ℕ) (s : SimState) :
    (yearStep mods a s).2.investedAssets = (phaseOut mods a s).investedWealth := rfl

theorem yearStep_snd_pillar3 (mods : ScenarioModifiers) (a : ℕ) (s : SimState) :
    (yearStep mods a s).2.pillar3Wealth = (phaseOut mods a s).pillar3Wealth := rfl

theorem yearStep_fst_savingsDepletedAge (mods : ScenarioModifiers) (a : ℕ) (s : SimState) :
    (yearStep mods a s).1.savingsDepletedAge =
      (if totalWealthOf mods a s < 0 ∧ s.savingsDepletedAge = none then some a
        else s.savingsDepletedAge) := rfl

theorem totalWealthOf_eq (mods : ScenarioModifiers) (a : ℕ) (s : SimState) :
    totalWealthOf mods a s =
      (phaseOut mods a s).cashBuffer + (phaseOut mods a s).investedWealth +
        (phaseOut mods a s).pillar2Wealth + (phaseOut mods a s).pillar3Wealth := rfl

theorem careerBoost_nonneg (age : ℕ) (stage : CareerStage) : 0 ≤ careerBoost age stage := by
  cases stage <;> unfold careerBoost <;> split_ifs <;> norm_num

theorem effRet_nonneg (d : FinancialData) (mods : ScenarioModifiers) :
    0 ≤ effectiveInvestmentReturnPct d mods := le_max_left 0 _

theorem salary_factor_nonneg (sc : ScenarioType) (d : FinancialData) (age : ℕ)
    (stage : CareerStage) (hE : 0 ≤ d.expectedSalaryIncrease.getD (3/2)) :
    0 ≤ 1 + getSalaryGrowthRate age stage
        (baseInflationPct d (scenarioModifiers sc) / 100) +
      (scenarioModifiers sc).salaryGrowthModPct / 100 := by
  have hb := careerBoost_nonneg age stage
  cases sc <;>
    simp only [scenarioModifiers, getSalaryGrowthRate, baseInflationPct] <;> linarith

theorem bonus_factor_nonneg (sc : ScenarioType) (d : FinancialData)
    (hE : 0 ≤ d.expectedSalaryIncrease.getD (3/2)) :
    0 ≤ 1 + baseInflationPct d (scenarioModifiers sc) / 100 := by
  cases sc <;> simp only [scenarioModifiers, baseInflationPct] <;> linarith

theorem drainBuckets_nonneg (c i δ : ℚ) (h0 : 0 ≤ c) (hi : 0 ≤ i) :
    0 ≤ (drainBuckets c i δ).1 ∧ 0 ≤ (drainBuckets c i δ).2 := by
  unfold drainBuckets
  split_ifs with h
  · exact ⟨by simpa using sub_nonneg.mpr h, hi⟩
  · exact ⟨le_refl 0, le_max_left 0 _⟩

theorem workingAlloc_nonneg (cash inv cap : ℚ) (hc : 0 ≤ cash) (hi : 0 ≤ inv) :
    0 ≤ (if 0 < cap then (cash + cap * (3/10), inv + cap * (7/10))
        else drainBuckets cash inv (-cap)).1 ∧
      0 ≤ (if 0 < cap then (cash + cap * (3/10), inv + cap * (7/10))
        else drainBuckets cash inv (-cap)).2 := by
  split_ifs with h
  · constructor
    · show 0 ≤ cash + cap * (3/10)
      linarith
    · show 0 ≤ inv + cap * (7/10)
      linarith
  · exact drainBuckets_nonneg _ _ _ hc hi

theorem retiredAlloc_nonneg (cash inv cap : ℚ) (hc : 0 ≤ cash) (hi : 0 ≤ inv) :
    0 ≤ (if 0 ≤ cap then (cash + cap, inv) else drainBuckets cash inv (-cap)).1 ∧
      0 ≤ (if 0 ≤ cap then (cash + cap, inv) else drainBuckets cash inv (-cap)).2 := by
  split_ifs with h
  · constructor
    · show 0 ≤ cash + cap
      linarith
    · exact hi
  · exact drainBuckets_nonneg _ _ _ hc hi

theorem workingUpdate_nonneg (mods : ScenarioModifiers) (age : ℕ)
    (b e tf t : ℚ) (s : SimState) (hs : StateNonneg s) (he : 0 ≤ e)
    (hplanned : 0 ≤ s.data.pillar3AnnualContribution1 + s.data.pillar3AnnualContribution2)
    (hf1 : 0 ≤ 1 + getSalaryGrowthRate age s.data.careerStage1 (b / 100) +
      mods.salaryGrowthModPct / 100)
    (hf2 : 0 ≤ 1 + getSalaryGrowthRate age s.data.careerStage2 (b / 100) +
      mods.salaryGrowthModPct / 100)
    (hfb : 0 ≤ 1 + b / 100) :
    PhaseNonneg (workingUpdate mods age b e tf t s) := by
  obtain ⟨h1, h2, h3, h4, h5, h6, h7⟩ := hs
  have hfe : (0 : ℚ) ≤ 1 + e / 100 := by linarith
  unfold workingUpdate PhaseNonneg
  dsimp only
  have hP3 : 0 ≤ (if s.data.pillar3AnnualContribution1 + s.data.pillar3AnnualContribution2 ≤
      s.grossSalary1 * tf + s.grossSalary2 * tf + s.grossBonus * (13/20) then
        s.data.pillar3AnnualContribution1 + s.data.pillar3AnnualContribution2
      else max 0 (s.grossSalary1 * tf + s.grossSalary2 * tf + s.grossBonus * (13/20))) := by
    split_ifs
    · exact hplanned
    · exact le_max_left 0 _
  refine ⟨mul_nonneg h1 hf1, mul_nonneg h2 hf2, mul_nonneg h3 hfb, ?_, ?_, ?_, ?_⟩
  · have hi : (0 : ℚ) ≤ 1 + LPP_INTEREST_RATE := by norm_num [LPP_INTEREST_RATE]
    have := mul_nonneg h4 hi
    have h12 : 0 ≤ (s.grossSalary1 + s.grossSalary2) * (3/25) := by
      apply mul_nonneg (by linarith) (by norm_num)
    linarith
  · have := mul_nonneg h5 hfe
    linarith
  · exact (workingAlloc_nonneg _ _ _ h6 h7).1
  · exact mul_nonneg (workingAlloc_nonneg _ _ _ h6 h7).2 hfe

theorem retiredUpdate_nonneg (f e t : ℚ) (s : SimState) (hs : StateNonneg s)
    (he : 0 ≤ e) : PhaseNonneg (retiredUpdate f e t s) := by
  obtain ⟨h1, h2, h3, h4, h5, h6, h7⟩ := hs
  have hfe : (0 : ℚ) ≤ 1 + e / 100 := by linarith
  unfold retiredUpdate PhaseNonneg
  dsimp only
  refine ⟨h1, h2, h3, le_refl 0, ?_, ?_, ?_⟩
  · apply mul_nonneg (le_max_left 0 _)
    linarith
  · exact (retiredAlloc_nonneg _ _ _ h6 h7).1
  · exact mul_nonneg (retiredAlloc_nonneg _ _ _ h6 h7).2 hfe

theorem yearStep_nonneg (sc : ScenarioType) (d : FinancialData) (a : ℕ) (s : SimState)
    (hd : s.data = d) (hE : 0 ≤ d.expectedSalaryIncrease.getD (3/2))
    (hplanned : 0 ≤ d.pillar3AnnualContribution1 + d.pillar3AnnualContribution2)
    (hs : StateNonneg s) :
    PhaseNonneg (phaseOut (scenarioModifiers sc) a s) ∧
      StateNonneg (yearStep (scenarioModifiers sc) a s).1 := by
  have he := effRet_nonneg s.data (scenarioModifiers sc)
  have hu : PhaseNonneg (phaseOut (scenarioModifiers sc) a s) := by
    by_cases hr : s.data.retirementAge ≤ a
    · rw [phaseOut_retired _ _ _ hr]
      exact retiredUpdate_nonneg _ _ _ s hs he
    · rw [phaseOut_working _ _ _ hr]
      refine workingUpdate_nonneg _ _ _ _ _ _ s hs he (by rw [hd]; exact hplanned) ?_ ?_ ?_
      · rw [hd]; exact salary_factor_nonneg sc d a d.careerStage1 hE
      · rw [hd]; exact salary_factor_nonneg sc d a d.careerStage2 hE
      · rw [hd]; exact bonus_factor_nonneg sc d hE
  refine ⟨hu, ?_⟩
  obtain ⟨h1, h2, h3, h4, h5, h6, h7⟩ := hu
  exact ⟨by rw [yearStep_fst_grossSalary1]; exact h1,
    by rw [yearStep_fst_grossSalary2]; exact h2,
    by rw [yearStep_fst_grossBonus]; exact h3,
    by rw [yearStep_fst_pillar2]; exact h4,
    by rw [yearStep_fst_pillar3]; exact h5,
    by rw [yearStep_fst_cashBuffer]; exact h6,
    by rw [yearStep_fst_investedWealth]; exact h7⟩

theorem runYears_buckets_nonneg (sc : ScenarioType) (d : FinancialData)
    (hE : 0 ≤ d.expectedSalaryIncrease.getD (3/2))
    (hplanned : 0 ≤ d.pillar3AnnualContribution1 + d.pillar3AnnualContribution2) :
    ∀ (l : List ℕ) (s : SimState), s.data = d → StateNonneg s →
      ∀ p ∈ (runYears (scenarioModifiers sc) l s).2,
        0 ≤ p.cashSavings ∧ 0 ≤ p.investedAssets ∧ 0 ≤ p.pillar2Wealth ∧
          0 ≤ p.pillar3Wealth := by
  intro l
  induction l with
  | nil => intro s _ _ p hp; simp [runYears_nil] at hp
  | cons a rest ih =>
    intro s hd hs p hp
    obtain ⟨hu, hs'⟩ := yearStep_nonneg sc d a s hd hE hplanned hs
    rw [runYears_cons] at hp
    rcases List.mem_cons.mp hp with h | h
    · subst h
      obtain ⟨_, _, _, h4, h5, h6, h7⟩ := hu
      exact ⟨by rw [yearStep_snd_cashSavings]; exact h6,
        by rw [yearStep_snd_investedAssets]; exact h7,
        by rw [yearStep_snd_pillar2]; exact h4,
        by rw [yearStep_snd_pillar3]; exact h5⟩
    · exact ih (yearStep (scenarioModifiers sc) a s).1
        (by rw [yearStep_fst_data, hd]) hs' p h

theorem initState_nonneg (d : FinancialData) (hM : NonnegMoney d) :
    StateNonneg (initState d) := by
  obtain ⟨h1, h2, h3, h4, _, h6, h7, h8, h9, _⟩ := hM
  refine ⟨h1, h2, h3, by show 0 ≤ d.pillar2Balance1 + d.pillar2Balance2; linarith,
    by show 0 ≤ d.pillar3Balance1 + d.pillar3Balance2; linarith, ?_, ?_⟩
  · show 0 ≤ d.currentSavings * (3/10)
    exact mul_nonneg h4 (by norm_num)
  · show 0 ≤ d.currentSavings * (7/10)
    exact mul_nonneg h4 (by norm_num)

/-- C6 (amended): for profiles whose monetary fields are non-negative and
whose base salary-increase rate is non-negative, every yearly snapshot of
every scenario run reports non-negative cash, invested, pillar-2 and pillar-3
buckets. -/
theorem c6_buckets_nonneg (data : FinancialData) (sc : ScenarioType)
    (hM : NonnegMoney data) (hE : 0 ≤ data.expectedSalaryIncrease.getD (3/2)) :
    ∀ p ∈ (calculateProjections data sc).data,
      0 ≤ p.cashSavings ∧ 0 ≤ p.investedAssets ∧ 0 ≤ p.pillar2Wealth ∧
        0 ≤ p.pillar3Wealth := by
  intro p hp
  rw [calculateProjections_data] at hp
  have hplanned : 0 ≤ data.pillar3AnnualContribution1 + data.pillar3AnnualContribution2 := by
    obtain ⟨_, _, _, _, _, _, _, _, _, hc1, hc2, _⟩ := hM
    linarith
  exact runYears_buckets_nonneg sc data hE hplanned (simAges data) (initState data) rfl
    (initState_nonneg data hM) p hp

theorem depletedNote_ne_moveNote : depletedNote ≠ moveNote := by decide

theorem notesOf_no_depleted (s : SimState) (tw : ℚ) (h : 0 ≤ tw) :
    depletedNote ∉ notesOf s tw := by
  unfold notesOf
  have hc : ¬ (tw < 0 ∧ s.savingsDepletedAge = none) := fun hx =>
    absurd h (not_le.mpr hx.1)
  by_cases hf : relocationFires s <;> simp [hf, hc, depletedNote_ne_moveNote]

theorem yearStep_notes_getD (mods : ScenarioModifiers) (a : ℕ) (s : SimState) :
    (yearStep mods a s).2.notes.getD [] = notesOf s (totalWealthOf mods a s) := by
  rw [yearStep_snd_notes]
  by_cases h : notesOf s (totalWealthOf mods a s) = [] <;> simp [h]

theorem runYears_no_depletion (sc : ScenarioType) (d : FinancialData)
    (hE : 0 ≤ d.expectedSalaryIncrease.getD (3/2))
    (hplanned : 0 ≤ d.pillar3AnnualContribution1 + d.pillar3AnnualContribution2) :
    ∀ (l : List ℕ) (s : SimState), s.data = d → StateNonneg s →
      s.savingsDepletedAge = none →
      (runYears (scenarioModifiers sc) l s).1.savingsDepletedAge = none ∧
        ∀ p ∈ (runYears (scenarioModifiers sc) l s).2, depletedNote ∉ p.notes.getD [] := by
  intro l
  induction l with
  | nil =>
    intro s _ _ hnone
    exact ⟨hnone, by simp [runYears_nil]⟩
  | cons a rest ih =>
    intro s hd hs hnone
    obtain ⟨hu, hs'⟩ := yearStep_nonneg sc d a s hd hE hplanned hs
    have htw : 0 ≤ totalWealthOf (scenarioModifiers sc) a s := by
      obtain ⟨_, _, _, h4, h5, h6, h7⟩ := hu
      rw [totalWealthOf_eq]
      linarith
    have hdep' : (yearStep (scenarioModifiers sc) a s).1.savingsDepletedAge = none := by
      rw [yearStep_fst_savingsDepletedAge,
        if_neg (fun hx => absurd htw (not_le.mpr hx.1))]
      exact hnone
    obtain ⟨hrest1, hrest2⟩ := ih (yearStep (scenarioModifiers sc) a s).1
      (by rw [yearStep_fst_data, hd]) hs' hdep'
    rw [runYears_cons]
    refine ⟨hrest1, ?_⟩
    intro p hp
    rcases List.mem_cons.mp hp with h | h
    · subst h
      rw [yearStep_notes_getD]
      exact notesOf_no_depleted s _ htw
    · exact hrest2 p h

/-- C7 (amended): for profiles with non-negative monetary fields and a
non-negative base salary-increase rate, the depletion branch guarded by
`totalWealth < 0` is unreachable: `savingsDepletedAge` is `none` in every
`ScenarioResult` and the depletion note never appears in any snapshot — so
the older variant's viability criterion (`savingsDepletedAge === null`) is
satisfied by every such run. -/
theorem c7_no_depletion (data : FinancialData) (sc : ScenarioType)
    (hM : NonnegMoney data) (hE : 0 ≤ data.expectedSalaryIncrease.getD (3/2)) :
    (calculateProjections data sc).savingsDepletedAge = none ∧
      ∀ p ∈ (calculateProjections data sc).data, depletedNote ∉ p.notes.getD [] := by
  have hplanned : 0 ≤ data.pillar3AnnualContribution1 + data.pillar3AnnualContribution2 := by
    obtain ⟨_, _, _, _, _, _, _, _, _, hc1, hc2, _⟩ := hM
    linarith
  rw [calculateProjections_data, calculateProjections_savingsDepletedAge]
  exact runYears_no_depletion sc data hE hplanned (simAges data) (initState data) rfl
    (initState_nonneg data hM) rfl

/-- Witness for C7 at `profileA`. -/
theorem c7_witness :
    (calculateProjections profileA ScenarioType.neutral).savingsDepletedAge = none :=
  (c7_no_depletion profileA ScenarioType.neutral
    (by norm_num [NonnegMoney, profileA]) (by norm_num [profileA])).1

/-- Witness for C6 at `profileA`: the first snapshot's buckets are
non-negative (`-1` is the sentinel for a missing snapshot, so the statement
forces the snapshot to exist). -/
theorem c6_witness :
    0 ≤ (((calculateProjections profileA ScenarioType.neutral).data.get? 0).map
        ProjectionPoint.cashSavings).getD (-1) ∧
      0 ≤ (((calculateProjections profileA ScenarioType.neutral).data.get? 0).map
        ProjectionPoint.pillar3Wealth).getD (-1) := by
  have hlen : (calculateProjections profileA ScenarioType.neutral).data.length = 3 := by
    rw [calculateProjections_data, runYears_length]; rfl
  cases h0 : (calculateProjections profileA ScenarioType.neutral).data.get? 0 with
  | none => rw [List.get?_eq_none] at h0; omega
  | some p =>
    have hm := List.get?_mem h0
    have hb := c6_buckets_nonneg profileA ScenarioType.neutral
      (by norm_num [NonnegMoney, profileA]) (by norm_num [profileA]) p hm
    exact ⟨by simpa using hb.1, by simpa using hb.2.2.2⟩

set_option maxRecDepth 8000 in
/-- Counterexample to C1 as stated: on `profileA` (retired throughout, no
expenses) the pessimistic scenario's larger inflation modifier raises the
public pension faster than the optimistic one, so the pessimistic final
wealth strictly exceeds the optimistic final wealth. -/
theorem c1_counterexample :
    (calculateProjections profileA ScenarioType.optimistic).finalWealth <
      (calculateProjections profileA ScenarioType.pessimistic).finalWealth := by
  norm_num [calculateProjections, calculateProjectionsFull, runYears, yearStep,
    phaseOut, retiredUpdate, workingUpdate, simAges, initState, profileA,
    scenarioModifiers, baseInflationPct, effectiveInvestmentReturnPct,
    inflationFactorAt, inflatedRent, relocationFires, rentAfterEvents,
    childrenExpensesOf, livingAnnualOf, travelAnnualOf, housingAnnualOf,
    totalExpensesOf, childrenPass, computeChildrenSchedule, getTaxFactor,
    taxFactorDefault, DEFAULT_MAX_AGE, AHV_COUPLE_MAX_ANNUAL_2025,
    LPP_CONVERSION_RATE, LPP_INTEREST_RATE, List.range']

set_option maxRecDepth 8000 in
/-- Counterexample to C6 as stated: `profileNeg` has only non-negative
monetary fields, yet its -1000 % salary-increase rate drives the salary
negative after one year, so the pillar-2 contribution of simulation year 1 is
negative and the snapshot at index 1 reports a negative pillar-2 bucket. -/
theorem c6_counterexample :
    NonnegMoney profileNeg ∧
      (((calculateProjections profileNeg ScenarioType.neutral).data.get? 1).map
        ProjectionPoint.pillar2Wealth).getD 0 < 0 := by
  constructor
  · norm_num [NonnegMoney, profileNeg, profileA]
  · norm_num [calculateProjections, calculateProjectionsFull, runYears, yearStep,
      phaseOut, retiredUpdate, workingUpdate, simAges, initState, profileNeg, profileA,
      scenarioModifiers, baseInflationPct, effectiveInvestmentReturnPct,
      inflationFactorAt, inflatedRent, relocationFires, rentAfterEvents,
      childrenExpensesOf, livingAnnualOf, travelAnnualOf, housingAnnualOf,
      totalExpensesOf, childrenPass, computeChildrenSchedule, getTaxFactor,
      taxFactorDefault, getSalaryGrowthRate, careerBoost, drainBuckets,
      DEFAULT_MAX_AGE, AHV_COUPLE_MAX_ANNUAL_2025, LPP_CONVERSION_RATE,
      LPP_INTEREST_RATE, List.range']

set_option maxRecDepth 8000 in
/-- Counterexample to C7 as stated: on `profileNeg` (non-negative monetary
fields, -1000 % salary-increase rate) total wealth goes negative at age 89,
so the depletion branch fires and `savingsDepletedAge` is not null. -/
theorem c7_counterexample :
    NonnegMoney profileNeg ∧
      (calculateProjections profileNeg ScenarioType.neutral).savingsDepletedAge =
        some 89 := by
  constructor
  · norm_num [NonnegMoney, profileNeg, profileA]
  · norm_num [calculateProjections, calculateProjectionsFull, runYears, yearStep,
      phaseOut, retiredUpdate, workingUpdate, simAges, initState, profileNeg, profileA,
      scenarioModifiers, baseInflationPct, effectiveInvestmentReturnPct,
      inflationFactorAt, inflatedRent, relocationFires, rentAfterEvents,
      childrenExpensesOf, livingAnnualOf, travelAnnualOf, housingAnnualOf,
      totalExpensesOf, childrenPass, computeChildrenSchedule, getTaxFactor,
      taxFactorDefault, getSalaryGrowthRate, careerBoost, drainBuckets,
      DEFAULT_MAX_AGE, AHV_COUPLE_MAX_ANNUAL_2025, LPP_CONVERSION_RATE,
      LPP_INTEREST_RATE, List.range']

theorem yearStep_snd_totalWealth (mods : ScenarioModifiers) (a : ℕ) (s : SimState) :
    (yearStep mods a s).2.totalWealth = totalWealthOf mods a s := rfl

theorem zurich_ne_empty : ("Zürich" : String) ≠ "" := by decide

set_option maxRecDepth 8000 in
theorem exP_step0 :
    (yearStep (scenarioModifiers ScenarioType.pessimistic) 30 (initState exampleData)).1 = exP1 := by
  norm_num [yearStep, phaseOut, workingUpdate, retiredUpdate, drainBuckets, scenarioModifiers, baseInflationPct, effectiveInvestmentReturnPct, inflationFactorAt, inflatedRent, relocationFires, rentAfterEvents, childrenExpensesOf, livingAnnualOf, travelAnnualOf, housingAnnualOf, totalExpensesOf, childrenPass, computeChildrenSchedule, childCost, getTaxFactor, taxFactorByCanton, taxFactorDefault, getSalaryGrowthRate, careerBoost, notesOf, zurich_ne_empty, DEFAULT_MAX_AGE, AHV_COUPLE_MAX_ANNUAL_2025, LPP_CONVERSION_RATE, LPP_INTEREST_RATE, startYear, moveNote, depletedNote, exampleData, initState, exP1]

set_option maxRecDepth 8000 in
theorem exP_step1 :
    (yearStep (scenarioModifiers ScenarioType.pessimistic) 31 (exP1)).1 = exP2 := by
  norm_num [yearStep, phaseOut, workingUpdate, retiredUpdate, drainBuckets, scenarioModifiers, baseInflationPct, effectiveInvestmentReturnPct, inflationFactorAt, inflatedRent, relocationFires, rentAfterEvents, childrenExpensesOf, livingAnnualOf, travelAnnualOf, housingAnnualOf, totalExpensesOf, childrenPass, computeChildrenSchedule, childCost, getTaxFactor, taxFactorByCanton, taxFactorDefault, getSalaryGrowthRate, careerBoost, notesOf, zurich_ne_empty, DEFAULT_MAX_AGE, AHV_COUPLE_MAX_ANNUAL_2025, LPP_CONVERSION_RATE, LPP_INTEREST_RATE, startYear, moveNote, depletedNote, exampleData, initState, exP2, exP1]

set_option maxRecDepth 8000 in
theorem exP_step2 :
    (yearStep (scenarioModifiers ScenarioType.pessimistic) 32 (exP2)).1 = exP3 := by
  norm_num [yearStep, phaseOut, workingUpdate, retiredUpdate, drainBuckets, scenarioModifiers, baseInflationPct, effectiveInvestmentReturnPct, inflationFactorAt, inflatedRent, relocationFires, rentAfterEvents, childrenExpensesOf, livingAnnualOf, travelAnnualOf, housingAnnualOf, totalExpensesOf, childrenPass, computeChildrenSchedule, childCost, getTaxFactor, taxFactorByCanton, taxFactorDefault, getSalaryGrowthRate, careerBoost, notesOf, zurich_ne_empty, DEFAULT_MAX_AGE, AHV_COUPLE_MAX_ANNUAL_2025, LPP_CONVERSION_RATE, LPP_INTEREST_RATE, startYear, moveNote, depletedNote, exampleData, initState, exP3, exP2]

set_option maxRecDepth 8000 in
theorem exP_step3 :
    (yearStep (scenarioModifiers ScenarioType.pessimistic) 33 (exP3)).1 = exP4 := by
  norm_num [yearStep, phaseOut, workingUpdate, retiredUpdate, drainBuckets, scenarioModifiers, baseInflationPct, effectiveInvestmentReturnPct, inflationFactorAt, inflatedRent, relocationFires, rentAfterEvents, childrenExpensesOf, livingAnnualOf, travelAnnualOf, housingAnnualOf, totalExpensesOf, childrenPass, computeChildrenSchedule, childCost, getTaxFactor, taxFactorByCanton, taxFactorDefault, getSalaryGrowthRate, careerBoost, notesOf, zurich_ne_empty, DEFAULT_MAX_AGE, AHV_COUPLE_MAX_ANNUAL_2025, LPP_CONVERSION_RATE, LPP_INTEREST_RATE, startYear, moveNote, depletedNote, exampleData, initState, exP4, exP3]

set_option maxRecDepth 8000 in
theorem exP_step4 :
    (yearStep (scenarioModifiers ScenarioType.pessimistic) 34 (exP4)).1 = exP5 := by
  norm_num [yearStep, phaseOut, workingUpdate, retiredUpdate, drainBuckets, scenarioModifiers, baseInflationPct, effectiveInvestmentReturnPct, inflationFactorAt, inflatedRent, relocationFires, rentAfterEvents, childrenExpensesOf, livingAnnualOf, travelAnnualOf, housingAnnualOf, totalExpensesOf, childrenPass, computeChildrenSchedule, childCost, getTaxFactor, taxFactorByCanton, taxFactorDefault, getSalaryGrowthRate, careerBoost, notesOf, zurich_ne_empty, DEFAULT_MAX_AGE, AHV_COUPLE_MAX_ANNUAL_2025, LPP_CONVERSION_RATE, LPP_INTEREST_RATE, startYear, moveNote, depletedNote, exampleData, initState, exP5, exP4]

set_option maxRecDepth 8000 in
theorem exP_step5 :
    (yearStep (scenarioModifiers ScenarioType.pessimistic) 35 (exP5)).1 = exP6 := by
  norm_num [yearStep, phaseOut, workingUpdate, retiredUpdate, drainBuckets, scenarioModifiers, baseInflationPct, effectiveInvestmentReturnPct, inflationFactorAt, inflatedRent, relocationFires, rentAfterEvents, childrenExpensesOf, livingAnnualOf, travelAnnualOf, housingAnnualOf, totalExpensesOf, childrenPass, computeChildrenSchedule, childCost, getTaxFactor, taxFactorByCanton, taxFactorDefault, getSalaryGrowthRate, careerBoost, notesOf, zurich_ne_empty, DEFAULT_MAX_AGE, AHV_COUPLE_MAX_ANNUAL_2025, LPP_CONVERSION_RATE, LPP_INTEREST_RATE, startYear, moveNote, depletedNote, exampleData, initState, exP6, exP5]

set_option maxRecDepth 8000 in
theorem exP_step6 :
    (yearStep (scenarioModifiers ScenarioType.pessimistic) 36 (exP6)).1 = exP7 := by
  norm_num [yearStep, phaseOut, workingUpdate, retiredUpdate, drainBuckets, scenarioModifiers, baseInflationPct, effectiveInvestmentReturnPct, inflationFactorAt, inflatedRent, relocationFires, rentAfterEvents, childrenExpensesOf, livingAnnualOf, travelAnnualOf, housingAnnualOf, totalExpensesOf, childrenPass, computeChildrenSchedule, childCost, getTaxFactor, taxFactorByCanton, taxFactorDefault, getSalaryGrowthRate, careerBoost, notesOf, zurich_ne_empty, DEFAULT_MAX_AGE, AHV_COUPLE_MAX_ANNUAL_2025, LPP_CONVERSION_RATE, LPP_INTEREST_RATE, startYear, moveNote, depletedNote, exampleData, initState, exP7, exP6]

set_option maxRecDepth 8000 in
theorem exP_step7 :
    (yearStep (scenarioModifiers ScenarioType.pessimistic) 37 (exP7)).1 = exP8 := by
  norm_num [yearStep, phaseOut, workingUpdate, retiredUpdate, drainBuckets, scenarioModifiers, baseInflationPct, effectiveInvestmentReturnPct, inflationFactorAt, inflatedRent, relocationFires, rentAfterEvents, childrenExpensesOf, livingAnnualOf, travelAnnualOf, housingAnnualOf, totalExpensesOf, childrenPass, computeChildrenSchedule, childCost, getTaxFactor, taxFactorByCanton, taxFactorDefault, getSalaryGrowthRate, careerBoost, notesOf, zurich_ne_empty, DEFAULT_MAX_AGE, AHV_COUPLE_MAX_ANNUAL_2025, LPP_CONVERSION_RATE, LPP_INTEREST_RATE, startYear, moveNote, depletedNote, exampleData, initState, exP8, exP7]

set_option maxRecDepth 8000 in
theorem exP_step8 :
    (yearStep (scenarioModifiers ScenarioType.pessimistic) 38 (exP8)).1 = exP9 := by
  norm_num [yearStep, phaseOut, workingUpdate, retiredUpdate, drainBuckets, scenarioModifiers, baseInflationPct, effectiveInvestmentReturnPct, inflationFactorAt, inflatedRent, relocationFires, rentAfterEvents, childrenExpensesOf, livingAnnualOf, travelAnnualOf, housingAnnualOf, totalExpensesOf, childrenPass, computeChildrenSchedule, childCost, getTaxFactor, taxFactorByCanton, taxFactorDefault, getSalaryGrowthRate, careerBoost, notesOf, zurich_ne_empty, DEFAULT_MAX_AGE, AHV_COUPLE_MAX_ANNUAL_2025, LPP_CONVERSION_RATE, LPP_INTEREST_RATE, startYear, moveNote, depletedNote, exampleData, initState, exP9, exP8]

set_option maxRecDepth 8000 in
theorem exP_step9 :
    (yearStep (scenarioModifiers ScenarioType.pessimistic) 39 (exP9)).1 = exP10 := by
  norm_num [yearStep, phaseOut, workingUpdate, retiredUpdate, drainBuckets, scenarioModifiers, baseInflationPct, effectiveInvestmentReturnPct, inflationFactorAt, inflatedRent, relocationFires, rentAfterEvents, childrenExpensesOf, livingAnnualOf, travelAnnualOf, housingAnnualOf, totalExpensesOf, childrenPass, computeChildrenSchedule, childCost, getTaxFactor, taxFactorByCanton, taxFactorDefault, getSalaryGrowthRate, careerBoost, notesOf, zurich_ne_empty, DEFAULT_MAX_AGE, AHV_COUPLE_MAX_ANNUAL_2025, LPP_CONVERSION_RATE, LPP_INTEREST_RATE, startYear, moveNote, depletedNote, exampleData, initState, exP10, exP9]

set_option maxRecDepth 8000 in
theorem exP_step10 :
    (yearStep (scenarioModifiers ScenarioType.pessimistic) 40 (exP10)).1 = exP11 := by
  norm_num [yearStep, phaseOut, workingUpdate, retiredUpdate, drainBuckets, scenarioModifiers, baseInflationPct, effectiveInvestmentReturnPct, inflationFactorAt, inflatedRent, relocationFires, rentAfterEvents, childrenExpensesOf, livingAnnualOf, travelAnnualOf, housingAnnualOf, totalExpensesOf, childrenPass, computeChildrenSchedule, childCost, getTaxFactor, taxFactorByCanton, taxFactorDefault, getSalaryGrowthRate, careerBoost, notesOf, zurich_ne_empty, DEFAULT_MAX_AGE, AHV_COUPLE_MAX_ANNUAL_2025, LPP_CONVERSION_RATE, LPP_INTEREST_RATE, startYear, moveNote, depletedNote, exampleData, initState, exP11, exP10]

set_option maxRecDepth 8000 in
theorem exP_step11 :
    (yearStep (scenarioModifiers ScenarioType.pessimistic) 41 (exP11)).1 = exP12 := by
  norm_num [yearStep, phaseOut, workingUpdate, retiredUpdate, drainBuckets, scenarioModifiers, baseInflationPct, effectiveInvestmentReturnPct, inflationFactorAt, inflatedRent, relocationFires, rentAfterEvents, childrenExpensesOf, livingAnnualOf, travelAnnualOf, housingAnnualOf, totalExpensesOf, childrenPass, computeChildrenSchedule, childCost, getTaxFactor, taxFactorByCanton, taxFactorDefault, getSalaryGrowthRate, careerBoost, notesOf, zurich_ne_empty, DEFAULT_MAX_AGE, AHV_COUPLE_MAX_ANNUAL_2025, LPP_CONVERSION_RATE, LPP_INTEREST_RATE, startYear, moveNote, depletedNote, exampleData, initState, exP12, exP11]

set_option maxRecDepth 8000 in
theorem exP_step12 :
    (yearStep (scenarioModifiers ScenarioType.pessimistic) 42 (exP12)).1 = exP13 := by
  norm_num [yearStep, phaseOut, workingUpdate, retiredUpdate, drainBuckets, scenarioModifiers, baseInflationPct, effectiveInvestmentReturnPct, inflationFactorAt, inflatedRent, relocationFires, rentAfterEvents, childrenExpensesOf, livingAnnualOf, travelAnnualOf, housingAnnualOf, totalExpensesOf, childrenPass, computeChildrenSchedule, childCost, getTaxFactor, taxFactorByCanton, taxFactorDefault, getSalaryGrowthRate, careerBoost, notesOf, zurich_ne_empty, DEFAULT_MAX_AGE, AHV_COUPLE_MAX_ANNUAL_2025, LPP_CONVERSION_RATE, LPP_INTEREST_RATE, startYear, moveNote, depletedNote, exampleData, initState, exP13, exP12]

set_option maxRecDepth 8000 in
theorem exP_step13 :
    (yearStep (scenarioModifiers ScenarioType.pessimistic) 43 (exP13)).1 = exP14 := by
  norm_num [yearStep, phaseOut, workingUpdate, retiredUpdate, drainBuckets, scenarioModifiers, baseInflationPct, effectiveInvestmentReturnPct, inflationFactorAt, inflatedRent, relocationFires, rentAfterEvents, childrenExpensesOf, livingAnnualOf, travelAnnualOf, housingAnnualOf, totalExpensesOf, childrenPass, computeChildrenSchedule, childCost, getTaxFactor, taxFactorByCanton, taxFactorDefault, getSalaryGrowthRate, careerBoost, notesOf, zurich_ne_empty, DEFAULT_MAX_AGE, AHV_COUPLE_MAX_ANNUAL_2025, LPP_CONVERSION_RATE, LPP_INTEREST_RATE, startYear, moveNote, depletedNote, exampleData, initState, exP14, exP13]

set_option maxRecDepth 8000 in
theorem exP_step14 :
    (yearStep (scenarioModifiers ScenarioType.pessimistic) 44 (exP14)).1 = exP15 := by
  norm_num [yearStep, phaseOut, workingUpdate, retiredUpdate, drainBuckets, scenarioModifiers, baseInflationPct, effectiveInvestmentReturnPct, inflationFactorAt, inflatedRent, relocationFires, rentAfterEvents, childrenExpensesOf, livingAnnualOf, travelAnnualOf, housingAnnualOf, totalExpensesOf, childrenPass, computeChildrenSchedule, childCost, getTaxFactor, taxFactorByCanton, taxFactorDefault, getSalaryGrowthRate, careerBoost, notesOf, zurich_ne_empty, DEFAULT_MAX_AGE, AHV_COUPLE_MAX_ANNUAL_2025, LPP_CONVERSION_RATE, LPP_INTEREST_RATE, startYear, moveNote, depletedNote, exampleData, initState, exP15, exP14]

set_option maxRecDepth 8000 in
theorem exP_step15 :
    (yearStep (scenarioModifiers ScenarioType.pessimistic) 45 (exP15)).1 = exP16 := by
  norm_num [yearStep, phaseOut, workingUpdate, retiredUpdate, drainBuckets, scenarioModifiers, baseInflationPct, effectiveInvestmentReturnPct, inflationFactorAt, inflatedRent, relocationFires, rentAfterEvents, childrenExpensesOf, livingAnnualOf, travelAnnualOf, housingAnnualOf, totalExpensesOf, childrenPass, computeChildrenSchedule, childCost, getTaxFactor, taxFactorByCanton, taxFactorDefault, getSalaryGrowthRate, careerBoost, notesOf, zurich_ne_empty, DEFAULT_MAX_AGE, AHV_COUPLE_MAX_ANNUAL_2025, LPP_CONVERSION_RATE, LPP_INTEREST_RATE, startYear, moveNote, depletedNote, exampleData, initState, exP16, exP15]

set_option maxRecDepth 8000 in
theorem exP_step16 :
    (yearStep (scenarioModifiers ScenarioType.pessimistic) 46 (exP16)).1 = exP17 := by
  norm_num [yearStep, phaseOut, workingUpdate, retiredUpdate, drainBuckets, scenarioModifiers, baseInflationPct, effectiveInvestmentReturnPct, inflationFactorAt, inflatedRent, relocationFires, rentAfterEvents, childrenExpensesOf, livingAnnualOf, travelAnnualOf, housingAnnualOf, totalExpensesOf, childrenPass, computeChildrenSchedule, childCost, getTaxFactor, taxFactorByCanton, taxFactorDefault, getSalaryGrowthRate, careerBoost, notesOf, zurich_ne_empty, DEFAULT_MAX_AGE, AHV_COUPLE_MAX_ANNUAL_2025, LPP_CONVERSION_RATE, LPP_INTEREST_RATE, startYear, moveNote, depletedNote, exampleData, initState, exP17, exP16]

set_option maxRecDepth 8000 in
theorem exP_step17 :
    (yearStep (scenarioModifiers ScenarioType.pessimistic) 47 (exP17)).1 = exP18 := by
  norm_num [yearStep, phaseOut, workingUpdate, retiredUpdate, drainBuckets, scenarioModifiers, baseInflationPct, effectiveInvestmentReturnPct, inflationFactorAt, inflatedRent, relocationFires, rentAfterEvents, childrenExpensesOf, livingAnnualOf, travelAnnualOf, housingAnnualOf, totalExpensesOf, childrenPass, computeChildrenSchedule, childCost, getTaxFactor, taxFactorByCanton, taxFactorDefault, getSalaryGrowthRate, careerBoost, notesOf, zurich_ne_empty, DEFAULT_MAX_AGE, AHV_COUPLE_MAX_ANNUAL_2025, LPP_CONVERSION_RATE, LPP_INTEREST_RATE, startYear, moveNote, depletedNote, exampleData, initState, exP18, exP17]

set_option maxRecDepth 8000 in
theorem exP_step18 :
    (yearStep (scenarioModifiers ScenarioType.pessimistic) 48 (exP18)).1 = exP19 := by
  norm_num [yearStep, phaseOut, workingUpdate, retiredUpdate, drainBuckets, scenarioModifiers, baseInflationPct, effectiveInvestmentReturnPct, inflationFactorAt, inflatedRent, relocationFires, rentAfterEvents, childrenExpensesOf, livingAnnualOf, travelAnnualOf, housingAnnualOf, totalExpensesOf, childrenPass, computeChildrenSchedule, childCost, getTaxFactor, taxFactorByCanton, taxFactorDefault, getSalaryGrowthRate, careerBoost, notesOf, zurich_ne_empty, DEFAULT_MAX_AGE, AHV_COUPLE_MAX_ANNUAL_2025, LPP_CONVERSION_RATE, LPP_INTEREST_RATE, startYear, moveNote, depletedNote, exampleData, initState, exP19, exP18]

set_option maxRecDepth 8000 in
theorem exP_step19 :
    (yearStep (scenarioModifiers ScenarioType.pessimistic) 49 (exP19)).1 = exP20 := by
  norm_num [yearStep, phaseOut, workingUpdate, retiredUpdate, drainBuckets, scenarioModifiers, baseInflationPct, effectiveInvestmentReturnPct, inflationFactorAt, inflatedRent, relocationFires, rentAfterEvents, childrenExpensesOf, livingAnnualOf, travelAnnualOf, housingAnnualOf, totalExpensesOf, childrenPass, computeChildrenSchedule, childCost, getTaxFactor, taxFactorByCanton, taxFactorDefault, getSalaryGrowthRate, careerBoost, notesOf, zurich_ne_empty, DEFAULT_MAX_AGE, AHV_COUPLE_MAX_ANNUAL_2025, LPP_CONVERSION_RATE, LPP_INTEREST_RATE, startYear, moveNote, depletedNote, exampleData, initState, exP20, exP19]

set_option maxRecDepth 8000 in
theorem exP_step20 :
    (yearStep (scenarioModifiers ScenarioType.pessimistic) 50 (exP20)).1 = exP21 := by
  norm_num [yearStep, phaseOut, workingUpdate, retiredUpdate, drainBuckets, scenarioModifiers, baseInflationPct, effectiveInvestmentReturnPct, inflationFactorAt, inflatedRent, relocationFires, rentAfterEvents, childrenExpensesOf, livingAnnualOf, travelAnnualOf, housingAnnualOf, totalExpensesOf, childrenPass, computeChildrenSchedule, childCost, getTaxFactor, taxFactorByCanton, taxFactorDefault, getSalaryGrowthRate, careerBoost, notesOf, zurich_ne_empty, DEFAULT_MAX_AGE, AHV_COUPLE_MAX_ANNUAL_2025, LPP_CONVERSION_RATE, LPP_INTEREST_RATE, startYear, moveNote, depletedNote, exampleData, initState, exP21, exP20]

set_option maxRecDepth 8000 in
theorem exP_step21 :
    (yearStep (scenarioModifiers ScenarioType.pessimistic) 51 (exP21)).1 = exP22 := by
  norm_num [yearStep, phaseOut, workingUpdate, retiredUpdate, drainBuckets, scenarioModifiers, baseInflationPct, effectiveInvestmentReturnPct, inflationFactorAt, inflatedRent, relocationFires, rentAfterEvents, childrenExpensesOf, livingAnnualOf, travelAnnualOf, housingAnnualOf, totalExpensesOf, childrenPass, computeChildrenSchedule, childCost, getTaxFactor, taxFactorByCanton, taxFactorDefault, getSalaryGrowthRate, careerBoost, notesOf, zurich_ne_empty, DEFAULT_MAX_AGE, AHV_COUPLE_MAX_ANNUAL_2025, LPP_CONVERSION_RATE, LPP_INTEREST_RATE, startYear, moveNote, depletedNote, exampleData, initState, exP22, exP21]

set_option maxRecDepth 8000 in
theorem exP_step22 :
    (yearStep (scenarioModifiers ScenarioType.pessimistic) 52 (exP22)).1 = exP23 := by
  norm_num [yearStep, phaseOut, workingUpdate, retiredUpdate, drainBuckets, scenarioModifiers, baseInflationPct, effectiveInvestmentReturnPct, inflationFactorAt, inflatedRent, relocationFires, rentAfterEvents, childrenExpensesOf, livingAnnualOf, travelAnnualOf, housingAnnualOf, totalExpensesOf, childrenPass, computeChildrenSchedule, childCost, getTaxFactor, taxFactorByCanton, taxFactorDefault, getSalaryGrowthRate, careerBoost, notesOf, zurich_ne_empty, DEFAULT_MAX_AGE, AHV_COUPLE_MAX_ANNUAL_2025, LPP_CONVERSION_RATE, LPP_INTEREST_RATE, startYear, moveNote, depletedNote, exampleData, initState, exP23, exP22]

set_option maxRecDepth 8000 in
theorem exP_step23 :
    (yearStep (scenarioModifiers ScenarioType.pessimistic) 53 (exP23)).1 = exP24 := by
  norm_num [yearStep, phaseOut, workingUpdate, retiredUpdate, drainBuckets, scenarioModifiers, baseInflationPct, effectiveInvestmentReturnPct, inflationFactorAt, inflatedRent, relocationFires, rentAfterEvents, childrenExpensesOf, livingAnnualOf, travelAnnualOf, housingAnnualOf, totalExpensesOf, childrenPass, computeChildrenSchedule, childCost, getTaxFactor, taxFactorByCanton, taxFactorDefault, getSalaryGrowthRate, careerBoost, notesOf, zurich_ne_empty, DEFAULT_MAX_AGE, AHV_COUPLE_MAX_ANNUAL_2025, LPP_CONVERSION_RATE, LPP_INTEREST_RATE, startYear, moveNote, depletedNote, exampleData, initState, exP24, exP23]

set_option maxRecDepth 8000 in
theorem exP_step24 :
    (yearStep (scenarioModifiers ScenarioType.pessimistic) 54 (exP24)).1 = exP25 := by
  norm_num [yearStep, phaseOut, workingUpdate, retiredUpdate, drainBuckets, scenarioModifiers, baseInflationPct, effectiveInvestmentReturnPct, inflationFactorAt, inflatedRent, relocationFires, rentAfterEvents, childrenExpensesOf, livingAnnualOf, travelAnnualOf, housingAnnualOf, totalExpensesOf, childrenPass, computeChildrenSchedule, childCost, getTaxFactor, taxFactorByCanton, taxFactorDefault, getSalaryGrowthRate, careerBoost, notesOf, zurich_ne_empty, DEFAULT_MAX_AGE, AHV_COUPLE_MAX_ANNUAL_2025, LPP_CONVERSION_RATE, LPP_INTEREST_RATE, startYear, moveNote, depletedNote, exampleData, initState, exP25, exP24]

set_option maxRecDepth 8000 in
theorem exP_step25 :
    (yearStep (scenarioModifiers ScenarioType.pessimistic) 55 (exP25)).1 = exP26 := by
  norm_num [yearStep, phaseOut, workingUpdate, retiredUpdate, drainBuckets, scenarioModifiers, baseInflationPct, effectiveInvestmentReturnPct, inflationFactorAt, inflatedRent, relocationFires, rentAfterEvents, childrenExpensesOf, livingAnnualOf, travelAnnualOf, housingAnnualOf, totalExpensesOf, childrenPass, computeChildrenSchedule, childCost, getTaxFactor, taxFactorByCanton, taxFactorDefault, getSalaryGrowthRate, careerBoost, notesOf, zurich_ne_empty, DEFAULT_MAX_AGE, AHV_COUPLE_MAX_ANNUAL_2025, LPP_CONVERSION_RATE, LPP_INTEREST_RATE, startYear, moveNote, depletedNote, exampleData, initState, exP26, exP25]

set_option maxRecDepth 8000 in
theorem exP_step26 :
    (yearStep (scenarioModifiers ScenarioType.pessimistic) 56 (exP26)).1 = exP27 := by
  norm_num [yearStep, phaseOut, workingUpdate, retiredUpdate, drainBuckets, scenarioModifiers, baseInflationPct, effectiveInvestmentReturnPct, inflationFactorAt, inflatedRent, relocationFires, rentAfterEvents, childrenExpensesOf, livingAnnualOf, travelAnnualOf, housingAnnualOf, totalExpensesOf, childrenPass, computeChildrenSchedule, childCost, getTaxFactor, taxFactorByCanton, taxFactorDefault, getSalaryGrowthRate, careerBoost, notesOf, zurich_ne_empty, DEFAULT_MAX_AGE, AHV_COUPLE_MAX_ANNUAL_2025, LPP_CONVERSION_RATE, LPP_INTEREST_RATE, startYear, moveNote, depletedNote, exampleData, initState, exP27, exP26]

set_option maxRecDepth 8000 in
theorem exP_step27 :
    (yearStep (scenarioModifiers ScenarioType.pessimistic) 57 (exP27)).1 = exP28 := by
  norm_num [yearStep, phaseOut, workingUpdate, retiredUpdate, drainBuckets, scenarioModifiers, baseInflationPct, effectiveInvestmentReturnPct, inflationFactorAt, inflatedRent, relocationFires, rentAfterEvents, childrenExpensesOf, livingAnnualOf, travelAnnualOf, housingAnnualOf, totalExpensesOf, childrenPass, computeChildrenSchedule, childCost, getTaxFactor, taxFactorByCanton, taxFactorDefault, getSalaryGrowthRate, careerBoost, notesOf, zurich_ne_empty, DEFAULT_MAX_AGE, AHV_COUPLE_MAX_ANNUAL_2025, LPP_CONVERSION_RATE, LPP_INTEREST_RATE, startYear, moveNote, depletedNote, exampleData, initState, exP28, exP27]

set_option maxRecDepth 8000 in
theorem exP_step28 :
    (yearStep (scenarioModifiers ScenarioType.pessimistic) 58 (exP28)).1 = exP29 := by
  norm_num [yearStep, phaseOut, workingUpdate, retiredUpdate, drainBuckets, scenarioModifiers, baseInflationPct, effectiveInvestmentReturnPct, inflationFactorAt, inflatedRent, relocationFires, rentAfterEvents, childrenExpensesOf, livingAnnualOf, travelAnnualOf, housingAnnualOf, totalExpensesOf, childrenPass, computeChildrenSchedule, childCost, getTaxFactor, taxFactorByCanton, taxFactorDefault, getSalaryGrowthRate, careerBoost, notesOf, zurich_ne_empty, DEFAULT_MAX_AGE, AHV_COUPLE_MAX_ANNUAL_2025, LPP_CONVERSION_RATE, LPP_INTEREST_RATE, startYear, moveNote, depletedNote, exampleData, initState, exP29, exP28]

set_option maxRecDepth 8000 in
theorem exP_step29 :
    (yearStep (scenarioModifiers ScenarioType.pessimistic) 59 (exP29)).1 = exP30 := by
  norm_num [yearStep, phaseOut, workingUpdate, retiredUpdate, drainBuckets, scenarioModifiers, baseInflationPct, effectiveInvestmentReturnPct, inflationFactorAt, inflatedRent, relocationFires, rentAfterEvents, childrenExpensesOf, livingAnnualOf, travelAnnualOf, housingAnnualOf, totalExpensesOf, childrenPass, computeChildrenSchedule, childCost, getTaxFactor, taxFactorByCanton, taxFactorDefault, getSalaryGrowthRate, careerBoost, notesOf, zurich_ne_empty, DEFAULT_MAX_AGE, AHV_COUPLE_MAX_ANNUAL_2025, LPP_CONVERSION_RATE, LPP_INTEREST_RATE, startYear, moveNote, depletedNote, exampleData, initState, exP30, exP29]

set_option maxRecDepth 8000 in
theorem exP_step30 :
    (yearStep (scenarioModifiers ScenarioType.pessimistic) 60 (exP30)).1 = exP31 := by
  norm_num [yearStep, phaseOut, workingUpdate, retiredUpdate, drainBuckets, scenarioModifiers, baseInflationPct, effectiveInvestmentReturnPct, inflationFactorAt, inflatedRent, relocationFires, rentAfterEvents, childrenExpensesOf, livingAnnualOf, travelAnnualOf, housingAnnualOf, totalExpensesOf, childrenPass, computeChildrenSchedule, childCost, getTaxFactor, taxFactorByCanton, taxFactorDefault, getSalaryGrowthRate, careerBoost, notesOf, zurich_ne_empty, DEFAULT_MAX_AGE, AHV_COUPLE_MAX_ANNUAL_2025, LPP_CONVERSION_RATE, LPP_INTEREST_RATE, startYear, moveNote, depletedNote, exampleData, initState, exP31, exP30]

set_option maxRecDepth 8000 in
theorem exP_step31 :
    (yearStep (scenarioModifiers ScenarioType.pessimistic) 61 (exP31)).1 = exP32 := by
  norm_num [yearStep, phaseOut, workingUpdate, retiredUpdate, drainBuckets, scenarioModifiers, baseInflationPct, effectiveInvestmentReturnPct, inflationFactorAt, inflatedRent, relocationFires, rentAfterEvents, childrenExpensesOf, livingAnnualOf, travelAnnualOf, housingAnnualOf, totalExpensesOf, childrenPass, computeChildrenSchedule, childCost, getTaxFactor, taxFactorByCanton, taxFactorDefault, getSalaryGrowthRate, careerBoost, notesOf, zurich_ne_empty, DEFAULT_MAX_AGE, AHV_COUPLE_MAX_ANNUAL_2025, LPP_CONVERSION_RATE, LPP_INTEREST_RATE, startYear, moveNote, depletedNote, exampleData, initState, exP32, exP31]

set_option maxRecDepth 8000 in
theorem exP_step32 :
    (yearStep (scenarioModifiers ScenarioType.pessimistic) 62 (exP32)).1 = exP33 := by
  norm_num [yearStep, phaseOut, workingUpdate, retiredUpdate, drainBuckets, scenarioModifiers, baseInflationPct, effectiveInvestmentReturnPct, inflationFactorAt, inflatedRent, relocationFires, rentAfterEvents, childrenExpensesOf, livingAnnualOf, travelAnnualOf, housingAnnualOf, totalExpensesOf, childrenPass, computeChildrenSchedule, childCost, getTaxFactor, taxFactorByCanton, taxFactorDefault, getSalaryGrowthRate, careerBoost, notesOf, zurich_ne_empty, DEFAULT_MAX_AGE, AHV_COUPLE_MAX_ANNUAL_2025, LPP_CONVERSION_RATE, LPP_INTEREST_RATE, startYear, moveNote, depletedNote, exampleData, initState, exP33, exP32]

set_option maxRecDepth 8000 in
theorem exP_step33 :
    (yearStep (scenarioModifiers ScenarioType.pessimistic) 63 (exP33)).1 = exP34 := by
  norm_num [yearStep, phaseOut, workingUpdate, retiredUpdate, drainBuckets, scenarioModifiers, baseInflationPct, effectiveInvestmentReturnPct, inflationFactorAt, inflatedRent, relocationFires, rentAfterEvents, childrenExpensesOf, livingAnnualOf, travelAnnualOf, housingAnnualOf, totalExpensesOf, childrenPass, computeChildrenSchedule, childCost, getTaxFactor, taxFactorByCanton, taxFactorDefault, getSalaryGrowthRate, careerBoost, notesOf, zurich_ne_empty, DEFAULT_MAX_AGE, AHV_COUPLE_MAX_ANNUAL_2025, LPP_CONVERSION_RATE, LPP_INTEREST_RATE, startYear, moveNote, depletedNote, exampleData, initState, exP34, exP33]

set_option maxRecDepth 8000 in
theorem exP_step34 :
    (yearStep (scenarioModifiers ScenarioType.pessimistic) 64 (exP34)).1 = exP35 := by
  norm_num [yearStep, phaseOut, workingUpdate, retiredUpdate, drainBuckets, scenarioModifiers, baseInflationPct, effectiveInvestmentReturnPct, inflationFactorAt, inflatedRent, relocationFires, rentAfterEvents, childrenExpensesOf, livingAnnualOf, travelAnnualOf, housingAnnualOf, totalExpensesOf, childrenPass, computeChildrenSchedule, childCost, getTaxFactor, taxFactorByCanton, taxFactorDefault, getSalaryGrowthRate, careerBoost, notesOf, zurich_ne_empty, DEFAULT_MAX_AGE, AHV_COUPLE_MAX_ANNUAL_2025, LPP_CONVERSION_RATE, LPP_INTEREST_RATE, startYear, moveNote, depletedNote, exampleData, initState, exP35, exP34]

set_option maxRecDepth 8000 in
theorem exP_step35 :
    (yearStep (scenarioModifiers ScenarioType.pessimistic) 65 (exP35)).1 = exP36 := by
  norm_num [yearStep, phaseOut, workingUpdate, retiredUpdate, drainBuckets, scenarioModifiers, baseInflationPct, effectiveInvestmentReturnPct, inflationFactorAt, inflatedRent, relocationFires, rentAfterEvents, childrenExpensesOf, livingAnnualOf, travelAnnualOf, housingAnnualOf, totalExpensesOf, childrenPass, computeChildrenSchedule, childCost, getTaxFactor, taxFactorByCanton, taxFactorDefault, getSalaryGrowthRate, careerBoost, notesOf, zurich_ne_empty, DEFAULT_MAX_AGE, AHV_COUPLE_MAX_ANNUAL_2025, LPP_CONVERSION_RATE, LPP_INTEREST_RATE, startYear, moveNote, depletedNote, exampleData, initState, exP36, exP35]

set_option maxRecDepth 8000 in
theorem exP_step36 :
    (yearStep (scenarioModifiers ScenarioType.pessimistic) 66 (exP36)).1 = exP37 := by
  norm_num [yearStep, phaseOut, workingUpdate, retiredUpdate, drainBuckets, scenarioModifiers, baseInflationPct, effectiveInvestmentReturnPct, inflationFactorAt, inflatedRent, relocationFires, rentAfterEvents, childrenExpensesOf, livingAnnualOf, travelAnnualOf, housingAnnualOf, totalExpensesOf, childrenPass, computeChildrenSchedule, childCost, getTaxFactor, taxFactorByCanton, taxFactorDefault, getSalaryGrowthRate, careerBoost, notesOf, zurich_ne_empty, DEFAULT_MAX_AGE, AHV_COUPLE_MAX_ANNUAL_2025, LPP_CONVERSION_RATE, LPP_INTEREST_RATE, startYear, moveNote, depletedNote, exampleData, initState, exP37, exP36]

set_option maxRecDepth 8000 in
theorem exP_step37 :
    (yearStep (scenarioModifiers ScenarioType.pessimistic) 67 (exP37)).1 = exP38 := by
  norm_num [yearStep, phaseOut, workingUpdate, retiredUpdate, drainBuckets, scenarioModifiers, baseInflationPct, effectiveInvestmentReturnPct, inflationFactorAt, inflatedRent, relocationFires, rentAfterEvents, childrenExpensesOf, livingAnnualOf, travelAnnualOf, housingAnnualOf, totalExpensesOf, childrenPass, computeChildrenSchedule, childCost, getTaxFactor, taxFactorByCanton, taxFactorDefault, getSalaryGrowthRate, careerBoost, notesOf, zurich_ne_empty, DEFAULT_MAX_AGE, AHV_COUPLE_MAX_ANNUAL_2025, LPP_CONVERSION_RATE, LPP_INTEREST_RATE, startYear, moveNote, depletedNote, exampleData, initState, exP38, exP37]

set_option maxRecDepth 8000 in
theorem exP_step38 :
    (yearStep (scenarioModifiers ScenarioType.pessimistic) 68 (exP38)).1 = exP39 := by
  norm_num [yearStep, phaseOut, workingUpdate, retiredUpdate, drainBuckets, scenarioModifiers, baseInflationPct, effectiveInvestmentReturnPct, inflationFactorAt, inflatedRent, relocationFires, rentAfterEvents, childrenExpensesOf, livingAnnualOf, travelAnnualOf, housingAnnualOf, totalExpensesOf, childrenPass, computeChildrenSchedule, childCost, getTaxFactor, taxFactorByCanton, taxFactorDefault, getSalaryGrowthRate, careerBoost, notesOf, zurich_ne_empty, DEFAULT_MAX_AGE, AHV_COUPLE_MAX_ANNUAL_2025, LPP_CONVERSION_RATE, LPP_INTEREST_RATE, startYear, moveNote, depletedNote, exampleData, initState, exP39, exP38]

set_option maxRecDepth 8000 in
theorem exP_step39 :
    (yearStep (scenarioModifiers ScenarioType.pessimistic) 69 (exP39)).1 = exP40 := by
  norm_num [yearStep, phaseOut, workingUpdate, retiredUpdate, drainBuckets, scenarioModifiers, baseInflationPct, effectiveInvestmentReturnPct, inflationFactorAt, inflatedRent, relocationFires, rentAfterEvents, childrenExpensesOf, livingAnnualOf, travelAnnualOf, housingAnnualOf, totalExpensesOf, childrenPass, computeChildrenSchedule, childCost, getTaxFactor, taxFactorByCanton, taxFactorDefault, getSalaryGrowthRate, careerBoost, notesOf, zurich_ne_empty, DEFAULT_MAX_AGE, AHV_COUPLE_MAX_ANNUAL_2025, LPP_CONVERSION_RATE, LPP_INTEREST_RATE, startYear, moveNote, depletedNote, exampleData, initState, exP40, exP39]

set_option maxRecDepth 8000 in
theorem exP_step40 :
    (yearStep (scenarioModifiers ScenarioType.pessimistic) 70 (exP40)).1 = exP41 := by
  norm_num [yearStep, phaseOut, workingUpdate, retiredUpdate, drainBuckets, scenarioModifiers, baseInflationPct, effectiveInvestmentReturnPct, inflationFactorAt, inflatedRent, relocationFires, rentAfterEvents, childrenExpensesOf, livingAnnualOf, travelAnnualOf, housingAnnualOf, totalExpensesOf, childrenPass, computeChildrenSchedule, childCost, getTaxFactor, taxFactorByCanton, taxFactorDefault, getSalaryGrowthRate, careerBoost, notesOf, zurich_ne_empty, DEFAULT_MAX_AGE, AHV_COUPLE_MAX_ANNUAL_2025, LPP_CONVERSION_RATE, LPP_INTEREST_RATE, startYear, moveNote, depletedNote, exampleData, initState, exP41, exP40]

set_option maxRecDepth 8000 in
theorem exP_step41 :
    (yearStep (scenarioModifiers ScenarioType.pessimistic) 71 (exP41)).1 = exP42 := by
  norm_num [yearStep, phaseOut, workingUpdate, retiredUpdate, drainBuckets, scenarioModifiers, baseInflationPct, effectiveInvestmentReturnPct, inflationFactorAt, inflatedRent, relocationFires, rentAfterEvents, childrenExpensesOf, livingAnnualOf, travelAnnualOf, housingAnnualOf, totalExpensesOf, childrenPass, computeChildrenSchedule, childCost, getTaxFactor, taxFactorByCanton, taxFactorDefault, getSalaryGrowthRate, careerBoost, notesOf, zurich_ne_empty, DEFAULT_MAX_AGE, AHV_COUPLE_MAX_ANNUAL_2025, LPP_CONVERSION_RATE, LPP_INTEREST_RATE, startYear, moveNote, depletedNote, exampleData, initState, exP42, exP41]

set_option maxRecDepth 8000 in
theorem exP_step42 :
    (yearStep (scenarioModifiers ScenarioType.pessimistic) 72 (exP42)).1 = exP43 := by
  norm_num [yearStep, phaseOut, workingUpdate, retiredUpdate, drainBuckets, scenarioModifiers, baseInflationPct, effectiveInvestmentReturnPct, inflationFactorAt, inflatedRent, relocationFires, rentAfterEvents, childrenExpensesOf, livingAnnualOf, travelAnnualOf, housingAnnualOf, totalExpensesOf, childrenPass, computeChildrenSchedule, childCost, getTaxFactor, taxFactorByCanton, taxFactorDefault, getSalaryGrowthRate, careerBoost, notesOf, zurich_ne_empty, DEFAULT_MAX_AGE, AHV_COUPLE_MAX_ANNUAL_2025, LPP_CONVERSION_RATE, LPP_INTEREST_RATE, startYear, moveNote, depletedNote, exampleData, initState, exP43, exP42]

set_option maxRecDepth 8000 in
theorem exP_step43 :
    (yearStep (scenarioModifiers ScenarioType.pessimistic) 73 (exP43)).1 = exP44 := by
  norm_num [yearStep, phaseOut, workingUpdate, retiredUpdate, drainBuckets, scenarioModifiers, baseInflationPct, effectiveInvestmentReturnPct, inflationFactorAt, inflatedRent, relocationFires, rentAfterEvents, childrenExpensesOf, livingAnnualOf, travelAnnualOf, housingAnnualOf, totalExpensesOf, childrenPass, computeChildrenSchedule, childCost, getTaxFactor, taxFactorByCanton, taxFactorDefault, getSalaryGrowthRate, careerBoost, notesOf, zurich_ne_empty, DEFAULT_MAX_AGE, AHV_COUPLE_MAX_ANNUAL_2025, LPP_CONVERSION_RATE, LPP_INTEREST_RATE, startYear, moveNote, depletedNote, exampleData, initState, exP44, exP43]

set_option maxRecDepth 8000 in
theorem exP_step44 :
    (yearStep (scenarioModifiers ScenarioType.pessimistic) 74 (exP44)).1 = exP45 := by
  norm_num [yearStep, phaseOut, workingUpdate, retiredUpdate, drainBuckets, scenarioModifiers, baseInflationPct, effectiveInvestmentReturnPct, inflationFactorAt, inflatedRent, relocationFires, rentAfterEvents, childrenExpensesOf, livingAnnualOf, travelAnnualOf, housingAnnualOf, totalExpensesOf, childrenPass, computeChildrenSchedule, childCost, getTaxFactor, taxFactorByCanton, taxFactorDefault, getSalaryGrowthRate, careerBoost, notesOf, zurich_ne_empty, DEFAULT_MAX_AGE, AHV_COUPLE_MAX_ANNUAL_2025, LPP_CONVERSION_RATE, LPP_INTEREST_RATE, startYear, moveNote, depletedNote, exampleData, initState, exP45, exP44]

set_option maxRecDepth 8000 in
theorem exP_step45 :
    (yearStep (scenarioModifiers ScenarioType.pessimistic) 75 (exP45)).1 = exP46 := by
  norm_num [yearStep, phaseOut, workingUpdate, retiredUpdate, drainBuckets, scenarioModifiers, baseInflationPct, effectiveInvestmentReturnPct, inflationFactorAt, inflatedRent, relocationFires, rentAfterEvents, childrenExpensesOf, livingAnnualOf, travelAnnualOf, housingAnnualOf, totalExpensesOf, childrenPass, computeChildrenSchedule, childCost, getTaxFactor, taxFactorByCanton, taxFactorDefault, getSalaryGrowthRate, careerBoost, notesOf, zurich_ne_empty, DEFAULT_MAX_AGE, AHV_COUPLE_MAX_ANNUAL_2025, LPP_CONVERSION_RATE, LPP_INTEREST_RATE, startYear, moveNote, depletedNote, exampleData, initState, exP46, exP45]

set_option maxRecDepth 8000 in
theorem exP_step46 :
    (yearStep (scenarioModifiers ScenarioType.pessimistic) 76 (exP46)).1 = exP47 := by
  norm_num [yearStep, phaseOut, workingUpdate, retiredUpdate, drainBuckets, scenarioModifiers, baseInflationPct, effectiveInvestmentReturnPct, inflationFactorAt, inflatedRent, relocationFires, rentAfterEvents, childrenExpensesOf, livingAnnualOf, travelAnnualOf, housingAnnualOf, totalExpensesOf, childrenPass, computeChildrenSchedule, childCost, getTaxFactor, taxFactorByCanton, taxFactorDefault, getSalaryGrowthRate, careerBoost, notesOf, zurich_ne_empty, DEFAULT_MAX_AGE, AHV_COUPLE_MAX_ANNUAL_2025, LPP_CONVERSION_RATE, LPP_INTEREST_RATE, startYear, moveNote, depletedNote, exampleData, initState, exP47, exP46]

set_option maxRecDepth 8000 in
theorem exP_step47 :
    (yearStep (scenarioModifiers ScenarioType.pessimistic) 77 (exP47)).1 = exP48 := by
  norm_num [yearStep, phaseOut, workingUpdate, retiredUpdate, drainBuckets, scenarioModifiers, baseInflationPct, effectiveInvestmentReturnPct, inflationFactorAt, inflatedRent, relocationFires, rentAfterEvents, childrenExpensesOf, livingAnnualOf, travelAnnualOf, housingAnnualOf, totalExpensesOf, childrenPass, computeChildrenSchedule, childCost, getTaxFactor, taxFactorByCanton, taxFactorDefault, getSalaryGrowthRate, careerBoost, notesOf, zurich_ne_empty, DEFAULT_MAX_AGE, AHV_COUPLE_MAX_ANNUAL_2025, LPP_CONVERSION_RATE, LPP_INTEREST_RATE, startYear, moveNote, depletedNote, exampleData, initState, exP48, exP47]

set_option maxRecDepth 8000 in
theorem exP_step48 :
    (yearStep (scenarioModifiers ScenarioType.pessimistic) 78 (exP48)).1 = exP49 := by
  norm_num [yearStep, phaseOut, workingUpdate, retiredUpdate, drainBuckets, scenarioModifiers, baseInflationPct, effectiveInvestmentReturnPct, inflationFactorAt, inflatedRent, relocationFires, rentAfterEvents, childrenExpensesOf, livingAnnualOf, travelAnnualOf, housingAnnualOf, totalExpensesOf, childrenPass, computeChildrenSchedule, childCost, getTaxFactor, taxFactorByCanton, taxFactorDefault, getSalaryGrowthRate, careerBoost, notesOf, zurich_ne_empty, DEFAULT_MAX_AGE, AHV_COUPLE_MAX_ANNUAL_2025, LPP_CONVERSION_RATE, LPP_INTEREST_RATE, startYear, moveNote, depletedNote, exampleData, initState, exP49, exP48]

set_option maxRecDepth 8000 in
theorem exP_step49 :
    (yearStep (scenarioModifiers ScenarioType.pessimistic) 79 (exP49)).1 = exP50 := by
  norm_num [yearStep, phaseOut, workingUpdate, retiredUpdate, drainBuckets, scenarioModifiers, baseInflationPct, effectiveInvestmentReturnPct, inflationFactorAt, inflatedRent, relocationFires, rentAfterEvents, childrenExpensesOf, livingAnnualOf, travelAnnualOf, housingAnnualOf, totalExpensesOf, childrenPass, computeChildrenSchedule, childCost, getTaxFactor, taxFactorByCanton, taxFactorDefault, getSalaryGrowthRate, careerBoost, notesOf, zurich_ne_empty, DEFAULT_MAX_AGE, AHV_COUPLE_MAX_ANNUAL_2025, LPP_CONVERSION_RATE, LPP_INTEREST_RATE, startYear, moveNote, depletedNote, exampleData, initState, exP50, exP49]

set_option maxRecDepth 8000 in
theorem exP_step50 :
    (yearStep (scenarioModifiers ScenarioType.pessimistic) 80 (exP50)).1 = exP51 := by
  norm_num [yearStep, phaseOut, workingUpdate, retiredUpdate, drainBuckets, scenarioModifiers, baseInflationPct, effectiveInvestmentReturnPct, inflationFactorAt, inflatedRent, relocationFires, rentAfterEvents, childrenExpensesOf, livingAnnualOf, travelAnnualOf, housingAnnualOf, totalExpensesOf, childrenPass, computeChildrenSchedule, childCost, getTaxFactor, taxFactorByCanton, taxFactorDefault, getSalaryGrowthRate, careerBoost, notesOf, zurich_ne_empty, DEFAULT_MAX_AGE, AHV_COUPLE_MAX_ANNUAL_2025, LPP_CONVERSION_RATE, LPP_INTEREST_RATE, startYear, moveNote, depletedNote, exampleData, initState, exP51, exP50]

set_option maxRecDepth 8000 in
theorem exP_step51 :
    (yearStep (scenarioModifiers ScenarioType.pessimistic) 81 (exP51)).1 = exP52 := by
  norm_num [yearStep, phaseOut, workingUpdate, retiredUpdate, drainBuckets, scenarioModifiers, baseInflationPct, effectiveInvestmentReturnPct, inflationFactorAt, inflatedRent, relocationFires, rentAfterEvents, childrenExpensesOf, livingAnnualOf, travelAnnualOf, housingAnnualOf, totalExpensesOf, childrenPass, computeChildrenSchedule, childCost, getTaxFactor, taxFactorByCanton, taxFactorDefault, getSalaryGrowthRate, careerBoost, notesOf, zurich_ne_empty, DEFAULT_MAX_AGE, AHV_COUPLE_MAX_ANNUAL_2025, LPP_CONVERSION_RATE, LPP_INTEREST_RATE, startYear, moveNote, depletedNote, exampleData, initState, exP52, exP51]

set_option maxRecDepth 8000 in
theorem exP_step52 :
    (yearStep (scenarioModifiers ScenarioType.pessimistic) 82 (exP52)).1 = exP53 := by
  norm_num [yearStep, phaseOut, workingUpdate, retiredUpdate, drainBuckets, scenarioModifiers, baseInflationPct, effectiveInvestmentReturnPct, inflationFactorAt, inflatedRent, relocationFires, rentAfterEvents, childrenExpensesOf, livingAnnualOf, travelAnnualOf, housingAnnualOf, totalExpensesOf, childrenPass, computeChildrenSchedule, childCost, getTaxFactor, taxFactorByCanton, taxFactorDefault, getSalaryGrowthRate, careerBoost, notesOf, zurich_ne_empty, DEFAULT_MAX_AGE, AHV_COUPLE_MAX_ANNUAL_2025, LPP_CONVERSION_RATE, LPP_INTEREST_RATE, startYear, moveNote, depletedNote, exampleData, initState, exP53, exP52]

set_option maxRecDepth 8000 in
theorem exP_step53 :
    (yearStep (scenarioModifiers ScenarioType.pessimistic) 83 (exP53)).1 = exP54 := by
  norm_num [yearStep, phaseOut, workingUpdate, retiredUpdate, drainBuckets, scenarioModifiers, baseInflationPct, effectiveInvestmentReturnPct, inflationFactorAt, inflatedRent, relocationFires, rentAfterEvents, childrenExpensesOf, livingAnnualOf, travelAnnualOf, housingAnnualOf, totalExpensesOf, childrenPass, computeChildrenSchedule, childCost, getTaxFactor, taxFactorByCanton, taxFactorDefault, getSalaryGrowthRate, careerBoost, notesOf, zurich_ne_empty, DEFAULT_MAX_AGE, AHV_COUPLE_MAX_ANNUAL_2025, LPP_CONVERSION_RATE, LPP_INTEREST_RATE, startYear, moveNote, depletedNote, exampleData, initState, exP54, exP53]

set_option maxRecDepth 8000 in
theorem exP_step54 :
    (yearStep (scenarioModifiers ScenarioType.pessimistic) 84 (exP54)).1 = exP55 := by
  norm_num [yearStep, phaseOut, workingUpdate, retiredUpdate, drainBuckets, scenarioModifiers, baseInflationPct, effectiveInvestmentReturnPct, inflationFactorAt, inflatedRent, relocationFires, rentAfterEvents, childrenExpensesOf, livingAnnualOf, travelAnnualOf, housingAnnualOf, totalExpensesOf, childrenPass, computeChildrenSchedule, childCost, getTaxFactor, taxFactorByCanton, taxFactorDefault, getSalaryGrowthRate, careerBoost, notesOf, zurich_ne_empty, DEFAULT_MAX_AGE, AHV_COUPLE_MAX_ANNUAL_2025, LPP_CONVERSION_RATE, LPP_INTEREST_RATE, startYear, moveNote, depletedNote, exampleData, initState, exP55, exP54]

set_option maxRecDepth 8000 in
theorem exP_step55 :
    (yearStep (scenarioModifiers ScenarioType.pessimistic) 85 (exP55)).1 = exP56 := by
  norm_num [yearStep, phaseOut, workingUpdate, retiredUpdate, drainBuckets, scenarioModifiers, baseInflationPct, effectiveInvestmentReturnPct, inflationFactorAt, inflatedRent, relocationFires, rentAfterEvents, childrenExpensesOf, livingAnnualOf, travelAnnualOf, housingAnnualOf, totalExpensesOf, childrenPass, computeChildrenSchedule, childCost, getTaxFactor, taxFactorByCanton, taxFactorDefault, getSalaryGrowthRate, careerBoost, notesOf, zurich_ne_empty, DEFAULT_MAX_AGE, AHV_COUPLE_MAX_ANNUAL_2025, LPP_CONVERSION_RATE, LPP_INTEREST_RATE, startYear, moveNote, depletedNote, exampleData, initState, exP56, exP55]

set_option maxRecDepth 8000 in
theorem exP_step56 :
    (yearStep (scenarioModifiers ScenarioType.pessimistic) 86 (exP56)).1 = exP57 := by
  norm_num [yearStep, phaseOut, workingUpdate, retiredUpdate, drainBuckets, scenarioModifiers, baseInflationPct, effectiveInvestmentReturnPct, inflationFactorAt, inflatedRent, relocationFires, rentAfterEvents, childrenExpensesOf, livingAnnualOf, travelAnnualOf, housingAnnualOf, totalExpensesOf, childrenPass, computeChildrenSchedule, childCost, getTaxFactor, taxFactorByCanton, taxFactorDefault, getSalaryGrowthRate, careerBoost, notesOf, zurich_ne_empty, DEFAULT_MAX_AGE, AHV_COUPLE_MAX_ANNUAL_2025, LPP_CONVERSION_RATE, LPP_INTEREST_RATE, startYear, moveNote, depletedNote, exampleData, initState, exP57, exP56]

set_option maxRecDepth 8000 in
theorem exP_step57 :
    (yearStep (scenarioModifiers ScenarioType.pessimistic) 87 (exP57)).1 = exP58 := by
  norm_num [yearStep, phaseOut, workingUpdate, retiredUpdate, drainBuckets, scenarioModifiers, baseInflationPct, effectiveInvestmentReturnPct, inflationFactorAt, inflatedRent, relocationFires, rentAfterEvents, childrenExpensesOf, livingAnnualOf, travelAnnualOf, housingAnnualOf, totalExpensesOf, childrenPass, computeChildrenSchedule, childCost, getTaxFactor, taxFactorByCanton, taxFactorDefault, getSalaryGrowthRate, careerBoost, notesOf, zurich_ne_empty, DEFAULT_MAX_AGE, AHV_COUPLE_MAX_ANNUAL_2025, LPP_CONVERSION_RATE, LPP_INTEREST_RATE, startYear, moveNote, depletedNote, exampleData, initState, exP58, exP57]

set_option maxRecDepth 8000 in
theorem exP_step58 :
    (yearStep (scenarioModifiers ScenarioType.pessimistic) 88 (exP58)).1 = exP59 := by
  norm_num [yearStep, phaseOut, workingUpdate, retiredUpdate, drainBuckets, scenarioModifiers, baseInflationPct, effectiveInvestmentReturnPct, inflationFactorAt, inflatedRent, relocationFires, rentAfterEvents, childrenExpensesOf, livingAnnualOf, travelAnnualOf, housingAnnualOf, totalExpensesOf, childrenPass, computeChildrenSchedule, childCost, getTaxFactor, taxFactorByCanton, taxFactorDefault, getSalaryGrowthRate, careerBoost, notesOf, zurich_ne_empty, DEFAULT_MAX_AGE, AHV_COUPLE_MAX_ANNUAL_2025, LPP_CONVERSION_RATE, LPP_INTEREST_RATE, startYear, moveNote, depletedNote, exampleData, initState, exP59, exP58]

set_option maxRecDepth 8000 in
theorem exP_step59 :
    (yearStep (scenarioModifiers ScenarioType.pessimistic) 89 (exP59)).1 = exP60 := by
  norm_num [yearStep, phaseOut, workingUpdate, retiredUpdate, drainBuckets, scenarioModifiers, baseInflationPct, effectiveInvestmentReturnPct, inflationFactorAt, inflatedRent, relocationFires, rentAfterEvents, childrenExpensesOf, livingAnnualOf, travelAnnualOf, housingAnnualOf, totalExpensesOf, childrenPass, computeChildrenSchedule, childCost, getTaxFactor, taxFactorByCanton, taxFactorDefault, getSalaryGrowthRate, careerBoost, notesOf, zurich_ne_empty, DEFAULT_MAX_AGE, AHV_COUPLE_MAX_ANNUAL_2025, LPP_CONVERSION_RATE, LPP_INTEREST_RATE, startYear, moveNote, depletedNote, exampleData, initState, exP60, exP59]

theorem exP_run :
    (runYears (scenarioModifiers ScenarioType.pessimistic) (List.range' 30 60)
      (initState exampleData)).1 = exP60 := by
  rw [show List.range' 30 60 = [30, 31, 32, 33, 34, 35, 36, 37, 38, 39, 40, 41, 42, 43, 44, 45, 46, 47, 48, 49, 50, 51, 52, 53, 54, 55, 56, 57, 58, 59, 60, 61, 62, 63, 64, 65, 66, 67, 68, 69, 70, 71, 72, 73, 74, 75, 76, 77, 78, 79, 80, 81, 82, 83, 84, 85, 86, 87, 88, 89] from by decide]
  rw [runYears_fst_cons, exP_step0]
  rw [runYears_fst_cons, exP_step1]
  rw [runYears_fst_cons, exP_step2]
  rw [runYears_fst_cons, exP_step3]
  rw [runYears_fst_cons, exP_step4]
  rw [runYears_fst_cons, exP_step5]
  rw [runYears_fst_cons, exP_step6]
  rw [runYears_fst_cons, exP_step7]
  rw [runYears_fst_cons, exP_step8]
  rw [runYears_fst_cons, exP_step9]
  rw [runYears_fst_cons, exP_step10]
  rw [runYears_fst_cons, exP_step11]
  rw [runYears_fst_cons, exP_step12]
  rw [runYears_fst_cons, exP_step13]
  rw [runYears_fst_cons, exP_step14]
  rw [runYears_fst_cons, exP_step15]
  rw [runYears_fst_cons, exP_step16]
  rw [runYears_fst_cons, exP_step17]
  rw [runYears_fst_cons, exP_step18]
  rw [runYears_fst_cons, exP_step19]
  rw [runYears_fst_cons, exP_step20]
  rw [runYears_fst_cons, exP_step21]
  rw [runYears_fst_cons, exP_step22]
  rw [runYears_fst_cons, exP_step23]
  rw [runYears_fst_cons, exP_step24]
  rw [runYears_fst_cons, exP_step25]
  rw [runYears_fst_cons, exP_step26]
  rw [runYears_fst_cons, exP_step27]
  rw [runYears_fst_cons, exP_step28]
  rw [runYears_fst_cons, exP_step29]
  rw [runYears_fst_cons, exP_step30]
  rw [runYears_fst_cons, exP_step31]
  rw [runYears_fst_cons, exP_step32]
  rw [runYears_fst_cons, exP_step33]
  rw [runYears_fst_cons, exP_step34]
  rw [runYears_fst_cons, exP_step35]
  rw [runYears_fst_cons, exP_step36]
  rw [runYears_fst_cons, exP_step37]
  rw [runYears_fst_cons, exP_step38]
  rw [runYears_fst_cons, exP_step39]
  rw [runYears_fst_cons, exP_step40]
  rw [runYears_fst_cons, exP_step41]
  rw [runYears_fst_cons, exP_step42]
  rw [runYears_fst_cons, exP_step43]
  rw [runYears_fst_cons, exP_step44]
  rw [runYears_fst_cons, exP_step45]
  rw [runYears_fst_cons, exP_step46]
  rw [runYears_fst_cons, exP_step47]
  rw [runYears_fst_cons, exP_step48]
  rw [runYears_fst_cons, exP_step49]
  rw [runYears_fst_cons, exP_step50]
  rw [runYears_fst_cons, exP_step51]
  rw [runYears_fst_cons, exP_step52]
  rw [runYears_fst_cons, exP_step53]
  rw [runYears_fst_cons, exP_step54]
  rw [runYears_fst_cons, exP_step55]
  rw [runYears_fst_cons, exP_step56]
  rw [runYears_fst_cons, exP_step57]
  rw [runYears_fst_cons, exP_step58]
  rw [runYears_fst_cons, exP_step59]
  rfl

set_option maxRecDepth 8000 in
theorem exP_final :
    (calculateProjections exampleData ScenarioType.pessimistic).finalWealth = 5978815616933441806700702641734223353202817654566822393489380455109167336489978232422002333141582023580502475046589019331298095980127339015948083/368934881474191032320000000000000000000000000000000000000000000000000000000000000000000000000000000000000000000000000000000000000000000000 := by
  rw [calculateProjections_finalWealth,
    show simAges exampleData = List.range' 30 60 ++ [90] from by decide,
    runYears_snoc, List.getLast?_concat]
  simp only [Option.map_some', Option.getD_some]
  rw [exP_run, yearStep_snd_totalWealth]
  norm_num [totalWealthOf, yearStep, phaseOut, workingUpdate, retiredUpdate, drainBuckets, scenarioModifiers, baseInflationPct, effectiveInvestmentReturnPct, inflationFactorAt, inflatedRent, relocationFires, rentAfterEvents, childrenExpensesOf, livingAnnualOf, travelAnnualOf, housingAnnualOf, totalExpensesOf, childrenPass, computeChildrenSchedule, childCost, getTaxFactor, taxFactorByCanton, taxFactorDefault, getSalaryGrowthRate, careerBoost, notesOf, zurich_ne_empty, DEFAULT_MAX_AGE, AHV_COUPLE_MAX_ANNUAL_2025, LPP_CONVERSION_RATE, LPP_INTEREST_RATE, startYear, moveNote, depletedNote, exampleData, exP60]

set_option maxRecDepth 8000 in
theorem exO_step0 :
    (yearStep (scenarioModifiers ScenarioType.optimistic) 30 (initState exampleData)).1 = exO1 := by
  norm_num [yearStep, phaseOut, workingUpdate, retiredUpdate, drainBuckets, scenarioModifiers, baseInflationPct, effectiveInvestmentReturnPct, inflationFactorAt, inflatedRent, relocationFires, rentAfterEvents, childrenExpensesOf, livingAnnualOf, travelAnnualOf, housingAnnualOf, totalExpensesOf, childrenPass, computeChildrenSchedule, childCost, getTaxFactor, taxFactorByCanton, taxFactorDefault, getSalaryGrowthRate, careerBoost, notesOf, zurich_ne_empty, DEFAULT_MAX_AGE, AHV_COUPLE_MAX_ANNUAL_2025, LPP_CONVERSION_RATE, LPP_INTEREST_RATE, startYear, moveNote, depletedNote, exampleData, initState, exO1]

set_option maxRecDepth 8000 in
theorem exO_step1 :
    (yearStep (scenarioModifiers ScenarioType.optimistic) 31 (exO1)).1 = exO2 := by
  norm_num [yearStep, phaseOut, workingUpdate, retiredUpdate, drainBuckets, scenarioModifiers, baseInflationPct, effectiveInvestmentReturnPct, inflationFactorAt, inflatedRent, relocationFires, rentAfterEvents, childrenExpensesOf, livingAnnualOf, travelAnnualOf, housingAnnualOf, totalExpensesOf, childrenPass, computeChildrenSchedule, childCost, getTaxFactor, taxFactorByCanton, taxFactorDefault, getSalaryGrowthRate, careerBoost, notesOf, zurich_ne_empty, DEFAULT_MAX_AGE, AHV_COUPLE_MAX_ANNUAL_2025, LPP_CONVERSION_RATE, LPP_INTEREST_RATE, startYear, moveNote, depletedNote, exampleData, initState, exO2, exO1]

set_option maxRecDepth 8000 in
theorem exO_step2 :
    (yearStep (scenarioModifiers ScenarioType.optimistic) 32 (exO2)).1 = exO3 := by
  norm_num [yearStep, phaseOut, workingUpdate, retiredUpdate, drainBuckets, scenarioModifiers, baseInflationPct, effectiveInvestmentReturnPct, inflationFactorAt, inflatedRent, relocationFires, rentAfterEvents, childrenExpensesOf, livingAnnualOf, travelAnnualOf, housingAnnualOf, totalExpensesOf, childrenPass, computeChildrenSchedule, childCost, getTaxFactor, taxFactorByCanton, taxFactorDefault, getSalaryGrowthRate, careerBoost, notesOf, zurich_ne_empty, DEFAULT_MAX_AGE, AHV_COUPLE_MAX_ANNUAL_2025, LPP_CONVERSION_RATE, LPP_INTEREST_RATE, startYear, moveNote, depletedNote, exampleData, initState, exO3, exO2]

set_option maxRecDepth 8000 in
theorem exO_step3 :
    (yearStep (scenarioModifiers ScenarioType.optimistic) 33 (exO3)).1 = exO4 := by
  norm_num [yearStep, phaseOut, workingUpdate, retiredUpdate, drainBuckets, scenarioModifiers, baseInflationPct, effectiveInvestmentReturnPct, inflationFactorAt, inflatedRent, relocationFires, rentAfterEvents, childrenExpensesOf, livingAnnualOf, travelAnnualOf, housingAnnualOf, totalExpensesOf, childrenPass, computeChildrenSchedule, childCost, getTaxFactor, taxFactorByCanton, taxFactorDefault, getSalaryGrowthRate, careerBoost, notesOf, zurich_ne_empty, DEFAULT_MAX_AGE, AHV_COUPLE_MAX_ANNUAL_2025, LPP_CONVERSION_RATE, LPP_INTEREST_RATE, startYear, moveNote, depletedNote, exampleData, initState, exO4, exO3]

set_option maxRecDepth 8000 in
theorem exO_step4 :
    (yearStep (scenarioModifiers ScenarioType.optimistic) 34 (exO4)).1 = exO5 := by
  norm_num [yearStep, phaseOut, workingUpdate, retiredUpdate, drainBuckets, scenarioModifiers, baseInflationPct, effectiveInvestmentReturnPct, inflationFactorAt, inflatedRent, relocationFires, rentAfterEvents, childrenExpensesOf, livingAnnualOf, travelAnnualOf, housingAnnualOf, totalExpensesOf, childrenPass, computeChildrenSchedule, childCost, getTaxFactor, taxFactorByCanton, taxFactorDefault, getSalaryGrowthRate, careerBoost, notesOf, zurich_ne_empty, DEFAULT_MAX_AGE, AHV_COUPLE_MAX_ANNUAL_2025, LPP_CONVERSION_RATE, LPP_INTEREST_RATE, startYear, moveNote, depletedNote, exampleData, initState, exO5, exO4]

set_option maxRecDepth 8000 in
theorem exO_step5 :
    (yearStep (scenarioModifiers ScenarioType.optimistic) 35 (exO5)).1 = exO6 := by
  norm_num [yearStep, phaseOut, workingUpdate, retiredUpdate, drainBuckets, scenarioModifiers, baseInflationPct, effectiveInvestmentReturnPct, inflationFactorAt, inflatedRent, relocationFires, rentAfterEvents, childrenExpensesOf, livingAnnualOf, travelAnnualOf, housingAnnualOf, totalExpensesOf, childrenPass, computeChildrenSchedule, childCost, getTaxFactor, taxFactorByCanton, taxFactorDefault, getSalaryGrowthRate, careerBoost, notesOf, zurich_ne_empty, DEFAULT_MAX_AGE, AHV_COUPLE_MAX_ANNUAL_2025, LPP_CONVERSION_RATE, LPP_INTEREST_RATE, startYear, moveNote, depletedNote, exampleData, initState, exO6, exO5]

set_option maxRecDepth 8000 in
theorem exO_step6 :
    (yearStep (scenarioModifiers ScenarioType.optimistic) 36 (exO6)).1 = exO7 := by
  norm_num [yearStep, phaseOut, workingUpdate, retiredUpdate, drainBuckets, scenarioModifiers, baseInflationPct, effectiveInvestmentReturnPct, inflationFactorAt, inflatedRent, relocationFires, rentAfterEvents, childrenExpensesOf, livingAnnualOf, travelAnnualOf, housingAnnualOf, totalExpensesOf, childrenPass, computeChildrenSchedule, childCost, getTaxFactor, taxFactorByCanton, taxFactorDefault, getSalaryGrowthRate, careerBoost, notesOf, zurich_ne_empty, DEFAULT_MAX_AGE, AHV_COUPLE_MAX_ANNUAL_2025, LPP_CONVERSION_RATE, LPP_INTEREST_RATE, startYear, moveNote, depletedNote, exampleData, initState, exO7, exO6]

set_option maxRecDepth 8000 in
theorem exO_step7 :
    (yearStep (scenarioModifiers ScenarioType.optimistic) 37 (exO7)).1 = exO8 := by
  norm_num [yearStep, phaseOut, workingUpdate, retiredUpdate, drainBuckets, scenarioModifiers, baseInflationPct, effectiveInvestmentReturnPct, inflationFactorAt, inflatedRent, relocationFires, rentAfterEvents, childrenExpensesOf, livingAnnualOf, travelAnnualOf, housingAnnualOf, totalExpensesOf, childrenPass, computeChildrenSchedule, childCost, getTaxFactor, taxFactorByCanton, taxFactorDefault, getSalaryGrowthRate, careerBoost, notesOf, zurich_ne_empty, DEFAULT_MAX_AGE, AHV_COUPLE_MAX_ANNUAL_2025, LPP_CONVERSION_RATE, LPP_INTEREST_RATE, startYear, moveNote, depletedNote, exampleData, initState, exO8, exO7]

set_option maxRecDepth 8000 in
theorem exO_step8 :
    (yearStep (scenarioModifiers ScenarioType.optimistic) 38 (exO8)).1 = exO9 := by
  norm_num [yearStep, phaseOut, workingUpdate, retiredUpdate, drainBuckets, scenarioModifiers, baseInflationPct, effectiveInvestmentReturnPct, inflationFactorAt, inflatedRent, relocationFires, rentAfterEvents, childrenExpensesOf, livingAnnualOf, travelAnnualOf, housingAnnualOf, totalExpensesOf, childrenPass, computeChildrenSchedule, childCost, getTaxFactor, taxFactorByCanton, taxFactorDefault, getSalaryGrowthRate, careerBoost, notesOf, zurich_ne_empty, DEFAULT_MAX_AGE, AHV_COUPLE_MAX_ANNUAL_2025, LPP_CONVERSION_RATE, LPP_INTEREST_RATE, startYear, moveNote, depletedNote, exampleData, initState, exO9, exO8]

set_option maxRecDepth 8000 in
theorem exO_step9 :
    (yearStep (scenarioModifiers ScenarioType.optimistic) 39 (exO9)).1 = exO10 := by
  norm_num [yearStep, phaseOut, workingUpdate, retiredUpdate, drainBuckets, scenarioModifiers, baseInflationPct, effectiveInvestmentReturnPct, inflationFactorAt, inflatedRent, relocationFires, rentAfterEvents, childrenExpensesOf, livingAnnualOf, travelAnnualOf, housingAnnualOf, totalExpensesOf, childrenPass, computeChildrenSchedule, childCost, getTaxFactor, taxFactorByCanton, taxFactorDefault, getSalaryGrowthRate, careerBoost, notesOf, zurich_ne_empty, DEFAULT_MAX_AGE, AHV_COUPLE_MAX_ANNUAL_2025, LPP_CONVERSION_RATE, LPP_INTEREST_RATE, startYear, moveNote, depletedNote, exampleData, initState, exO10, exO9]

set_option maxRecDepth 8000 in
theorem exO_step10 :
    (yearStep (scenarioModifiers ScenarioType.optimistic) 40 (exO10)).1 = exO11 := by
  norm_num [yearStep, phaseOut, workingUpdate, retiredUpdate, drainBuckets, scenarioModifiers, baseInflationPct, effectiveInvestmentReturnPct, inflationFactorAt, inflatedRent, relocationFires, rentAfterEvents, childrenExpensesOf, livingAnnualOf, travelAnnualOf, housingAnnualOf, totalExpensesOf, childrenPass, computeChildrenSchedule, childCost, getTaxFactor, taxFactorByCanton, taxFactorDefault, getSalaryGrowthRate, careerBoost, notesOf, zurich_ne_empty, DEFAULT_MAX_AGE, AHV_COUPLE_MAX_ANNUAL_2025, LPP_CONVERSION_RATE, LPP_INTEREST_RATE, startYear, moveNote, depletedNote, exampleData, initState, exO11, exO10]

set_option maxRecDepth 8000 in
theorem exO_step11 :
    (yearStep (scenarioModifiers ScenarioType.optimistic) 41 (exO11)).1 = exO12 := by
  norm_num [yearStep, phaseOut, workingUpdate, retiredUpdate, drainBuckets, scenarioModifiers, baseInflationPct, effectiveInvestmentReturnPct, inflationFactorAt, inflatedRent, relocationFires, rentAfterEvents, childrenExpensesOf, livingAnnualOf, travelAnnualOf, housingAnnualOf, totalExpensesOf, childrenPass, computeChildrenSchedule, childCost, getTaxFactor, taxFactorByCanton, taxFactorDefault, getSalaryGrowthRate, careerBoost, notesOf, zurich_ne_empty, DEFAULT_MAX_AGE, AHV_COUPLE_MAX_ANNUAL_2025, LPP_CONVERSION_RATE, LPP_INTEREST_RATE, startYear, moveNote, depletedNote, exampleData, initState, exO12, exO11]

set_option maxRecDepth 8000 in
theorem exO_step12 :
    (yearStep (scenarioModifiers ScenarioType.optimistic) 42 (exO12)).1 = exO13 := by
  norm_num [yearStep, phaseOut, workingUpdate, retiredUpdate, drainBuckets, scenarioModifiers, baseInflationPct, effectiveInvestmentReturnPct, inflationFactorAt, inflatedRent, relocationFires, rentAfterEvents, childrenExpensesOf, livingAnnualOf, travelAnnualOf, housingAnnualOf, totalExpensesOf, childrenPass, computeChildrenSchedule, childCost, getTaxFactor, taxFactorByCanton, taxFactorDefault, getSalaryGrowthRate, careerBoost, notesOf, zurich_ne_empty, DEFAULT_MAX_AGE, AHV_COUPLE_MAX_ANNUAL_2025, LPP_CONVERSION_RATE, LPP_INTEREST_RATE, startYear, moveNote, depletedNote, exampleData, initState, exO13, exO12]

set_option maxRecDepth 8000 in
theorem exO_step13 :
    (yearStep (scenarioModifiers ScenarioType.optimistic) 43 (exO13)).1 = exO14 := by
  norm_num [yearStep, phaseOut, workingUpdate, retiredUpdate, drainBuckets, scenarioModifiers, baseInflationPct, effectiveInvestmentReturnPct, inflationFactorAt, inflatedRent, relocationFires, rentAfterEvents, childrenExpensesOf, livingAnnualOf, travelAnnualOf, housingAnnualOf, totalExpensesOf, childrenPass, computeChildrenSchedule, childCost, getTaxFactor, taxFactorByCanton, taxFactorDefault, getSalaryGrowthRate, careerBoost, notesOf, zurich_ne_empty, DEFAULT_MAX_AGE, AHV_COUPLE_MAX_ANNUAL_2025, LPP_CONVERSION_RATE, LPP_INTEREST_RATE, startYear, moveNote, depletedNote, exampleData, initState, exO14, exO13]

set_option maxRecDepth 8000 in
theorem exO_step14 :
    (yearStep (scenarioModifiers ScenarioType.optimistic) 44 (exO14)).1 = exO15 := by
  norm_num [yearStep, phaseOut, workingUpdate, retiredUpdate, drainBuckets, scenarioModifiers, baseInflationPct, effectiveInvestmentReturnPct, inflationFactorAt, inflatedRent, relocationFires, rentAfterEvents, childrenExpensesOf, livingAnnualOf, travelAnnualOf, housingAnnualOf, totalExpensesOf, childrenPass, computeChildrenSchedule, childCost, getTaxFactor, taxFactorByCanton, taxFactorDefault, getSalaryGrowthRate, careerBoost, notesOf, zurich_ne_empty, DEFAULT_MAX_AGE, AHV_COUPLE_MAX_ANNUAL_2025, LPP_CONVERSION_RATE, LPP_INTEREST_RATE, startYear, moveNote, depletedNote, exampleData, initState, exO15, exO14]

set_option maxRecDepth 8000 in
theorem exO_step15 :
    (yearStep (scenarioModifiers ScenarioType.optimistic) 45 (exO15)).1 = exO16 := by
  norm_num [yearStep, phaseOut, workingUpdate, retiredUpdate, drainBuckets, scenarioModifiers, baseInflationPct, effectiveInvestmentReturnPct, inflationFactorAt, inflatedRent, relocationFires, rentAfterEvents, childrenExpensesOf, livingAnnualOf, travelAnnualOf, housingAnnualOf, totalExpensesOf, childrenPass, computeChildrenSchedule, childCost, getTaxFactor, taxFactorByCanton, taxFactorDefault, getSalaryGrowthRate, careerBoost, notesOf, zurich_ne_empty, DEFAULT_MAX_AGE, AHV_COUPLE_MAX_ANNUAL_2025, LPP_CONVERSION_RATE, LPP_INTEREST_RATE, startYear, moveNote, depletedNote, exampleData, initState, exO16, exO15]

set_option maxRecDepth 8000 in
theorem exO_step16 :
    (yearStep (scenarioModifiers ScenarioType.optimistic) 46 (exO16)).1 = exO17 := by
  norm_num [yearStep, phaseOut, workingUpdate, retiredUpdate, drainBuckets, scenarioModifiers, baseInflationPct, effectiveInvestmentReturnPct, inflationFactorAt, inflatedRent, relocationFires, rentAfterEvents, childrenExpensesOf, livingAnnualOf, travelAnnualOf, housingAnnualOf, totalExpensesOf, childrenPass, computeChildrenSchedule, childCost, getTaxFactor, taxFactorByCanton, taxFactorDefault, getSalaryGrowthRate, careerBoost, notesOf, zurich_ne_empty, DEFAULT_MAX_AGE, AHV_COUPLE_MAX_ANNUAL_2025, LPP_CONVERSION_RATE, LPP_INTEREST_RATE, startYear, moveNote, depletedNote, exampleData, initState, exO17, exO16]

set_option maxRecDepth 8000 in
theorem exO_step17 :
    (yearStep (scenarioModifiers ScenarioType.optimistic) 47 (exO17)).1 = exO18 := by
  norm_num [yearStep, phaseOut, workingUpdate, retiredUpdate, drainBuckets, scenarioModifiers, baseInflationPct, effectiveInvestmentReturnPct, inflationFactorAt, inflatedRent, relocationFires, rentAfterEvents, childrenExpensesOf, livingAnnualOf, travelAnnualOf, housingAnnualOf, totalExpensesOf, childrenPass, computeChildrenSchedule, childCost, getTaxFactor, taxFactorByCanton, taxFactorDefault, getSalaryGrowthRate, careerBoost, notesOf, zurich_ne_empty, DEFAULT_MAX_AGE, AHV_COUPLE_MAX_ANNUAL_2025, LPP_CONVERSION_RATE, LPP_INTEREST_RATE, startYear, moveNote, depletedNote, exampleData, initState, exO18, exO17]

set_option maxRecDepth 8000 in
theorem exO_step18 :
    (yearStep (scenarioModifiers ScenarioType.optimistic) 48 (exO18)).1 = exO19 := by
  norm_num [yearStep, phaseOut, workingUpdate, retiredUpdate, drainBuckets, scenarioModifiers, baseInflationPct, effectiveInvestmentReturnPct, inflationFactorAt, inflatedRent, relocationFires, rentAfterEvents, childrenExpensesOf, livingAnnualOf, travelAnnualOf, housingAnnualOf, totalExpensesOf, childrenPass, computeChildrenSchedule, childCost, getTaxFactor, taxFactorByCanton, taxFactorDefault, getSalaryGrowthRate, careerBoost, notesOf, zurich_ne_empty, DEFAULT_MAX_AGE, AHV_COUPLE_MAX_ANNUAL_2025, LPP_CONVERSION_RATE, LPP_INTEREST_RATE, startYear, moveNote, depletedNote, exampleData, initState, exO19, exO18]

set_option maxRecDepth 8000 in
theorem exO_step19 :
    (yearStep (scenarioModifiers ScenarioType.optimistic) 49 (exO19)).1 = exO20 := by
  norm_num [yearStep, phaseOut, workingUpdate, retiredUpdate, drainBuckets, scenarioModifiers, baseInflationPct, effectiveInvestmentReturnPct, inflationFactorAt, inflatedRent, relocationFires, rentAfterEvents, childrenExpensesOf, livingAnnualOf, travelAnnualOf, housingAnnualOf, totalExpensesOf, childrenPass, computeChildrenSchedule, childCost, getTaxFactor, taxFactorByCanton, taxFactorDefault, getSalaryGrowthRate, careerBoost, notesOf, zurich_ne_empty, DEFAULT_MAX_AGE, AHV_COUPLE_MAX_ANNUAL_2025, LPP_CONVERSION_RATE, LPP_INTEREST_RATE, startYear, moveNote, depletedNote, exampleData, initState, exO20, exO19]

set_option maxRecDepth 8000 in
theorem exO_step20 :
    (yearStep (scenarioModifiers ScenarioType.optimistic) 50 (exO20)).1 = exO21 := by
  norm_num [yearStep, phaseOut, workingUpdate, retiredUpdate, drainBuckets, scenarioModifiers, baseInflationPct, effectiveInvestmentReturnPct, inflationFactorAt, inflatedRent, relocationFires, rentAfterEvents, childrenExpensesOf, livingAnnualOf, travelAnnualOf, housingAnnualOf, totalExpensesOf, childrenPass, computeChildrenSchedule, childCost, getTaxFactor, taxFactorByCanton, taxFactorDefault, getSalaryGrowthRate, careerBoost, notesOf, zurich_ne_empty, DEFAULT_MAX_AGE, AHV_COUPLE_MAX_ANNUAL_2025, LPP_CONVERSION_RATE, LPP_INTEREST_RATE, startYear, moveNote, depletedNote, exampleData, initState, exO21, exO20]

set_option maxRecDepth 8000 in
theorem exO_step21 :
    (yearStep (scenarioModifiers ScenarioType.optimistic) 51 (exO21)).1 = exO22 := by
  norm_num [yearStep, phaseOut, workingUpdate, retiredUpdate, drainBuckets, scenarioModifiers, baseInflationPct, effectiveInvestmentReturnPct, inflationFactorAt, inflatedRent, relocationFires, rentAfterEvents, childrenExpensesOf, livingAnnualOf, travelAnnualOf, housingAnnualOf, totalExpensesOf, childrenPass, computeChildrenSchedule, childCost, getTaxFactor, taxFactorByCanton, taxFactorDefault, getSalaryGrowthRate, careerBoost, notesOf, zurich_ne_empty, DEFAULT_MAX_AGE, AHV_COUPLE_MAX_ANNUAL_2025, LPP_CONVERSION_RATE, LPP_INTEREST_RATE, startYear, moveNote, depletedNote, exampleData, initState, exO22, exO21]

set_option maxRecDepth 8000 in
theorem exO_step22 :
    (yearStep (scenarioModifiers ScenarioType.optimistic) 52 (exO22)).1 = exO23 := by
  norm_num [yearStep, phaseOut, workingUpdate, retiredUpdate, drainBuckets, scenarioModifiers, baseInflationPct, effectiveInvestmentReturnPct, inflationFactorAt, inflatedRent, relocationFires, rentAfterEvents, childrenExpensesOf, livingAnnualOf, travelAnnualOf, housingAnnualOf, totalExpensesOf, childrenPass, computeChildrenSchedule, childCost, getTaxFactor, taxFactorByCanton, taxFactorDefault, getSalaryGrowthRate, careerBoost, notesOf, zurich_ne_empty, DEFAULT_MAX_AGE, AHV_COUPLE_MAX_ANNUAL_2025, LPP_CONVERSION_RATE, LPP_INTEREST_RATE, startYear, moveNote, depletedNote, exampleData, initState, exO23, exO22]

set_option maxRecDepth 8000 in
theorem exO_step23 :
    (yearStep (scenarioModifiers ScenarioType.optimistic) 53 (exO23)).1 = exO24 := by
  norm_num [yearStep, phaseOut, workingUpdate, retiredUpdate, drainBuckets, scenarioModifiers, baseInflationPct, effectiveInvestmentReturnPct, inflationFactorAt, inflatedRent, relocationFires, rentAfterEvents, childrenExpensesOf, livingAnnualOf, travelAnnualOf, housingAnnualOf, totalExpensesOf, childrenPass, computeChildrenSchedule, childCost, getTaxFactor, taxFactorByCanton, taxFactorDefault, getSalaryGrowthRate, careerBoost, notesOf, zurich_ne_empty, DEFAULT_MAX_AGE, AHV_COUPLE_MAX_ANNUAL_2025, LPP_CONVERSION_RATE, LPP_INTEREST_RATE, startYear, moveNote, depletedNote, exampleData, initState, exO24, exO23]

set_option maxRecDepth 8000 in
theorem exO_step24 :
    (yearStep (scenarioModifiers ScenarioType.optimistic) 54 (exO24)).1 = exO25 := by
  norm_num [yearStep, phaseOut, workingUpdate, retiredUpdate, drainBuckets, scenarioModifiers, baseInflationPct, effectiveInvestmentReturnPct, inflationFactorAt, inflatedRent, relocationFires, rentAfterEvents, childrenExpensesOf, livingAnnualOf, travelAnnualOf, housingAnnualOf, totalExpensesOf, childrenPass, computeChildrenSchedule, childCost, getTaxFactor, taxFactorByCanton, taxFactorDefault, getSalaryGrowthRate, careerBoost, notesOf, zurich_ne_empty, DEFAULT_MAX_AGE, AHV_COUPLE_MAX_ANNUAL_2025, LPP_CONVERSION_RATE, LPP_INTEREST_RATE, startYear, moveNote, depletedNote, exampleData, initState, exO25, exO24]

set_option maxRecDepth 8000 in
theorem exO_step25 :
    (yearStep (scenarioModifiers ScenarioType.optimistic) 55 (exO25)).1 = exO26 := by
  norm_num [yearStep, phaseOut, workingUpdate, retiredUpdate, drainBuckets, scenarioModifiers, baseInflationPct, effectiveInvestmentReturnPct, inflationFactorAt, inflatedRent, relocationFires, rentAfterEvents, childrenExpensesOf, livingAnnualOf, travelAnnualOf, housingAnnualOf, totalExpensesOf, childrenPass, computeChildrenSchedule, childCost, getTaxFactor, taxFactorByCanton, taxFactorDefault, getSalaryGrowthRate, careerBoost, notesOf, zurich_ne_empty, DEFAULT_MAX_AGE, AHV_COUPLE_MAX_ANNUAL_2025, LPP_CONVERSION_RATE, LPP_INTEREST_RATE, startYear, moveNote, depletedNote, exampleData, initState, exO26, exO25]

set_option maxRecDepth 8000 in
theorem exO_step26 :
    (yearStep (scenarioModifiers ScenarioType.optimistic) 56 (exO26)).1 = exO27 := by
  norm_num [yearStep, phaseOut, workingUpdate, retiredUpdate, drainBuckets, scenarioModifiers, baseInflationPct, effectiveInvestmentReturnPct, inflationFactorAt, inflatedRent, relocationFires, rentAfterEvents, childrenExpensesOf, livingAnnualOf, travelAnnualOf, housingAnnualOf, totalExpensesOf, childrenPass, computeChildrenSchedule, childCost, getTaxFactor, taxFactorByCanton, taxFactorDefault, getSalaryGrowthRate, careerBoost, notesOf, zurich_ne_empty, DEFAULT_MAX_AGE, AHV_COUPLE_MAX_ANNUAL_2025, LPP_CONVERSION_RATE, LPP_INTEREST_RATE, startYear, moveNote, depletedNote, exampleData, initState, exO27, exO26]

set_option maxRecDepth 8000 in
theorem exO_step27 :
    (yearStep (scenarioModifiers ScenarioType.optimistic) 57 (exO27)).1 = exO28 := by
  norm_num [yearStep, phaseOut, workingUpdate, retiredUpdate, drainBuckets, scenarioModifiers, baseInflationPct, effectiveInvestmentReturnPct, inflationFactorAt, inflatedRent, relocationFires, rentAfterEvents, childrenExpensesOf, livingAnnualOf, travelAnnualOf, housingAnnualOf, totalExpensesOf, childrenPass, computeChildrenSchedule, childCost, getTaxFactor, taxFactorByCanton, taxFactorDefault, getSalaryGrowthRate, careerBoost, notesOf, zurich_ne_empty, DEFAULT_MAX_AGE, AHV_COUPLE_MAX_ANNUAL_2025, LPP_CONVERSION_RATE, LPP_INTEREST_RATE, startYear, moveNote, depletedNote, exampleData, initState, exO28, exO27]

set_option maxRecDepth 8000 in
theorem exO_step28 :
    (yearStep (scenarioModifiers ScenarioType.optimistic) 58 (exO28)).1 = exO29 := by
  norm_num [yearStep, phaseOut, workingUpdate, retiredUpdate, drainBuckets, scenarioModifiers, baseInflationPct, effectiveInvestmentReturnPct, inflationFactorAt, inflatedRent, relocationFires, rentAfterEvents, childrenExpensesOf, livingAnnualOf, travelAnnualOf, housingAnnualOf, totalExpensesOf, childrenPass, computeChildrenSchedule, childCost, getTaxFactor, taxFactorByCanton, taxFactorDefault, getSalaryGrowthRate, careerBoost, notesOf, zurich_ne_empty, DEFAULT_MAX_AGE, AHV_COUPLE_MAX_ANNUAL_2025, LPP_CONVERSION_RATE, LPP_INTEREST_RATE, startYear, moveNote, depletedNote, exampleData, initState, exO29, exO28]

set_option maxRecDepth 8000 in
theorem exO_step29 :
    (yearStep (scenarioModifiers ScenarioType.optimistic) 59 (exO29)).1 = exO30 := by
  norm_num [yearStep, phaseOut, workingUpdate, retiredUpdate, drainBuckets, scenarioModifiers, baseInflationPct, effectiveInvestmentReturnPct, inflationFactorAt, inflatedRent, relocationFires, rentAfterEvents, childrenExpensesOf, livingAnnualOf, travelAnnualOf, housingAnnualOf, totalExpensesOf, childrenPass, computeChildrenSchedule, childCost, getTaxFactor, taxFactorByCanton, taxFactorDefault, getSalaryGrowthRate, careerBoost, notesOf, zurich_ne_empty, DEFAULT_MAX_AGE, AHV_COUPLE_MAX_ANNUAL_2025, LPP_CONVERSION_RATE, LPP_INTEREST_RATE, startYear, moveNote, depletedNote, exampleData, initState, exO30, exO29]

set_option maxRecDepth 8000 in
theorem exO_step30 :
    (yearStep (scenarioModifiers ScenarioType.optimistic) 60 (exO30)).1 = exO31 := by
  norm_num [yearStep, phaseOut, workingUpdate, retiredUpdate, drainBuckets, scenarioModifiers, baseInflationPct, effectiveInvestmentReturnPct, inflationFactorAt, inflatedRent, relocationFires, rentAfterEvents, childrenExpensesOf, livingAnnualOf, travelAnnualOf, housingAnnualOf, totalExpensesOf, childrenPass, computeChildrenSchedule, childCost, getTaxFactor, taxFactorByCanton, taxFactorDefault, getSalaryGrowthRate, careerBoost, notesOf, zurich_ne_empty, DEFAULT_MAX_AGE, AHV_COUPLE_MAX_ANNUAL_2025, LPP_CONVERSION_RATE, LPP_INTEREST_RATE, startYear, moveNote, depletedNote, exampleData, initState, exO31, exO30]

set_option maxRecDepth 8000 in
theorem exO_step31 :
    (yearStep (scenarioModifiers ScenarioType.optimistic) 61 (exO31)).1 = exO32 := by
  norm_num [yearStep, phaseOut, workingUpdate, retiredUpdate, drainBuckets, scenarioModifiers, baseInflationPct, effectiveInvestmentReturnPct, inflationFactorAt, inflatedRent, relocationFires, rentAfterEvents, childrenExpensesOf, livingAnnualOf, travelAnnualOf, housingAnnualOf, totalExpensesOf, childrenPass, computeChildrenSchedule, childCost, getTaxFactor, taxFactorByCanton, taxFactorDefault, getSalaryGrowthRate, careerBoost, notesOf, zurich_ne_empty, DEFAULT_MAX_AGE, AHV_COUPLE_MAX_ANNUAL_2025, LPP_CONVERSION_RATE, LPP_INTEREST_RATE, startYear, moveNote, depletedNote, exampleData, initState, exO32, exO31]

set_option maxRecDepth 8000 in
theorem exO_step32 :
    (yearStep (scenarioModifiers ScenarioType.optimistic) 62 (exO32)).1 = exO33 := by
  norm_num [yearStep, phaseOut, workingUpdate, retiredUpdate, drainBuckets, scenarioModifiers, baseInflationPct, effectiveInvestmentReturnPct, inflationFactorAt, inflatedRent, relocationFires, rentAfterEvents, childrenExpensesOf, livingAnnualOf, travelAnnualOf, housingAnnualOf, totalExpensesOf, childrenPass, computeChildrenSchedule, childCost, getTaxFactor, taxFactorByCanton, taxFactorDefault, getSalaryGrowthRate, careerBoost, notesOf, zurich_ne_empty, DEFAULT_MAX_AGE, AHV_COUPLE_MAX_ANNUAL_2025, LPP_CONVERSION_RATE, LPP_INTEREST_RATE, startYear, moveNote, depletedNote, exampleData, initState, exO33, exO32]

set_option maxRecDepth 8000 in
theorem exO_step33 :
    (yearStep (scenarioModifiers ScenarioType.optimistic) 63 (exO33)).1 = exO34 := by
  norm_num [yearStep, phaseOut, workingUpdate, retiredUpdate, drainBuckets, scenarioModifiers, baseInflationPct, effectiveInvestmentReturnPct, inflationFactorAt, inflatedRent, relocationFires, rentAfterEvents, childrenExpensesOf, livingAnnualOf, travelAnnualOf, housingAnnualOf, totalExpensesOf, childrenPass, computeChildrenSchedule, childCost, getTaxFactor, taxFactorByCanton, taxFactorDefault, getSalaryGrowthRate, careerBoost, notesOf, zurich_ne_empty, DEFAULT_MAX_AGE, AHV_COUPLE_MAX_ANNUAL_2025, LPP_CONVERSION_RATE, LPP_INTEREST_RATE, startYear, moveNote, depletedNote, exampleData, initState, exO34, exO33]

set_option maxRecDepth 8000 in
theorem exO_step34 :
    (yearStep (scenarioModifiers ScenarioType.optimistic) 64 (exO34)).1 = exO35 := by
  norm_num [yearStep, phaseOut, workingUpdate, retiredUpdate, drainBuckets, scenarioModifiers, baseInflationPct, effectiveInvestmentReturnPct, inflationFactorAt, inflatedRent, relocationFires, rentAfterEvents, childrenExpensesOf, livingAnnualOf, travelAnnualOf, housingAnnualOf, totalExpensesOf, childrenPass, computeChildrenSchedule, childCost, getTaxFactor, taxFactorByCanton, taxFactorDefault, getSalaryGrowthRate, careerBoost, notesOf, zurich_ne_empty, DEFAULT_MAX_AGE, AHV_COUPLE_MAX_ANNUAL_2025, LPP_CONVERSION_RATE, LPP_INTEREST_RATE, startYear, moveNote, depletedNote, exampleData, initState, exO35, exO34]

set_option maxRecDepth 8000 in
theorem exO_step35 :
    (yearStep (scenarioModifiers ScenarioType.optimistic) 65 (exO35)).1 = exO36 := by
  norm_num [yearStep, phaseOut, workingUpdate, retiredUpdate, drainBuckets, scenarioModifiers, baseInflationPct, effectiveInvestmentReturnPct, inflationFactorAt, inflatedRent, relocationFires, rentAfterEvents, childrenExpensesOf, livingAnnualOf, travelAnnualOf, housingAnnualOf, totalExpensesOf, childrenPass, computeChildrenSchedule, childCost, getTaxFactor, taxFactorByCanton, taxFactorDefault, getSalaryGrowthRate, careerBoost, notesOf, zurich_ne_empty, DEFAULT_MAX_AGE, AHV_COUPLE_MAX_ANNUAL_2025, LPP_CONVERSION_RATE, LPP_INTEREST_RATE, startYear, moveNote, depletedNote, exampleData, initState, exO36, exO35]

set_option maxRecDepth 8000 in
theorem exO_step36 :
    (yearStep (scenarioModifiers ScenarioType.optimistic) 66 (exO36)).1 = exO37 := by
  norm_num [yearStep, phaseOut, workingUpdate, retiredUpdate, drainBuckets, scenarioModifiers, baseInflationPct, effectiveInvestmentReturnPct, inflationFactorAt, inflatedRent, relocationFires, rentAfterEvents, childrenExpensesOf, livingAnnualOf, travelAnnualOf, housingAnnualOf, totalExpensesOf, childrenPass, computeChildrenSchedule, childCost, getTaxFactor, taxFactorByCanton, taxFactorDefault, getSalaryGrowthRate, careerBoost, notesOf, zurich_ne_empty, DEFAULT_MAX_AGE, AHV_COUPLE_MAX_ANNUAL_2025, LPP_CONVERSION_RATE, LPP_INTEREST_RATE, startYear, moveNote, depletedNote, exampleData, initState, exO37, exO36]

set_option maxRecDepth 8000 in
theorem exO_step37 :
    (yearStep (scenarioModifiers ScenarioType.optimistic) 67 (exO37)).1 = exO38 := by
  norm_num [yearStep, phaseOut, workingUpdate, retiredUpdate, drainBuckets, scenarioModifiers, baseInflationPct, effectiveInvestmentReturnPct, inflationFactorAt, inflatedRent, relocationFires, rentAfterEvents, childrenExpensesOf, livingAnnualOf, travelAnnualOf, housingAnnualOf, totalExpensesOf, childrenPass, computeChildrenSchedule, childCost, getTaxFactor, taxFactorByCanton, taxFactorDefault, getSalaryGrowthRate, careerBoost, notesOf, zurich_ne_empty, DEFAULT_MAX_AGE, AHV_COUPLE_MAX_ANNUAL_2025, LPP_CONVERSION_RATE, LPP_INTEREST_RATE, startYear, moveNote, depletedNote, exampleData, initState, exO38, exO37]

set_option maxRecDepth 8000 in
theorem exO_step38 :
    (yearStep (scenarioModifiers ScenarioType.optimistic) 68 (exO38)).1 = exO39 := by
  norm_num [yearStep, phaseOut, workingUpdate, retiredUpdate, drainBuckets, scenarioModifiers, baseInflationPct, effectiveInvestmentReturnPct, inflationFactorAt, inflatedRent, relocationFires, rentAfterEvents, childrenExpensesOf, livingAnnualOf, travelAnnualOf, housingAnnualOf, totalExpensesOf, childrenPass, computeChildrenSchedule, childCost, getTaxFactor, taxFactorByCanton, taxFactorDefault, getSalaryGrowthRate, careerBoost, notesOf, zurich_ne_empty, DEFAULT_MAX_AGE, AHV_COUPLE_MAX_ANNUAL_2025, LPP_CONVERSION_RATE, LPP_INTEREST_RATE, startYear, moveNote, depletedNote, exampleData, initState, exO39, exO38]

set_option maxRecDepth 8000 in
theorem exO_step39 :
    (yearStep (scenarioModifiers ScenarioType.optimistic) 69 (exO39)).1 = exO40 := by
  norm_num [yearStep, phaseOut, workingUpdate, retiredUpdate, drainBuckets, scenarioModifiers, baseInflationPct, effectiveInvestmentReturnPct, inflationFactorAt, inflatedRent, relocationFires, rentAfterEvents, childrenExpensesOf, livingAnnualOf, travelAnnualOf, housingAnnualOf, totalExpensesOf, childrenPass, computeChildrenSchedule, childCost, getTaxFactor, taxFactorByCanton, taxFactorDefault, getSalaryGrowthRate, careerBoost, notesOf, zurich_ne_empty, DEFAULT_MAX_AGE, AHV_COUPLE_MAX_ANNUAL_2025, LPP_CONVERSION_RATE, LPP_INTEREST_RATE, startYear, moveNote, depletedNote, exampleData, initState, exO40, exO39]

set_option maxRecDepth 8000 in
theorem exO_step40 :
    (yearStep (scenarioModifiers ScenarioType.optimistic) 70 (exO40)).1 = exO41 := by
  norm_num [yearStep, phaseOut, workingUpdate, retiredUpdate, drainBuckets, scenarioModifiers, baseInflationPct, effectiveInvestmentReturnPct, inflationFactorAt, inflatedRent, relocationFires, rentAfterEvents, childrenExpensesOf, livingAnnualOf, travelAnnualOf, housingAnnualOf, totalExpensesOf, childrenPass, computeChildrenSchedule, childCost, getTaxFactor, taxFactorByCanton, taxFactorDefault, getSalaryGrowthRate, careerBoost, notesOf, zurich_ne_empty, DEFAULT_MAX_AGE, AHV_COUPLE_MAX_ANNUAL_2025, LPP_CONVERSION_RATE, LPP_INTEREST_RATE, startYear, moveNote, depletedNote, exampleData, initState, exO41, exO40]

set_option maxRecDepth 8000 in
theorem exO_step41 :
    (yearStep (scenarioModifiers ScenarioType.optimistic) 71 (exO41)).1 = exO42 := by
  norm_num [yearStep, phaseOut, workingUpdate, retiredUpdate, drainBuckets, scenarioModifiers, baseInflationPct, effectiveInvestmentReturnPct, inflationFactorAt, inflatedRent, relocationFires, rentAfterEvents, childrenExpensesOf, livingAnnualOf, travelAnnualOf, housingAnnualOf, totalExpensesOf, childrenPass, computeChildrenSchedule, childCost, getTaxFactor, taxFactorByCanton, taxFactorDefault, getSalaryGrowthRate, careerBoost, notesOf, zurich_ne_empty, DEFAULT_MAX_AGE, AHV_COUPLE_MAX_ANNUAL_2025, LPP_CONVERSION_RATE, LPP_INTEREST_RATE, startYear, moveNote, depletedNote, exampleData, initState, exO42, exO41]

set_option maxRecDepth 8000 in
theorem exO_step42 :
    (yearStep (scenarioModifiers ScenarioType.optimistic) 72 (exO42)).1 = exO43 := by
  norm_num [yearStep, phaseOut, workingUpdate, retiredUpdate, drainBuckets, scenarioModifiers, baseInflationPct, effectiveInvestmentReturnPct, inflationFactorAt, inflatedRent, relocationFires, rentAfterEvents, childrenExpensesOf, livingAnnualOf, travelAnnualOf, housingAnnualOf, totalExpensesOf, childrenPass, computeChildrenSchedule, childCost, getTaxFactor, taxFactorByCanton, taxFactorDefault, getSalaryGrowthRate, careerBoost, notesOf, zurich_ne_empty, DEFAULT_MAX_AGE, AHV_COUPLE_MAX_ANNUAL_2025, LPP_CONVERSION_RATE, LPP_INTEREST_RATE, startYear, moveNote, depletedNote, exampleData, initState, exO43, exO42]

set_option maxRecDepth 8000 in
theorem exO_step43 :
    (yearStep (scenarioModifiers ScenarioType.optimistic) 73 (exO43)).1 = exO44 := by
  norm_num [yearStep, phaseOut, workingUpdate, retiredUpdate, drainBuckets, scenarioModifiers, baseInflationPct, effectiveInvestmentReturnPct, inflationFactorAt, inflatedRent, relocationFires, rentAfterEvents, childrenExpensesOf, livingAnnualOf, travelAnnualOf, housingAnnualOf, totalExpensesOf, childrenPass, computeChildrenSchedule, childCost, getTaxFactor, taxFactorByCanton, taxFactorDefault, getSalaryGrowthRate, careerBoost, notesOf, zurich_ne_empty, DEFAULT_MAX_AGE, AHV_COUPLE_MAX_ANNUAL_2025, LPP_CONVERSION_RATE, LPP_INTEREST_RATE, startYear, moveNote, depletedNote, exampleData, initState, exO44, exO43]

set_option maxRecDepth 8000 in
theorem exO_step44 :
    (yearStep (scenarioModifiers ScenarioType.optimistic) 74 (exO44)).1 = exO45 := by
  norm_num [yearStep, phaseOut, workingUpdate, retiredUpdate, drainBuckets, scenarioModifiers, baseInflationPct, effectiveInvestmentReturnPct, inflationFactorAt, inflatedRent, relocationFires, rentAfterEvents, childrenExpensesOf, livingAnnualOf, travelAnnualOf, housingAnnualOf, totalExpensesOf, childrenPass, computeChildrenSchedule, childCost, getTaxFactor, taxFactorByCanton, taxFactorDefault, getSalaryGrowthRate, careerBoost, notesOf, zurich_ne_empty, DEFAULT_MAX_AGE, AHV_COUPLE_MAX_ANNUAL_2025, LPP_CONVERSION_RATE, LPP_INTEREST_RATE, startYear, moveNote, depletedNote, exampleData, initState, exO45, exO44]

set_option maxRecDepth 8000 in
theorem exO_step45 :
    (yearStep (scenarioModifiers ScenarioType.optimistic) 75 (exO45)).1 = exO46 := by
  norm_num [yearStep, phaseOut, workingUpdate, retiredUpdate, drainBuckets, scenarioModifiers, baseInflationPct, effectiveInvestmentReturnPct, inflationFactorAt, inflatedRent, relocationFires, rentAfterEvents, childrenExpensesOf, livingAnnualOf, travelAnnualOf, housingAnnualOf, totalExpensesOf, childrenPass, computeChildrenSchedule, childCost, getTaxFactor, taxFactorByCanton, taxFactorDefault, getSalaryGrowthRate, careerBoost, notesOf, zurich_ne_empty, DEFAULT_MAX_AGE, AHV_COUPLE_MAX_ANNUAL_2025, LPP_CONVERSION_RATE, LPP_INTEREST_RATE, startYear, moveNote, depletedNote, exampleData, initState, exO46, exO45]

set_option maxRecDepth 8000 in
theorem exO_step46 :
    (yearStep (scenarioModifiers ScenarioType.optimistic) 76 (exO46)).1 = exO47 := by
  norm_num [yearStep, phaseOut, workingUpdate, retiredUpdate, drainBuckets, scenarioModifiers, baseInflationPct, effectiveInvestmentReturnPct, inflationFactorAt, inflatedRent, relocationFires, rentAfterEvents, childrenExpensesOf, livingAnnualOf, travelAnnualOf, housingAnnualOf, totalExpensesOf, childrenPass, computeChildrenSchedule, childCost, getTaxFactor, taxFactorByCanton, taxFactorDefault, getSalaryGrowthRate, careerBoost, notesOf, zurich_ne_empty, DEFAULT_MAX_AGE, AHV_COUPLE_MAX_ANNUAL_2025, LPP_CONVERSION_RATE, LPP_INTEREST_RATE, startYear, moveNote, depletedNote, exampleData, initState, exO47, exO46]

set_option maxRecDepth 8000 in
theorem exO_step47 :
    (yearStep (scenarioModifiers ScenarioType.optimistic) 77 (exO47)).1 = exO48 := by
  norm_num [yearStep, phaseOut, workingUpdate, retiredUpdate, drainBuckets, scenarioModifiers, baseInflationPct, effectiveInvestmentReturnPct, inflationFactorAt, inflatedRent, relocationFires, rentAfterEvents, childrenExpensesOf, livingAnnualOf, travelAnnualOf, housingAnnualOf, totalExpensesOf, childrenPass, computeChildrenSchedule, childCost, getTaxFactor, taxFactorByCanton, taxFactorDefault, getSalaryGrowthRate, careerBoost, notesOf, zurich_ne_empty, DEFAULT_MAX_AGE, AHV_COUPLE_MAX_ANNUAL_2025, LPP_CONVERSION_RATE, LPP_INTEREST_RATE, startYear, moveNote, depletedNote, exampleData, initState, exO48, exO47]

set_option maxRecDepth 8000 in
theorem exO_step48 :
    (yearStep (scenarioModifiers ScenarioType.optimistic) 78 (exO48)).1 = exO49 := by
  norm_num [yearStep, phaseOut, workingUpdate, retiredUpdate, drainBuckets, scenarioModifiers, baseInflationPct, effectiveInvestmentReturnPct, inflationFactorAt, inflatedRent, relocationFires, rentAfterEvents, childrenExpensesOf, livingAnnualOf, travelAnnualOf, housingAnnualOf, totalExpensesOf, childrenPass, computeChildrenSchedule, childCost, getTaxFactor, taxFactorByCanton, taxFactorDefault, getSalaryGrowthRate, careerBoost, notesOf, zurich_ne_empty, DEFAULT_MAX_AGE, AHV_COUPLE_MAX_ANNUAL_2025, LPP_CONVERSION_RATE, LPP_INTEREST_RATE, startYear, moveNote, depletedNote, exampleData, initState, exO49, exO48]

set_option maxRecDepth 8000 in
theorem exO_step49 :
    (yearStep (scenarioModifiers ScenarioType.optimistic) 79 (exO49)).1 = exO50 := by
  norm_num [yearStep, phaseOut, workingUpdate, retiredUpdate, drainBuckets, scenarioModifiers, baseInflationPct, effectiveInvestmentReturnPct, inflationFactorAt, inflatedRent, relocationFires, rentAfterEvents, childrenExpensesOf, livingAnnualOf, travelAnnualOf, housingAnnualOf, totalExpensesOf, childrenPass, computeChildrenSchedule, childCost, getTaxFactor, taxFactorByCanton, taxFactorDefault, getSalaryGrowthRate, careerBoost, notesOf, zurich_ne_empty, DEFAULT_MAX_AGE, AHV_COUPLE_MAX_ANNUAL_2025, LPP_CONVERSION_RATE, LPP_INTEREST_RATE, startYear, moveNote, depletedNote, exampleData, initState, exO50, exO49]

set_option maxRecDepth 8000 in
theorem exO_step50 :
    (yearStep (scenarioModifiers ScenarioType.optimistic) 80 (exO50)).1 = exO51 := by
  norm_num [yearStep, phaseOut, workingUpdate, retiredUpdate, drainBuckets, scenarioModifiers, baseInflationPct, effectiveInvestmentReturnPct, inflationFactorAt, inflatedRent, relocationFires, rentAfterEvents, childrenExpensesOf, livingAnnualOf, travelAnnualOf, housingAnnualOf, totalExpensesOf, childrenPass, computeChildrenSchedule, childCost, getTaxFactor, taxFactorByCanton, taxFactorDefault, getSalaryGrowthRate, careerBoost, notesOf, zurich_ne_empty, DEFAULT_MAX_AGE, AHV_COUPLE_MAX_ANNUAL_2025, LPP_CONVERSION_RATE, LPP_INTEREST_RATE, startYear, moveNote, depletedNote, exampleData, initState, exO51, exO50]

set_option maxRecDepth 8000 in
theorem exO_step51 :
    (yearStep (scenarioModifiers ScenarioType.optimistic) 81 (exO51)).1 = exO52 := by
  norm_num [yearStep, phaseOut, workingUpdate, retiredUpdate, drainBuckets, scenarioModifiers, baseInflationPct, effectiveInvestmentReturnPct, inflationFactorAt, inflatedRent, relocationFires, rentAfterEvents, childrenExpensesOf, livingAnnualOf, travelAnnualOf, housingAnnualOf, totalExpensesOf, childrenPass, computeChildrenSchedule, childCost, getTaxFactor, taxFactorByCanton, taxFactorDefault, getSalaryGrowthRate, careerBoost, notesOf, zurich_ne_empty, DEFAULT_MAX_AGE, AHV_COUPLE_MAX_ANNUAL_2025, LPP_CONVERSION_RATE, LPP_INTEREST_RATE, startYear, moveNote, depletedNote, exampleData, initState, exO52, exO51]

set_option maxRecDepth 8000 in
theorem exO_step52 :
    (yearStep (scenarioModifiers ScenarioType.optimistic) 82 (exO52)).1 = exO53 := by
  norm_num [yearStep, phaseOut, workingUpdate, retiredUpdate, drainBuckets, scenarioModifiers, baseInflationPct, effectiveInvestmentReturnPct, inflationFactorAt, inflatedRent, relocationFires, rentAfterEvents, childrenExpensesOf, livingAnnualOf, travelAnnualOf, housingAnnualOf, totalExpensesOf, childrenPass, computeChildrenSchedule, childCost, getTaxFactor, taxFactorByCanton, taxFactorDefault, getSalaryGrowthRate, careerBoost, notesOf, zurich_ne_empty, DEFAULT_MAX_AGE, AHV_COUPLE_MAX_ANNUAL_2025, LPP_CONVERSION_RATE, LPP_INTEREST_RATE, startYear, moveNote, depletedNote, exampleData, initState, exO53, exO52]

set_option maxRecDepth 8000 in
theorem exO_step53 :
    (yearStep (scenarioModifiers ScenarioType.optimistic) 83 (exO53)).1 = exO54 := by
  norm_num [yearStep, phaseOut, workingUpdate, retiredUpdate, drainBuckets, scenarioModifiers, baseInflationPct, effectiveInvestmentReturnPct, inflationFactorAt, inflatedRent, relocationFires, rentAfterEvents, childrenExpensesOf, livingAnnualOf, travelAnnualOf, housingAnnualOf, totalExpensesOf, childrenPass, computeChildrenSchedule, childCost, getTaxFactor, taxFactorByCanton, taxFactorDefault, getSalaryGrowthRate, careerBoost, notesOf, zurich_ne_empty, DEFAULT_MAX_AGE, AHV_COUPLE_MAX_ANNUAL_2025, LPP_CONVERSION_RATE, LPP_INTEREST_RATE, startYear, moveNote, depletedNote, exampleData, initState, exO54, exO53]

set_option maxRecDepth 8000 in
theorem exO_step54 :
    (yearStep (scenarioModifiers ScenarioType.optimistic) 84 (exO54)).1 = exO55 := by
  norm_num [yearStep, phaseOut, workingUpdate, retiredUpdate, drainBuckets, scenarioModifiers, baseInflationPct, effectiveInvestmentReturnPct, inflationFactorAt, inflatedRent, relocationFires, rentAfterEvents, childrenExpensesOf, livingAnnualOf, travelAnnualOf, housingAnnualOf, totalExpensesOf, childrenPass, computeChildrenSchedule, childCost, getTaxFactor, taxFactorByCanton, taxFactorDefault, getSalaryGrowthRate, careerBoost, notesOf, zurich_ne_empty, DEFAULT_MAX_AGE, AHV_COUPLE_MAX_ANNUAL_2025, LPP_CONVERSION_RATE, LPP_INTEREST_RATE, startYear, moveNote, depletedNote, exampleData, initState, exO55, exO54]

set_option maxRecDepth 8000 in
theorem exO_step55 :
    (yearStep (scenarioModifiers ScenarioType.optimistic) 85 (exO55)).1 = exO56 := by
  norm_num [yearStep, phaseOut, workingUpdate, retiredUpdate, drainBuckets, scenarioModifiers, baseInflationPct, effectiveInvestmentReturnPct, inflationFactorAt, inflatedRent, relocationFires, rentAfterEvents, childrenExpensesOf, livingAnnualOf, travelAnnualOf, housingAnnualOf, totalExpensesOf, childrenPass, computeChildrenSchedule, childCost, getTaxFactor, taxFactorByCanton, taxFactorDefault, getSalaryGrowthRate, careerBoost, notesOf, zurich_ne_empty, DEFAULT_MAX_AGE, AHV_COUPLE_MAX_ANNUAL_2025, LPP_CONVERSION_RATE, LPP_INTEREST_RATE, startYear, moveNote, depletedNote, exampleData, initState, exO56, exO55]

set_option maxRecDepth 8000 in
theorem exO_step56 :
    (yearStep (scenarioModifiers ScenarioType.optimistic) 86 (exO56)).1 = exO57 := by
  norm_num [yearStep, phaseOut, workingUpdate, retiredUpdate, drainBuckets, scenarioModifiers, baseInflationPct, effectiveInvestmentReturnPct, inflationFactorAt, inflatedRent, relocationFires, rentAfterEvents, childrenExpensesOf, livingAnnualOf, travelAnnualOf, housingAnnualOf, totalExpensesOf, childrenPass, computeChildrenSchedule, childCost, getTaxFactor, taxFactorByCanton, taxFactorDefault, getSalaryGrowthRate, careerBoost, notesOf, zurich_ne_empty, DEFAULT_MAX_AGE, AHV_COUPLE_MAX_ANNUAL_2025, LPP_CONVERSION_RATE, LPP_INTEREST_RATE, startYear, moveNote, depletedNote, exampleData, initState, exO57, exO56]

set_option maxRecDepth 8000 in
theorem exO_step57 :
    (yearStep (scenarioModifiers ScenarioType.optimistic) 87 (exO57)).1 = exO58 := by
  norm_num [yearStep, phaseOut, workingUpdate, retiredUpdate, drainBuckets, scenarioModifiers, baseInflationPct, effectiveInvestmentReturnPct, inflationFactorAt, inflatedRent, relocationFires, rentAfterEvents, childrenExpensesOf, livingAnnualOf, travelAnnualOf, housingAnnualOf, totalExpensesOf, childrenPass, computeChildrenSchedule, childCost, getTaxFactor, taxFactorByCanton, taxFactorDefault, getSalaryGrowthRate, careerBoost, notesOf, zurich_ne_empty, DEFAULT_MAX_AGE, AHV_COUPLE_MAX_ANNUAL_2025, LPP_CONVERSION_RATE, LPP_INTEREST_RATE, startYear, moveNote, depletedNote, exampleData, initState, exO58, exO57]

set_option maxRecDepth 8000 in
theorem exO_step58 :
    (yearStep (scenarioModifiers ScenarioType.optimistic) 88 (exO58)).1 = exO59 := by
  norm_num [yearStep, phaseOut, workingUpdate, retiredUpdate, drainBuckets, scenarioModifiers, baseInflationPct, effectiveInvestmentReturnPct, inflationFactorAt, inflatedRent, relocationFires, rentAfterEvents, childrenExpensesOf, livingAnnualOf, travelAnnualOf, housingAnnualOf, totalExpensesOf, childrenPass, computeChildrenSchedule, childCost, getTaxFactor, taxFactorByCanton, taxFactorDefault, getSalaryGrowthRate, careerBoost, notesOf, zurich_ne_empty, DEFAULT_MAX_AGE, AHV_COUPLE_MAX_ANNUAL_2025, LPP_CONVERSION_RATE, LPP_INTEREST_RATE, startYear, moveNote, depletedNote, exampleData, initState, exO59, exO58]

set_option maxRecDepth 8000 in
theorem exO_step59 :
    (yearStep (scenarioModifiers ScenarioType.optimistic) 89 (exO59)).1 = exO60 := by
  norm_num [yearStep, phaseOut, workingUpdate, retiredUpdate, drainBuckets, scenarioModifiers, baseInflationPct, effectiveInvestmentReturnPct, inflationFactorAt, inflatedRent, relocationFires, rentAfterEvents, childrenExpensesOf, livingAnnualOf, travelAnnualOf, housingAnnualOf, totalExpensesOf, childrenPass, computeChildrenSchedule, childCost, getTaxFactor, taxFactorByCanton, taxFactorDefault, getSalaryGrowthRate, careerBoost, notesOf, zurich_ne_empty, DEFAULT_MAX_AGE, AHV_COUPLE_MAX_ANNUAL_2025, LPP_CONVERSION_RATE, LPP_INTEREST_RATE, startYear, moveNote, depletedNote, exampleData, initState, exO60, exO59]

theorem exO_run :
    (runYears (scenarioModifiers ScenarioType.optimistic) (List.range' 30 60)
      (initState exampleData)).1 = exO60 := by
  rw [show List.range' 30 60 = [30, 31, 32, 33, 34, 35, 36, 37, 38, 39, 40, 41, 42, 43, 44, 45, 46, 47, 48, 49, 50, 51, 52, 53, 54, 55, 56, 57, 58, 59, 60, 61, 62, 63, 64, 65, 66, 67, 68, 69, 70, 71, 72, 73, 74, 75, 76, 77, 78, 79, 80, 81, 82, 83, 84, 85, 86, 87, 88, 89] from by decide]
  rw [runYears_fst_cons, exO_step0]
  rw [runYears_fst_cons, exO_step1]
  rw [runYears_fst_cons, exO_step2]
  rw [runYears_fst_cons, exO_step3]
  rw [runYears_fst_cons, exO_step4]
  rw [runYears_fst_cons, exO_step5]
  rw [runYears_fst_cons, exO_step6]
  rw [runYears_fst_cons, exO_step7]
  rw [runYears_fst_cons, exO_step8]
  rw [runYears_fst_cons, exO_step9]
  rw [runYears_fst_cons, exO_step10]
  rw [runYears_fst_cons, exO_step11]
  rw [runYears_fst_cons, exO_step12]
  rw [runYears_fst_cons, exO_step13]
  rw [runYears_fst_cons, exO_step14]
  rw [runYears_fst_cons, exO_step15]
  rw [runYears_fst_cons, exO_step16]
  rw [runYears_fst_cons, exO_step17]
  rw [runYears_fst_cons, exO_step18]
  rw [runYears_fst_cons, exO_step19]
  rw [runYears_fst_cons, exO_step20]
  rw [runYears_fst_cons, exO_step21]
  rw [runYears_fst_cons, exO_step22]
  rw [runYears_fst_cons, exO_step23]
  rw [runYears_fst_cons, exO_step24]
  rw [runYears_fst_cons, exO_step25]
  rw [runYears_fst_cons, exO_step26]
  rw [runYears_fst_cons, exO_step27]
  rw [runYears_fst_cons, exO_step28]
  rw [runYears_fst_cons, exO_step29]
  rw [runYears_fst_cons, exO_step30]
  rw [runYears_fst_cons, exO_step31]
  rw [runYears_fst_cons, exO_step32]
  rw [runYears_fst_cons, exO_step33]
  rw [runYears_fst_cons, exO_step34]
  rw [runYears_fst_cons, exO_step35]
  rw [runYears_fst_cons, exO_step36]
  rw [runYears_fst_cons, exO_step37]
  rw [runYears_fst_cons, exO_step38]
  rw [runYears_fst_cons, exO_step39]
  rw [runYears_fst_cons, exO_step40]
  rw [runYears_fst_cons, exO_step41]
  rw [runYears_fst_cons, exO_step42]
  rw [runYears_fst_cons, exO_step43]
  rw [runYears_fst_cons, exO_step44]
  rw [runYears_fst_cons, exO_step45]
  rw [runYears_fst_cons, exO_step46]
  rw [runYears_fst_cons, exO_step47]
  rw [runYears_fst_cons, exO_step48]
  rw [runYears_fst_cons, exO_step49]
  rw [runYears_fst_cons, exO_step50]
  rw [runYears_fst_cons, exO_step51]
  rw [runYears_fst_cons, exO_step52]
  rw [runYears_fst_cons, exO_step53]
  rw [runYears_fst_cons, exO_step54]
  rw [runYears_fst_cons, exO_step55]
  rw [runYears_fst_cons, exO_step56]
  rw [runYears_fst_cons, exO_step57]
  rw [runYears_fst_cons, exO_step58]
  rw [runYears_fst_cons, exO_step59]
  rfl

set_option maxRecDepth 8000 in
theorem exO_final :
    (calculateProjections exampleData ScenarioType.optimistic).finalWealth = 196881400263328661865341980752160769814000718412365095816744653294669469323175494142574292994909665671550346813264366026813639902228424320347882809/2882303761517117440000000000000000000000000000000000000000000000000000000000000000000000000000000000000000000000000000000000000000000000000 := by
  rw [calculateProjections_finalWealth,
    show simAges exampleData = List.range' 30 60 ++ [90] from by decide,
    runYears_snoc, List.getLast?_concat]
  simp only [Option.map_some', Option.getD_some]
  rw [exO_run, yearStep_snd_totalWealth]
  norm_num [totalWealthOf, yearStep, phaseOut, workingUpdate, retiredUpdate, drainBuckets, scenarioModifiers, baseInflationPct, effectiveInvestmentReturnPct, inflationFactorAt, inflatedRent, relocationFires, rentAfterEvents, childrenExpensesOf, livingAnnualOf, travelAnnualOf, housingAnnualOf, totalExpensesOf, childrenPass, computeChildrenSchedule, childCost, getTaxFactor, taxFactorByCanton, taxFactorDefault, getSalaryGrowthRate, careerBoost, notesOf, zurich_ne_empty, DEFAULT_MAX_AGE, AHV_COUPLE_MAX_ANNUAL_2025, LPP_CONVERSION_RATE, LPP_INTEREST_RATE, startYear, moveNote, depletedNote, exampleData, exO60]

/-- C1 (amended): the universal scenario ordering fails
(`c1_counterexample`), but on the spec's representative example profile the
pessimistic run's final wealth does not exceed the optimistic run's. -/
theorem c1_amended :
    (calculateProjections exampleData ScenarioType.pessimistic).finalWealth ≤
      (calculateProjections exampleData ScenarioType.optimistic).finalWealth := by
  rw [exP_final, exO_final]
  norm_num

/-! ## Monotonicity of the neutral run in the investment return (C2) -/

theorem childrenPass_update (d : FinancialData) (r : ℚ) :
    ∀ l, childrenPass { d with investmentReturn := r } l = childrenPass d l := by
  intro l
  induction l with
  | nil => rfl
  | cons c rest ih =>
    have hc : childCost { d with investmentReturn := r } c = childCost d c := rfl
    simp only [childrenPass, ih, hc]

theorem drainBuckets_fst_le (c i δ : ℚ) (hδ : 0 ≤ δ) (hc : 0 ≤ c) :
    (drainBuckets c i δ).1 ≤ c := by
  unfold drainBuckets
  split_ifs with h
  · simp; linarith
  · simpa using hc

theorem drainBuckets_snd_le (c i δ : ℚ) (hi : 0 ≤ i) :
    (drainBuckets c i δ).2 ≤ i := by
  unfold drainBuckets
  split_ifs with h
  · simp
  · simp only [max_le_iff]
    exact ⟨hi, by linarith [not_le.mp h]⟩

theorem drainBuckets_mono (c1 c2 i1 i2 δ1 δ2 : ℚ)
    (hc0 : 0 ≤ c1) (hcLe : c1 ≤ c2) (hi0 : 0 ≤ i1) (hiLe : i1 ≤ i2) (hδ : δ2 ≤ δ1) :
    (drainBuckets c1 i1 δ1).1 ≤ (drainBuckets c2 i2 δ2).1 ∧
      0 ≤ (drainBuckets c1 i1 δ1).1 ∧
      (drainBuckets c1 i1 δ1).2 ≤ (drainBuckets c2 i2 δ2).2 ∧
      0 ≤ (drainBuckets c1 i1 δ1).2 := by
  unfold drainBuckets
  split_ifs with h1 h2 h2
  · exact ⟨by simp; linarith, by simp; linarith, by simp [hiLe], hi0⟩
  · exact absurd (le_trans hδ (le_trans h1 hcLe)) h2
  · refine ⟨by simp; linarith, le_refl 0, ?_, le_max_left 0 _⟩
    simp only [max_le_iff]
    constructor
    · exact le_trans hi0 hiLe
    · linarith
  · refine ⟨le_refl 0, le_refl 0, ?_, le_max_left 0 _⟩
    exact max_le_max (le_refl 0) (by linarith)

theorem workingAlloc_mono (cash1 cash2 inv1 inv2 cap : ℚ)
    (hc0 : 0 ≤ cash1) (hcLe : cash1 ≤ cash2) (hi0 : 0 ≤ inv1) (hiLe : inv1 ≤ inv2) :
    ((if 0 < cap then (cash1 + cap * (3/10), inv1 + cap * (7/10))
        else drainBuckets cash1 inv1 (-cap)).1 ≤
      (if 0 < cap then (cash2 + cap * (3/10), inv2 + cap * (7/10))
        else drainBuckets cash2 inv2 (-cap)).1) ∧
      0 ≤ (if 0 < cap then (cash1 + cap * (3/10), inv1 + cap * (7/10))
        else drainBuckets cash1 inv1 (-cap)).1 ∧
      ((if 0 < cap then (cash1 + cap * (3/10), inv1 + cap * (7/10))
        else drainBuckets cash1 inv1 (-cap)).2 ≤
      (if 0 < cap then (cash2 + cap * (3/10), inv2 + cap * (7/10))
        else drainBuckets cash2 inv2 (-cap)).2) ∧
      0 ≤ (if 0 < cap then (cash1 + cap * (3/10), inv1 + cap * (7/10))
        else drainBuckets cash1 inv1 (-cap)).2 := by
  split_ifs with h
  · exact ⟨by show cash1 + cap * (3/10) ≤ cash2 + cap * (3/10); linarith,
      by show 0 ≤ cash1 + cap * (3/10); linarith,
      by show inv1 + cap * (7/10) ≤ inv2 + cap * (7/10); linarith,
      by show 0 ≤ inv1 + cap * (7/10); linarith⟩
  · exact drainBuckets_mono cash1 cash2 inv1 inv2 (-cap) (-cap) hc0 hcLe hi0 hiLe le_rfl

theorem retiredAlloc_mono (cash1 cash2 inv1 inv2 cap1 cap2 : ℚ)
    (hc0 : 0 ≤ cash1) (hcLe : cash1 ≤ cash2) (hi0 : 0 ≤ inv1) (hiLe : inv1 ≤ inv2)
    (hcap : cap1 ≤ cap2) :
    ((if 0 ≤ cap1 then (cash1 + cap1, inv1) else drainBuckets cash1 inv1 (-cap1)).1 ≤
      (if 0 ≤ cap2 then (cash2 + cap2, inv2) else drainBuckets cash2 inv2 (-cap2)).1) ∧
      0 ≤ (if 0 ≤ cap1 then (cash1 + cap1, inv1) else drainBuckets cash1 inv1 (-cap1)).1 ∧
      ((if 0 ≤ cap1 then (cash1 + cap1, inv1) else drainBuckets cash1 inv1 (-cap1)).2 ≤
      (if 0 ≤ cap2 then (cash2 + cap2, inv2) else drainBuckets cash2 inv2 (-cap2)).2) ∧
      0 ≤ (if 0 ≤ cap1 then (cash1 + cap1, inv1) else drainBuckets cash1 inv1 (-cap1)).2 := by
  split_ifs with h1 h2 h2
  · exact ⟨by show cash1 + cap1 ≤ cash2 + cap2; linarith,
      by show 0 ≤ cash1 + cap1; linarith, hiLe, hi0⟩
  · exact absurd (le_trans h1 hcap) h2
  · refine ⟨?_, (drainBuckets_nonneg _ _ _ hc0 hi0).1, ?_, (drainBuckets_nonneg _ _ _ hc0 hi0).2⟩
    · have := drainBuckets_fst_le cash1 inv1 (-cap1) (by linarith) hc0
      show (drainBuckets cash1 inv1 (-cap1)).1 ≤ cash2 + cap2
      linarith
    · have := drainBuckets_snd_le cash1 inv1 (-cap1) hi0
      show (drainBuckets cash1 inv1 (-cap1)).2 ≤ inv2
      linarith
  · exact (drainBuckets_mono cash1 cash2 inv1 inv2 (-cap1) (-cap2) hc0 hcLe hi0 hiLe
      (by linarith)).imp id (fun h => h)

theorem max_sub_min_eq (p q : ℚ) : max 0 (p - min p q) = max 0 (p - q) := by
  rcases le_total p q with h | h
  · rw [min_eq_left h, sub_self, max_eq_left (sub_nonpos.mpr h)]
    simp
  · rw [min_eq_right h]

theorem p3_drawdown_mono (p3a p3b d1 d2 g1 g2 : ℚ)
    (h3a : 0 ≤ p3a) (h3b : 0 ≤ p3b) (hd0 : 0 ≤ d1) (hdLe : d1 ≤ d2)
    (hcross : p3a * d2 ≤ p3b * d1) (hz : d1 = 0 → p3a = 0)
    (hg0 : 0 ≤ 1 + g1) (hgLe : 1 + g1 ≤ 1 + g2) :
    0 ≤ max 0 (p3a - min p3a d1) * (1 + g1) ∧
      0 ≤ max 0 (p3b - min p3b d2) * (1 + g2) ∧
      max 0 (p3a - min p3a d1) * (1 + g1) * d2 ≤
        max 0 (p3b - min p3b d2) * (1 + g2) * d1 ∧
      (d1 = 0 → max 0 (p3a - min p3a d1) * (1 + g1) = 0) := by
  rw [max_sub_min_eq p3a d1, max_sub_min_eq p3b d2]
  have hbase : max 0 (p3a - d1) * d2 ≤ max 0 (p3b - d2) * d1 := by
    rcases le_total p3a d1 with hle | hlt
    · rw [max_eq_left (sub_nonpos.mpr hle)]
      rw [zero_mul]
      exact mul_nonneg (le_max_left 0 _) hd0
    · have h1 : max 0 (p3a - d1) = p3a - d1 := max_eq_right (sub_nonneg.mpr hlt)
      rw [h1]
      have h2 : (p3a - d1) * d2 ≤ (p3b - d2) * d1 := by nlinarith
      exact le_trans h2 (mul_le_mul_of_nonneg_right (le_max_right 0 _) hd0)
  refine ⟨mul_nonneg (le_max_left 0 _) hg0,
    mul_nonneg (le_max_left 0 _) (le_trans hg0 hgLe), ?_, ?_⟩
  · calc max 0 (p3a - d1) * (1 + g1) * d2
        = max 0 (p3a - d1) * d2 * (1 + g1) := by ring
      _ ≤ max 0 (p3b - d2) * d1 * (1 + g1) :=
          mul_le_mul_of_nonneg_right hbase hg0
      _ ≤ max 0 (p3b - d2) * d1 * (1 + g2) :=
          mul_le_mul_of_nonneg_left hgLe
            (mul_nonneg (le_max_left 0 _) hd0)
      _ = max 0 (p3b - d2) * (1 + g2) * d1 := by ring
  · intro hd1
    rw [hz hd1, hd1]
    simp

theorem ReturnRel.p3_le {d : FinancialData} {r1 r2 : ℚ} {s1 s2 : SimState}
    (h : ReturnRel d r1 r2 s1 s2) : s1.pillar3Wealth ≤ s2.pillar3Wealth := by
  cases htk : s1.retirementSnapshotTaken with
  | false => exact h.p3Le htk
  | true =>
    obtain ⟨_, _, hd0, hdLe, hcross, hzero⟩ := h.snapRel htk
    by_cases hd1 : s1.pillar3AnnualDrawdownSnapshot = 0
    · rw [hzero hd1]
      exact h.p30b
    · have hd1pos : 0 < s1.pillar3AnnualDrawdownSnapshot :=
        lt_of_le_of_ne hd0 (Ne.symm hd1)
      have hd2pos : 0 < s2.pillar3AnnualDrawdownSnapshot := lt_of_lt_of_le hd1pos hdLe
      have h1 : s1.pillar3Wealth * s2.pillar3AnnualDrawdownSnapshot ≤
          s2.pillar3Wealth * s2.pillar3AnnualDrawdownSnapshot :=
        le_trans hcross (mul_le_mul_of_nonneg_left hdLe h.p30b)
      exact le_of_mul_le_mul_right h1 hd2pos

theorem workingUpdate_grossSalary1 (mods : ScenarioModifiers) (age : ℕ)
    (b e tf t : ℚ) (s : SimState) :
    (workingUpdate mods age b e tf t s).grossSalary1 =
      s.grossSalary1 * (1 + getSalaryGrowthRate age s.data.careerStage1 (b / 100) +
        mods.salaryGrowthModPct / 100) := rfl

theorem workingUpdate_grossSalary2 (mods : ScenarioModifiers) (age : ℕ)
    (b e tf t : ℚ) (s : SimState) :
    (workingUpdate mods age b e tf t s).grossSalary2 =
      s.grossSalary2 * (1 + getSalaryGrowthRate age s.data.careerStage2 (b / 100) +
        mods.salaryGrowthModPct / 100) := rfl

theorem workingUpdate_grossBonus (mods : ScenarioModifiers) (age : ℕ)
    (b e tf t : ℚ) (s : SimState) :
    (workingUpdate mods age b e tf t s).grossBonus =
      s.grossBonus * (1 + b / 100) := rfl

theorem workingUpdate_pillar2 (mods : ScenarioModifiers) (age : ℕ)
    (b e tf t : ℚ) (s : SimState) :
    (workingUpdate mods age b e tf t s).pillar2Wealth =
      s.pillar2Wealth * (1 + LPP_INTEREST_RATE) +
        (s.grossSalary1 + s.grossSalary2) * (3/25) := rfl

theorem workingUpdate_pillar3 (mods : ScenarioModifiers) (age : ℕ)
    (b e tf t : ℚ) (s : SimState) :
    (workingUpdate mods age b e tf t s).pillar3Wealth =
      s.pillar3Wealth * (1 + e / 100) + workingActualP3 tf s := rfl

theorem workingUpdate_cashBuffer (mods : ScenarioModifiers) (age : ℕ)
    (b e tf t : ℚ) (s : SimState) :
    (workingUpdate mods age b e tf t s).cashBuffer =
      (if 0 < workingCap tf t s then
          (s.cashBuffer + workingCap tf t s * (3/10),
            s.investedWealth + workingCap tf t s * (7/10))
        else drainBuckets s.cashBuffer s.investedWealth (-workingCap tf t s)).1 := rfl

theorem workingUpdate_investedWealth (mods : ScenarioModifiers) (age : ℕ)
    (b e tf t : ℚ) (s : SimState) :
    (workingUpdate mods age b e tf t s).investedWealth =
      (if 0 < workingCap tf t s then
          (s.cashBuffer + workingCap tf t s * (3/10),
            s.investedWealth + workingCap tf t s * (7/10))
        else drainBuckets s.cashBuffer s.investedWealth (-workingCap tf t s)).2 *
        (1 + e / 100) := rfl

theorem retiredUpdate_grossSalary1 (f e t : ℚ) (s : SimState) :
    (retiredUpdate f e t s).grossSalary1 = s.grossSalary1 := rfl

theorem retiredUpdate_grossSalary2 (f e t : ℚ) (s : SimState) :
    (retiredUpdate f e t s).grossSalary2 = s.grossSalary2 := rfl

theorem retiredUpdate_grossBonus (f e t : ℚ) (s : SimState) :
    (retiredUpdate f e t s).grossBonus = s.grossBonus := rfl

theorem retiredUpdate_ahvSnap (f e t : ℚ) (s : SimState) :
    (retiredUpdate f e t s).ahvSnap = (retiredSnap f s).1 := rfl

theorem retiredUpdate_lppSnap (f e t : ℚ) (s : SimState) :
    (retiredUpdate f e t s).lppSnap = (retiredSnap f s).2.1 := rfl

theorem retiredUpdate_drawSnap (f e t : ℚ) (s : SimState) :
    (retiredUpdate f e t s).drawSnap = (retiredSnap f s).2.2 := rfl

theorem retiredUpdate_pillar3 (f e t : ℚ) (s : SimState) :
    (retiredUpdate f e t s).pillar3Wealth =
      max 0 (s.pillar3Wealth - retiredPension3a f s) * (1 + e / 100 * (3/10)) := rfl

theorem retiredUpdate_cashBuffer (f e t : ℚ) (s : SimState) :
    (retiredUpdate f e t s).cashBuffer =
      (if 0 ≤ retiredCap f t s then (s.cashBuffer + retiredCap f t s, s.investedWealth)
        else drainBuckets s.cashBuffer s.investedWealth (-retiredCap f t s)).1 := rfl

theorem retiredUpdate_investedWealth (f e t : ℚ) (s : SimState) :
    (retiredUpdate f e t s).investedWealth =
      (if 0 ≤ retiredCap f t s then (s.cashBuffer + retiredCap f t s, s.investedWealth)
        else drainBuckets s.cashBuffer s.investedWealth (-retiredCap f t s)).2 *
        (1 + e / 100) := rfl

theorem yearStep_return_mono (d : FinancialData) (r1 r2 : ℚ) (hr : r1 ≤ r2)
    (hC : 0 ≤ d.pillar3AnnualContribution1 + d.pillar3AnnualContribution2)
    (a : ℕ) (s1 s2 : SimState) (h : ReturnRel d r1 r2 s1 s2)
    (htk : s1.retirementSnapshotTaken = true → d.retirementAge ≤ a) :
    ReturnRel d r1 r2 (yearStep (scenarioModifiers ScenarioType.neutral) a s1).1
      (yearStep (scenarioModifiers ScenarioType.neutral) a s2).1 := by
  set nm := scenarioModifiers ScenarioType.neutral with hnm
  have hbase : baseInflationPct s1.data nm = baseInflationPct s2.data nm := by
    rw [h.data1, h.data2]; rfl
  have htax : getTaxFactor s1.data.canton = getTaxFactor s2.data.canton := by
    rw [h.data1, h.data2]
  have hinfl : inflationFactorAt s1.data nm a = inflationFactorAt s2.data nm a := by
    rw [h.data1, h.data2]; rfl
  have hkidsP : childrenPass s1.data s1.childrenAges =
      childrenPass s2.data s2.childrenAges := by
    rw [h.kids, h.data1, h.data2, childrenPass_update d r1, childrenPass_update d r2]
  have hfires : relocationFires s1 ↔ relocationFires s2 := by
    unfold relocationFires
    rw [h.moved, hkidsP, h.data1, h.data2]
  have hrentI : inflatedRent nm s1 = inflatedRent nm s2 := by
    unfold inflatedRent
    rw [h.rent, h.data1, h.data2]
  have hra : rentAfterEvents nm s1 = rentAfterEvents nm s2 := by
    unfold rentAfterEvents
    by_cases hf : relocationFires s1
    · rw [if_pos hf, if_pos (hfires.mp hf), hrentI]
    · rw [if_neg hf, if_neg (fun hx => hf (hfires.mpr hx)), hrentI]
  have hexp : totalExpensesOf nm s1 a = totalExpensesOf nm s2 a := by
    unfold totalExpensesOf housingAnnualOf livingAnnualOf travelAnnualOf childrenExpensesOf
    rw [hra, hkidsP, hinfl, h.data1, h.data2]
  have hRA : s1.data.retirementAge = s2.data.retirementAge := by
    rw [h.data1, h.data2]
  have hRAd : s1.data.retirementAge = d.retirementAge := by rw [h.data1]
  have he0 : 0 ≤ effectiveInvestmentReturnPct s1.data nm := effRet_nonneg _ _
  have heLe : effectiveInvestmentReturnPct s1.data nm ≤
      effectiveInvestmentReturnPct s2.data nm := by
    rw [h.data1, h.data2]
    unfold effectiveInvestmentReturnPct
    exact max_le_max le_rfl (add_le_add_right hr _)
  have hfe0 : (0:ℚ) ≤ 1 + effectiveInvestmentReturnPct s1.data nm / 100 := by linarith
  have hfeLe : 1 + effectiveInvestmentReturnPct s1.data nm / 100 ≤
      1 + effectiveInvestmentReturnPct s2.data nm / 100 := by linarith
  have hdata1' : (yearStep nm a s1).1.data = { d with investmentReturn := r1 } := by
    rw [yearStep_fst_data, h.data1]
  have hdata2' : (yearStep nm a s2).1.data = { d with investmentReturn := r2 } := by
    rw [yearStep_fst_data, h.data2]
  have hkids' : (yearStep nm a s1).1.childrenAges = (yearStep nm a s2).1.childrenAges := by
    rw [yearStep_fst_childrenAges, yearStep_fst_childrenAges, hkidsP]
  have hrent' : (yearStep nm a s1).1.currentRent = (yearStep nm a s2).1.currentRent := by
    rw [yearStep_fst_currentRent, yearStep_fst_currentRent, hra]
  have hmoved' : (yearStep nm a s1).1.hasMovedHouse =
      (yearStep nm a s2).1.hasMovedHouse := by
    rw [yearStep_fst_hasMovedHouse, yearStep_fst_hasMovedHouse, h.moved,
      decide_eq_decide.mpr hfires]
  by_cases hret : s1.data.retirementAge ≤ a
  · -- retirement branch for both runs
    have hret2 : s2.data.retirementAge ≤ a := hRA ▸ hret
    have hpo1 : phaseOut nm a s1 =
        retiredUpdate (inflationFactorAt s1.data nm a)
          (effectiveInvestmentReturnPct s1.data nm) (totalExpensesOf nm s1 a) s1 :=
      phaseOut_retired nm a s1 hret
    have hpo2 : phaseOut nm a s2 =
        retiredUpdate (inflationFactorAt s1.data nm a)
          (effectiveInvestmentReturnPct s2.data nm) (totalExpensesOf nm s1 a) s2 := by
      rw [phaseOut_retired nm a s2 hret2, ← hinfl, ← hexp]
    -- snapshot triple relations
    have hsnap :
        (retiredSnap (inflationFactorAt s1.data nm a) s1).1 =
            (retiredSnap (inflationFactorAt s1.data nm a) s2).1 ∧
          (retiredSnap (inflationFactorAt s1.data nm a) s1).2.1 =
            (retiredSnap (inflationFactorAt s1.data nm a) s2).2.1 ∧
          0 ≤ (retiredSnap (inflationFactorAt s1.data nm a) s1).2.2 ∧
          (retiredSnap (inflationFactorAt s1.data nm a) s1).2.2 ≤
            (retiredSnap (inflationFactorAt s1.data nm a) s2).2.2 ∧
          s1.pillar3Wealth * (retiredSnap (inflationFactorAt s1.data nm a) s2).2.2 ≤
            s2.pillar3Wealth * (retiredSnap (inflationFactorAt s1.data nm a) s1).2.2 ∧
          ((retiredSnap (inflationFactorAt s1.data nm a) s1).2.2 = 0 →
            s1.pillar3Wealth = 0) := by
      by_cases htkn : s1.retirementSnapshotTaken = true
      · have htkn2 : s2.retirementSnapshotTaken = true := h.takenEq ▸ htkn
        obtain ⟨ha, hl, hd0, hdLe, hcross, hz⟩ := h.snapRel htkn
        unfold retiredSnap
        rw [if_pos htkn, if_pos htkn2]
        exact ⟨ha, hl, hd0, hdLe, hcross, hz⟩
      · have htkn1 : s1.retirementSnapshotTaken = false := by
          cases hb : s1.retirementSnapshotTaken
          · rfl
          · exact absurd hb htkn
        have htkn2 : s2.retirementSnapshotTaken = false := h.takenEq ▸ htkn1
        have hp3le := h.p3Le htkn1
        have hm : (0:ℚ) < max 1 ((DEFAULT_MAX_AGE : ℚ) - (s1.data.retirementAge : ℚ)) :=
          lt_of_lt_of_le zero_lt_one (le_max_left 1 _)
        unfold retiredSnap
        rw [htkn1, htkn2]
        simp only [Bool.false_eq_true, if_false]
        refine ⟨by trivial, by rw [h.p2eq], ?_, ?_, ?_, ?_⟩
        · exact div_nonneg h.p30a hm.le
        · rw [hRA]
          rw [hRA] at hm
          exact (div_le_div_right hm).mpr hp3le
        · rw [hRA]
          exact le_of_eq (by ring)
        · intro hx
          rcases div_eq_zero_iff.mp hx with h0 | h0
          · exact h0
          · exact absurd h0 (ne_of_gt hm)
    obtain ⟨hahv, hlpp, hd0, hdLe, hcross, hz⟩ := hsnap
    have hp3le : s1.pillar3Wealth ≤ s2.pillar3Wealth := h.p3_le
    have hpen : retiredPension3a (inflationFactorAt s1.data nm a) s1 ≤
        retiredPension3a (inflationFactorAt s1.data nm a) s2 := by
      unfold retiredPension3a
      exact min_le_min hp3le hdLe
    have hcap : retiredCap (inflationFactorAt s1.data nm a) (totalExpensesOf nm s1 a) s1 ≤
        retiredCap (inflationFactorAt s1.data nm a) (totalExpensesOf nm s1 a) s2 := by
      unfold retiredCap
      rw [hlpp]
      have : (0:ℚ) < 17/20 := by norm_num
      nlinarith [hpen]
    have halloc := retiredAlloc_mono s1.cashBuffer s2.cashBuffer s1.investedWealth
      s2.investedWealth
      (retiredCap (inflationFactorAt s1.data nm a) (totalExpensesOf nm s1 a) s1)
      (retiredCap (inflationFactorAt s1.data nm a) (totalExpensesOf nm s1 a) s2)
      h.cash0 h.cashLe h.inv0 h.invLe hcap
    have hmono := p3_drawdown_mono s1.pillar3Wealth s2.pillar3Wealth
      (retiredSnap (inflationFactorAt s1.data nm a) s1).2.2
      (retiredSnap (inflationFactorAt s1.data nm a) s2).2.2
      (effectiveInvestmentReturnPct s1.data nm / 100 * (3/10))
      (effectiveInvestmentReturnPct s2.data nm / 100 * (3/10))
      h.p30a h.p30b hd0 hdLe hcross hz (by linarith) (by nlinarith)
    have hpen_def1 : retiredPension3a (inflationFactorAt s1.data nm a) s1 =
        min s1.pillar3Wealth (retiredSnap (inflationFactorAt s1.data nm a) s1).2.2 := rfl
    have hpen_def2 : retiredPension3a (inflationFactorAt s1.data nm a) s2 =
        min s2.pillar3Wealth (retiredSnap (inflationFactorAt s1.data nm a) s2).2.2 := rfl
    refine ⟨hdata1', hdata2', ?_, ?_, ?_, ?_, hkids', hrent', hmoved', ?_, ?_, ?_, ?_, ?_,
      ?_, ?_, ?_, ?_⟩
    · rw [yearStep_fst_grossSalary1, yearStep_fst_grossSalary1, hpo1, hpo2,
        retiredUpdate_grossSalary1, retiredUpdate_grossSalary1, h.sal1]
    · rw [yearStep_fst_grossSalary2, yearStep_fst_grossSalary2, hpo1, hpo2,
        retiredUpdate_grossSalary2, retiredUpdate_grossSalary2, h.sal2]
    · rw [yearStep_fst_grossBonus, yearStep_fst_grossBonus, hpo1, hpo2,
        retiredUpdate_grossBonus, retiredUpdate_grossBonus, h.bon]
    · rw [yearStep_fst_pillar2, yearStep_fst_pillar2, hpo1, hpo2,
        retiredUpdate_pillar2, retiredUpdate_pillar2]
    · rw [yearStep_fst_snapTaken, yearStep_fst_snapTaken, hpo1, hpo2,
        retiredUpdate_snapTaken, retiredUpdate_snapTaken]
    · rw [yearStep_fst_cashBuffer, hpo1, retiredUpdate_cashBuffer]
      exact halloc.2.1
    · rw [yearStep_fst_cashBuffer, yearStep_fst_cashBuffer, hpo1, hpo2,
        retiredUpdate_cashBuffer, retiredUpdate_cashBuffer]
      exact halloc.1
    · rw [yearStep_fst_investedWealth, hpo1, retiredUpdate_investedWealth]
      exact mul_nonneg halloc.2.2.2 hfe0
    · rw [yearStep_fst_investedWealth, yearStep_fst_investedWealth, hpo1, hpo2,
        retiredUpdate_investedWealth, retiredUpdate_investedWealth]
      exact mul_le_mul halloc.2.2.1 hfeLe hfe0 (le_trans halloc.2.2.2 halloc.2.2.1)
    · rw [yearStep_fst_pillar3, hpo1, retiredUpdate_pillar3, hpen_def1]
      exact hmono.1
    · rw [yearStep_fst_pillar3, hpo2, retiredUpdate_pillar3, hpen_def2]
      exact hmono.2.1
    · intro hf
      rw [yearStep_fst_snapTaken, hpo1, retiredUpdate_snapTaken] at hf
      exact absurd hf (by simp)
    · intro _
      refine ⟨?_, ?_, ?_, ?_, ?_, ?_⟩
      · rw [yearStep_fst_ahvSnap, yearStep_fst_ahvSnap, hpo1, hpo2,
          retiredUpdate_ahvSnap, retiredUpdate_ahvSnap]
        exact hahv
      · rw [yearStep_fst_lppSnap, yearStep_fst_lppSnap, hpo1, hpo2,
          retiredUpdate_lppSnap, retiredUpdate_lppSnap]
        exact hlpp
      · rw [yearStep_fst_drawSnap, hpo1, retiredUpdate_drawSnap]
        exact hd0
      · rw [yearStep_fst_drawSnap, yearStep_fst_drawSnap, hpo1, hpo2,
          retiredUpdate_drawSnap, retiredUpdate_drawSnap]
        exact hdLe
      · rw [yearStep_fst_pillar3, yearStep_fst_pillar3, yearStep_fst_drawSnap,
          yearStep_fst_drawSnap, hpo1, hpo2, retiredUpdate_pillar3,
          retiredUpdate_pillar3, retiredUpdate_drawSnap, retiredUpdate_drawSnap,
          hpen_def1, hpen_def2]
        exact hmono.2.2.1
      · intro hzero
        rw [yearStep_fst_drawSnap, hpo1, retiredUpdate_drawSnap] at hzero
        rw [yearStep_fst_pillar3, hpo1, retiredUpdate_pillar3, hpen_def1]
        exact hmono.2.2.2 hzero
  · -- working branch for both runs
    have hret2 : ¬ s2.data.retirementAge ≤ a := fun hx => hret (hRA ▸ hx)
    have htkn1 : s1.retirementSnapshotTaken = false := by
      cases hb : s1.retirementSnapshotTaken
      · rfl
      · exact absurd (htk hb) (by rwa [← hRAd])
    have htkn2 : s2.retirementSnapshotTaken = false := h.takenEq ▸ htkn1
    have hpo1 : phaseOut nm a s1 =
        workingUpdate nm a (baseInflationPct s1.data nm)
          (effectiveInvestmentReturnPct s1.data nm) (getTaxFactor s1.data.canton)
          (totalExpensesOf nm s1 a) s1 :=
      phaseOut_working nm a s1 hret
    have hpo2 : phaseOut nm a s2 =
        workingUpdate nm a (baseInflationPct s1.data nm)
          (effectiveInvestmentReturnPct s2.data nm) (getTaxFactor s1.data.canton)
          (totalExpensesOf nm s1 a) s2 := by
      rw [phaseOut_working nm a s2 hret2, ← hbase, ← htax, ← hexp]
    have hstage1 : s1.data.careerStage1 = s2.data.careerStage1 := by
      rw [h.data1, h.data2]
    have hstage2 : s1.data.careerStage2 = s2.data.careerStage2 := by
      rw [h.data1, h.data2]
    have hnet : workingNet (getTaxFactor s1.data.canton) s1 =
        workingNet (getTaxFactor s1.data.canton) s2 := by
      unfold workingNet
      rw [h.sal1, h.sal2, h.bon]
    have hplanned_eq : s1.data.pillar3AnnualContribution1 +
        s1.data.pillar3AnnualContribution2 =
        s2.data.pillar3AnnualContribution1 + s2.data.pillar3AnnualContribution2 := by
      rw [h.data1, h.data2]
    have hplan0 : 0 ≤ s1.data.pillar3AnnualContribution1 +
        s1.data.pillar3AnnualContribution2 := by
      rw [h.data1]
      exact hC
    have hact : workingActualP3 (getTaxFactor s1.data.canton) s1 =
        workingActualP3 (getTaxFactor s1.data.canton) s2 := by
      unfold workingActualP3
      rw [hnet, hplanned_eq]
    have hact0 : 0 ≤ workingActualP3 (getTaxFactor s1.data.canton) s1 := by
      unfold workingActualP3
      split_ifs
      · exact hplan0
      · exact le_max_left 0 _
    have hcap : workingCap (getTaxFactor s1.data.canton) (totalExpensesOf nm s1 a) s1 =
        workingCap (getTaxFactor s1.data.canton) (totalExpensesOf nm s1 a) s2 := by
      unfold workingCap
      rw [hnet, hact]
    have halloc := workingAlloc_mono s1.cashBuffer s2.cashBuffer s1.investedWealth
      s2.investedWealth
      (workingCap (getTaxFactor s1.data.canton) (totalExpensesOf nm s1 a) s1)
      h.cash0 h.cashLe h.inv0 h.invLe
    refine ⟨hdata1', hdata2', ?_, ?_, ?_, ?_, hkids', hrent', hmoved', ?_, ?_, ?_, ?_, ?_,
      ?_, ?_, ?_, ?_⟩
    · rw [yearStep_fst_grossSalary1, yearStep_fst_grossSalary1, hpo1, hpo2,
        workingUpdate_grossSalary1, workingUpdate_grossSalary1, h.sal1, hstage1]
    · rw [yearStep_fst_grossSalary2, yearStep_fst_grossSalary2, hpo1, hpo2,
        workingUpdate_grossSalary2, workingUpdate_grossSalary2, h.sal2, hstage2]
    · rw [yearStep_fst_grossBonus, yearStep_fst_grossBonus, hpo1, hpo2,
        workingUpdate_grossBonus, workingUpdate_grossBonus, h.bon]
    · rw [yearStep_fst_pillar2, yearStep_fst_pillar2, hpo1, hpo2,
        workingUpdate_pillar2, workingUpdate_pillar2, h.p2eq, h.sal1, h.sal2]
    · rw [yearStep_fst_snapTaken, yearStep_fst_snapTaken, hpo1, hpo2,
        workingUpdate_snapTaken, workingUpdate_snapTaken, h.takenEq]
    · rw [yearStep_fst_cashBuffer, hpo1, workingUpdate_cashBuffer]
      exact halloc.2.1
    · rw [yearStep_fst_cashBuffer, yearStep_fst_cashBuffer, hpo1, hpo2,
        workingUpdate_cashBuffer, workingUpdate_cashBuffer, ← hcap]
      exact halloc.1
    · rw [yearStep_fst_investedWealth, hpo1, workingUpdate_investedWealth]
      exact mul_nonneg halloc.2.2.2 hfe0
    · rw [yearStep_fst_investedWealth, yearStep_fst_investedWealth, hpo1, hpo2,
        workingUpdate_investedWealth, workingUpdate_investedWealth, ← hcap]
      exact mul_le_mul halloc.2.2.1 hfeLe hfe0 (le_trans halloc.2.2.2 halloc.2.2.1)
    · rw [yearStep_fst_pillar3, hpo1, workingUpdate_pillar3]
      have := mul_nonneg h.p30a hfe0
      linarith
    · rw [yearStep_fst_pillar3, hpo2, workingUpdate_pillar3]
      have h2 : (0:ℚ) ≤ 1 + effectiveInvestmentReturnPct s2.data nm / 100 :=
        le_trans hfe0 hfeLe
      have := mul_nonneg h.p30b h2
      rw [← hact]
      linarith
    · intro _
      rw [yearStep_fst_pillar3, yearStep_fst_pillar3, hpo1, hpo2,
        workingUpdate_pillar3, workingUpdate_pillar3, ← hact]
      have hmul : s1.pillar3Wealth * (1 + effectiveInvestmentReturnPct s1.data nm / 100) ≤
          s2.pillar3Wealth * (1 + effectiveInvestmentReturnPct s2.data nm / 100) :=
        mul_le_mul (h.p3Le htkn1) hfeLe hfe0 (le_trans h.p30a (h.p3Le htkn1))
      linarith
    · intro hf
      rw [yearStep_fst_snapTaken, hpo1, workingUpdate_snapTaken, htkn1] at hf
      exact Bool.noConfusion hf

theorem yearStep_snapTaken_imp (mods : ScenarioModifiers) (a : ℕ) (s : SimState)
    (hb : (yearStep mods a s).1.retirementSnapshotTaken = true) :
    s.retirementSnapshotTaken = true ∨ s.data.retirementAge ≤ a := by
  by_cases hret : s.data.retirementAge ≤ a
  · exact Or.inr hret
  · left
    rw [yearStep_fst_snapTaken, phaseOut_working mods a s hret,
      workingUpdate_snapTaken] at hb
    exact hb

theorem range'_snoc (a : ℕ) : ∀ m, List.range' a (m + 1) = List.range' a m ++ [a + m] := by
  intro m
  induction m generalizing a with
  | zero => rfl
  | succ k ih =>
    rw [List.range'_succ, ih (a + 1), List.range'_succ, ← List.cons_append]
    have hx : a + 1 + k = a + (k + 1) := by omega
    rw [hx]

theorem totalWealthOf_yearStep (mods : ScenarioModifiers) (a : ℕ) (s : SimState) :
    totalWealthOf mods a s =
      (yearStep mods a s).1.cashBuffer + (yearStep mods a s).1.investedWealth +
        (yearStep mods a s).1.pillar2Wealth + (yearStep mods a s).1.pillar3Wealth := rfl

theorem runYears_return_mono (d : FinancialData) (r1 r2 : ℚ) (hr : r1 ≤ r2)
    (hC : 0 ≤ d.pillar3AnnualContribution1 + d.pillar3AnnualContribution2) :
    ∀ (n a : ℕ) (s1 s2 : SimState), ReturnRel d r1 r2 s1 s2 →
      (s1.retirementSnapshotTaken = true → d.retirementAge ≤ a) →
      ReturnRel d r1 r2
          (runYears (scenarioModifiers ScenarioType.neutral) (List.range' a n) s1).1
          (runYears (scenarioModifiers ScenarioType.neutral) (List.range' a n) s2).1 ∧
        ((runYears (scenarioModifiers ScenarioType.neutral) (List.range' a n)
            s1).1.retirementSnapshotTaken = true → d.retirementAge ≤ a + n) := by
  intro n
  induction n with
  | zero =>
    intro a s1 s2 h htk
    rw [show List.range' a 0 = ([] : List ℕ) from rfl, runYears_nil, runYears_nil]
    exact ⟨h, fun hx => htk hx⟩
  | succ m ih =>
    intro a s1 s2 h htk
    rw [List.range'_succ, runYears_fst_cons, runYears_fst_cons]
    have hstep := yearStep_return_mono d r1 r2 hr hC a s1 s2 h htk
    have htk' : (yearStep (scenarioModifiers ScenarioType.neutral) a
        s1).1.retirementSnapshotTaken = true → d.retirementAge ≤ a + 1 := by
      intro hb
      rcases yearStep_snapTaken_imp _ a s1 hb with hold | hnow
      · exact le_trans (htk hold) (Nat.le_succ a)
      · have hra : s1.data.retirementAge = d.retirementAge := by rw [h.data1]
        rw [hra] at hnow
        exact le_trans hnow (Nat.le_succ a)
    obtain ⟨hrel, hbound⟩ := ih (a + 1) _ _ hstep htk'
    refine ⟨hrel, fun hx => ?_⟩
    have := hbound hx
    omega

/-- C2 (amended): for profiles with non-negative starting savings, pillar-3
balances and planned pillar-3 contributions, raising the baseline investment
return (all other fields fixed) never lowers the neutral-scenario final
wealth. The fully universal form is refuted by `c2_counterexample`. -/
theorem c2_investment_return_monotone (d : FinancialData) (r1 r2 : ℚ) (hr : r1 ≤ r2)
    (hS : 0 ≤ d.currentSavings)
    (hP3 : 0 ≤ d.pillar3Balance1 + d.pillar3Balance2)
    (hC : 0 ≤ d.pillar3AnnualContribution1 + d.pillar3AnnualContribution2) :
    (calculateProjections { d with investmentReturn := r1 }
        ScenarioType.neutral).finalWealth ≤
      (calculateProjections { d with investmentReturn := r2 }
        ScenarioType.neutral).finalWealth := by
  have hinit : ReturnRel d r1 r2 (initState { d with investmentReturn := r1 })
      (initState { d with investmentReturn := r2 }) := by
    refine ⟨rfl, rfl, rfl, rfl, rfl, rfl, rfl, rfl, rfl, rfl, ?_, le_of_eq rfl, ?_,
      le_of_eq rfl, ?_, ?_, fun _ => le_of_eq rfl, fun hx => Bool.noConfusion hx⟩
    · show 0 ≤ d.currentSavings * (3/10)
      exact mul_nonneg hS (by norm_num)
    · show 0 ≤ d.currentSavings * (7/10)
      exact mul_nonneg hS (by norm_num)
    · exact hP3
    · exact hP3
  have htk0 : (initState { d with investmentReturn :=
      r1 }).retirementSnapshotTaken = true → d.retirementAge ≤ d.currentAge :=
    fun hx => Bool.noConfusion hx
  rw [calculateProjections_finalWealth, calculateProjections_finalWealth]
  have hsim1 : simAges { d with investmentReturn := r1 } =
      List.range' d.currentAge (DEFAULT_MAX_AGE + 1 - d.currentAge) := rfl
  have hsim2 : simAges { d with investmentReturn := r2 } =
      List.range' d.currentAge (DEFAULT_MAX_AGE + 1 - d.currentAge) := rfl
  rw [hsim1, hsim2]
  cases hn : DEFAULT_MAX_AGE + 1 - d.currentAge with
  | zero =>
    rw [show List.range' d.currentAge 0 = ([] : List ℕ) from rfl, runYears_nil,
      runYears_nil]
  | succ m =>
    rw [range'_snoc d.currentAge m, runYears_snoc, runYears_snoc,
      List.getLast?_concat, List.getLast?_concat]
    simp only [Option.map_some', Option.getD_some]
    rw [yearStep_snd_totalWealth, yearStep_snd_totalWealth,
      totalWealthOf_yearStep, totalWealthOf_yearStep]
    obtain ⟨hrel, hbound⟩ :=
      runYears_return_mono d r1 r2 hr hC m d.currentAge _ _ hinit htk0
    have hstep := yearStep_return_mono d r1 r2 hr hC (d.currentAge + m) _ _ hrel hbound
    have hp3 := ReturnRel.p3_le hstep
    have hc := hstep.cashLe
    have hi := hstep.invLe
    have hp2 := hstep.p2eq
    linarith [hc, hi, hp3, le_of_eq hp2]

theorem c2_witness :
    (calculateProjections { profileA with investmentReturn := 0 }
        ScenarioType.neutral).finalWealth ≤
      (calculateProjections { profileA with investmentReturn := 1 }
        ScenarioType.neutral).finalWealth :=
  c2_investment_return_monotone profileA 0 1 (by norm_num) (by norm_num [profileA])
    (by norm_num [profileA]) (by norm_num [profileA])

/-- C2 (counterexample): on a profile with negative starting savings the
final wealth strictly decreases when the investment return rises from 0 to
10, refuting the unconditional monotonicity claim. -/
theorem c2_counterexample :
    (0:ℚ) ≤ 10 ∧
      ¬ ((calculateProjections { profileC2Neg with investmentReturn := 0 }
            ScenarioType.neutral).finalWealth ≤
          (calculateProjections { profileC2Neg with investmentReturn := 10 }
            ScenarioType.neutral).finalWealth) := by
  constructor
  · norm_num
  · rw [calculateProjections_finalWealth, calculateProjections_finalWealth]
    norm_num [simAges, List.range', runYears, initState, yearStep, phaseOut,
      workingUpdate, retiredUpdate, drainBuckets, scenarioModifiers,
      baseInflationPct, effectiveInvestmentReturnPct, inflationFactorAt,
      inflatedRent, relocationFires, rentAfterEvents, childrenExpensesOf,
      livingAnnualOf, travelAnnualOf, housingAnnualOf, totalExpensesOf,
      childrenPass, computeChildrenSchedule, childCost, getTaxFactor,
      taxFactorByCanton, taxFactorDefault, getSalaryGrowthRate, careerBoost,
      notesOf, totalWealthOf, DEFAULT_MAX_AGE, AHV_COUPLE_MAX_ANNUAL_2025,
      LPP_CONVERSION_RATE, LPP_INTEREST_RATE, startYear, moveNote, depletedNote,
      profileC2Neg, profileA]
